import Mathlib

/-! Vulkan resource-transition layer: image layout tracking, access classification and
the transition builder.

A shallow embedding of `Engine/Source/Runtime/VulkanRHI/Private/VulkanBarriers.cpp`.

* `uint32` values are natural numbers; every `uint32` addition and multiplication of the
  source is wrapped with `u32`.
* `TArray` is a list; an indexed read or write outside the array fails (`none`), as the
  range check of `TArray::operator[]` does.
* `check` / `checkNoEntry` failures are `none`; `ensureMsgf` failures are reported in a flag of
  the result and execution continues.
-/

/-- The image layouts named by the source (`VkImageLayout` of the Vulkan headers). -/
inductive VkImageLayout where
  | VK_IMAGE_LAYOUT_UNDEFINED
  | VK_IMAGE_LAYOUT_GENERAL
  | VK_IMAGE_LAYOUT_COLOR_ATTACHMENT_OPTIMAL
  | VK_IMAGE_LAYOUT_DEPTH_STENCIL_ATTACHMENT_OPTIMAL
  | VK_IMAGE_LAYOUT_DEPTH_STENCIL_READ_ONLY_OPTIMAL
  | VK_IMAGE_LAYOUT_SHADER_READ_ONLY_OPTIMAL
  | VK_IMAGE_LAYOUT_TRANSFER_SRC_OPTIMAL
  | VK_IMAGE_LAYOUT_TRANSFER_DST_OPTIMAL
  | VK_IMAGE_LAYOUT_PREINITIALIZED
  | VK_IMAGE_LAYOUT_DEPTH_READ_ONLY_STENCIL_ATTACHMENT_OPTIMAL_KHR
  | VK_IMAGE_LAYOUT_DEPTH_ATTACHMENT_STENCIL_READ_ONLY_OPTIMAL_KHR
  | VK_IMAGE_LAYOUT_DEPTH_ATTACHMENT_OPTIMAL_KHR
  | VK_IMAGE_LAYOUT_DEPTH_READ_ONLY_OPTIMAL_KHR
  | VK_IMAGE_LAYOUT_STENCIL_ATTACHMENT_OPTIMAL_KHR
  | VK_IMAGE_LAYOUT_STENCIL_READ_ONLY_OPTIMAL_KHR
  | VK_IMAGE_LAYOUT_PRESENT_SRC_KHR
  | VK_IMAGE_LAYOUT_FRAGMENT_DENSITY_MAP_OPTIMAL_EXT
deriving DecidableEq, Repr

/-- Wrap a natural number into the range of a `uint32`. -/
def u32 (n : Nat) : Nat := n % 4294967296

/-- The constant `VK_REMAINING_MIP_LEVELS` of the Vulkan headers, `(~0U)`: the ALL sentinel for mips. -/
def VK_REMAINING_MIP_LEVELS : Nat := 4294967295

/-- The constant `VK_REMAINING_ARRAY_LAYERS` of the Vulkan headers, `(~0U)`: the ALL sentinel for layers. -/
def VK_REMAINING_ARRAY_LAYERS : Nat := 4294967295

/-- The structure `VkImageSubresourceRange`: all fields are `uint32`. -/
structure VkImageSubresourceRange where
  aspectMask : Nat
  baseMipLevel : Nat
  levelCount : Nat
  baseArrayLayer : Nat
  layerCount : Nat
deriving DecidableEq, Repr

/-- The structure `FVulkanImageLayout`: the per-image layout table. `SubresLayouts` is empty in the uniform
representation and holds `NumLayers * NumMips` entries in the dense one. -/
structure FVulkanImageLayout where
  NumMips : Nat
  NumLayers : Nat
  MainLayout : VkImageLayout
  SubresLayouts : List VkImageLayout
deriving DecidableEq, Repr

/-- The operator `TArray::operator[]` used as a read: fails outside the array. -/
def TArrayGet {α : Type} (A : List α) (Index : Nat) : Option α := A[Index]?

/-- The operator `TArray::operator[]` used as the target of an assignment: fails outside the array. -/
def TArraySet {α : Type} (A : List α) (Index : Nat) (Value : α) : Option (List α) :=
  if Index < A.length then some (A.set Index Value) else none

/-- The call `TArray::SetNum` on an empty array of layouts: `Num` zero-initialised entries
(`VK_IMAGE_LAYOUT_UNDEFINED` is the zero value). The count is converted to the signed
`int32` size type of `TArray`, so a count of `2^31` or more is rejected. -/
def TArraySetNum (Num : Nat) : Option (List VkImageLayout) :=
  if Num < 2147483648 then some (List.replicate Num VkImageLayout.VK_IMAGE_LAYOUT_UNDEFINED)
  else none

/-- Body of a counted loop `for (i = First; ...; ++i)` run `Count` times; the body may fail. -/
def forLoopAux {σ : Type} (Body : Nat → σ → Option σ) : Nat → Nat → σ → Option σ
  | _, 0, s => some s
  | i, n + 1, s =>
    match Body i s with
    | none => none
    | some s1 => forLoopAux Body (i + 1) n s1

/-- The loop `for (uint32 i = First; i < Last; ++i) Body`. -/
def forLoop {σ : Type} (Body : Nat → σ → Option σ) (First Last : Nat) (s : σ) : Option σ :=
  forLoopAux Body First (Last - First) s

/-- A counted search loop: `Test i` is evaluated for `Count` successive indices, the loop
stops with `false` at the first index whose test is `false` and fails if a test fails. -/
def forAllLoopAux (Test : Nat → Option Bool) : Nat → Nat → Option Bool
  | _, 0 => some true
  | i, n + 1 =>
    match Test i with
    | none => none
    | some false => some false
    | some true => forAllLoopAux Test (i + 1) n

/-- The loop `for (uint32 i = First; i < Last; ++i) { if (!Test(i)) return false; }`
followed by `return true`. -/
def forAllLoop (Test : Nat → Option Bool) (First Last : Nat) : Option Bool :=
  forAllLoopAux Test First (Last - First)

namespace FVulkanImageLayout

/-- Modelled from the spec: `AreAllSubresourcesSameLayout` (`AllUniform()`) is declared in
`VulkanBarriers.h`, which is not among the sources; the table is in the uniform
representation exactly when the per-subresource array is empty. -/
def AreAllSubresourcesSameLayout (t : FVulkanImageLayout) : Bool :=
  t.SubresLayouts.length == 0

/-- Modelled from the spec: `GetSubresLayout` (`GetLayout(layer, mip)`) is declared in
`VulkanBarriers.h`, which is not among the sources; it is the uniform layout in the uniform
representation and the entry `Layer * NumMips + Mip` of the dense table otherwise. -/
def GetSubresLayout (t : FVulkanImageLayout) (Layer Mip : Nat) : Option VkImageLayout :=
  if t.SubresLayouts.length = 0 then some t.MainLayout
  else TArrayGet t.SubresLayouts (u32 (Layer * t.NumMips + Mip))

/-- Modelled from the spec: `GetSubresRangeLayerCount` is declared in `VulkanBarriers.h`,
which is not among the sources; the ALL sentinel means through the last layer, any other
value is the explicit count. -/
def GetSubresRangeLayerCount (t : FVulkanImageLayout) (R : VkImageSubresourceRange) : Nat :=
  if R.layerCount = VK_REMAINING_ARRAY_LAYERS then t.NumLayers - R.baseArrayLayer
  else R.layerCount

/-- Modelled from the spec: `GetSubresRangeMipCount` is declared in `VulkanBarriers.h`,
which is not among the sources; the ALL sentinel means through the last mip, any other
value is the explicit count. -/
def GetSubresRangeMipCount (t : FVulkanImageLayout) (R : VkImageSubresourceRange) : Nat :=
  if R.levelCount = VK_REMAINING_MIP_LEVELS then t.NumMips - R.baseMipLevel
  else R.levelCount

/-- The method `FVulkanImageLayout::AreSubresourcesSameLayout`. -/
def AreSubresourcesSameLayout (t : FVulkanImageLayout) (Layout : VkImageLayout)
    (SubresourceRange : VkImageSubresourceRange) : Option Bool :=
  if t.SubresLayouts.length = 0 then some (decide (t.MainLayout = Layout))
  else
    let FirstLayer := SubresourceRange.baseArrayLayer
    let LastLayer := u32 (FirstLayer + t.GetSubresRangeLayerCount SubresourceRange)
    let FirstMip := SubresourceRange.baseMipLevel
    let LastMip := u32 (FirstMip + t.GetSubresRangeMipCount SubresourceRange)
    forAllLoop (fun LayerIdx =>
      forAllLoop (fun MipIdx =>
        (TArrayGet t.SubresLayouts (u32 (LayerIdx * t.NumMips + MipIdx))).map
          (fun x => decide (x = Layout)))
        FirstMip LastMip)
      FirstLayer LastLayer

/-- The method `FVulkanImageLayout::CollapseSubresLayoutsIfSame`. -/
def CollapseSubresLayoutsIfSame (t : FVulkanImageLayout) : Option FVulkanImageLayout :=
  if t.SubresLayouts.length = 0 then some t
  else
    match TArrayGet t.SubresLayouts 0 with
    | none => none
    | some Layout =>
      match forAllLoop (fun i => (TArrayGet t.SubresLayouts i).map (fun x => decide (x = Layout)))
          1 (u32 (t.NumLayers * t.NumMips)) with
      | none => none
      | some false => some t
      | some true => some { t with MainLayout := Layout, SubresLayouts := [] }

/-- The method `FVulkanImageLayout::Set`. -/
def Set (t : FVulkanImageLayout) (Layout : VkImageLayout)
    (SubresourceRange : VkImageSubresourceRange) : Option FVulkanImageLayout :=
  let FirstLayer := SubresourceRange.baseArrayLayer
  let LayerCount := t.GetSubresRangeLayerCount SubresourceRange
  let FirstMip := SubresourceRange.baseMipLevel
  let MipCount := t.GetSubresRangeMipCount SubresourceRange
  if FirstLayer = 0 ∧ LayerCount = t.NumLayers ∧ FirstMip = 0 ∧ MipCount = t.NumMips then
    some { t with MainLayout := Layout, SubresLayouts := [] }
  else
    let Materialized : Option (List VkImageLayout) :=
      if t.SubresLayouts.length = 0 then
        (TArraySetNum (u32 (t.NumLayers * t.NumMips))).bind
          (forLoop (fun i A => TArraySet A i t.MainLayout) 0 (u32 (t.NumLayers * t.NumMips)))
      else some t.SubresLayouts
    (Materialized.bind
      (forLoop (fun Layer A =>
          forLoop (fun Mip A1 => TArraySet A1 (u32 (Layer * t.NumMips + Mip)) Layout)
            FirstMip (u32 (FirstMip + MipCount)) A)
        FirstLayer (u32 (FirstLayer + LayerCount)))).bind
      (fun A => CollapseSubresLayoutsIfSame { t with SubresLayouts := A })

/-- Run a sequence of `Set` calls, left to right. -/
def SetAll (t : FVulkanImageLayout) :
    List (VkImageLayout × VkImageSubresourceRange) → Option FVulkanImageLayout
  | [] => some t
  | c :: cs => (t.Set c.1 c.2).bind (fun t1 => SetAll t1 cs)

/-- A table as the engine builds it: the extents are `uint32` values, the number of
subresources fits the signed size type of `TArray`, and the per-subresource array is empty
or has one entry per subresource. -/
def WellFormed (t : FVulkanImageLayout) : Prop :=
  t.NumLayers < 4294967296 ∧ t.NumMips < 4294967296 ∧
  t.NumLayers * t.NumMips < 2147483648 ∧
  (t.SubresLayouts.length = 0 ∨ t.SubresLayouts.length = t.NumLayers * t.NumMips)

/-- The range lies inside the table, counts taken after resolving the ALL sentinels. -/
def InBounds (t : FVulkanImageLayout) (R : VkImageSubresourceRange) : Prop :=
  R.baseArrayLayer + t.GetSubresRangeLayerCount R ≤ t.NumLayers ∧
  R.baseMipLevel + t.GetSubresRangeMipCount R ≤ t.NumMips

/-- The subresource `(Layer, Mip)` lies inside the range. -/
def InRange (t : FVulkanImageLayout) (R : VkImageSubresourceRange) (Layer Mip : Nat) : Prop :=
  R.baseArrayLayer ≤ Layer ∧ Layer < R.baseArrayLayer + t.GetSubresRangeLayerCount R ∧
  R.baseMipLevel ≤ Mip ∧ Mip < R.baseMipLevel + t.GetSubresRangeMipCount R

instance (t : FVulkanImageLayout) : Decidable t.WellFormed := by
  unfold WellFormed; infer_instance

instance (t : FVulkanImageLayout) (R : VkImageSubresourceRange) : Decidable (t.InBounds R) := by
  unfold InBounds; infer_instance

instance (t : FVulkanImageLayout) (R : VkImageSubresourceRange) (Layer Mip : Nat) :
    Decidable (t.InRange R Layer Mip) := by
  unfold InRange; infer_instance

end FVulkanImageLayout

/-! ## Access classification -/

/-- The bits `VkPipelineStageFlagBits` of the Vulkan headers, with their numeric values. -/
def VK_PIPELINE_STAGE_TOP_OF_PIPE_BIT : Nat := 0x00000001
/-- See `VK_PIPELINE_STAGE_TOP_OF_PIPE_BIT`. -/
def VK_PIPELINE_STAGE_DRAW_INDIRECT_BIT : Nat := 0x00000002
/-- See `VK_PIPELINE_STAGE_TOP_OF_PIPE_BIT`. -/
def VK_PIPELINE_STAGE_VERTEX_INPUT_BIT : Nat := 0x00000004
/-- See `VK_PIPELINE_STAGE_TOP_OF_PIPE_BIT`. -/
def VK_PIPELINE_STAGE_VERTEX_SHADER_BIT : Nat := 0x00000008
/-- See `VK_PIPELINE_STAGE_TOP_OF_PIPE_BIT`. -/
def VK_PIPELINE_STAGE_TESSELLATION_CONTROL_SHADER_BIT : Nat := 0x00000010
/-- See `VK_PIPELINE_STAGE_TOP_OF_PIPE_BIT`. -/
def VK_PIPELINE_STAGE_TESSELLATION_EVALUATION_SHADER_BIT : Nat := 0x00000020
/-- See `VK_PIPELINE_STAGE_TOP_OF_PIPE_BIT`. -/
def VK_PIPELINE_STAGE_GEOMETRY_SHADER_BIT : Nat := 0x00000040
/-- See `VK_PIPELINE_STAGE_TOP_OF_PIPE_BIT`. -/
def VK_PIPELINE_STAGE_FRAGMENT_SHADER_BIT : Nat := 0x00000080
/-- See `VK_PIPELINE_STAGE_TOP_OF_PIPE_BIT`. -/
def VK_PIPELINE_STAGE_EARLY_FRAGMENT_TESTS_BIT : Nat := 0x00000100
/-- See `VK_PIPELINE_STAGE_TOP_OF_PIPE_BIT`. -/
def VK_PIPELINE_STAGE_LATE_FRAGMENT_TESTS_BIT : Nat := 0x00000200
/-- See `VK_PIPELINE_STAGE_TOP_OF_PIPE_BIT`. -/
def VK_PIPELINE_STAGE_COLOR_ATTACHMENT_OUTPUT_BIT : Nat := 0x00000400
/-- See `VK_PIPELINE_STAGE_TOP_OF_PIPE_BIT`. -/
def VK_PIPELINE_STAGE_COMPUTE_SHADER_BIT : Nat := 0x00000800
/-- See `VK_PIPELINE_STAGE_TOP_OF_PIPE_BIT`. -/
def VK_PIPELINE_STAGE_TRANSFER_BIT : Nat := 0x00001000
/-- See `VK_PIPELINE_STAGE_TOP_OF_PIPE_BIT`. -/
def VK_PIPELINE_STAGE_BOTTOM_OF_PIPE_BIT : Nat := 0x00002000
/-- See `VK_PIPELINE_STAGE_TOP_OF_PIPE_BIT`. -/
def VK_PIPELINE_STAGE_HOST_BIT : Nat := 0x00004000
/-- See `VK_PIPELINE_STAGE_TOP_OF_PIPE_BIT`. -/
def VK_PIPELINE_STAGE_ALL_COMMANDS_BIT : Nat := 0x00010000

/-- The bits `VkAccessFlagBits` of the Vulkan headers, with their numeric values. -/
def VK_ACCESS_INDIRECT_COMMAND_READ_BIT : Nat := 0x00000001
/-- See `VK_ACCESS_INDIRECT_COMMAND_READ_BIT`. -/
def VK_ACCESS_INDEX_READ_BIT : Nat := 0x00000002
/-- See `VK_ACCESS_INDIRECT_COMMAND_READ_BIT`. -/
def VK_ACCESS_VERTEX_ATTRIBUTE_READ_BIT : Nat := 0x00000004
/-- See `VK_ACCESS_INDIRECT_COMMAND_READ_BIT`. -/
def VK_ACCESS_UNIFORM_READ_BIT : Nat := 0x00000008
/-- See `VK_ACCESS_INDIRECT_COMMAND_READ_BIT`. -/
def VK_ACCESS_INPUT_ATTACHMENT_READ_BIT : Nat := 0x00000010
/-- See `VK_ACCESS_INDIRECT_COMMAND_READ_BIT`. -/
def VK_ACCESS_SHADER_READ_BIT : Nat := 0x00000020
/-- See `VK_ACCESS_INDIRECT_COMMAND_READ_BIT`. -/
def VK_ACCESS_SHADER_WRITE_BIT : Nat := 0x00000040
/-- See `VK_ACCESS_INDIRECT_COMMAND_READ_BIT`. -/
def VK_ACCESS_COLOR_ATTACHMENT_READ_BIT : Nat := 0x00000080
/-- See `VK_ACCESS_INDIRECT_COMMAND_READ_BIT`. -/
def VK_ACCESS_COLOR_ATTACHMENT_WRITE_BIT : Nat := 0x00000100
/-- See `VK_ACCESS_INDIRECT_COMMAND_READ_BIT`. -/
def VK_ACCESS_DEPTH_STENCIL_ATTACHMENT_READ_BIT : Nat := 0x00000200
/-- See `VK_ACCESS_INDIRECT_COMMAND_READ_BIT`. -/
def VK_ACCESS_DEPTH_STENCIL_ATTACHMENT_WRITE_BIT : Nat := 0x00000400
/-- See `VK_ACCESS_INDIRECT_COMMAND_READ_BIT`. -/
def VK_ACCESS_TRANSFER_READ_BIT : Nat := 0x00000800
/-- See `VK_ACCESS_INDIRECT_COMMAND_READ_BIT`. -/
def VK_ACCESS_TRANSFER_WRITE_BIT : Nat := 0x00001000
/-- See `VK_ACCESS_INDIRECT_COMMAND_READ_BIT`. -/
def VK_ACCESS_HOST_READ_BIT : Nat := 0x00002000
/-- See `VK_ACCESS_INDIRECT_COMMAND_READ_BIT`. -/
def VK_ACCESS_HOST_WRITE_BIT : Nat := 0x00004000
/-- See `VK_ACCESS_INDIRECT_COMMAND_READ_BIT`. -/
def VK_ACCESS_MEMORY_READ_BIT : Nat := 0x00008000
/-- See `VK_ACCESS_INDIRECT_COMMAND_READ_BIT`. -/
def VK_ACCESS_MEMORY_WRITE_BIT : Nat := 0x00010000

namespace ERHIAccess

/-- Modelled from the spec: the `ERHIAccess` enumeration is declared in an engine header that
is not among the sources. An access intent is a bitmask over the closed enumeration of
access kinds; `Unknown` is the empty mask and each composable or single kind is one bit. -/
def Unknown : Nat := 0
/-- Modelled from the spec: one bit of the `ERHIAccess` mask, see `ERHIAccess.Unknown`. -/
def CPURead : Nat := 0x0001
/-- Modelled from the spec: one bit of the `ERHIAccess` mask, see `ERHIAccess.Unknown`. -/
def Present : Nat := 0x0002
/-- Modelled from the spec: one bit of the `ERHIAccess` mask, see `ERHIAccess.Unknown`. -/
def IndirectArgs : Nat := 0x0004
/-- Modelled from the spec: one bit of the `ERHIAccess` mask, see `ERHIAccess.Unknown`. -/
def VertexOrIndexBuffer : Nat := 0x0008
/-- Modelled from the spec: one bit of the `ERHIAccess` mask, see `ERHIAccess.Unknown`. -/
def SRVCompute : Nat := 0x0010
/-- Modelled from the spec: one bit of the `ERHIAccess` mask, see `ERHIAccess.Unknown`. -/
def SRVGraphics : Nat := 0x0020
/-- Modelled from the spec: one bit of the `ERHIAccess` mask, see `ERHIAccess.Unknown`. -/
def CopySrc : Nat := 0x0040
/-- Modelled from the spec: one bit of the `ERHIAccess` mask, see `ERHIAccess.Unknown`. -/
def ResolveSrc : Nat := 0x0080
/-- Modelled from the spec: one bit of the `ERHIAccess` mask, see `ERHIAccess.Unknown`. -/
def DSVRead : Nat := 0x0100
/-- Modelled from the spec: one bit of the `ERHIAccess` mask, see `ERHIAccess.Unknown`. -/
def UAVCompute : Nat := 0x0200
/-- Modelled from the spec: one bit of the `ERHIAccess` mask, see `ERHIAccess.Unknown`. -/
def UAVGraphics : Nat := 0x0400
/-- Modelled from the spec: one bit of the `ERHIAccess` mask, see `ERHIAccess.Unknown`. -/
def RTV : Nat := 0x0800
/-- Modelled from the spec: one bit of the `ERHIAccess` mask, see `ERHIAccess.Unknown`. -/
def CopyDest : Nat := 0x1000
/-- Modelled from the spec: one bit of the `ERHIAccess` mask, see `ERHIAccess.Unknown`. -/
def ResolveDst : Nat := 0x2000
/-- Modelled from the spec: one bit of the `ERHIAccess` mask, see `ERHIAccess.Unknown`. -/
def DSVWrite : Nat := 0x4000

/-- The values of the three generic intents `EReadable`, `EWritable` and `ERWBarrier`. The
header that fixes them is not among the sources, so the classifier takes them as a
parameter. -/
structure Generic where
  EReadable : Nat
  EWritable : Nat
  ERWBarrier : Nat
deriving DecidableEq, Repr

/-- The `case` labels of the `switch` in `GetVkStageAndAccessFlags`, in source order. -/
def Generic.CaseLabels (G : Generic) : List Nat :=
  [Unknown, CPURead, Present, RTV, CopyDest, ResolveDst, G.EReadable, G.EWritable, G.ERWBarrier]

/-- What the source needs of the generic values: the `case` labels of its `switch` are pairwise
distinct (C++ rejects duplicate labels), and no generic value is the resolve-attachment
combination `RTV | ResolveDst`, which is rewritten to `RTV` before the `switch`. -/
def Generic.Valid (G : Generic) : Prop :=
  G.CaseLabels.Nodup ∧ (RTV ||| ResolveDst) ∉ [G.EReadable, G.EWritable, G.ERWBarrier]

/-- The intent is one of the values that cannot be combined: a `case` label of the `switch`,
or the resolve-attachment combination that is treated as `RTV`. -/
def Generic.IsDominant (G : Generic) (RHIAccess : Nat) : Prop :=
  RHIAccess ∈ G.CaseLabels ∨ RHIAccess = (RTV ||| ResolveDst)

/-- A valid assignment of the generic values: each is the union of the access kinds that the
comments of `GetVkStageAndAccessFlags` name for it. -/
def Generic.FromComments : Generic where
  EReadable := SRVGraphics ||| SRVCompute ||| DSVRead
  EWritable := UAVGraphics ||| UAVCompute ||| DSVWrite ||| RTV
  ERWBarrier := UAVGraphics ||| UAVCompute

instance (G : Generic) : Decidable G.Valid := by
  unfold Generic.Valid; infer_instance

instance (G : Generic) (RHIAccess : Nat) : Decidable (G.IsDominant RHIAccess) := by
  unfold Generic.IsDominant; infer_instance

end ERHIAccess

/-- The helper `EnumHasAnyFlags` of the engine core: some bit of `Contains` is set in `Flags`. -/
def EnumHasAnyFlags (Flags Contains : Nat) : Bool := (Flags &&& Contains) != 0

namespace FRHITransitionInfo

/-- Modelled from the spec: the resource kinds `FRHITransitionInfo::EType`, declared in an
engine header that is not among the sources; these are the kinds the source names. -/
inductive EType where
  | Unknown
  | Texture
  | VertexBuffer
  | IndexBuffer
  | StructuredBuffer
  | UAV
deriving DecidableEq, Repr

end FRHITransitionInfo

/-- The three output parameters of `GetVkStageAndAccessFlags`, and whether the `ensureMsgf`
"Some access flags were not processed" was violated. -/
structure FVkStageAccessLayout where
  StageFlags : Nat
  AccessFlags : Nat
  Layout : VkImageLayout
  bUnprocessedFlags : Bool
deriving DecidableEq, Repr

/-- The local variables of the composable part of `GetVkStageAndAccessFlags`. -/
structure FVkClassifyLocals where
  StageFlags : Nat
  AccessFlags : Nat
  Layout : VkImageLayout
  ProcessedRHIFlags : Nat
deriving DecidableEq, Repr

namespace GetVkStageAndAccessFlags

open ERHIAccess VkImageLayout FRHITransitionInfo

/-- The stage mask shared by `SRVGraphics`, `UAVGraphics` and the generic intents. -/
def GraphicsShaderStages : Nat :=
  VK_PIPELINE_STAGE_VERTEX_SHADER_BIT ||| VK_PIPELINE_STAGE_TESSELLATION_CONTROL_SHADER_BIT |||
  VK_PIPELINE_STAGE_TESSELLATION_EVALUATION_SHADER_BIT ||| VK_PIPELINE_STAGE_GEOMETRY_SHADER_BIT |||
  VK_PIPELINE_STAGE_FRAGMENT_SHADER_BIT

/-- The block `if (EnumHasAnyFlags(RHIAccess, ERHIAccess::IndirectArgs))`. -/
def IndirectArgsBlock (RHIAccess : Nat) (ResourceType : EType) (a : FVkClassifyLocals) :
    Option FVkClassifyLocals :=
  if EnumHasAnyFlags RHIAccess IndirectArgs then
    if ResourceType = EType.Texture then none
    else some { a with
      StageFlags := a.StageFlags ||| VK_PIPELINE_STAGE_DRAW_INDIRECT_BIT
      AccessFlags := a.AccessFlags ||| VK_ACCESS_INDIRECT_COMMAND_READ_BIT
      ProcessedRHIFlags := a.ProcessedRHIFlags ||| IndirectArgs }
  else some a

/-- The block `if (EnumHasAnyFlags(RHIAccess, ERHIAccess::VertexOrIndexBuffer))`. -/
def VertexOrIndexBufferBlock (RHIAccess : Nat) (ResourceType : EType) (a : FVkClassifyLocals) :
    Option FVkClassifyLocals :=
  if EnumHasAnyFlags RHIAccess VertexOrIndexBuffer then
    if ResourceType = EType.Texture then none
    else
      match ResourceType with
      | EType.IndexBuffer => some { a with
          StageFlags := a.StageFlags ||| VK_PIPELINE_STAGE_VERTEX_INPUT_BIT
          AccessFlags := a.AccessFlags ||| VK_ACCESS_INDEX_READ_BIT
          ProcessedRHIFlags := a.ProcessedRHIFlags ||| VertexOrIndexBuffer }
      | EType.VertexBuffer => some { a with
          StageFlags := a.StageFlags ||| VK_PIPELINE_STAGE_VERTEX_INPUT_BIT
          AccessFlags := a.AccessFlags ||| VK_ACCESS_VERTEX_ATTRIBUTE_READ_BIT
          ProcessedRHIFlags := a.ProcessedRHIFlags ||| VertexOrIndexBuffer }
      | _ => none
  else some a

/-- The block `if (EnumHasAnyFlags(RHIAccess, ERHIAccess::DSVRead))`. -/
def DSVReadBlock (RHIAccess : Nat) (bIsDepthStencil : Bool) (a : FVkClassifyLocals) :
    Option FVkClassifyLocals :=
  if EnumHasAnyFlags RHIAccess DSVRead then
    if bIsDepthStencil then some { a with
      StageFlags := a.StageFlags |||
        (VK_PIPELINE_STAGE_EARLY_FRAGMENT_TESTS_BIT ||| VK_PIPELINE_STAGE_LATE_FRAGMENT_TESTS_BIT)
      AccessFlags := a.AccessFlags ||| VK_ACCESS_DEPTH_STENCIL_ATTACHMENT_READ_BIT
      Layout := VK_IMAGE_LAYOUT_DEPTH_STENCIL_READ_ONLY_OPTIMAL
      ProcessedRHIFlags := a.ProcessedRHIFlags ||| DSVRead }
    else none
  else some a

/-- The block `if (EnumHasAnyFlags(RHIAccess, ERHIAccess::SRVGraphics))`. -/
def SRVGraphicsBlock (RHIAccess : Nat) (SRVLayout : VkImageLayout) (a : FVkClassifyLocals) :
    FVkClassifyLocals :=
  if EnumHasAnyFlags RHIAccess SRVGraphics then { a with
    StageFlags := a.StageFlags ||| GraphicsShaderStages
    AccessFlags := a.AccessFlags ||| VK_ACCESS_SHADER_READ_BIT
    Layout := SRVLayout
    ProcessedRHIFlags := a.ProcessedRHIFlags ||| SRVGraphics }
  else a

/-- The block `if (EnumHasAnyFlags(RHIAccess, ERHIAccess::SRVCompute))`. -/
def SRVComputeBlock (RHIAccess : Nat) (SRVLayout : VkImageLayout) (a : FVkClassifyLocals) :
    FVkClassifyLocals :=
  if EnumHasAnyFlags RHIAccess SRVCompute then { a with
    StageFlags := a.StageFlags ||| VK_PIPELINE_STAGE_COMPUTE_SHADER_BIT
    AccessFlags := a.AccessFlags ||| VK_ACCESS_SHADER_READ_BIT
    Layout := SRVLayout
    ProcessedRHIFlags := a.ProcessedRHIFlags ||| SRVCompute }
  else a

/-- The block `if (EnumHasAnyFlags(RHIAccess, ERHIAccess::UAVGraphics))`. -/
def UAVGraphicsBlock (RHIAccess : Nat) (a : FVkClassifyLocals) : FVkClassifyLocals :=
  if EnumHasAnyFlags RHIAccess UAVGraphics then { a with
    StageFlags := a.StageFlags ||| GraphicsShaderStages
    AccessFlags := a.AccessFlags ||| (VK_ACCESS_SHADER_READ_BIT ||| VK_ACCESS_SHADER_WRITE_BIT)
    Layout := VK_IMAGE_LAYOUT_GENERAL
    ProcessedRHIFlags := a.ProcessedRHIFlags ||| UAVGraphics }
  else a

/-- The block `if (EnumHasAnyFlags(RHIAccess, ERHIAccess::UAVCompute))`. -/
def UAVComputeBlock (RHIAccess : Nat) (a : FVkClassifyLocals) : FVkClassifyLocals :=
  if EnumHasAnyFlags RHIAccess UAVCompute then { a with
    StageFlags := a.StageFlags ||| VK_PIPELINE_STAGE_COMPUTE_SHADER_BIT
    AccessFlags := a.AccessFlags ||| (VK_ACCESS_SHADER_READ_BIT ||| VK_ACCESS_SHADER_WRITE_BIT)
    Layout := VK_IMAGE_LAYOUT_GENERAL
    ProcessedRHIFlags := a.ProcessedRHIFlags ||| UAVCompute }
  else a

/-- The block `if (EnumHasAnyFlags(RHIAccess, ERHIAccess::CopySrc | ERHIAccess::ResolveSrc))`:
it assigns the stage and access masks (`=`, not `|=`). -/
def CopySrcBlock (RHIAccess : Nat) (ResourceType : EType) (a : FVkClassifyLocals) :
    Option FVkClassifyLocals :=
  if EnumHasAnyFlags RHIAccess (CopySrc ||| ResolveSrc) then
    if ResourceType = EType.Texture then
      if a.Layout = VK_IMAGE_LAYOUT_UNDEFINED then some {
        StageFlags := VK_PIPELINE_STAGE_TRANSFER_BIT
        AccessFlags := VK_ACCESS_TRANSFER_READ_BIT
        Layout := VK_IMAGE_LAYOUT_TRANSFER_SRC_OPTIMAL
        ProcessedRHIFlags := a.ProcessedRHIFlags ||| (CopySrc ||| ResolveSrc) }
      else none
    else some {
      StageFlags := VK_PIPELINE_STAGE_TRANSFER_BIT
      AccessFlags := VK_ACCESS_TRANSFER_READ_BIT
      Layout := a.Layout
      ProcessedRHIFlags := a.ProcessedRHIFlags ||| (CopySrc ||| ResolveSrc) }
  else some a

/-- The part of `GetVkStageAndAccessFlags` after the comment "The remaining flags can be
combined", up to the final `ensureMsgf`. -/
def Combine (RHIAccess : Nat) (ResourceType : EType) (bIsDepthStencil : Bool)
    (SRVLayout : VkImageLayout) : Option FVkClassifyLocals :=
  ((((IndirectArgsBlock RHIAccess ResourceType
        { StageFlags := 0, AccessFlags := 0, Layout := VK_IMAGE_LAYOUT_UNDEFINED,
          ProcessedRHIFlags := 0 }).bind
      (VertexOrIndexBufferBlock RHIAccess ResourceType)).bind
      (DSVReadBlock RHIAccess bIsDepthStencil)).map
      (fun a => UAVComputeBlock RHIAccess (UAVGraphicsBlock RHIAccess
        (SRVComputeBlock RHIAccess SRVLayout (SRVGraphicsBlock RHIAccess SRVLayout a))))).bind
      (CopySrcBlock RHIAccess ResourceType)

end GetVkStageAndAccessFlags

open ERHIAccess VkImageLayout GetVkStageAndAccessFlags in
/-- The function `GetVkStageAndAccessFlags`: the stage flags, access flags and image layout for an
`ERHIAccess` value. `none` is a failed `check`. -/
def GetVkStageAndAccessFlags (G : ERHIAccess.Generic) (RHIAccessIn : Nat)
    (ResourceType : FRHITransitionInfo.EType) (bIsDepthStencil : Bool) (bIsSourceState : Bool) :
    Option FVkStageAccessLayout :=
  let RHIAccess := if RHIAccessIn = (RTV ||| ResolveDst) then RTV else RHIAccessIn
  let SRVLayout := if bIsDepthStencil then VK_IMAGE_LAYOUT_DEPTH_STENCIL_READ_ONLY_OPTIMAL
    else VK_IMAGE_LAYOUT_SHADER_READ_ONLY_OPTIMAL
  if RHIAccess = Unknown then
    some ⟨VK_PIPELINE_STAGE_ALL_COMMANDS_BIT, VK_ACCESS_MEMORY_READ_BIT ||| VK_ACCESS_MEMORY_WRITE_BIT,
      VK_IMAGE_LAYOUT_UNDEFINED, false⟩
  else if RHIAccess = CPURead then
    some ⟨VK_PIPELINE_STAGE_HOST_BIT, VK_ACCESS_HOST_READ_BIT, VK_IMAGE_LAYOUT_GENERAL, false⟩
  else if RHIAccess = Present then
    some ⟨if bIsSourceState then VK_PIPELINE_STAGE_TOP_OF_PIPE_BIT
        else VK_PIPELINE_STAGE_BOTTOM_OF_PIPE_BIT,
      VK_PIPELINE_STAGE_COLOR_ATTACHMENT_OUTPUT_BIT, VK_IMAGE_LAYOUT_COLOR_ATTACHMENT_OPTIMAL, false⟩
  else if RHIAccess = RTV then
    some ⟨VK_PIPELINE_STAGE_COLOR_ATTACHMENT_OUTPUT_BIT,
      VK_ACCESS_COLOR_ATTACHMENT_READ_BIT ||| VK_ACCESS_COLOR_ATTACHMENT_WRITE_BIT,
      VK_IMAGE_LAYOUT_COLOR_ATTACHMENT_OPTIMAL, false⟩
  else if RHIAccess = CopyDest then
    some ⟨VK_PIPELINE_STAGE_TRANSFER_BIT, VK_ACCESS_TRANSFER_WRITE_BIT,
      VK_IMAGE_LAYOUT_TRANSFER_DST_OPTIMAL, false⟩
  else if RHIAccess = ResolveDst then
    some ⟨VK_PIPELINE_STAGE_TRANSFER_BIT, VK_ACCESS_TRANSFER_WRITE_BIT,
      VK_IMAGE_LAYOUT_TRANSFER_DST_OPTIMAL, false⟩
  else if RHIAccess = G.EReadable then
    some ⟨GraphicsShaderStages ||| VK_PIPELINE_STAGE_EARLY_FRAGMENT_TESTS_BIT |||
        VK_PIPELINE_STAGE_LATE_FRAGMENT_TESTS_BIT ||| VK_PIPELINE_STAGE_COMPUTE_SHADER_BIT,
      VK_ACCESS_MEMORY_READ_BIT,
      if bIsSourceState then VK_IMAGE_LAYOUT_UNDEFINED else SRVLayout, false⟩
  else if RHIAccess = G.EWritable then
    some ⟨GraphicsShaderStages ||| VK_PIPELINE_STAGE_EARLY_FRAGMENT_TESTS_BIT |||
        VK_PIPELINE_STAGE_LATE_FRAGMENT_TESTS_BIT ||| VK_PIPELINE_STAGE_COLOR_ATTACHMENT_OUTPUT_BIT |||
        VK_PIPELINE_STAGE_COMPUTE_SHADER_BIT,
      VK_ACCESS_MEMORY_WRITE_BIT,
      if bIsSourceState then VK_IMAGE_LAYOUT_UNDEFINED else VK_IMAGE_LAYOUT_GENERAL, false⟩
  else if RHIAccess = G.ERWBarrier then
    some ⟨GraphicsShaderStages ||| VK_PIPELINE_STAGE_COMPUTE_SHADER_BIT,
      VK_ACCESS_SHADER_READ_BIT ||| VK_ACCESS_SHADER_WRITE_BIT, VK_IMAGE_LAYOUT_GENERAL, false⟩
  else if EnumHasAnyFlags RHIAccess DSVWrite then
    if bIsDepthStencil then
      some ⟨VK_PIPELINE_STAGE_EARLY_FRAGMENT_TESTS_BIT ||| VK_PIPELINE_STAGE_LATE_FRAGMENT_TESTS_BIT,
        VK_ACCESS_DEPTH_STENCIL_ATTACHMENT_READ_BIT ||| VK_ACCESS_DEPTH_STENCIL_ATTACHMENT_WRITE_BIT,
        VK_IMAGE_LAYOUT_DEPTH_STENCIL_ATTACHMENT_OPTIMAL, false⟩
    else none
  else
    (Combine RHIAccess ResourceType bIsDepthStencil SRVLayout).map (fun a =>
      ⟨a.StageFlags, a.AccessFlags, a.Layout,
        (RHIAccess &&& (4294967295 ^^^ a.ProcessedRHIFlags)) != 0⟩)

/-- The flags that the composable part of `GetVkStageAndAccessFlags` recognises (the union of
the flags its blocks add to `ProcessedRHIFlags`). -/
def GetVkStageAndAccessFlags.ComposableFlags : Nat :=
  ERHIAccess.IndirectArgs ||| ERHIAccess.VertexOrIndexBuffer ||| ERHIAccess.DSVRead |||
  ERHIAccess.SRVGraphics ||| ERHIAccess.SRVCompute ||| ERHIAccess.UAVGraphics |||
  ERHIAccess.UAVCompute ||| ERHIAccess.CopySrc ||| ERHIAccess.ResolveSrc

/-! ## Barriers and the transition builder -/

/-- The constant `VK_QUEUE_FAMILY_IGNORED` of the Vulkan headers, `(~0U)`. -/
def VK_QUEUE_FAMILY_IGNORED : Nat := 4294967295
/-- The constant `VK_WHOLE_SIZE` of the Vulkan headers, `(~0ULL)`. -/
def VK_WHOLE_SIZE : Nat := 18446744073709551615
/-- The constant `VK_NULL_HANDLE` of the Vulkan headers. -/
def VK_NULL_HANDLE : Nat := 0
/-- The bits `VkImageAspectFlagBits` of the Vulkan headers, with their numeric values. -/
def VK_IMAGE_ASPECT_COLOR_BIT : Nat := 0x00000001
/-- See `VK_IMAGE_ASPECT_COLOR_BIT`. -/
def VK_IMAGE_ASPECT_DEPTH_BIT : Nat := 0x00000002
/-- See `VK_IMAGE_ASPECT_COLOR_BIT`. -/
def VK_IMAGE_ASPECT_STENCIL_BIT : Nat := 0x00000004
/-- See `VK_PIPELINE_STAGE_TOP_OF_PIPE_BIT`. -/
def VK_PIPELINE_STAGE_FRAGMENT_DENSITY_PROCESS_BIT_EXT : Nat := 0x00800000
/-- See `VK_ACCESS_INDIRECT_COMMAND_READ_BIT`. -/
def VK_ACCESS_FRAGMENT_DENSITY_MAP_READ_BIT_EXT : Nat := 0x01000000

/-- The two compile-time switches the source tests with `#if`. The platform header that sets
them is not among the sources, so the functions that depend on them take them as a
parameter. -/
structure FVulkanPlatformDefines where
  VULKAN_SUPPORTS_SEPARATE_DEPTH_STENCIL_LAYOUTS : Bool
  VULKAN_SUPPORTS_MAINTENANCE_LAYER2 : Bool
deriving DecidableEq, Repr

open VkImageLayout in
/-- The function `GetVkAccessMaskForLayout`; `none` is the `checkNoEntry` of the `default`
case. -/
def GetVkAccessMaskForLayout (P : FVulkanPlatformDefines) (Layout : VkImageLayout) :
    Option Nat :=
  match Layout with
  | VK_IMAGE_LAYOUT_TRANSFER_SRC_OPTIMAL => some VK_ACCESS_TRANSFER_READ_BIT
  | VK_IMAGE_LAYOUT_TRANSFER_DST_OPTIMAL => some VK_ACCESS_TRANSFER_WRITE_BIT
  | VK_IMAGE_LAYOUT_COLOR_ATTACHMENT_OPTIMAL => some VK_ACCESS_COLOR_ATTACHMENT_WRITE_BIT
  | VK_IMAGE_LAYOUT_DEPTH_STENCIL_ATTACHMENT_OPTIMAL =>
    some (VK_ACCESS_DEPTH_STENCIL_ATTACHMENT_READ_BIT |||
      VK_ACCESS_DEPTH_STENCIL_ATTACHMENT_WRITE_BIT)
  | VK_IMAGE_LAYOUT_DEPTH_ATTACHMENT_OPTIMAL_KHR | VK_IMAGE_LAYOUT_STENCIL_ATTACHMENT_OPTIMAL_KHR =>
    if P.VULKAN_SUPPORTS_SEPARATE_DEPTH_STENCIL_LAYOUTS then
      some (VK_ACCESS_DEPTH_STENCIL_ATTACHMENT_READ_BIT |||
        VK_ACCESS_DEPTH_STENCIL_ATTACHMENT_WRITE_BIT)
    else none
  | VK_IMAGE_LAYOUT_DEPTH_READ_ONLY_STENCIL_ATTACHMENT_OPTIMAL_KHR
  | VK_IMAGE_LAYOUT_DEPTH_ATTACHMENT_STENCIL_READ_ONLY_OPTIMAL_KHR =>
    if P.VULKAN_SUPPORTS_MAINTENANCE_LAYER2 then
      some (VK_ACCESS_SHADER_READ_BIT ||| VK_ACCESS_DEPTH_STENCIL_ATTACHMENT_READ_BIT |||
        VK_ACCESS_DEPTH_STENCIL_ATTACHMENT_WRITE_BIT)
    else none
  | VK_IMAGE_LAYOUT_SHADER_READ_ONLY_OPTIMAL => some VK_ACCESS_SHADER_READ_BIT
  | VK_IMAGE_LAYOUT_DEPTH_STENCIL_READ_ONLY_OPTIMAL =>
    some (VK_ACCESS_SHADER_READ_BIT ||| VK_ACCESS_DEPTH_STENCIL_ATTACHMENT_READ_BIT)
  | VK_IMAGE_LAYOUT_DEPTH_READ_ONLY_OPTIMAL_KHR | VK_IMAGE_LAYOUT_STENCIL_READ_ONLY_OPTIMAL_KHR =>
    if P.VULKAN_SUPPORTS_SEPARATE_DEPTH_STENCIL_LAYOUTS then
      some (VK_ACCESS_SHADER_READ_BIT ||| VK_ACCESS_DEPTH_STENCIL_ATTACHMENT_READ_BIT)
    else none
  | VK_IMAGE_LAYOUT_PRESENT_SRC_KHR => some VK_ACCESS_MEMORY_READ_BIT
  | VK_IMAGE_LAYOUT_FRAGMENT_DENSITY_MAP_OPTIMAL_EXT =>
    some VK_ACCESS_FRAGMENT_DENSITY_MAP_READ_BIT_EXT
  | VK_IMAGE_LAYOUT_GENERAL | VK_IMAGE_LAYOUT_UNDEFINED => some 0
  | VK_IMAGE_LAYOUT_PREINITIALIZED => none

open VkImageLayout in
/-- The function `GetVkStageFlagsForLayout`; `none` is the `checkNoEntry` of the `default`
case. -/
def GetVkStageFlagsForLayout (P : FVulkanPlatformDefines) (Layout : VkImageLayout) :
    Option Nat :=
  match Layout with
  | VK_IMAGE_LAYOUT_TRANSFER_SRC_OPTIMAL => some VK_PIPELINE_STAGE_TRANSFER_BIT
  | VK_IMAGE_LAYOUT_TRANSFER_DST_OPTIMAL => some VK_PIPELINE_STAGE_TRANSFER_BIT
  | VK_IMAGE_LAYOUT_COLOR_ATTACHMENT_OPTIMAL => some VK_PIPELINE_STAGE_COLOR_ATTACHMENT_OUTPUT_BIT
  | VK_IMAGE_LAYOUT_DEPTH_STENCIL_ATTACHMENT_OPTIMAL =>
    some (VK_PIPELINE_STAGE_EARLY_FRAGMENT_TESTS_BIT ||| VK_PIPELINE_STAGE_LATE_FRAGMENT_TESTS_BIT)
  | VK_IMAGE_LAYOUT_DEPTH_ATTACHMENT_OPTIMAL_KHR | VK_IMAGE_LAYOUT_STENCIL_ATTACHMENT_OPTIMAL_KHR =>
    if P.VULKAN_SUPPORTS_SEPARATE_DEPTH_STENCIL_LAYOUTS then
      some (VK_PIPELINE_STAGE_EARLY_FRAGMENT_TESTS_BIT ||| VK_PIPELINE_STAGE_LATE_FRAGMENT_TESTS_BIT)
    else none
  | VK_IMAGE_LAYOUT_SHADER_READ_ONLY_OPTIMAL => some VK_PIPELINE_STAGE_FRAGMENT_SHADER_BIT
  | VK_IMAGE_LAYOUT_DEPTH_STENCIL_READ_ONLY_OPTIMAL =>
    some (VK_PIPELINE_STAGE_FRAGMENT_SHADER_BIT ||| VK_PIPELINE_STAGE_EARLY_FRAGMENT_TESTS_BIT |||
      VK_PIPELINE_STAGE_LATE_FRAGMENT_TESTS_BIT)
  | VK_IMAGE_LAYOUT_DEPTH_READ_ONLY_STENCIL_ATTACHMENT_OPTIMAL_KHR
  | VK_IMAGE_LAYOUT_DEPTH_ATTACHMENT_STENCIL_READ_ONLY_OPTIMAL_KHR =>
    if P.VULKAN_SUPPORTS_MAINTENANCE_LAYER2 then
      some (VK_PIPELINE_STAGE_FRAGMENT_SHADER_BIT ||| VK_PIPELINE_STAGE_EARLY_FRAGMENT_TESTS_BIT |||
        VK_PIPELINE_STAGE_LATE_FRAGMENT_TESTS_BIT)
    else none
  | VK_IMAGE_LAYOUT_DEPTH_READ_ONLY_OPTIMAL_KHR | VK_IMAGE_LAYOUT_STENCIL_READ_ONLY_OPTIMAL_KHR =>
    if P.VULKAN_SUPPORTS_SEPARATE_DEPTH_STENCIL_LAYOUTS then
      some (VK_PIPELINE_STAGE_FRAGMENT_SHADER_BIT ||| VK_PIPELINE_STAGE_EARLY_FRAGMENT_TESTS_BIT |||
        VK_PIPELINE_STAGE_LATE_FRAGMENT_TESTS_BIT)
    else none
  | VK_IMAGE_LAYOUT_PRESENT_SRC_KHR => some VK_PIPELINE_STAGE_TOP_OF_PIPE_BIT
  | VK_IMAGE_LAYOUT_FRAGMENT_DENSITY_MAP_OPTIMAL_EXT =>
    some VK_PIPELINE_STAGE_FRAGMENT_DENSITY_PROCESS_BIT_EXT
  | VK_IMAGE_LAYOUT_GENERAL | VK_IMAGE_LAYOUT_UNDEFINED => some VK_PIPELINE_STAGE_TOP_OF_PIPE_BIT
  | VK_IMAGE_LAYOUT_PREINITIALIZED => none

/-- One block `if (EnumHasAnyFlags(CombinedAccess, Flag)) { StageFlags |= Stage; AccessFlags |=
Access; ProcessedRHIFlags |= Flag; }` of `GetDepthStencilStageAndAccessFlags`. -/
def GetDepthStencilStageAndAccessFlags.Accumulate (CombinedAccess Flag Stage Access : Nat)
    (a : FVkClassifyLocals) : FVkClassifyLocals :=
  if EnumHasAnyFlags CombinedAccess Flag then { a with
    StageFlags := a.StageFlags ||| Stage
    AccessFlags := a.AccessFlags ||| Access
    ProcessedRHIFlags := a.ProcessedRHIFlags ||| Flag }
  else a

set_option linter.unusedVariables false in
open ERHIAccess VkImageLayout GetDepthStencilStageAndAccessFlags in
/-- The function `GetDepthStencilStageAndAccessFlags`: the stage flags, access flags and layout
of a combined depth-stencil transition. It has no `check`; the last field reports its
`ensureMsgf`. -/
def GetDepthStencilStageAndAccessFlags (DepthAccess StencilAccess : Nat)
    (bIsSourceState : Bool) : FVkStageAccessLayout :=
  if DepthAccess = Unknown ∨ StencilAccess = Unknown then
    ⟨VK_PIPELINE_STAGE_ALL_COMMANDS_BIT, VK_ACCESS_MEMORY_READ_BIT ||| VK_ACCESS_MEMORY_WRITE_BIT,
      VK_IMAGE_LAYOUT_UNDEFINED, false⟩
  else
    let Layout :=
      if EnumHasAnyFlags DepthAccess DSVWrite then
        if EnumHasAnyFlags StencilAccess DSVWrite then
          VK_IMAGE_LAYOUT_DEPTH_STENCIL_ATTACHMENT_OPTIMAL
        else VK_IMAGE_LAYOUT_DEPTH_ATTACHMENT_STENCIL_READ_ONLY_OPTIMAL_KHR
      else
        if EnumHasAnyFlags StencilAccess DSVWrite then
          VK_IMAGE_LAYOUT_DEPTH_READ_ONLY_STENCIL_ATTACHMENT_OPTIMAL_KHR
        else VK_IMAGE_LAYOUT_DEPTH_STENCIL_READ_ONLY_OPTIMAL
    let CombinedAccess := DepthAccess ||| StencilAccess
    let a : FVkClassifyLocals :=
      Accumulate CombinedAccess UAVCompute VK_PIPELINE_STAGE_COMPUTE_SHADER_BIT
          (VK_ACCESS_SHADER_READ_BIT ||| VK_ACCESS_SHADER_WRITE_BIT)
        (Accumulate CombinedAccess SRVCompute VK_PIPELINE_STAGE_COMPUTE_SHADER_BIT
          VK_ACCESS_SHADER_READ_BIT
        (Accumulate CombinedAccess UAVGraphics VK_PIPELINE_STAGE_FRAGMENT_SHADER_BIT
          (VK_ACCESS_SHADER_READ_BIT ||| VK_ACCESS_SHADER_WRITE_BIT)
        (Accumulate CombinedAccess SRVGraphics VK_PIPELINE_STAGE_FRAGMENT_SHADER_BIT
          VK_ACCESS_SHADER_READ_BIT
        (Accumulate CombinedAccess DSVRead
          (VK_PIPELINE_STAGE_EARLY_FRAGMENT_TESTS_BIT ||| VK_PIPELINE_STAGE_LATE_FRAGMENT_TESTS_BIT)
          VK_ACCESS_DEPTH_STENCIL_ATTACHMENT_READ_BIT
        (Accumulate CombinedAccess DSVWrite
          (VK_PIPELINE_STAGE_EARLY_FRAGMENT_TESTS_BIT ||| VK_PIPELINE_STAGE_LATE_FRAGMENT_TESTS_BIT)
          (VK_ACCESS_DEPTH_STENCIL_ATTACHMENT_READ_BIT |||
            VK_ACCESS_DEPTH_STENCIL_ATTACHMENT_WRITE_BIT)
          { StageFlags := 0, AccessFlags := 0, Layout := Layout, ProcessedRHIFlags := 0 })))))
    ⟨a.StageFlags, a.AccessFlags, a.Layout,
      (CombinedAccess &&& (4294967295 ^^^ a.ProcessedRHIFlags)) != 0⟩

/-- The structure `VkMemoryBarrier`, without its `sType` and `pNext` fields. -/
structure VkMemoryBarrier where
  srcAccessMask : Nat
  dstAccessMask : Nat
deriving DecidableEq, Repr

/-- The structure `VkBufferMemoryBarrier`, without its `sType` and `pNext` fields. -/
structure VkBufferMemoryBarrier where
  srcAccessMask : Nat
  dstAccessMask : Nat
  srcQueueFamilyIndex : Nat
  dstQueueFamilyIndex : Nat
  buffer : Nat
  offset : Nat
  size : Nat
deriving DecidableEq, Repr

/-- The structure `VkImageMemoryBarrier`, without its `sType` and `pNext` fields. -/
structure VkImageMemoryBarrier where
  srcAccessMask : Nat
  dstAccessMask : Nat
  oldLayout : VkImageLayout
  newLayout : VkImageLayout
  srcQueueFamilyIndex : Nat
  dstQueueFamilyIndex : Nat
  image : Nat
  subresourceRange : VkImageSubresourceRange
deriving DecidableEq, Repr

/-- The function `SetupImageBarrier`. -/
def SetupImageBarrier (Image SrcAccessFlags DstAccessFlags : Nat)
    (SrcLayout DstLayout : VkImageLayout) (SubresRange : VkImageSubresourceRange) :
    VkImageMemoryBarrier :=
  { srcAccessMask := SrcAccessFlags
    dstAccessMask := DstAccessFlags
    oldLayout := SrcLayout
    newLayout := DstLayout
    srcQueueFamilyIndex := VK_QUEUE_FAMILY_IGNORED
    dstQueueFamilyIndex := VK_QUEUE_FAMILY_IGNORED
    image := Image
    subresourceRange := SubresRange }

/-- The function `SetupImageBarrierEntireRes`. -/
def SetupImageBarrierEntireRes (Image SrcAccessFlags DstAccessFlags : Nat)
    (SrcLayout DstLayout : VkImageLayout) (AspectMask : Nat) : VkImageMemoryBarrier :=
  SetupImageBarrier Image SrcAccessFlags DstAccessFlags SrcLayout DstLayout
    { aspectMask := AspectMask
      baseMipLevel := 0
      levelCount := VK_REMAINING_MIP_LEVELS
      baseArrayLayer := 0
      layerCount := VK_REMAINING_ARRAY_LAYERS }

/-- The write-capable access bits among the `VkAccessFlagBits` that the source names. -/
def WriteAccessMask : Nat :=
  VK_ACCESS_SHADER_WRITE_BIT ||| VK_ACCESS_COLOR_ATTACHMENT_WRITE_BIT |||
  VK_ACCESS_DEPTH_STENCIL_ATTACHMENT_WRITE_BIT ||| VK_ACCESS_TRANSFER_WRITE_BIT |||
  VK_ACCESS_HOST_WRITE_BIT ||| VK_ACCESS_MEMORY_WRITE_BIT

/-- The function `AddMemoryBarrier`: `~ReadMask` is taken on 32 bits. -/
def AddMemoryBarrier (MemoryBarrier : VkMemoryBarrier) (SrcAccessFlags DstAccessFlags : Nat) :
    VkMemoryBarrier :=
  let ReadMask := VK_ACCESS_INDIRECT_COMMAND_READ_BIT ||| VK_ACCESS_INDEX_READ_BIT |||
    VK_ACCESS_VERTEX_ATTRIBUTE_READ_BIT ||| VK_ACCESS_UNIFORM_READ_BIT |||
    VK_ACCESS_INPUT_ATTACHMENT_READ_BIT ||| VK_ACCESS_SHADER_READ_BIT |||
    VK_ACCESS_COLOR_ATTACHMENT_READ_BIT ||| VK_ACCESS_DEPTH_STENCIL_ATTACHMENT_READ_BIT |||
    VK_ACCESS_TRANSFER_READ_BIT
  let SrcAccessIsRead : Bool := (SrcAccessFlags &&& (4294967295 ^^^ ReadMask)) == 0
  if !SrcAccessIsRead then
    { srcAccessMask := MemoryBarrier.srcAccessMask ||| SrcAccessFlags
      dstAccessMask := MemoryBarrier.dstAccessMask ||| DstAccessFlags }
  else MemoryBarrier

/-- What the source reads of an `FVulkanSurface`: its image handle, its full aspect mask
(`GetFullAspectMask()`), the value of `IsDepthOrStencilAspect()`, its numbers of mips and of
array levels (`GetNumMips()`, `GetNumberOfArrayLevels()`, read when its layout table is
created) and the value of the test `(UEFlags & TexCreate_CPUReadback) == TexCreate_CPUReadback`.
-/
structure FVulkanSurface where
  Image : Nat
  FullAspectMask : Nat
  bIsDepthOrStencilAspect : Bool
  NumMips : Nat
  NumArrayLevels : Nat
  bCPUReadback : Bool
deriving DecidableEq, Repr

/-- What the source reads of an `FVulkanTextureBase`. -/
structure FVulkanTextureBase where
  Surface : FVulkanSurface
deriving DecidableEq, Repr

/-- Modelled from the spec: the texture after the call
`Texture->OnLayoutTransition(*this, NewLayout)`. The virtual method is declared outside the
sources; it lets a texture set or refresh the image handle it holds: a texture such as a back
buffer may have no handle yet, or a stale one, when a transition is created, and
`RHIEndTransitions` fetches the up to date handle from the texture after the call (comments
at lines 766 to 768, 1154 and 1189 of the source). `OnLayoutTransition Texture NewLayout` is
the image handle that the texture holds after the call, taken as determined by the texture
the transition holds and the layout passed; the creation flags, the aspect mask and the
extents of the surface are those of the texture before the call. -/
def FVulkanTextureBase.AfterLayoutTransition (Texture : FVulkanTextureBase)
    (OnLayoutTransition : FVulkanTextureBase → VkImageLayout → Nat)
    (NewLayout : VkImageLayout) : FVulkanTextureBase :=
  { Texture with
    Surface := { Texture.Surface with Image := OnLayoutTransition Texture NewLayout } }

/-- What the source reads of an `FVulkanResourceMultiBuffer`: the handle of the buffer. -/
structure FVulkanResourceMultiBuffer where
  Handle : Nat
deriving DecidableEq, Repr

/-- What the source reads of an `FVulkanUnorderedAccessView`: its four source pointers,
`none` for a null pointer. -/
structure FVulkanUnorderedAccessView where
  SourceTexture : Option FVulkanTextureBase
  SourceIndexBuffer : Option FVulkanResourceMultiBuffer
  SourceVertexBuffer : Option FVulkanResourceMultiBuffer
  SourceStructuredBuffer : Option FVulkanResourceMultiBuffer
deriving DecidableEq, Repr

/-- Modelled from the spec: the queue scopes `ERHIPipeline`, declared in an engine header that
is not among the sources. The `checkf` at the head of `RHICreateTransition` rejects
combinations of pipelines, so a transition has one source and one destination pipeline. -/
inductive ERHIPipeline where
  | Graphics
  | AsyncCompute
deriving DecidableEq, Repr

namespace FRHISubresourceRange

/-- Modelled from the spec: the plane selector "all planes" of `FRHISubresourceRange`, declared
in an engine header that is not among the sources; also the "all mips" and "all array
slices" selector of a transition entry. -/
def kAllSubresources : Nat := 4294967295
/-- Modelled from the spec: the plane selector of the depth aspect. -/
def kDepthPlaneSlice : Nat := 0
/-- Modelled from the spec: the plane selector of the stencil aspect. -/
def kStencilPlaneSlice : Nat := 1

end FRHISubresourceRange

namespace FRHITransitionInfo

/-- The non-null resource of a transition entry, tagged with `Info.Type`: the member of the
union that the `switch (Info.Type)` of `RHICreateTransition` reads. `Unknown` stands for
every type the `switch` sends to its `default` case. -/
inductive FResource where
  | Texture (Texture : FVulkanTextureBase)
  | VertexBuffer (Buffer : FVulkanResourceMultiBuffer)
  | IndexBuffer (Buffer : FVulkanResourceMultiBuffer)
  | StructuredBuffer (Buffer : FVulkanResourceMultiBuffer)
  | UAV (UAV : FVulkanUnorderedAccessView)
  | Unknown
deriving DecidableEq, Repr

end FRHITransitionInfo

/-- Modelled from the spec: a transition entry `FRHITransitionInfo` (resource, access-before,
access-after, subresource selection), declared in an engine header that is not among the
sources. `Resource` is `none` for a null resource. -/
structure FRHITransitionInfo where
  Resource : Option FRHITransitionInfo.FResource
  AccessBefore : Nat
  AccessAfter : Nat
  MipIndex : Nat
  ArraySlice : Nat
  PlaneSlice : Nat
deriving DecidableEq, Repr

/-- Modelled from the spec: `FRHITransitionInfo::IsAllMips`, the entry selects every mip. -/
def FRHITransitionInfo.IsAllMips (Info : FRHITransitionInfo) : Bool :=
  Info.MipIndex == FRHISubresourceRange.kAllSubresources

/-- Modelled from the spec: `FRHITransitionInfo::IsAllArraySlices`, the entry selects every
array slice. -/
def FRHITransitionInfo.IsAllArraySlices (Info : FRHITransitionInfo) : Bool :=
  Info.ArraySlice == FRHISubresourceRange.kAllSubresources

/-- The function `SetupSubresourceRange`. -/
def SetupSubresourceRange (TransitionInfo : FRHITransitionInfo) (AspectMask : Nat) :
    VkImageSubresourceRange :=
  { aspectMask := AspectMask
    baseMipLevel := if TransitionInfo.IsAllMips then 0 else TransitionInfo.MipIndex
    levelCount := if TransitionInfo.IsAllMips then VK_REMAINING_MIP_LEVELS else 1
    baseArrayLayer := if TransitionInfo.IsAllArraySlices then 0 else TransitionInfo.ArraySlice
    layerCount := if TransitionInfo.IsAllArraySlices then VK_REMAINING_ARRAY_LAYERS else 1 }

/-- The structure `FVulkanPipelineBarrier`: the private data of a transition. `Semaphore` is
`none` for a null pointer. -/
structure FVulkanPipelineBarrier where
  SrcPipelines : ERHIPipeline
  DstPipelines : ERHIPipeline
  SrcStageMask : Nat
  DstStageMask : Nat
  MemoryBarrier : VkMemoryBarrier
  ImageBarriers : List VkImageMemoryBarrier
  Textures : List FVulkanTextureBase
  BufferBarriers : List VkBufferMemoryBarrier
  Semaphore : Option Nat
deriving DecidableEq, Repr

/-- The structure `FDepthStencilSubresTransition`. -/
structure FDepthStencilSubresTransition where
  Texture : FVulkanTextureBase
  SrcDepthAccess : Nat
  DestDepthAccess : Nat
  SrcStencilAccess : Nat
  DestStencilAccess : Nat
  bDepthAccessSet : Bool
  bStencilAccessSet : Bool
deriving DecidableEq, Repr

/-- The call `TArray::IndexOfByPredicate`: the index of the first entry that satisfies the
predicate, `none` for `INDEX_NONE`. -/
def TArrayIndexOfByPredicate {α : Type} (Pred : α → Bool) : List α → Option Nat
  | [] => none
  | x :: xs => if Pred x then some 0 else (TArrayIndexOfByPredicate Pred xs).map (fun i => i + 1)

/-- The call `TArray::RemoveAtSwap`: the last entry takes the place of the removed one. -/
def TArrayRemoveAtSwap {α : Type} (A : List α) (Index : Nat) : List α :=
  match A.getLast? with
  | none => A
  | some Last => (A.set Index Last).dropLast

namespace RHICreateTransition

open FRHITransitionInfo FRHISubresourceRange

/-- The state of the loops of `RHICreateTransition`: the transition being built, the pending
single-aspect depth-stencil transitions, and whether an `ensure` has been violated. -/
structure FState where
  Data : FVulkanPipelineBarrier
  DSSubresTransitions : List FDepthStencilSubresTransition
  bEnsureFailed : Bool
deriving DecidableEq, Repr

/-- The locals `Buffer`, `Texture` and `UnderlyingType` after the `switch (Info.Type)`: exactly
one of the two pointers is set. -/
inductive FResolved where
  | Buffer (Buffer : FVulkanResourceMultiBuffer) (UnderlyingType : EType)
  | Texture (Texture : FVulkanTextureBase)
deriving DecidableEq, Repr

/-- The six locals that the classification of an entry fills in. -/
structure FClassified where
  SrcStageMask : Nat
  DstStageMask : Nat
  SrcAccessFlags : Nat
  DstAccessFlags : Nat
  SrcLayout : VkImageLayout
  DstLayout : VkImageLayout
deriving DecidableEq, Repr

/-- The `switch (Info.Type)`; `none` is a `checkNoEntry`. -/
def ResolveResource : FResource → Option FResolved
  | FResource.Texture T => some (FResolved.Texture T)
  | FResource.VertexBuffer B => some (FResolved.Buffer B EType.VertexBuffer)
  | FResource.IndexBuffer B => some (FResolved.Buffer B EType.IndexBuffer)
  | FResource.StructuredBuffer B => some (FResolved.Buffer B EType.StructuredBuffer)
  | FResource.UAV V =>
    match V.SourceTexture with
    | some T => some (FResolved.Texture T)
    | none =>
      match V.SourceIndexBuffer with
      | some B => some (FResolved.Buffer B EType.IndexBuffer)
      | none =>
        match V.SourceVertexBuffer with
        | some B => some (FResolved.Buffer B EType.VertexBuffer)
        | none =>
          match V.SourceStructuredBuffer with
          | some B => some (FResolved.Buffer B EType.StructuredBuffer)
          | none => none
  | FResource.Unknown => none

/-- The local `UnderlyingType`. -/
def FResolved.UnderlyingType : FResolved → EType
  | FResolved.Buffer _ Ty => Ty
  | FResolved.Texture _ => EType.Texture

/-- The local `bIsDepthStencil`. -/
def FResolved.bIsDepthStencil : FResolved → Bool
  | FResolved.Buffer _ _ => false
  | FResolved.Texture T => T.Surface.bIsDepthOrStencilAspect

/-- The entry `AddDefaulted_GetRef` appends to `DSSubresTransitions`, with its texture and
its two flags assigned. The four access fields are not assigned there; they are read before
being assigned only after an `ensure` has been violated, and are zero here. -/
def NewPendingTransition (Texture : FVulkanTextureBase) : FDepthStencilSubresTransition :=
  { Texture := Texture
    SrcDepthAccess := 0
    DestDepthAccess := 0
    SrcStencilAccess := 0
    DestStencilAccess := 0
    bDepthAccessSet := false
    bStencilAccessSet := false }

/-- The assignment of the accesses of one aspect to a pending transition; the second component
tells that the `ensure` on the aspect not being set yet was violated. -/
def SetAspectAccess (Pending : FDepthStencilSubresTransition) (Info : FRHITransitionInfo) :
    FDepthStencilSubresTransition × Bool :=
  if Info.PlaneSlice = kDepthPlaneSlice then
    ({ Pending with
        SrcDepthAccess := Info.AccessBefore
        DestDepthAccess := Info.AccessAfter
        bDepthAccessSet := true },
      Pending.bDepthAccessSet)
  else
    ({ Pending with
        SrcStencilAccess := Info.AccessBefore
        DestStencilAccess := Info.AccessAfter
        bStencilAccessSet := true },
      Pending.bStencilAccessSet)

/-- The classification of an entry (lines 664 to 718 of the source). The result is the new
list of pending depth-stencil transitions, the `ensure` flag, and the six locals, or no
locals when the loop `continue`s to wait for the other aspect. `none` is a failed `check`
of the classifier. -/
def ClassifyInfo (G : ERHIAccess.Generic) (Info : FRHITransitionInfo) (Res : FResolved)
    (s : FState) :
    Option (List FDepthStencilSubresTransition × Bool × Option FClassified) :=
  match Res with
  | FResolved.Texture Texture =>
    if Texture.Surface.bIsDepthOrStencilAspect ∧ Info.PlaneSlice ≠ kAllSubresources then
      match TArrayIndexOfByPredicate
          (fun Entry => Entry.Texture.Surface.Image == Texture.Surface.Image)
          s.DSSubresTransitions with
      | none =>
        let P := SetAspectAccess (NewPendingTransition Texture) Info
        some (s.DSSubresTransitions ++ [P.1], s.bEnsureFailed || P.2, none)
      | some Index =>
        match TArrayGet s.DSSubresTransitions Index with
        | none => none
        | some Pending =>
          let P := SetAspectAccess Pending Info
          let Src := GetDepthStencilStageAndAccessFlags P.1.SrcDepthAccess P.1.SrcStencilAccess true
          let Dst := GetDepthStencilStageAndAccessFlags P.1.DestDepthAccess P.1.DestStencilAccess
            false
          some (TArrayRemoveAtSwap s.DSSubresTransitions Index,
            s.bEnsureFailed || P.2 || Src.bUnprocessedFlags || Dst.bUnprocessedFlags,
            some { SrcStageMask := Src.StageFlags, DstStageMask := Dst.StageFlags,
                   SrcAccessFlags := Src.AccessFlags, DstAccessFlags := Dst.AccessFlags,
                   SrcLayout := Src.Layout, DstLayout := Dst.Layout })
    else
      (GetVkStageAndAccessFlags G Info.AccessBefore Res.UnderlyingType Res.bIsDepthStencil true).bind
        (fun Src =>
          (GetVkStageAndAccessFlags G Info.AccessAfter Res.UnderlyingType Res.bIsDepthStencil
            false).map
            (fun Dst =>
              (s.DSSubresTransitions,
                s.bEnsureFailed || Src.bUnprocessedFlags || Dst.bUnprocessedFlags,
                some { SrcStageMask := Src.StageFlags, DstStageMask := Dst.StageFlags,
                       SrcAccessFlags := Src.AccessFlags, DstAccessFlags := Dst.AccessFlags,
                       SrcLayout := Src.Layout, DstLayout := Dst.Layout })))
  | FResolved.Buffer _ _ =>
    (GetVkStageAndAccessFlags G Info.AccessBefore Res.UnderlyingType Res.bIsDepthStencil true).bind
      (fun Src =>
        (GetVkStageAndAccessFlags G Info.AccessAfter Res.UnderlyingType Res.bIsDepthStencil
          false).map
          (fun Dst =>
            (s.DSSubresTransitions,
              s.bEnsureFailed || Src.bUnprocessedFlags || Dst.bUnprocessedFlags,
              some { SrcStageMask := Src.StageFlags, DstStageMask := Dst.StageFlags,
                     SrcAccessFlags := Src.AccessFlags, DstAccessFlags := Dst.AccessFlags,
                     SrcLayout := Src.Layout, DstLayout := Dst.Layout })))

/-- The override "In case of async compute" (lines 720 to 731 of the source). The destination
access flags are computed from `SrcAccessFlags`, as in the source. -/
def AsyncComputeOverride (SrcPipelines DstPipelines : ERHIPipeline) (C : FClassified) :
    FClassified :=
  let C1 : FClassified :=
    if SrcPipelines = ERHIPipeline.AsyncCompute then { C with
      SrcStageMask := VK_PIPELINE_STAGE_COMPUTE_SHADER_BIT
      SrcAccessFlags := C.SrcAccessFlags &&& (VK_ACCESS_SHADER_READ_BIT ||| VK_ACCESS_SHADER_WRITE_BIT) }
    else C
  if DstPipelines = ERHIPipeline.AsyncCompute then { C1 with
    DstStageMask := VK_PIPELINE_STAGE_COMPUTE_SHADER_BIT
    DstAccessFlags := C1.SrcAccessFlags &&& (VK_ACCESS_SHADER_READ_BIT ||| VK_ACCESS_SHADER_WRITE_BIT) }
  else C1

/-- The rest of the body of the main loop (lines 733 to 774 of the source), after the
override: the stage masks are accumulated and the entry becomes part of the memory barrier,
a buffer barrier or an image barrier. -/
def EmitBarrier (SrcPipelines DstPipelines : ERHIPipeline)
    (SrcQueueFamilyIndex DstQueueFamilyIndex : Nat) (Info : FRHITransitionInfo)
    (Res : FResolved) (C : FClassified) (Data : FVulkanPipelineBarrier) :
    FVulkanPipelineBarrier :=
  let Data1 : FVulkanPipelineBarrier := { Data with
    SrcStageMask := Data.SrcStageMask ||| C.SrcStageMask
    DstStageMask := Data.DstStageMask ||| C.DstStageMask }
  match Res with
  | FResolved.Buffer Buffer _ =>
    if SrcPipelines = DstPipelines then
      { Data1 with
        MemoryBarrier := AddMemoryBarrier Data1.MemoryBarrier C.SrcAccessFlags C.DstAccessFlags }
    else
      { Data1 with
        BufferBarriers := Data1.BufferBarriers ++ [
          { srcAccessMask := C.SrcAccessFlags
            dstAccessMask := C.DstAccessFlags
            srcQueueFamilyIndex := SrcQueueFamilyIndex
            dstQueueFamilyIndex := DstQueueFamilyIndex
            buffer := Buffer.Handle
            offset := 0
            size := VK_WHOLE_SIZE }] }
  | FResolved.Texture Texture =>
    if SrcPipelines = DstPipelines ∧ C.SrcLayout = C.DstLayout then
      { Data1 with
        MemoryBarrier := AddMemoryBarrier Data1.MemoryBarrier C.SrcAccessFlags C.DstAccessFlags }
    else
      { Data1 with
        ImageBarriers := Data1.ImageBarriers ++ [
          { SetupImageBarrier VK_NULL_HANDLE C.SrcAccessFlags C.DstAccessFlags C.SrcLayout
              C.DstLayout (SetupSubresourceRange Info Texture.Surface.FullAspectMask) with
            srcQueueFamilyIndex := SrcQueueFamilyIndex
            dstQueueFamilyIndex := DstQueueFamilyIndex }]
        Textures := Data1.Textures ++ [Texture] }

/-- One iteration of the main loop `for (const FRHITransitionInfo& Info : Infos)`;
`none` is a failed `check`. -/
def ProcessInfo (G : ERHIAccess.Generic) (SrcPipelines DstPipelines : ERHIPipeline)
    (SrcQueueFamilyIndex DstQueueFamilyIndex : Nat)
    (Info : FRHITransitionInfo) (s : FState) : Option FState :=
  match Info.Resource with
  | none => some s
  | some Resource =>
    if Info.AccessAfter = ERHIAccess.Unknown then none
    else
      match ResolveResource Resource with
      | none => none
      | some Res =>
        match ClassifyInfo G Info Res s with
        | none => none
        | some (Pending, bEnsure, none) =>
          some { s with DSSubresTransitions := Pending, bEnsureFailed := bEnsure }
        | some (Pending, bEnsure, some C) =>
          some { Data := EmitBarrier SrcPipelines DstPipelines SrcQueueFamilyIndex
                   DstQueueFamilyIndex Info Res
                   (AsyncComputeOverride SrcPipelines DstPipelines C) s.Data
                 DSSubresTransitions := Pending
                 bEnsureFailed := bEnsure }

/-- The main loop over the entries, in order. -/
def ProcessInfos (G : ERHIAccess.Generic) (SrcPipelines DstPipelines : ERHIPipeline)
    (SrcQueueFamilyIndex DstQueueFamilyIndex : Nat) :
    List FRHITransitionInfo → FState → Option FState
  | [], s => some s
  | Info :: Infos, s =>
    match ProcessInfo G SrcPipelines DstPipelines SrcQueueFamilyIndex DstQueueFamilyIndex
        Info s with
    | none => none
    | some s1 =>
      ProcessInfos G SrcPipelines DstPipelines SrcQueueFamilyIndex DstQueueFamilyIndex Infos s1

/-- The lambda `GetOtherAspectAccess`. -/
def GetOtherAspectAccess (ExplicitAspectAccess : Nat) : Nat :=
  if EnumHasAnyFlags ExplicitAspectAccess (ERHIAccess.DSVRead ||| ERHIAccess.DSVWrite) then
    ERHIAccess.DSVRead
  else ExplicitAspectAccess

/-- One iteration of the loop over the depth-stencil transitions that still wait for their
other aspect (lines 778 to 825 of the source). -/
def ProcessPending (SrcQueueFamilyIndex DstQueueFamilyIndex : Nat)
    (PendingTransition : FDepthStencilSubresTransition)
    (r : FVulkanPipelineBarrier × Bool) : FVulkanPipelineBarrier × Bool :=
  let SrcDepthAccess := if PendingTransition.bDepthAccessSet then PendingTransition.SrcDepthAccess
    else GetOtherAspectAccess PendingTransition.SrcStencilAccess
  let DstDepthAccess := if PendingTransition.bDepthAccessSet then PendingTransition.DestDepthAccess
    else GetOtherAspectAccess PendingTransition.DestStencilAccess
  let SrcStencilAccess := if PendingTransition.bDepthAccessSet then
      GetOtherAspectAccess PendingTransition.SrcDepthAccess
    else PendingTransition.SrcStencilAccess
  let DstStencilAccess := if PendingTransition.bDepthAccessSet then
      GetOtherAspectAccess PendingTransition.DestDepthAccess
    else PendingTransition.DestStencilAccess
  let AspectMask := if PendingTransition.bDepthAccessSet then VK_IMAGE_ASPECT_DEPTH_BIT
    else VK_IMAGE_ASPECT_STENCIL_BIT
  let Src := GetDepthStencilStageAndAccessFlags SrcDepthAccess SrcStencilAccess true
  let Dst := GetDepthStencilStageAndAccessFlags DstDepthAccess DstStencilAccess false
  ({ r.1 with
      SrcStageMask := r.1.SrcStageMask ||| Src.StageFlags
      DstStageMask := r.1.DstStageMask ||| Dst.StageFlags
      ImageBarriers := r.1.ImageBarriers ++ [
        { SetupImageBarrierEntireRes VK_NULL_HANDLE Src.AccessFlags Dst.AccessFlags
            VkImageLayout.VK_IMAGE_LAYOUT_UNDEFINED Dst.Layout AspectMask with
          srcQueueFamilyIndex := SrcQueueFamilyIndex
          dstQueueFamilyIndex := DstQueueFamilyIndex }]
      Textures := r.1.Textures ++ [PendingTransition.Texture] },
    r.2 || Src.bUnprocessedFlags || Dst.bUnprocessedFlags)

/-- Modelled from the spec: the private data of a transition as its constructor leaves it
(`FVulkanPipelineBarrier` is declared in `VulkanBarriers.h`, which is not among the
sources): no barrier, zero stage masks, a zero memory barrier and no semaphore. -/
def NewPipelineBarrier (SrcPipelines DstPipelines : ERHIPipeline) : FVulkanPipelineBarrier :=
  { SrcPipelines := SrcPipelines
    DstPipelines := DstPipelines
    SrcStageMask := 0
    DstStageMask := 0
    MemoryBarrier := { srcAccessMask := 0, dstAccessMask := 0 }
    ImageBarriers := []
    Textures := []
    BufferBarriers := []
    Semaphore := none }

/-- The image handle of the texture that the `switch (Info.Type)` resolves the entry to, if
the entry has a non-null resource and resolves to a texture. -/
def ImageOfInfo (Info : FRHITransitionInfo) : Option Nat :=
  match Info.Resource with
  | none => none
  | some R =>
    match ResolveResource R with
    | some (FResolved.Texture T) => some T.Surface.Image
    | _ => none

/-- The handle of the buffer that the `switch (Info.Type)` resolves the entry to, if the
entry has a non-null resource and resolves to a buffer. -/
def BufferOfInfo (Info : FRHITransitionInfo) : Option Nat :=
  match Info.Resource with
  | none => none
  | some R =>
    match ResolveResource R with
    | some (FResolved.Buffer B _) => some B.Handle
    | _ => none

/-- The local `SrcQueueFamilyIndex` (lines 530 to 553 of the source). -/
def SrcQueueFamilyIndex (GfxQueueIndex ComputeQueueIndex : Nat)
    (SrcPipelines DstPipelines : ERHIPipeline) : Nat :=
  if SrcPipelines ≠ DstPipelines then
    if SrcPipelines = ERHIPipeline.Graphics then GfxQueueIndex else ComputeQueueIndex
  else VK_QUEUE_FAMILY_IGNORED

/-- The local `DstQueueFamilyIndex` (lines 530 to 553 of the source). -/
def DstQueueFamilyIndex (GfxQueueIndex ComputeQueueIndex : Nat)
    (SrcPipelines DstPipelines : ERHIPipeline) : Nat :=
  if SrcPipelines ≠ DstPipelines then
    if SrcPipelines = ERHIPipeline.Graphics then ComputeQueueIndex else GfxQueueIndex
  else VK_QUEUE_FAMILY_IGNORED

/-- The private data before the loops (lines 526 to 534 of the source): a semaphore is
allocated when the pipelines differ. -/
def InitialData (NewSemaphore : Nat) (SrcPipelines DstPipelines : ERHIPipeline) :
    FVulkanPipelineBarrier :=
  if SrcPipelines ≠ DstPipelines then
    { NewPipelineBarrier SrcPipelines DstPipelines with Semaphore := some NewSemaphore }
  else NewPipelineBarrier SrcPipelines DstPipelines

/-- The loop `for (const FDepthStencilSubresTransition& PendingTransition :
DSSubresTransitions)` that ends the function. -/
def ProcessAllPending (SrcQueueFamilyIndex DstQueueFamilyIndex : Nat) (s : FState) :
    FVulkanPipelineBarrier × Bool :=
  s.DSSubresTransitions.foldl
    (fun r P => ProcessPending SrcQueueFamilyIndex DstQueueFamilyIndex P r)
    (s.Data, s.bEnsureFailed)

end RHICreateTransition

open RHICreateTransition in
/-- The function `FVulkanDynamicRHI::RHICreateTransition`. `GfxQueueIndex` and
`ComputeQueueIndex` are the family indices of the two queues of the device and `NewSemaphore`
is the semaphore that `new VulkanRHI::FSemaphore` returns. The first loop of the source only
counts entries to reserve array capacity and is left out. The result is the private data of
the transition and whether an `ensure` was violated; `none` is a failed `check`. -/
def RHICreateTransition (G : ERHIAccess.Generic) (GfxQueueIndex ComputeQueueIndex : Nat)
    (NewSemaphore : Nat) (SrcPipelines DstPipelines : ERHIPipeline)
    (Infos : List FRHITransitionInfo) : Option (FVulkanPipelineBarrier × Bool) :=
  (ProcessInfos G SrcPipelines DstPipelines
      (SrcQueueFamilyIndex GfxQueueIndex ComputeQueueIndex SrcPipelines DstPipelines)
      (DstQueueFamilyIndex GfxQueueIndex ComputeQueueIndex SrcPipelines DstPipelines) Infos
      { Data := InitialData NewSemaphore SrcPipelines DstPipelines
        DSSubresTransitions := []
        bEnsureFailed := false }).map
    (ProcessAllPending
      (SrcQueueFamilyIndex GfxQueueIndex ComputeQueueIndex SrcPipelines DstPipelines)
      (DstQueueFamilyIndex GfxQueueIndex ComputeQueueIndex SrcPipelines DstPipelines))

namespace FVulkanPipelineBarrier

open VkImageLayout in
/-- The method `FVulkanPipelineBarrier::AddImageAccessTransition`. The result is the barrier
set, the new value of `InOutLayout` and whether the `ensure` on the source layout was
violated or a classification reported unprocessed flags; `none` is a failed `check`. -/
def AddImageAccessTransition (G : ERHIAccess.Generic) (P : FVulkanPlatformDefines)
    (Barrier : FVulkanPipelineBarrier) (Surface : FVulkanSurface) (SrcAccess DstAccess : Nat)
    (SubresourceRange : VkImageSubresourceRange) (InOutLayout : VkImageLayout) :
    Option (FVulkanPipelineBarrier × VkImageLayout × Bool) :=
  if DstAccess = ERHIAccess.Unknown then none
  else
    let bIsDepthStencil := Surface.bIsDepthOrStencilAspect
    (GetVkStageAndAccessFlags G SrcAccess FRHITransitionInfo.EType.Texture bIsDepthStencil true).bind
      (fun Src =>
        (GetVkStageAndAccessFlags G DstAccess FRHITransitionInfo.EType.Texture bIsDepthStencil
          false).bind
          (fun Dst =>
            let SrcPart : Option (VkImageLayout × Nat × Bool) :=
              if Src.Layout = VK_IMAGE_LAYOUT_UNDEFINED then
                (GetVkAccessMaskForLayout P InOutLayout).map (fun a => (InOutLayout, a, false))
              else some (Src.Layout, Src.AccessFlags, decide (Src.Layout ≠ InOutLayout))
            SrcPart.map (fun S =>
              let DstLayout := if Dst.Layout = VK_IMAGE_LAYOUT_UNDEFINED then VK_IMAGE_LAYOUT_GENERAL
                else Dst.Layout
              ({ Barrier with
                  SrcStageMask := Barrier.SrcStageMask ||| Src.StageFlags
                  DstStageMask := Barrier.DstStageMask ||| Dst.StageFlags
                  ImageBarriers := Barrier.ImageBarriers ++ [
                    SetupImageBarrier Surface.Image S.2.1 Dst.AccessFlags S.1 DstLayout
                      SubresourceRange] },
                DstLayout,
                S.2.2 || Src.bUnprocessedFlags || Dst.bUnprocessedFlags))))

end FVulkanPipelineBarrier

/-! ## The transition executor -/

open VkImageLayout in
/-- The function `GetDepthStencilWritableState`: the pair `(bDepthWritable, bStencilWritable)`.
-/
def GetDepthStencilWritableState (Layout : VkImageLayout) : Bool × Bool :=
  match Layout with
  | VK_IMAGE_LAYOUT_DEPTH_STENCIL_ATTACHMENT_OPTIMAL => (true, true)
  | VK_IMAGE_LAYOUT_DEPTH_READ_ONLY_STENCIL_ATTACHMENT_OPTIMAL_KHR => (false, true)
  | VK_IMAGE_LAYOUT_DEPTH_ATTACHMENT_STENCIL_READ_ONLY_OPTIMAL_KHR => (true, false)
  | _ => (false, false)

open VkImageLayout in
/-- The function `AdjustDepthStencilLayout`. The second component tells that the `ensure` on
the aspect mask was violated (the barrier is then returned as it is). -/
def AdjustDepthStencilLayout (Barrier : VkImageMemoryBarrier) (FullAspectMask : Nat) :
    VkImageMemoryBarrier × Bool :=
  if FullAspectMask = Barrier.subresourceRange.aspectMask then (Barrier, false)
  else if ¬(Barrier.subresourceRange.aspectMask = VK_IMAGE_ASPECT_DEPTH_BIT ∨
      Barrier.subresourceRange.aspectMask = VK_IMAGE_ASPECT_STENCIL_BIT) then (Barrier, true)
  else
    let Current := GetDepthStencilWritableState Barrier.oldLayout
    let New := GetDepthStencilWritableState Barrier.newLayout
    let newLayout :=
      if Barrier.subresourceRange.aspectMask = VK_IMAGE_ASPECT_DEPTH_BIT then
        if Current.2 then
          (if New.1 then VK_IMAGE_LAYOUT_DEPTH_STENCIL_ATTACHMENT_OPTIMAL
            else VK_IMAGE_LAYOUT_DEPTH_READ_ONLY_STENCIL_ATTACHMENT_OPTIMAL_KHR)
        else Barrier.newLayout
      else
        if Current.1 then
          (if New.2 then VK_IMAGE_LAYOUT_DEPTH_STENCIL_ATTACHMENT_OPTIMAL
            else VK_IMAGE_LAYOUT_DEPTH_ATTACHMENT_STENCIL_READ_ONLY_OPTIMAL_KHR)
        else Barrier.newLayout
    ({ Barrier with
        newLayout := newLayout
        subresourceRange := { Barrier.subresourceRange with
          aspectMask := VK_IMAGE_ASPECT_DEPTH_BIT ||| VK_IMAGE_ASPECT_STENCIL_BIT } },
      false)

namespace AddSubresourceTransitions

/-- The variables the loops of `AddSubresourceTransitions` update: the array of barriers, the
source stage mask, and `PrevMipBarrier`, a pointer to an element of the array (its index) or
`none` for `nullptr`. -/
structure FLocals where
  Barriers : List VkImageMemoryBarrier
  SrcStageMask : Nat
  PrevMipBarrier : Option Nat
deriving DecidableEq, Repr

/-- The `else` branch of the body of the mip loop (lines 1036 to 1057 of the source): a mip
that already is in the destination layout is skipped by `continue`, which leaves
`PrevMipBarrier` as it is; otherwise a copy of the template is appended. `none` is the
`checkNoEntry` of the two mask functions. -/
def NewBarrier (P : FVulkanPlatformDefines) (TemplateBarrier : VkImageMemoryBarrier)
    (ImageHandle : Nat) (DstLayout : VkImageLayout) (LayerIdx MipIdx : Nat)
    (SrcLayout : VkImageLayout) (s : FLocals) : Option FLocals :=
  if SrcLayout = DstLayout then some s
  else
    (GetVkStageFlagsForLayout P SrcLayout).bind (fun Stage =>
      (GetVkAccessMaskForLayout P SrcLayout).map (fun Access =>
        { Barriers := s.Barriers ++ [{ TemplateBarrier with
              srcAccessMask := Access
              oldLayout := SrcLayout
              newLayout := DstLayout
              image := ImageHandle
              subresourceRange := { TemplateBarrier.subresourceRange with
                baseMipLevel := MipIdx
                levelCount := 1
                baseArrayLayer := LayerIdx
                layerCount := 1 } }]
          SrcStageMask := s.SrcStageMask ||| Stage
          PrevMipBarrier := some s.Barriers.length }))

/-- The body of the mip loop (lines 1029 to 1057 of the source). -/
def MipBody (P : FVulkanPlatformDefines) (TemplateBarrier : VkImageMemoryBarrier)
    (ImageHandle : Nat) (CurrentLayout : FVulkanImageLayout) (DstLayout : VkImageLayout)
    (LayerIdx MipIdx : Nat) (s : FLocals) : Option FLocals :=
  (CurrentLayout.GetSubresLayout LayerIdx MipIdx).bind (fun SrcLayout =>
    match s.PrevMipBarrier with
    | none => NewBarrier P TemplateBarrier ImageHandle DstLayout LayerIdx MipIdx SrcLayout s
    | some Index =>
      (TArrayGet s.Barriers Index).bind (fun Prev =>
        if Prev.oldLayout = SrcLayout then
          some { s with
            Barriers := s.Barriers.set Index { Prev with
              subresourceRange := { Prev.subresourceRange with
                levelCount := u32 (Prev.subresourceRange.levelCount + 1) } } }
        else NewBarrier P TemplateBarrier ImageHandle DstLayout LayerIdx MipIdx SrcLayout s))

/-- The body of the layer loop: `PrevMipBarrier` starts as `nullptr` for each layer. -/
def LayerBody (P : FVulkanPlatformDefines) (TemplateBarrier : VkImageMemoryBarrier)
    (ImageHandle : Nat) (CurrentLayout : FVulkanImageLayout) (DstLayout : VkImageLayout)
    (FirstMip LastMip : Nat) (LayerIdx : Nat) (s : List VkImageMemoryBarrier × Nat) :
    Option (List VkImageMemoryBarrier × Nat) :=
  (forLoop (MipBody P TemplateBarrier ImageHandle CurrentLayout DstLayout LayerIdx)
      FirstMip LastMip
      { Barriers := s.1, SrcStageMask := s.2, PrevMipBarrier := none }).map
    (fun r => (r.Barriers, r.SrcStageMask))

end AddSubresourceTransitions

open AddSubresourceTransitions in
/-- The function `AddSubresourceTransitions`. The result is the array of barriers, the source
stage mask and the layout table after the call; `none` is a failed check. -/
def AddSubresourceTransitions (P : FVulkanPlatformDefines)
    (Barriers : List VkImageMemoryBarrier) (SrcStageMask : Nat)
    (TemplateBarrier : VkImageMemoryBarrier) (ImageHandle : Nat)
    (CurrentLayout : FVulkanImageLayout) (DstLayout : VkImageLayout) :
    Option (List VkImageMemoryBarrier × Nat × FVulkanImageLayout) :=
  let FirstLayer := TemplateBarrier.subresourceRange.baseArrayLayer
  let LastLayer := u32 (FirstLayer +
    CurrentLayout.GetSubresRangeLayerCount TemplateBarrier.subresourceRange)
  let FirstMip := TemplateBarrier.subresourceRange.baseMipLevel
  let LastMip := u32 (FirstMip +
    CurrentLayout.GetSubresRangeMipCount TemplateBarrier.subresourceRange)
  (forLoop (LayerBody P TemplateBarrier ImageHandle CurrentLayout DstLayout FirstMip LastMip)
      FirstLayer LastLayer (Barriers, SrcStageMask)).bind (fun r =>
    (CurrentLayout.Set DstLayout TemplateBarrier.subresourceRange).map (fun t =>
      (r.1, r.2, t)))

/-- Modelled from the spec: the constructor `FVulkanImageLayout(InitialLayout, NumMips,
NumLayers)`, declared in `VulkanBarriers.h`, which is not among the sources: a table in the
uniform representation. -/
def FVulkanImageLayout.New (InitialLayout : VkImageLayout) (NumMips NumLayers : Nat) :
    FVulkanImageLayout :=
  { NumMips := NumMips, NumLayers := NumLayers, MainLayout := InitialLayout, SubresLayouts := [] }

/-- Modelled from the spec: the registry `FVulkanLayoutManager` (declared in `VulkanBarriers.h`,
which is not among the sources) holds one layout table per live image, keyed by the image
handle. The map `Layouts` is a list of pairs with distinct keys. -/
structure FVulkanLayoutManager where
  Layouts : List (Nat × FVulkanImageLayout)
deriving DecidableEq, Repr

namespace FVulkanLayoutManager

/-- Modelled from the spec: the table tracked for an image, `none` if the image has none. -/
def Find (M : FVulkanLayoutManager) (Image : Nat) : Option FVulkanImageLayout :=
  M.Layouts.lookup Image

/-- Modelled from the spec: `GetOrAddFullLayout(Surface, LayoutIfNotFound)` returns the table
of the image of the surface and creates it, uniform at `LayoutIfNotFound` and with the extents
of the surface, when the image has none yet. The result is the registry after the call and
the table the returned reference designates. -/
def GetOrAddFullLayout (M : FVulkanLayoutManager) (Surface : FVulkanSurface)
    (LayoutIfNotFound : VkImageLayout) : FVulkanLayoutManager × FVulkanImageLayout :=
  match M.Find Surface.Image with
  | some Layout => (M, Layout)
  | none =>
    ({ Layouts := M.Layouts ++
          [(Surface.Image,
            FVulkanImageLayout.New LayoutIfNotFound Surface.NumMips Surface.NumArrayLevels)] },
      FVulkanImageLayout.New LayoutIfNotFound Surface.NumMips Surface.NumArrayLevels)

/-- A write through the reference that `GetOrAddFullLayout` returned: the table of the image
is replaced. -/
def Assign (M : FVulkanLayoutManager) (Image : Nat) (Layout : FVulkanImageLayout) :
    FVulkanLayoutManager :=
  { Layouts := M.Layouts.map (fun e => if e.1 == Image then (e.1, Layout) else e) }

end FVulkanLayoutManager

/-- One call of `vkCmdPipelineBarrier` as the source makes it (dependency flags 0): the two
stage masks and the three arrays of barriers. -/
structure FVulkanCmdPipelineBarrier where
  srcStageMask : Nat
  dstStageMask : Nat
  MemoryBarriers : List VkMemoryBarrier
  BufferBarriers : List VkBufferMemoryBarrier
  ImageBarriers : List VkImageMemoryBarrier
deriving DecidableEq, Repr

/-- Modelled from the spec: a command buffer `FVulkanCmdBuffer` of the submission system,
which is not among the sources. It keeps the pipeline barriers recorded into it and the
semaphores it waits on (`AddWaitSemaphore(stage mask, semaphore)`), in order. -/
structure FVulkanCmdBuffer where
  PipelineBarriers : List FVulkanCmdPipelineBarrier
  WaitSemaphores : List (Nat × Nat)
deriving DecidableEq, Repr

/-- Modelled from the spec: the command buffer manager of the submission system, which is not
among the sources: the active command buffer (`none` when there is none) and the command
buffers submitted so far, each with the semaphores it signals. -/
structure FVulkanCommandBufferManager where
  ActiveCmdBuffer : Option FVulkanCmdBuffer
  Submitted : List (FVulkanCmdBuffer × List Nat)
deriving DecidableEq, Repr

namespace FVulkanCommandBufferManager

/-- Modelled from the spec: `HasPendingActiveCmdBuffer()`. -/
def HasPendingActiveCmdBuffer (M : FVulkanCommandBufferManager) : Bool :=
  M.ActiveCmdBuffer.isSome

/-- Modelled from the spec: `SubmitActiveCmdBuffer(SignalSemaphores)` submits the active command
buffer, which then is no longer active; `none` when there is no active command buffer. -/
def SubmitActiveCmdBuffer (M : FVulkanCommandBufferManager) (SignalSemaphores : List Nat) :
    Option FVulkanCommandBufferManager :=
  M.ActiveCmdBuffer.map (fun CmdBuffer =>
    { ActiveCmdBuffer := none, Submitted := M.Submitted ++ [(CmdBuffer, SignalSemaphores)] })

/-- Modelled from the spec: `PrepareForNewActiveCommandBuffer()` makes a fresh command buffer
the active one. -/
def PrepareForNewActiveCommandBuffer (M : FVulkanCommandBufferManager) :
    FVulkanCommandBufferManager :=
  { M with ActiveCmdBuffer := some { PipelineBarriers := [], WaitSemaphores := [] } }

/-- The call `vkCmdPipelineBarrier(CmdBuffer->GetHandle(), ...)` on the active command buffer;
`none` when the pointer is null. -/
def CmdPipelineBarrier (M : FVulkanCommandBufferManager) (Call : FVulkanCmdPipelineBarrier) :
    Option FVulkanCommandBufferManager :=
  M.ActiveCmdBuffer.map (fun CmdBuffer =>
    { M with ActiveCmdBuffer := some { CmdBuffer with
        PipelineBarriers := CmdBuffer.PipelineBarriers ++ [Call] } })

/-- The call `CmdBuffer->AddWaitSemaphore(StageFlags, Semaphore)` on the active command buffer;
`none` when the pointer is null. -/
def AddWaitSemaphore (M : FVulkanCommandBufferManager) (StageFlags Semaphore : Nat) :
    Option FVulkanCommandBufferManager :=
  M.ActiveCmdBuffer.map (fun CmdBuffer =>
    { M with ActiveCmdBuffer := some { CmdBuffer with
        WaitSemaphores := CmdBuffer.WaitSemaphores ++ [(StageFlags, Semaphore)] } })

end FVulkanCommandBufferManager

/-- What `RHIBeginTransitions` and `RHIEndTransitions` read and write of the command list
context `FVulkanCommandListContext`: its layout manager, its command buffer manager, the
value of `Device->IsRealAsyncComputeContext(this)`, and the calls of
`Texture->OnLayoutTransition(*this, NewLayout)` made so far, each with the texture of the
transition it was made on and the layout passed. -/
structure FVulkanCommandListContext where
  LayoutManager : FVulkanLayoutManager
  CommandBufferManager : FVulkanCommandBufferManager
  bIsRealAsyncComputeContext : Bool
  OnLayoutTransitionCalls : List (FVulkanTextureBase × VkImageLayout)
deriving DecidableEq, Repr

namespace RHIBeginTransitions

/-- The variables the loop over the image barriers of `RHIBeginTransitions` updates; the last
field tells that an `ensure` was violated. -/
structure FImageLoop where
  LayoutManager : FVulkanLayoutManager
  RealImageBarriers : List VkImageMemoryBarrier
  RealSrcStageMask : Nat
  bEnsureFailed : Bool
deriving DecidableEq, Repr

open VkImageLayout in
/-- The body of the loop over the image barriers (lines 962 to 999 of the source).
`DO_GUARD_SLOW` is the compile-time switch of `checkSlow`. -/
def ImageBarrierBody (P : FVulkanPlatformDefines) (DO_GUARD_SLOW : Bool)
    (ImageBarrier : VkImageMemoryBarrier) (Texture : FVulkanTextureBase) (s : FImageLoop) :
    Option FImageLoop :=
  if Texture.Surface.Image = VK_NULL_HANDLE then none
  else
    let ML := s.LayoutManager.GetOrAddFullLayout Texture.Surface VK_IMAGE_LAYOUT_UNDEFINED
    let Layout := ML.2
    if ImageBarrier.newLayout = VK_IMAGE_LAYOUT_UNDEFINED then none
    else
      let DstLayout := ImageBarrier.newLayout
      let Src : Option (VkImageLayout × Nat × Nat) :=
        if ImageBarrier.oldLayout = VK_IMAGE_LAYOUT_UNDEFINED then
          if Layout.AreAllSubresourcesSameLayout then
            (GetVkAccessMaskForLayout P Layout.MainLayout).bind (fun SrcAccessFlags =>
              (GetVkStageFlagsForLayout P Layout.MainLayout).map (fun Stage =>
                (Layout.MainLayout, SrcAccessFlags, s.RealSrcStageMask ||| Stage)))
          else none
        else
          if DO_GUARD_SLOW = true ∧
              Layout.AreSubresourcesSameLayout ImageBarrier.oldLayout
                ImageBarrier.subresourceRange ≠ some true then none
          else some (ImageBarrier.oldLayout, ImageBarrier.srcAccessMask, s.RealSrcStageMask)
      Src.map (fun S =>
        let RealBarrier : VkImageMemoryBarrier := { ImageBarrier with
          image := Texture.Surface.Image
          srcAccessMask := S.2.1
          dstAccessMask := 0
          oldLayout := S.1
          newLayout := DstLayout }
        let A := AdjustDepthStencilLayout RealBarrier Texture.Surface.FullAspectMask
        { LayoutManager := ML.1
          RealImageBarriers := s.RealImageBarriers ++ [A.1]
          RealSrcStageMask := S.2.2
          bEnsureFailed := s.bEnsureFailed || A.2 })

/-- The loop `for (ImgBarrierIdx = 0; ImgBarrierIdx < Data->ImageBarriers.Num(); ...)` over the
image barriers and their textures; the two arrays have the same length (the `check` before
the loop), so the loop visits their pairs in order. -/
def ImageBarrierLoop (P : FVulkanPlatformDefines) (DO_GUARD_SLOW : Bool) :
    List (VkImageMemoryBarrier × FVulkanTextureBase) → FImageLoop → Option FImageLoop
  | [], s => some s
  | (ImageBarrier, Texture) :: Rest, s =>
    match ImageBarrierBody P DO_GUARD_SLOW ImageBarrier Texture s with
    | none => none
    | some s1 => ImageBarrierLoop P DO_GUARD_SLOW Rest s1

/-- The variables the loop over the transitions of `RHIBeginTransitions` updates. -/
structure FState where
  Context : FVulkanCommandListContext
  SignalSemaphores : List Nat
  bEnsureFailed : Bool
deriving DecidableEq, Repr

/-- The `switch (Data->SrcPipelines)` under `#if DO_GUARD_SLOW` (lines 929 to 942 of the
source): whether its `checkf` passes. -/
def GuardSrcPipeline (SrcPipelines : ERHIPipeline) (bIsRealAsyncComputeContext : Bool) : Bool :=
  match SrcPipelines with
  | ERHIPipeline.Graphics => !bIsRealAsyncComputeContext
  | ERHIPipeline.AsyncCompute => bIsRealAsyncComputeContext

/-- The body of the loop over the transitions (lines 914 to 1005 of the source). -/
def TransitionBody (P : FVulkanPlatformDefines) (DO_GUARD_SLOW : Bool)
    (Data : FVulkanPipelineBarrier) (s : FState) : Option FState :=
  if Data.SrcPipelines = Data.DstPipelines then some s
  else if Data.SrcStageMask = 0 ∨ Data.DstStageMask = 0 then
    if Data.ImageBarriers.length = 0 ∧ Data.BufferBarriers.length = 0 then some s else none
  else if DO_GUARD_SLOW = true ∧
      GuardSrcPipeline Data.SrcPipelines s.Context.bIsRealAsyncComputeContext = false then none
  else
    let RealBufferBarriers := Data.BufferBarriers.map (fun BufferBarrier =>
      { BufferBarrier with dstAccessMask := 0 })
    if Data.ImageBarriers.length ≠ Data.Textures.length then none
    else
      (ImageBarrierLoop P DO_GUARD_SLOW (Data.ImageBarriers.zip Data.Textures)
          { LayoutManager := s.Context.LayoutManager
            RealImageBarriers := []
            RealSrcStageMask := Data.SrcStageMask
            bEnsureFailed := s.bEnsureFailed }).bind (fun r =>
        (s.Context.CommandBufferManager.CmdPipelineBarrier
            { srcStageMask := r.RealSrcStageMask
              dstStageMask := Data.DstStageMask
              MemoryBarriers := []
              BufferBarriers := RealBufferBarriers
              ImageBarriers := r.RealImageBarriers }).bind (fun CBM =>
          Data.Semaphore.map (fun Semaphore =>
            { Context := { s.Context with
                LayoutManager := r.LayoutManager
                CommandBufferManager := CBM }
              SignalSemaphores := s.SignalSemaphores ++ [Semaphore]
              bEnsureFailed := r.bEnsureFailed })))

/-- The loop `for (const FRHITransition* Transition : Transitions)`. -/
def TransitionLoop (P : FVulkanPlatformDefines) (DO_GUARD_SLOW : Bool) :
    List FVulkanPipelineBarrier → FState → Option FState
  | [], s => some s
  | Data :: Rest, s =>
    match TransitionBody P DO_GUARD_SLOW Data s with
    | none => none
    | some s1 => TransitionLoop P DO_GUARD_SLOW Rest s1

end RHIBeginTransitions

open RHIBeginTransitions in
/-- The method `FVulkanCommandListContext::RHIBeginTransitions` on the private data of the
transitions of the batch. The result is the context after the call and whether an `ensure`
was violated; `none` is a failed `check` or the use of a null command buffer. -/
def RHIBeginTransitions (P : FVulkanPlatformDefines) (DO_GUARD_SLOW : Bool)
    (Context : FVulkanCommandListContext) (Transitions : List FVulkanPipelineBarrier) :
    Option (FVulkanCommandListContext × Bool) :=
  (TransitionLoop P DO_GUARD_SLOW Transitions
      { Context := Context, SignalSemaphores := [], bEnsureFailed := false }).bind (fun s =>
    if s.SignalSemaphores.length > 0 then
      (s.Context.CommandBufferManager.SubmitActiveCmdBuffer s.SignalSemaphores).map (fun CBM =>
        ({ s.Context with CommandBufferManager := CBM.PrepareForNewActiveCommandBuffer },
          s.bEnsureFailed))
    else some (s.Context, s.bEnsureFailed))

namespace RHIEndTransitions

/-- The variables the first loop of `RHIEndTransitions` updates: the command buffer manager
(the local `CmdBuffer` always is its active command buffer) and `bSeenWaitSemaphore`. -/
structure FWaitLoop where
  CommandBufferManager : FVulkanCommandBufferManager
  bSeenWaitSemaphore : Bool
deriving DecidableEq, Repr

/-- The body of the first loop (lines 1075 to 1092 of the source). -/
def WaitBody (Data : FVulkanPipelineBarrier) (s : FWaitLoop) : Option FWaitLoop :=
  match Data.Semaphore with
  | none => some s
  | some Semaphore =>
    let Prepared : Option FVulkanCommandBufferManager :=
      if !s.bSeenWaitSemaphore then
        if s.CommandBufferManager.HasPendingActiveCmdBuffer then
          (s.CommandBufferManager.SubmitActiveCmdBuffer []).map
            (fun CBM => CBM.PrepareForNewActiveCommandBuffer)
        else some s.CommandBufferManager
      else some s.CommandBufferManager
    Prepared.bind (fun CBM =>
      (CBM.AddWaitSemaphore VK_PIPELINE_STAGE_TOP_OF_PIPE_BIT Semaphore).map (fun CBM1 =>
        { CommandBufferManager := CBM1, bSeenWaitSemaphore := true }))

/-- The first loop `for (const FRHITransition* Transition : Transitions)`. -/
def WaitLoop : List FVulkanPipelineBarrier → FWaitLoop → Option FWaitLoop
  | [], s => some s
  | Data :: Rest, s =>
    match WaitBody Data s with
    | none => none
    | some s1 => WaitLoop Rest s1

/-- The variables the loop over the image barriers of `RHIEndTransitions` updates; the last
field tells that an `ensure` was violated. -/
structure FImageLoop where
  LayoutManager : FVulkanLayoutManager
  OnLayoutTransitionCalls : List (FVulkanTextureBase × VkImageLayout)
  RealImageBarriers : List VkImageMemoryBarrier
  RealSrcStageMask : Nat
  RealMemoryBarrier : VkMemoryBarrier
  bEnsureFailed : Bool
deriving DecidableEq, Repr

open VkImageLayout in
/-- The part of the body of the loop over the image barriers that follows the resolution of
the source layout (lines 1188 to 1215 of the source). `Texture` is the texture after the
call of `OnLayoutTransition`, `M` is the layout manager after `GetOrAddFullLayout` and
`Layout` the table of the texture. -/
def CommitBarrier (Data : FVulkanPipelineBarrier) (ImageBarrier : VkImageMemoryBarrier)
    (Texture : FVulkanTextureBase) (M : FVulkanLayoutManager) (Layout : FVulkanImageLayout)
    (SrcLayout : VkImageLayout) (SrcAccessFlags RealSrcStageMask : Nat)
    (Calls : List (FVulkanTextureBase × VkImageLayout)) (s : FImageLoop) : Option FImageLoop :=
  let RealBarrier : VkImageMemoryBarrier := { ImageBarrier with
    image := Texture.Surface.Image
    srcAccessMask := SrcAccessFlags
    oldLayout := SrcLayout
    newLayout := ImageBarrier.newLayout }
  let A := AdjustDepthStencilLayout RealBarrier Texture.Surface.FullAspectMask
  if Data.SrcPipelines = Data.DstPipelines ∧ A.1.oldLayout = A.1.newLayout then
    some { LayoutManager := M
           OnLayoutTransitionCalls := Calls
           RealImageBarriers := s.RealImageBarriers
           RealSrcStageMask := RealSrcStageMask
           RealMemoryBarrier :=
             AddMemoryBarrier s.RealMemoryBarrier A.1.srcAccessMask A.1.dstAccessMask
           bEnsureFailed := s.bEnsureFailed || A.2 }
  else
    let RealBarrier1 : VkImageMemoryBarrier :=
      if Data.SrcPipelines = Data.DstPipelines then A.1 else { A.1 with srcAccessMask := 0 }
    (Layout.Set RealBarrier1.newLayout RealBarrier1.subresourceRange).map (fun Layout1 =>
      { LayoutManager := M.Assign Texture.Surface.Image Layout1
        OnLayoutTransitionCalls := Calls
        RealImageBarriers := s.RealImageBarriers ++ [RealBarrier1]
        RealSrcStageMask := RealSrcStageMask
        RealMemoryBarrier := s.RealMemoryBarrier
        bEnsureFailed := s.bEnsureFailed || A.2 })

open VkImageLayout in
/-- The body of the loop over the image barriers (lines 1145 to 1215 of the source).
`OnLayoutTransition` gives the image handle a texture holds after the call of its method of
that name; what follows the call reads the texture after it. -/
def ImageBarrierBody (OnLayoutTransition : FVulkanTextureBase → VkImageLayout → Nat)
    (P : FVulkanPlatformDefines) (DO_GUARD_SLOW : Bool)
    (Data : FVulkanPipelineBarrier) (ImageBarrier : VkImageMemoryBarrier)
    (Texture : FVulkanTextureBase) (s : FImageLoop) : Option FImageLoop :=
  if Texture.Surface.bCPUReadback then some s
  else
    let Calls := s.OnLayoutTransitionCalls ++ [(Texture, ImageBarrier.newLayout)]
    let Texture1 := Texture.AfterLayoutTransition OnLayoutTransition ImageBarrier.newLayout
    if ¬(Texture1.Surface.Image ≠ VK_NULL_HANDLE ∧ ImageBarrier.image = VK_NULL_HANDLE) then none
    else
      let ML := s.LayoutManager.GetOrAddFullLayout Texture1.Surface VK_IMAGE_LAYOUT_UNDEFINED
      let Layout := ML.2
      if ImageBarrier.newLayout = VK_IMAGE_LAYOUT_UNDEFINED then none
      else
        let DstLayout := ImageBarrier.newLayout
        if ImageBarrier.oldLayout = VK_IMAGE_LAYOUT_UNDEFINED then
          if Layout.AreAllSubresourcesSameLayout then
            (GetVkAccessMaskForLayout P Layout.MainLayout).bind (fun SrcAccessFlags =>
              (GetVkStageFlagsForLayout P Layout.MainLayout).bind (fun Stage =>
                CommitBarrier Data ImageBarrier Texture1 ML.1 Layout Layout.MainLayout
                  SrcAccessFlags (s.RealSrcStageMask ||| Stage) Calls s))
          else
            if Data.SrcPipelines ≠ Data.DstPipelines then none
            else
              (AddSubresourceTransitions P s.RealImageBarriers s.RealSrcStageMask ImageBarrier
                  Texture1.Surface.Image Layout DstLayout).map (fun r =>
                { LayoutManager := ML.1.Assign Texture1.Surface.Image r.2.2
                  OnLayoutTransitionCalls := Calls
                  RealImageBarriers := r.1
                  RealSrcStageMask := r.2.1
                  RealMemoryBarrier := s.RealMemoryBarrier
                  bEnsureFailed := s.bEnsureFailed })
        else
          if DO_GUARD_SLOW = true ∧
              Layout.AreSubresourcesSameLayout ImageBarrier.oldLayout
                ImageBarrier.subresourceRange ≠ some true then none
          else
            CommitBarrier Data ImageBarrier Texture1 ML.1 Layout ImageBarrier.oldLayout
              ImageBarrier.srcAccessMask s.RealSrcStageMask Calls s

/-- The loop `for (ImgBarrierIdx = 0; ImgBarrierIdx < Data->ImageBarriers.Num(); ...)` over the
image barriers and their textures; the two arrays have the same length (the `check` before
the loop), so the loop visits their pairs in order. -/
def ImageBarrierLoop (OnLayoutTransition : FVulkanTextureBase → VkImageLayout → Nat)
    (P : FVulkanPlatformDefines) (DO_GUARD_SLOW : Bool) (Data : FVulkanPipelineBarrier) :
    List (VkImageMemoryBarrier × FVulkanTextureBase) → FImageLoop → Option FImageLoop
  | [], s => some s
  | (ImageBarrier, Texture) :: Rest, s =>
    match ImageBarrierBody OnLayoutTransition P DO_GUARD_SLOW Data ImageBarrier Texture s with
    | none => none
    | some s1 => ImageBarrierLoop OnLayoutTransition P DO_GUARD_SLOW Data Rest s1

/-- The variables the second loop of `RHIEndTransitions` updates. -/
structure FState where
  Context : FVulkanCommandListContext
  bEnsureFailed : Bool
deriving DecidableEq, Repr

/-- The `switch (Data->DstPipelines)` under `#if DO_GUARD_SLOW` (lines 1109 to 1122 of the
source): whether its `checkf` passes. -/
def GuardDstPipeline (DstPipelines : ERHIPipeline) (bIsRealAsyncComputeContext : Bool) : Bool :=
  match DstPipelines with
  | ERHIPipeline.Graphics => !bIsRealAsyncComputeContext
  | ERHIPipeline.AsyncCompute => bIsRealAsyncComputeContext

/-- The body of the second loop (lines 1100 to 1224 of the source). -/
def TransitionBody (OnLayoutTransition : FVulkanTextureBase → VkImageLayout → Nat)
    (P : FVulkanPlatformDefines) (DO_GUARD_SLOW : Bool)
    (Data : FVulkanPipelineBarrier) (s : FState) : Option FState :=
  if Data.SrcStageMask = 0 ∨ Data.DstStageMask = 0 then
    if Data.ImageBarriers.length = 0 ∧ Data.BufferBarriers.length = 0 then some s else none
  else if DO_GUARD_SLOW = true ∧
      GuardDstPipeline Data.DstPipelines s.Context.bIsRealAsyncComputeContext = false then none
  else if ¬(Data.SrcPipelines ≠ Data.DstPipelines ∨ Data.BufferBarriers.length = 0) then none
  else
    let RealBufferBarriers := Data.BufferBarriers.map (fun BufferBarrier =>
      { BufferBarrier with srcAccessMask := 0 })
    if Data.ImageBarriers.length ≠ Data.Textures.length then none
    else
      (ImageBarrierLoop OnLayoutTransition P DO_GUARD_SLOW Data
          (Data.ImageBarriers.zip Data.Textures)
          { LayoutManager := s.Context.LayoutManager
            OnLayoutTransitionCalls := s.Context.OnLayoutTransitionCalls
            RealImageBarriers := []
            RealSrcStageMask := Data.SrcStageMask
            RealMemoryBarrier := Data.MemoryBarrier
            bEnsureFailed := s.bEnsureFailed }).bind (fun r =>
        let NumMemoryBarriers : Nat :=
          if r.RealMemoryBarrier.srcAccessMask ≠ 0 ∨ r.RealMemoryBarrier.dstAccessMask ≠ 0 then 1
          else 0
        let Context1 : FVulkanCommandListContext := { s.Context with
          LayoutManager := r.LayoutManager
          OnLayoutTransitionCalls := r.OnLayoutTransitionCalls }
        if NumMemoryBarriers = 0 ∧ RealBufferBarriers.length = 0 ∧
            r.RealImageBarriers.length = 0 then
          some { Context := Context1, bEnsureFailed := r.bEnsureFailed }
        else
          (s.Context.CommandBufferManager.CmdPipelineBarrier
              { srcStageMask := r.RealSrcStageMask
                dstStageMask := Data.DstStageMask
                MemoryBarriers := if NumMemoryBarriers = 1 then [r.RealMemoryBarrier] else []
                BufferBarriers := RealBufferBarriers
                ImageBarriers := r.RealImageBarriers }).map (fun CBM =>
            { Context := { Context1 with CommandBufferManager := CBM }
              bEnsureFailed := r.bEnsureFailed }))

/-- The second loop `for (const FRHITransition* Transition : Transitions)`. -/
def TransitionLoop (OnLayoutTransition : FVulkanTextureBase → VkImageLayout → Nat)
    (P : FVulkanPlatformDefines) (DO_GUARD_SLOW : Bool) :
    List FVulkanPipelineBarrier → FState → Option FState
  | [], s => some s
  | Data :: Rest, s =>
    match TransitionBody OnLayoutTransition P DO_GUARD_SLOW Data s with
    | none => none
    | some s1 => TransitionLoop OnLayoutTransition P DO_GUARD_SLOW Rest s1

end RHIEndTransitions

open RHIEndTransitions in
/-- The method `FVulkanCommandListContext::RHIEndTransitions` on the private data of the
transitions of the batch. `OnLayoutTransition` gives the image handle a texture holds after
the call of its method of that name. The result is the context after the call and whether an
`ensure` was violated; `none` is a failed `check` or the use of a null command buffer. -/
def RHIEndTransitions (OnLayoutTransition : FVulkanTextureBase → VkImageLayout → Nat)
    (P : FVulkanPlatformDefines) (DO_GUARD_SLOW : Bool)
    (Context : FVulkanCommandListContext) (Transitions : List FVulkanPipelineBarrier) :
    Option (FVulkanCommandListContext × Bool) :=
  (WaitLoop Transitions
      { CommandBufferManager := Context.CommandBufferManager
        bSeenWaitSemaphore := false }).bind (fun w =>
    (TransitionLoop OnLayoutTransition P DO_GUARD_SLOW Transitions
        { Context := { Context with CommandBufferManager := w.CommandBufferManager }
          bEnsureFailed := false }).map (fun s => (s.Context, s.bEnsureFailed)))

/-- Every image barrier recorded so far through the command buffer manager: those of the
pipeline barriers of the submitted command buffers, in order of submission, followed by those
of the active command buffer. -/
def FVulkanCommandBufferManager.RecordedImageBarriers (M : FVulkanCommandBufferManager) :
    List VkImageMemoryBarrier :=
  ((M.Submitted.map (fun e => e.1) ++ M.ActiveCmdBuffer.toList).map
    (fun CmdBuffer =>
      (CmdBuffer.PipelineBarriers.map (fun Call => Call.ImageBarriers)).flatten)).flatten

/-- Every pipeline barrier recorded so far through the command buffer manager: the calls of
`vkCmdPipelineBarrier` of the submitted command buffers, in order of submission, followed by
those of the active command buffer. -/
def FVulkanCommandBufferManager.RecordedPipelineBarriers (M : FVulkanCommandBufferManager) :
    List FVulkanCmdPipelineBarrier :=
  ((M.Submitted.map (fun e => e.1) ++ M.ActiveCmdBuffer.toList).map
    (fun CmdBuffer => CmdBuffer.PipelineBarriers)).flatten

/-! ## Layout transitions made by the RHI itself -/

namespace FVulkanPipelineBarrier

/-- The method `FVulkanPipelineBarrier::AddImageLayoutTransition` (lines 1232 to 1242 of the
source). The result is the barrier set after the call; `none` is the `checkNoEntry` of the
two mask functions. -/
def AddImageLayoutTransition (P : FVulkanPlatformDefines) (Barrier : FVulkanPipelineBarrier)
    (Image : Nat) (SrcLayout DstLayout : VkImageLayout)
    (SubresourceRange : VkImageSubresourceRange) : Option FVulkanPipelineBarrier :=
  (GetVkStageFlagsForLayout P SrcLayout).bind (fun SrcStage =>
    (GetVkStageFlagsForLayout P DstLayout).bind (fun DstStage =>
      (GetVkAccessMaskForLayout P SrcLayout).bind (fun SrcAccessFlags =>
        (GetVkAccessMaskForLayout P DstLayout).map (fun DstAccessFlags =>
          { Barrier with
            SrcStageMask := Barrier.SrcStageMask ||| SrcStage
            DstStageMask := Barrier.DstStageMask ||| DstStage
            ImageBarriers := Barrier.ImageBarriers ++ [
              SetupImageBarrier Image SrcAccessFlags DstAccessFlags SrcLayout DstLayout
                SubresourceRange] }))))

/-- The function `FVulkanPipelineBarrier::MakeSubresourceRange` (lines 1289 to 1298 of the
source). -/
def MakeSubresourceRange (AspectMask FirstMip NumMips FirstLayer NumLayers : Nat) :
    VkImageSubresourceRange :=
  { aspectMask := AspectMask
    baseMipLevel := FirstMip
    levelCount := NumMips
    baseArrayLayer := FirstLayer
    layerCount := NumLayers }

/-- Modelled from the spec: the call `MakeSubresourceRange(AspectMask)` with one argument
takes the other four from the default arguments of the declaration in `VulkanBarriers.h`,
which is not among the sources; it designates the whole image (first mip 0, all remaining
mips, first layer 0, all remaining layers). -/
def MakeSubresourceRangeEntireRes (AspectMask : Nat) : VkImageSubresourceRange :=
  MakeSubresourceRange AspectMask 0 VK_REMAINING_MIP_LEVELS 0 VK_REMAINING_ARRAY_LAYERS

end FVulkanPipelineBarrier

/-- Modelled from the spec: what the source reads of a colour entry
`FRHIRenderPassInfo::FColorEntry` of a render pass, a type of the RHI headers, which are not
among the sources: the render target and the resolve target (`none` for a null pointer) and
the array slice and the mip index as they are passed to the `uint32` parameters of
`GetSubresLayout` and `MakeSubresourceRange`. -/
structure FRHIRenderPassInfo.FColorEntry where
  RenderTarget : Option FVulkanTextureBase
  ResolveTarget : Option FVulkanTextureBase
  ArraySlice : Nat
  MipIndex : Nat
deriving DecidableEq, Repr

open VkImageLayout FVulkanPipelineBarrier in
/-- The method `FVulkanLayoutManager::ValidateRenderPassColorEntry` (lines 1463 to 1491 of the
source). The result is the registry and the barrier set after the call and whether the
`ensureMsgf` on the current layout was violated; `none` is a null texture, a failed `check`
or a failed array access. -/
def FVulkanLayoutManager.ValidateRenderPassColorEntry (P : FVulkanPlatformDefines)
    (M : FVulkanLayoutManager) (ColorEntry : FRHIRenderPassInfo.FColorEntry)
    (bResolveTarget : Bool) (Barrier : FVulkanPipelineBarrier) :
    Option (FVulkanLayoutManager × FVulkanPipelineBarrier × Bool) :=
  match (if bResolveTarget then ColorEntry.ResolveTarget else ColorEntry.RenderTarget) with
  | none => none
  | some Texture =>
    if Texture.Surface.Image = VK_NULL_HANDLE then none
    else
      let ExpectedVkLayout := VK_IMAGE_LAYOUT_COLOR_ATTACHMENT_OPTIMAL
      let ML := M.GetOrAddFullLayout Texture.Surface VK_IMAGE_LAYOUT_UNDEFINED
      let LayoutInfo := ML.2
      (LayoutInfo.GetSubresLayout ColorEntry.ArraySlice ColorEntry.MipIndex).bind
        (fun CurrentVkLayout =>
          if CurrentVkLayout = ExpectedVkLayout then some (ML.1, Barrier, false)
          else if LayoutInfo.AreAllSubresourcesSameLayout then
            (Barrier.AddImageLayoutTransition P Texture.Surface.Image CurrentVkLayout
                ExpectedVkLayout (MakeSubresourceRangeEntireRes VK_IMAGE_ASPECT_COLOR_BIT)).map
              (fun Barrier1 =>
                (ML.1.Assign Texture.Surface.Image
                  { LayoutInfo with MainLayout := ExpectedVkLayout }, Barrier1, true))
          else
            let SubresRange := MakeSubresourceRange VK_IMAGE_ASPECT_COLOR_BIT
              ColorEntry.MipIndex 1 ColorEntry.ArraySlice 1
            (Barrier.AddImageLayoutTransition P Texture.Surface.Image CurrentVkLayout
                ExpectedVkLayout SubresRange).bind (fun Barrier1 =>
              (LayoutInfo.Set ExpectedVkLayout SubresRange).map (fun LayoutInfo1 =>
                (ML.1.Assign Texture.Surface.Image LayoutInfo1, Barrier1, true))))

/-! ## Loops and checked array accesses -/

theorem u32_of_lt {n : Nat} (h : n < 4294967296) : u32 n = n := by
  unfold u32; exact Nat.mod_eq_of_lt h

theorem forLoopAux_inv {σ : Type} (Body : Nat → σ → Option σ) (Inv : Nat → σ → Prop) :
    ∀ (n First : Nat) (s : σ), Inv First s →
      (∀ i s0, First ≤ i → i < First + n → Inv i s0 →
        ∃ s1, Body i s0 = some s1 ∧ Inv (i + 1) s1) →
      ∃ s1, forLoopAux Body First n s = some s1 ∧ Inv (First + n) s1 := by
  intro n
  induction n with
  | zero => intro First s h0 _; exact ⟨s, rfl, by simpa using h0⟩
  | succ n ih =>
    intro First s h0 hstep
    obtain ⟨s1, hb, h1⟩ := hstep First s (Nat.le_refl _) (by omega) h0
    obtain ⟨s2, hl, h2⟩ := ih (First + 1) s1 h1 (fun i s0 hi hlt hinv =>
      hstep i s0 (by omega) (by omega) hinv)
    refine ⟨s2, ?_, ?_⟩
    · simp only [forLoopAux, hb]; exact hl
    · have : First + 1 + n = First + (n + 1) := by omega
      rw [← this]; exact h2

theorem forLoop_inv {σ : Type} (Body : Nat → σ → Option σ) (Inv : Nat → σ → Prop)
    (First Last : Nat) (s : σ) (hle : First ≤ Last) (h0 : Inv First s)
    (hstep : ∀ i s0, First ≤ i → i < Last → Inv i s0 →
      ∃ s1, Body i s0 = some s1 ∧ Inv (i + 1) s1) :
    ∃ s1, forLoop Body First Last s = some s1 ∧ Inv Last s1 := by
  obtain ⟨s1, h1, h2⟩ := forLoopAux_inv Body Inv (Last - First) First s h0
    (fun i s0 hi hlt hinv => hstep i s0 hi (by omega) hinv)
  refine ⟨s1, h1, ?_⟩
  have : First + (Last - First) = Last := by omega
  rw [← this]; exact h2

theorem forAllLoopAux_spec (Test : Nat → Option Bool) :
    ∀ (n First : Nat), (∀ i, First ≤ i → i < First + n → ∃ b, Test i = some b) →
      ∃ b, forAllLoopAux Test First n = some b ∧
        (b = true ↔ ∀ i, First ≤ i → i < First + n → Test i = some true) := by
  intro n
  induction n with
  | zero =>
    intro First _
    exact ⟨true, rfl, by simp; intro i h1 h2; omega⟩
  | succ n ih =>
    intro First hdef
    obtain ⟨b0, hb0⟩ := hdef First (Nat.le_refl _) (by omega)
    cases b0 with
    | false =>
      refine ⟨false, by simp [forAllLoopAux, hb0], ?_⟩
      constructor
      · intro h; cases h
      · intro h
        have := h First (Nat.le_refl _) (by omega)
        rw [hb0] at this; cases this
    | true =>
      obtain ⟨b, hb, hiff⟩ := ih (First + 1) (fun i hi hlt => hdef i (by omega) (by omega))
      refine ⟨b, by simp [forAllLoopAux, hb0, hb], ?_⟩
      rw [hiff]
      constructor
      · intro h i hi hlt
        by_cases hEq : i = First
        · subst hEq; exact hb0
        · exact h i (by omega) (by omega)
      · intro h i hi hlt
        exact h i (by omega) (by omega)

theorem forAllLoop_spec (Test : Nat → Option Bool) (First Last : Nat)
    (hdef : ∀ i, First ≤ i → i < Last → ∃ b, Test i = some b) :
    ∃ b, forAllLoop Test First Last = some b ∧
      (b = true ↔ ∀ i, First ≤ i → i < Last → Test i = some true) := by
  obtain ⟨b, hb, hiff⟩ := forAllLoopAux_spec Test (Last - First) First
    (fun i hi hlt => hdef i hi (by omega))
  refine ⟨b, hb, ?_⟩
  rw [hiff]
  constructor
  · intro h i hi hlt; exact h i hi (by omega)
  · intro h i hi hlt; exact h i hi (by omega)

theorem subres_index_lt {NL NM l p : Nat} (hl : l < NL) (hp : p < NM) :
    l * NM + p < NL * NM := by
  have h1 : (l + 1) * NM ≤ NL * NM := Nat.mul_le_mul_right NM hl
  have h2 : (l + 1) * NM = l * NM + NM := by ring
  omega

theorem subres_index_inj {NM l p l1 p1 : Nat} (hp : p < NM) (hp1 : p1 < NM) :
    l * NM + p = l1 * NM + p1 ↔ l = l1 ∧ p = p1 := by
  constructor
  · intro h
    have hpos : 0 < NM := by omega
    have hd : (l * NM + p) / NM = (l1 * NM + p1) / NM := by rw [h]
    have hm : (l * NM + p) % NM = (l1 * NM + p1) % NM := by rw [h]
    rw [Nat.mul_comm l, Nat.mul_comm l1, Nat.mul_add_div hpos, Nat.mul_add_div hpos,
      Nat.div_eq_of_lt hp, Nat.div_eq_of_lt hp1] at hd
    rw [Nat.mul_comm l, Nat.mul_comm l1, Nat.mul_add_mod, Nat.mul_add_mod,
      Nat.mod_eq_of_lt hp, Nat.mod_eq_of_lt hp1] at hm
    exact ⟨by omega, hm⟩
  · rintro ⟨rfl, rfl⟩; rfl

theorem subres_ext {NL NM : Nat} {A B : List VkImageLayout} (hA : A.length = NL * NM)
    (hB : B.length = NL * NM)
    (h : ∀ l p, l < NL → p < NM → A[l * NM + p]? = B[l * NM + p]?) : A = B := by
  apply List.ext_getElem?
  intro i
  by_cases hi : i < NL * NM
  · have hpos : 0 < NM := by
      rcases Nat.eq_zero_or_pos NM with h0 | h0
      · subst h0; simp at hi
      · exact h0
    have hdm : i / NM * NM + i % NM = i := by
      rw [Nat.mul_comm]; exact Nat.div_add_mod i NM
    have hl : i / NM < NL := by
      apply Nat.div_lt_of_lt_mul; rw [Nat.mul_comm]; exact hi
    have := h (i / NM) (i % NM) hl (Nat.mod_lt _ hpos)
    rw [hdm] at this; exact this
  · rw [List.getElem?_eq_none (by omega), List.getElem?_eq_none (by omega)]

theorem TArraySet_fill (v : VkImageLayout) (n : Nat) (A : List VkImageLayout)
    (hA : A.length = n) :
    forLoop (fun i A0 => TArraySet A0 i v) 0 n A = some (List.replicate n v) := by
  obtain ⟨A1, h1, hlen, hall⟩ := forLoop_inv (fun i A0 => TArraySet A0 i v)
    (fun i A0 => A0.length = n ∧ ∀ j, j < i → A0[j]? = some v) 0 n A (Nat.zero_le _)
    ⟨hA, by intro j hj; omega⟩
    (by
      intro i A0 _ hi ⟨hlen, hall⟩
      refine ⟨A0.set i v, by simp [TArraySet, hlen, hi], by simp [hlen], ?_⟩
      intro j hj
      by_cases hEq : i = j
      · subst hEq; rw [List.getElem?_set_self (by omega)]
      · rw [List.getElem?_set_ne hEq]; exact hall j (by omega))
  rw [h1]
  congr 1
  apply List.ext_getElem?
  intro j
  by_cases hj : j < n
  · rw [hall j hj, List.getElem?_replicate_of_lt hj]
  · rw [List.getElem?_eq_none (by omega), List.getElem?_eq_none (by simp; omega)]

theorem writeMips_spec (NL NM Layer FM MC : Nat) (L : VkImageLayout) (A : List VkImageLayout)
    (hN : NL * NM < 4294967296) (hlen : A.length = NL * NM) (hLayer : Layer < NL)
    (hm : FM + MC ≤ NM) :
    ∃ B, forLoop (fun Mip A1 => TArraySet A1 (u32 (Layer * NM + Mip)) L) FM (FM + MC) A = some B ∧
      B.length = NL * NM ∧
      ∀ l p, l < NL → p < NM →
        B[l * NM + p]? = if l = Layer ∧ FM ≤ p ∧ p < FM + MC then some L else A[l * NM + p]? := by
  apply forLoop_inv (fun Mip A1 => TArraySet A1 (u32 (Layer * NM + Mip)) L)
    (fun m B => B.length = NL * NM ∧ ∀ l p, l < NL → p < NM →
      B[l * NM + p]? = if l = Layer ∧ FM ≤ p ∧ p < m then some L else A[l * NM + p]?)
    FM (FM + MC) A (by omega)
  · refine ⟨hlen, ?_⟩
    intro l p _ _
    have : ¬ (l = Layer ∧ FM ≤ p ∧ p < FM) := by omega
    simp [this]
  · intro m B hm1 hm2 ⟨hB, hall⟩
    have hidx : Layer * NM + m < NL * NM := subres_index_lt hLayer (by omega)
    have hu : u32 (Layer * NM + m) = Layer * NM + m := u32_of_lt (by omega)
    refine ⟨B.set (Layer * NM + m) L, by simp [TArraySet, hu, hB, hidx], by simp [hB], ?_⟩
    intro l p hl hp
    by_cases hEq : Layer * NM + m = l * NM + p
    · rw [hEq, List.getElem?_set_self (by rw [hB]; exact subres_index_lt hl hp)]
      obtain ⟨h1, h2⟩ := (subres_index_inj (by omega) hp).mp hEq
      have : l = Layer ∧ FM ≤ p ∧ p < m + 1 := by omega
      simp [this]
    · rw [List.getElem?_set_ne hEq, hall l p hl hp]
      have hne : ¬ (l = Layer ∧ p = m) := by
        rintro ⟨rfl, rfl⟩; exact hEq rfl
      by_cases hc : l = Layer ∧ FM ≤ p ∧ p < m
      · have : l = Layer ∧ FM ≤ p ∧ p < m + 1 := by omega
        simp [hc, this]
      · have : ¬ (l = Layer ∧ FM ≤ p ∧ p < m + 1) := by omega
        simp [hc, this]

theorem writeRange_spec (NL NM FL LC FM MC : Nat) (L : VkImageLayout) (A : List VkImageLayout)
    (hN : NL * NM < 4294967296) (hlen : A.length = NL * NM) (hl : FL + LC ≤ NL)
    (hm : FM + MC ≤ NM) :
    ∃ B, forLoop (fun Layer A0 =>
          forLoop (fun Mip A1 => TArraySet A1 (u32 (Layer * NM + Mip)) L) FM (FM + MC) A0)
        FL (FL + LC) A = some B ∧
      B.length = NL * NM ∧
      ∀ l p, l < NL → p < NM →
        B[l * NM + p]? =
          if FL ≤ l ∧ l < FL + LC ∧ FM ≤ p ∧ p < FM + MC then some L else A[l * NM + p]? := by
  apply forLoop_inv _
    (fun k B => B.length = NL * NM ∧ ∀ l p, l < NL → p < NM →
      B[l * NM + p]? =
        if FL ≤ l ∧ l < k ∧ FM ≤ p ∧ p < FM + MC then some L else A[l * NM + p]?)
    FL (FL + LC) A (by omega)
  · refine ⟨hlen, ?_⟩
    intro l p _ _
    have : ¬ (FL ≤ l ∧ l < FL ∧ FM ≤ p ∧ p < FM + MC) := by omega
    simp [this]
  · intro k B hk1 hk2 ⟨hB, hall⟩
    obtain ⟨B1, h1, hB1, hall1⟩ := writeMips_spec NL NM k FM MC L B hN hB (by omega) hm
    refine ⟨B1, h1, hB1, ?_⟩
    intro l p hl hp
    rw [hall1 l p hl hp, hall l p hl hp]
    by_cases hc : l = k ∧ FM ≤ p ∧ p < FM + MC
    · have : FL ≤ l ∧ l < k + 1 ∧ FM ≤ p ∧ p < FM + MC := by omega
      rw [if_pos hc, if_pos this]
    · by_cases hd : FL ≤ l ∧ l < k ∧ FM ≤ p ∧ p < FM + MC
      · have : FL ≤ l ∧ l < k + 1 ∧ FM ≤ p ∧ p < FM + MC := by omega
        rw [if_neg hc, if_pos hd, if_pos this]
      · have : ¬ (FL ≤ l ∧ l < k + 1 ∧ FM ≤ p ∧ p < FM + MC) := by omega
        rw [if_neg hc, if_neg hd, if_neg this]

/-! ## The layout table -/

namespace FVulkanImageLayout

theorem GetSubresLayout_uniform (t : FVulkanImageLayout) (h : t.SubresLayouts = [])
    (l p : Nat) : t.GetSubresLayout l p = some t.MainLayout := by
  simp [GetSubresLayout, h]

theorem GetSubresLayout_dense (t : FVulkanImageLayout) (hWF : t.WellFormed)
    (h : t.SubresLayouts ≠ []) (l p : Nat) (hl : l < t.NumLayers) (hp : p < t.NumMips) :
    t.GetSubresLayout l p = t.SubresLayouts[l * t.NumMips + p]? := by
  have hlen : t.SubresLayouts.length ≠ 0 := by
    intro h0; exact h (List.length_eq_zero.mp h0)
  have hidx := subres_index_lt hl hp
  obtain ⟨_, _, hN, _⟩ := hWF
  simp [GetSubresLayout, hlen, TArrayGet, u32_of_lt (show l * t.NumMips + p < 4294967296 by omega)]

theorem Collapse_empty (t : FVulkanImageLayout) (h : t.SubresLayouts = []) :
    t.CollapseSubresLayoutsIfSame = some t := by
  simp [CollapseSubresLayoutsIfSame, h]

theorem Collapse_same (t : FVulkanImageLayout) (c : VkImageLayout)
    (hN : t.NumLayers * t.NumMips < 4294967296) (hpos : 0 < t.NumLayers * t.NumMips)
    (h : t.SubresLayouts = List.replicate (t.NumLayers * t.NumMips) c) :
    t.CollapseSubresLayoutsIfSame = some { t with MainLayout := c, SubresLayouts := [] } := by
  have hlen : t.SubresLayouts.length ≠ 0 := by rw [h, List.length_replicate]; omega
  have h0 : TArrayGet t.SubresLayouts 0 = some c := by
    rw [h]; simp [TArrayGet, List.getElem?_replicate, hpos]
  obtain ⟨b, hb, hiff⟩ := forAllLoop_spec
    (fun i => (TArrayGet t.SubresLayouts i).map (fun x => decide (x = c))) 1
    (u32 (t.NumLayers * t.NumMips))
    (by
      intro i _ hi
      rw [u32_of_lt hN] at hi
      refine ⟨true, ?_⟩
      rw [h]; simp [TArrayGet, List.getElem?_replicate, hi])
  have hbt : b = true := by
    rw [hiff]
    intro i _ hi
    rw [u32_of_lt hN] at hi
    rw [h]; simp [TArrayGet, List.getElem?_replicate, hi]
  subst hbt
  simp only [CollapseSubresLayoutsIfSame, if_neg hlen, h0, hb]

theorem Collapse_mixed (t : FVulkanImageLayout)
    (hN : t.NumLayers * t.NumMips < 4294967296)
    (hlen : t.SubresLayouts.length = t.NumLayers * t.NumMips)
    (h : ∃ i, i < t.NumLayers * t.NumMips ∧ t.SubresLayouts[i]? ≠ t.SubresLayouts[0]?) :
    t.CollapseSubresLayoutsIfSame = some t := by
  obtain ⟨i, hi, hne⟩ := h
  have hlen0 : t.SubresLayouts.length ≠ 0 := by omega
  have h0 : ∃ c, t.SubresLayouts[0]? = some c :=
    ⟨t.SubresLayouts[0], List.getElem?_eq_getElem (by omega)⟩
  obtain ⟨c, hc⟩ := h0
  obtain ⟨b, hb, hiff⟩ := forAllLoop_spec
    (fun i => (TArrayGet t.SubresLayouts i).map (fun x => decide (x = c))) 1
    (u32 (t.NumLayers * t.NumMips))
    (by
      intro j _ hj
      rw [u32_of_lt hN] at hj
      refine ⟨decide (t.SubresLayouts[j] = c), ?_⟩
      simp [TArrayGet, List.getElem?_eq_getElem (show j < t.SubresLayouts.length by omega)])
  have hbf : b = false := by
    cases b with
    | false => rfl
    | true =>
      exfalso
      have hi1 : 1 ≤ i := by
        rcases Nat.eq_zero_or_pos i with h0 | h0
        · subst h0; exact absurd rfl hne
        · exact h0
      have := hiff.mp rfl i hi1 (by rw [u32_of_lt hN]; exact hi)
      simp only [TArrayGet, List.getElem?_eq_getElem (show i < t.SubresLayouts.length by omega),
        Option.map_some', Option.some.injEq, decide_eq_true_eq] at this
      apply hne
      rw [hc, List.getElem?_eq_getElem (show i < t.SubresLayouts.length by omega), this]
  subst hbf
  have hc0 : TArrayGet t.SubresLayouts 0 = some c := hc
  simp only [CollapseSubresLayoutsIfSame, if_neg hlen0, hc0, hb]

theorem Set_full (t : FVulkanImageLayout) (L : VkImageLayout) (R : VkImageSubresourceRange)
    (hfull : R.baseArrayLayer = 0 ∧ t.GetSubresRangeLayerCount R = t.NumLayers ∧
      R.baseMipLevel = 0 ∧ t.GetSubresRangeMipCount R = t.NumMips) :
    t.Set L R = some { t with MainLayout := L, SubresLayouts := [] } := by
  simp only [Set, if_pos hfull]

theorem Set_not_full (t : FVulkanImageLayout) (L : VkImageLayout) (R : VkImageSubresourceRange)
    (hWF : t.WellFormed) (hIB : t.InBounds R)
    (hnot : ¬ (R.baseArrayLayer = 0 ∧ t.GetSubresRangeLayerCount R = t.NumLayers ∧
      R.baseMipLevel = 0 ∧ t.GetSubresRangeMipCount R = t.NumMips)) :
    ∃ B, B.length = t.NumLayers * t.NumMips ∧
      (∀ l p, l < t.NumLayers → p < t.NumMips →
        B[l * t.NumMips + p]? = if t.InRange R l p then some L else t.GetSubresLayout l p) ∧
      t.Set L R = CollapseSubresLayoutsIfSame { t with SubresLayouts := B } := by
  obtain ⟨hNL, hNM, hN, hlen⟩ := hWF
  obtain ⟨hl, hm⟩ := hIB
  have hWF : t.WellFormed := ⟨hNL, hNM, hN, hlen⟩
  have huN : u32 (t.NumLayers * t.NumMips) = t.NumLayers * t.NumMips := u32_of_lt (by omega)
  have huL : u32 (R.baseArrayLayer + t.GetSubresRangeLayerCount R) =
      R.baseArrayLayer + t.GetSubresRangeLayerCount R := u32_of_lt (by omega)
  have huM : u32 (R.baseMipLevel + t.GetSubresRangeMipCount R) =
      R.baseMipLevel + t.GetSubresRangeMipCount R := u32_of_lt (by omega)
  -- the array the range is written into
  have hmat : ∃ A, A.length = t.NumLayers * t.NumMips ∧
      (∀ l p, l < t.NumLayers → p < t.NumMips → A[l * t.NumMips + p]? = t.GetSubresLayout l p) ∧
      (if t.SubresLayouts.length = 0 then
        (TArraySetNum (u32 (t.NumLayers * t.NumMips))).bind
          (forLoop (fun i A => TArraySet A i t.MainLayout) 0 (u32 (t.NumLayers * t.NumMips)))
       else some t.SubresLayouts) = some A := by
    by_cases h0 : t.SubresLayouts.length = 0
    · refine ⟨List.replicate (t.NumLayers * t.NumMips) t.MainLayout, by simp, ?_, ?_⟩
      · intro l p hl1 hp1
        rw [GetSubresLayout_uniform t (List.length_eq_zero.mp h0),
          List.getElem?_replicate_of_lt (subres_index_lt hl1 hp1)]
      · rw [if_pos h0, huN]
        simp only [TArraySetNum, if_pos hN, Option.some_bind]
        exact TArraySet_fill _ _ _ (by simp)
    · refine ⟨t.SubresLayouts, by omega, ?_, by rw [if_neg h0]⟩
      intro l p hl1 hp1
      rw [GetSubresLayout_dense t hWF (by intro h; apply h0; rw [h]; rfl) l p hl1 hp1]
  obtain ⟨A, hA, hAget, hAeq⟩ := hmat
  obtain ⟨B, hB1, hB2, hB3⟩ := writeRange_spec t.NumLayers t.NumMips R.baseArrayLayer
    (t.GetSubresRangeLayerCount R) R.baseMipLevel (t.GetSubresRangeMipCount R) L A
    (by omega) hA hl hm
  refine ⟨B, hB2, ?_, ?_⟩
  · intro l p hl1 hp1
    rw [hB3 l p hl1 hp1, hAget l p hl1 hp1]
    rfl
  · simp only [Set, if_neg hnot, hAeq, huL, huM, Option.some_bind, hB1]

end FVulkanImageLayout

theorem subres_index_decomp {NL NM i : Nat} (hi : i < NL * NM) :
    ∃ l p, l < NL ∧ p < NM ∧ i = l * NM + p := by
  have hpos : 0 < NM := by
    rcases Nat.eq_zero_or_pos NM with h0 | h0
    · subst h0; simp at hi
    · exact h0
  refine ⟨i / NM, i % NM, ?_, Nat.mod_lt _ hpos, ?_⟩
  · apply Nat.div_lt_of_lt_mul; rw [Nat.mul_comm]; exact hi
  · rw [Nat.mul_comm]; exact (Nat.div_add_mod i NM).symm

theorem replicate_or_mixed (B : List VkImageLayout) (n : Nat) (hlen : B.length = n)
    (hpos : 0 < n) :
    (∃ c, B = List.replicate n c) ∨ (∃ i, i < n ∧ B[i]? ≠ B[0]?) := by
  by_cases h : ∃ i, i < n ∧ B[i]? ≠ B[0]?
  · exact Or.inr h
  · left
    have hall : ∀ i, i < n → B[i]? = B[0]? := by
      intro i hi
      by_contra hne
      exact h ⟨i, hi, hne⟩
    refine ⟨B[0], ?_⟩
    apply List.ext_getElem?
    intro i
    by_cases hi : i < n
    · rw [hall i hi, List.getElem?_replicate_of_lt hi, List.getElem?_eq_getElem (by omega)]
    · rw [List.getElem?_eq_none (by omega), List.getElem?_eq_none (by simp; omega)]

namespace FVulkanImageLayout

theorem Collapse_cases (u : FVulkanImageLayout)
    (hN : u.NumLayers * u.NumMips < 4294967296)
    (hlen : u.SubresLayouts.length = u.NumLayers * u.NumMips) :
    (u.SubresLayouts = [] ∧ u.CollapseSubresLayoutsIfSame = some u) ∨
    (∃ c, 0 < u.NumLayers * u.NumMips ∧
      u.SubresLayouts = List.replicate (u.NumLayers * u.NumMips) c ∧
      u.CollapseSubresLayoutsIfSame = some { u with MainLayout := c, SubresLayouts := [] }) ∨
    ((∃ i, i < u.NumLayers * u.NumMips ∧ u.SubresLayouts[i]? ≠ u.SubresLayouts[0]?) ∧
      u.CollapseSubresLayoutsIfSame = some u) := by
  rcases Nat.eq_zero_or_pos (u.NumLayers * u.NumMips) with h0 | hpos
  · left
    have : u.SubresLayouts = [] := List.length_eq_zero.mp (by omega)
    exact ⟨this, Collapse_empty u this⟩
  · right
    rcases replicate_or_mixed u.SubresLayouts _ hlen hpos with ⟨c, hc⟩ | hmix
    · left; exact ⟨c, hpos, hc, Collapse_same u c hN hpos hc⟩
    · right; exact ⟨hmix, Collapse_mixed u hN hlen hmix⟩

/-- What a successful `Set` leaves behind: the extents are kept, the table stays well formed,
every subresource of the range holds the new layout and every other one its old layout, and
a dense array is kept only when two of its entries differ. -/
theorem Set_spec (t : FVulkanImageLayout) (L : VkImageLayout) (R : VkImageSubresourceRange)
    (hWF : t.WellFormed) (hIB : t.InBounds R) :
    ∃ t1, t.Set L R = some t1 ∧ t1.NumLayers = t.NumLayers ∧ t1.NumMips = t.NumMips ∧
      t1.WellFormed ∧
      (∀ l p, l < t.NumLayers → p < t.NumMips →
        t1.GetSubresLayout l p = if t.InRange R l p then some L else t.GetSubresLayout l p) ∧
      (t1.SubresLayouts ≠ [] →
        ∃ i, i < t.NumLayers * t.NumMips ∧ t1.SubresLayouts[i]? ≠ t1.SubresLayouts[0]?) := by
  have hWF0 := hWF
  obtain ⟨hNL, hNM, hN, hlen⟩ := hWF
  by_cases hfull : R.baseArrayLayer = 0 ∧ t.GetSubresRangeLayerCount R = t.NumLayers ∧
      R.baseMipLevel = 0 ∧ t.GetSubresRangeMipCount R = t.NumMips
  · refine ⟨_, Set_full t L R hfull, rfl, rfl, ⟨hNL, hNM, hN, Or.inl rfl⟩, ?_, ?_⟩
    · intro l p hl hp
      have hin : t.InRange R l p := by
        obtain ⟨h1, h2, h3, h4⟩ := hfull
        unfold InRange
        rw [h1, h2, h3, h4]
        omega
      rw [if_pos hin, GetSubresLayout_uniform _ rfl]
    · intro h; exact absurd rfl h
  · obtain ⟨B, hB, hBget, hSet⟩ := Set_not_full t L R hWF0 hIB hfull
    rw [hSet]
    rcases Collapse_cases { t with SubresLayouts := B } (by show t.NumLayers * t.NumMips < _; omega)
      hB with ⟨hE, hC⟩ | ⟨c, hpos, hR, hC⟩ | ⟨hM, hC⟩
    · refine ⟨_, hC, rfl, rfl, ⟨hNL, hNM, hN, Or.inr hB⟩, ?_, ?_⟩
      · intro l p hl hp
        exfalso
        have := subres_index_lt hl hp
        have hB0 : B = [] := hE
        rw [hB0] at hB
        simp at hB
        omega
      · intro h; exact absurd hE h
    · refine ⟨_, hC, rfl, rfl, ⟨hNL, hNM, hN, Or.inl rfl⟩, ?_, ?_⟩
      · intro l p hl hp
        rw [← hBget l p hl hp, GetSubresLayout_uniform _ rfl]
        have hB0 : B = List.replicate (t.NumLayers * t.NumMips) c := hR
        rw [hB0, List.getElem?_replicate_of_lt (subres_index_lt hl hp)]
      · intro h; exact absurd rfl h
    · have hWF1 : WellFormed { t with SubresLayouts := B } := ⟨hNL, hNM, hN, Or.inr hB⟩
      refine ⟨_, hC, rfl, rfl, hWF1, ?_, ?_⟩
      · intro l p hl hp
        rw [← hBget l p hl hp]
        refine GetSubresLayout_dense _ hWF1 ?_ l p hl hp
        intro hE
        have hB0 : B = [] := hE
        have := subres_index_lt hl hp
        rw [hB0] at hB
        simp at hB
        omega
      · intro _; exact hM

/-- C1: after `Set(L, R)` on a well-formed table with an in-bounds range `R`, the layout
returned by `GetSubresLayout(layer, mip)` is `L` for every `(layer, mip)` inside `R`. -/
theorem Set_writes_range (t : FVulkanImageLayout) (L : VkImageLayout)
    (R : VkImageSubresourceRange) (hWF : t.WellFormed) (hIB : t.InBounds R) :
    ∃ t1, t.Set L R = some t1 ∧
      ∀ Layer Mip, t.InRange R Layer Mip → t1.GetSubresLayout Layer Mip = some L := by
  obtain ⟨t1, h1, _, _, _, hget, _⟩ := Set_spec t L R hWF hIB
  refine ⟨t1, h1, ?_⟩
  intro l p hin
  have hl : l < t.NumLayers := by
    obtain ⟨_, h2, _, _⟩ := hin
    exact Nat.lt_of_lt_of_le h2 hIB.1
  have hp : p < t.NumMips := by
    obtain ⟨_, _, _, h4⟩ := hin
    exact Nat.lt_of_lt_of_le h4 hIB.2
  rw [hget l p hl hp, if_pos hin]

/-- C2: `Set(L, R)` on a well-formed table with an in-bounds range `R` changes nothing
outside `R`: every subresource `(layer, mip)` of the table that is not in `R` has the same
`GetSubresLayout` value after the call as before. -/
theorem Set_frame (t : FVulkanImageLayout) (L : VkImageLayout)
    (R : VkImageSubresourceRange) (hWF : t.WellFormed) (hIB : t.InBounds R) :
    ∃ t1, t.Set L R = some t1 ∧
      ∀ Layer Mip, Layer < t.NumLayers → Mip < t.NumMips → ¬ t.InRange R Layer Mip →
        t1.GetSubresLayout Layer Mip = t.GetSubresLayout Layer Mip := by
  obtain ⟨t1, h1, _, _, _, hget, _⟩ := Set_spec t L R hWF hIB
  refine ⟨t1, h1, ?_⟩
  intro l p hl hp hout
  rw [hget l p hl hp, if_neg hout]

end FVulkanImageLayout

namespace FVulkanImageLayout

theorem InBounds_of_extents (t t1 : FVulkanImageLayout) (R : VkImageSubresourceRange)
    (hL : t1.NumLayers = t.NumLayers) (hM : t1.NumMips = t.NumMips) (h : t.InBounds R) :
    t1.InBounds R := by
  unfold InBounds GetSubresRangeLayerCount GetSubresRangeMipCount at *
  rw [hL, hM]; exact h

theorem InRange_of_extents (t t1 : FVulkanImageLayout) (R : VkImageSubresourceRange)
    (hL : t1.NumLayers = t.NumLayers) (hM : t1.NumMips = t.NumMips) (l p : Nat) :
    t1.InRange R l p ↔ t.InRange R l p := by
  unfold InRange GetSubresRangeLayerCount GetSubresRangeMipCount
  rw [hL, hM]

theorem SetAll_canonical (calls : List (VkImageLayout × VkImageSubresourceRange)) :
    ∀ t : FVulkanImageLayout, t.WellFormed →
      (t.SubresLayouts ≠ [] →
        ∃ i, i < t.NumLayers * t.NumMips ∧ t.SubresLayouts[i]? ≠ t.SubresLayouts[0]?) →
      (∀ c ∈ calls, t.InBounds c.2) →
      ∃ t1, t.SetAll calls = some t1 ∧ t1.NumLayers = t.NumLayers ∧ t1.NumMips = t.NumMips ∧
        t1.WellFormed ∧
        (t1.SubresLayouts ≠ [] →
          ∃ i, i < t1.NumLayers * t1.NumMips ∧ t1.SubresLayouts[i]? ≠ t1.SubresLayouts[0]?) := by
  induction calls with
  | nil =>
    intro t hWF hC _
    exact ⟨t, rfl, rfl, rfl, hWF, hC⟩
  | cons c cs ih =>
    intro t hWF _ hIB
    obtain ⟨t1, h1, hL1, hM1, hWF1, _, hC1⟩ :=
      Set_spec t c.1 c.2 hWF (hIB c (List.mem_cons_self _ _))
    obtain ⟨t2, h2, hL2, hM2, hWF2, hC2⟩ := ih t1 hWF1
      (by rw [hL1, hM1]; exact hC1)
      (fun d hd => InBounds_of_extents t t1 d.2 hL1 hM1 (hIB d (List.mem_cons_of_mem _ hd)))
    refine ⟨t2, ?_, by rw [hL2, hL1], by rw [hM2, hM1], hWF2, hC2⟩
    simp only [SetAll, h1, Option.some_bind, h2]

/-- C3: collapse law. Starting from a well-formed uniform table, after any finite sequence
of in-bounds `Set` calls the table is in the uniform representation (empty per-subresource
array, `AreAllSubresourcesSameLayout` true) if and only if all its subresources have the
same layout; in that case `MainLayout` is that layout; and a dense per-subresource array,
when present, holds two different layouts. -/
theorem Set_collapse_law (t0 : FVulkanImageLayout)
    (calls : List (VkImageLayout × VkImageSubresourceRange))
    (hWF : t0.WellFormed) (hU : t0.SubresLayouts = [])
    (hIB : ∀ c ∈ calls, t0.InBounds c.2) :
    ∃ t1, t0.SetAll calls = some t1 ∧
      (t1.AreAllSubresourcesSameLayout = true ↔
        ∃ L, ∀ Layer Mip, Layer < t1.NumLayers → Mip < t1.NumMips →
          t1.GetSubresLayout Layer Mip = some L) ∧
      (t1.AreAllSubresourcesSameLayout = true →
        t1.SubresLayouts = [] ∧
        ∀ Layer Mip, t1.GetSubresLayout Layer Mip = some t1.MainLayout) ∧
      (t1.AreAllSubresourcesSameLayout = false →
        ∃ i j, i < t1.SubresLayouts.length ∧ j < t1.SubresLayouts.length ∧
          t1.SubresLayouts[i]? ≠ t1.SubresLayouts[j]?) := by
  obtain ⟨t1, h1, _, _, hWF1, hC1⟩ := SetAll_canonical calls t0 hWF
    (fun h => absurd hU h) hIB
  have hdense : t1.SubresLayouts ≠ [] → t1.SubresLayouts.length = t1.NumLayers * t1.NumMips := by
    intro hne
    rcases hWF1.2.2.2 with h0 | h0
    · exact absurd (List.length_eq_zero.mp h0) hne
    · exact h0
  refine ⟨t1, h1, ?_, ?_, ?_⟩
  · constructor
    · intro hu
      have hE : t1.SubresLayouts = [] := by
        simpa [AreAllSubresourcesSameLayout] using hu
      exact ⟨t1.MainLayout, fun l p _ _ => GetSubresLayout_uniform t1 hE l p⟩
    · rintro ⟨L, hL⟩
      by_contra hu
      have hne : t1.SubresLayouts ≠ [] := by
        intro hE; apply hu; simp [AreAllSubresourcesSameLayout, hE]
      obtain ⟨i, hi, hdiff⟩ := hC1 hne
      obtain ⟨l, p, hl, hp, rfl⟩ := subres_index_decomp hi
      have hpos : 0 < t1.NumLayers * t1.NumMips := by omega
      obtain ⟨l0, p0, hl0, hp0, h00⟩ := subres_index_decomp hpos
      apply hdiff
      rw [← GetSubresLayout_dense t1 hWF1 hne l p hl hp, hL l p hl hp]
      have := GetSubresLayout_dense t1 hWF1 hne l0 p0 hl0 hp0
      rw [← h00, hL l0 p0 hl0 hp0] at this
      exact this
  · intro hu
    have hE : t1.SubresLayouts = [] := by
      simpa [AreAllSubresourcesSameLayout] using hu
    exact ⟨hE, fun l p => GetSubresLayout_uniform t1 hE l p⟩
  · intro hu
    have hne : t1.SubresLayouts ≠ [] := by
      intro hE; simp [AreAllSubresourcesSameLayout, hE] at hu
    obtain ⟨i, hi, hdiff⟩ := hC1 hne
    have hlen := hdense hne
    exact ⟨i, 0, by omega, by omega, hdiff⟩

/-- C4: full-range round trip. `Set(L, fullRange)`, where the range starts at layer 0 and
mip 0 and covers all layers and mips (by explicit counts equal to the extents of the table
or by the ALL sentinels), leaves `GetSubresLayout(layer, mip) = L` for every `(layer, mip)`
and leaves the table uniform with `MainLayout = L`, whatever the table held before. -/
theorem Set_full_range (t : FVulkanImageLayout) (L : VkImageLayout)
    (R : VkImageSubresourceRange)
    (hl : R.baseArrayLayer = 0) (hm : R.baseMipLevel = 0)
    (hlc : R.layerCount = t.NumLayers ∨ R.layerCount = VK_REMAINING_ARRAY_LAYERS)
    (hmc : R.levelCount = t.NumMips ∨ R.levelCount = VK_REMAINING_MIP_LEVELS) :
    ∃ t1, t.Set L R = some t1 ∧
      (∀ Layer Mip, t1.GetSubresLayout Layer Mip = some L) ∧
      t1.AreAllSubresourcesSameLayout = true ∧ t1.SubresLayouts = [] ∧ t1.MainLayout = L := by
  have hLC : t.GetSubresRangeLayerCount R = t.NumLayers := by
    unfold GetSubresRangeLayerCount
    rcases hlc with h | h
    · by_cases hs : R.layerCount = VK_REMAINING_ARRAY_LAYERS
      · rw [if_pos hs, hl]; rfl
      · rw [if_neg hs, h]
    · rw [if_pos h, hl]; rfl
  have hMC : t.GetSubresRangeMipCount R = t.NumMips := by
    unfold GetSubresRangeMipCount
    rcases hmc with h | h
    · by_cases hs : R.levelCount = VK_REMAINING_MIP_LEVELS
      · rw [if_pos hs, hm]; rfl
      · rw [if_neg hs, h]
    · rw [if_pos h, hm]; rfl
  refine ⟨_, Set_full t L R ⟨hl, hLC, hm, hMC⟩, ?_, rfl, rfl, rfl⟩
  intro l p
  exact GetSubresLayout_uniform _ rfl l p

/-- C5: idempotence of `Set`. For a well-formed table and an in-bounds range, the table after
`Set(L, R); Set(L, R)` is identical (same `MainLayout`, same per-subresource array) to the
table after a single `Set(L, R)`. -/
theorem Set_idempotent (t : FVulkanImageLayout) (L : VkImageLayout)
    (R : VkImageSubresourceRange) (hWF : t.WellFormed) (hIB : t.InBounds R) :
    ∃ t1, t.Set L R = some t1 ∧ t1.Set L R = some t1 := by
  have hWF0 := hWF
  obtain ⟨hNL, hNM, hN, hlen⟩ := hWF
  by_cases hfull : R.baseArrayLayer = 0 ∧ t.GetSubresRangeLayerCount R = t.NumLayers ∧
      R.baseMipLevel = 0 ∧ t.GetSubresRangeMipCount R = t.NumMips
  · exact ⟨_, Set_full t L R hfull, Set_full _ L R hfull⟩
  · obtain ⟨t1, h1, hL1, hM1, hWF1, hget1, _⟩ := Set_spec t L R hWF0 hIB
    refine ⟨t1, h1, ?_⟩
    obtain ⟨B, hB, hBget, hSet⟩ := Set_not_full t L R hWF0 hIB hfull
    have hfull1 : ¬ (R.baseArrayLayer = 0 ∧ t1.GetSubresRangeLayerCount R = t1.NumLayers ∧
        R.baseMipLevel = 0 ∧ t1.GetSubresRangeMipCount R = t1.NumMips) := by
      unfold GetSubresRangeLayerCount GetSubresRangeMipCount
      rw [hL1, hM1]; exact hfull
    obtain ⟨B1, hB1, hB1get, hSet1⟩ := Set_not_full t1 L R hWF1
      (InBounds_of_extents t t1 R hL1 hM1 hIB) hfull1
    have hBB : B1 = B := by
      rw [hL1, hM1] at hB1
      apply subres_ext hB1 hB
      intro l p hl hp
      have e1 := hB1get l p (by rw [hL1]; exact hl) (by rw [hM1]; exact hp)
      rw [hM1] at e1
      rw [e1, hBget l p hl hp, hget1 l p hl hp]
      by_cases hin : t.InRange R l p
      · rw [if_pos ((InRange_of_extents t t1 R hL1 hM1 l p).mpr hin), if_pos hin]
      · rw [if_neg (fun h => hin ((InRange_of_extents t t1 R hL1 hM1 l p).mp h)), if_neg hin]
    rw [hSet1, hBB]
    rw [hSet] at h1
    rcases Collapse_cases { t with SubresLayouts := B }
      (by show t.NumLayers * t.NumMips < _; omega) hB with ⟨hE, hC⟩ | ⟨c, hpos, hR, hC⟩ | ⟨hM, hC⟩
    · rw [hC] at h1
      cases h1
      exact hC
    · rw [hC] at h1
      cases h1
      exact Collapse_same { t with MainLayout := c, SubresLayouts := B } c
        (by show t.NumLayers * t.NumMips < _; omega) hpos hR
    · rw [hC] at h1
      cases h1
      exact hC

/-- C6: for a well-formed table and a non-empty in-bounds range `R`,
`AreSubresourcesSameLayout(L, R)` returns true if and only if
`GetSubresLayout(layer, mip) = L` for every `(layer, mip)` in `R`, in the uniform and in the
dense representation. -/
theorem AreSubresourcesSameLayout_iff (t : FVulkanImageLayout) (L : VkImageLayout)
    (R : VkImageSubresourceRange) (hWF : t.WellFormed) (hIB : t.InBounds R)
    (hLayers : 0 < t.GetSubresRangeLayerCount R) (hMips : 0 < t.GetSubresRangeMipCount R) :
    ∃ b, t.AreSubresourcesSameLayout L R = some b ∧
      (b = true ↔ ∀ Layer Mip, t.InRange R Layer Mip → t.GetSubresLayout Layer Mip = some L) := by
  have hWF0 := hWF
  obtain ⟨hNL, hNM, hN, hlen⟩ := hWF
  obtain ⟨hl, hm⟩ := hIB
  by_cases h0 : t.SubresLayouts.length = 0
  · have hE : t.SubresLayouts = [] := List.length_eq_zero.mp h0
    refine ⟨decide (t.MainLayout = L), by simp [AreSubresourcesSameLayout, h0], ?_⟩
    constructor
    · intro hb l p _
      rw [GetSubresLayout_uniform t hE]
      simpa using hb
    · intro hall
      have hin : t.InRange R R.baseArrayLayer R.baseMipLevel := by
        unfold InRange; omega
      have := hall _ _ hin
      rw [GetSubresLayout_uniform t hE] at this
      simpa using this
  · have hne : t.SubresLayouts ≠ [] := by intro h; apply h0; rw [h]; rfl
    have hlenN : t.SubresLayouts.length = t.NumLayers * t.NumMips := by omega
    have huL : u32 (R.baseArrayLayer + t.GetSubresRangeLayerCount R) =
        R.baseArrayLayer + t.GetSubresRangeLayerCount R := u32_of_lt (by omega)
    have huM : u32 (R.baseMipLevel + t.GetSubresRangeMipCount R) =
        R.baseMipLevel + t.GetSubresRangeMipCount R := u32_of_lt (by omega)
    have hentry : ∀ l p, l < t.NumLayers → p < t.NumMips →
        (TArrayGet t.SubresLayouts (u32 (l * t.NumMips + p))).map (fun x => decide (x = L)) =
          some (decide (t.GetSubresLayout l p = some L)) := by
      intro l p hl1 hp1
      have hidx := subres_index_lt hl1 hp1
      rw [GetSubresLayout_dense t hWF0 hne l p hl1 hp1,
        u32_of_lt (show l * t.NumMips + p < 4294967296 by omega)]
      simp [TArrayGet, List.getElem?_eq_getElem (show l * t.NumMips + p < t.SubresLayouts.length
        by omega)]
    have hinner : ∀ l, l < t.NumLayers →
        ∃ b, forAllLoop (fun MipIdx =>
            (TArrayGet t.SubresLayouts (u32 (l * t.NumMips + MipIdx))).map
              (fun x => decide (x = L)))
            R.baseMipLevel (R.baseMipLevel + t.GetSubresRangeMipCount R) = some b ∧
          (b = true ↔ ∀ p, R.baseMipLevel ≤ p → p < R.baseMipLevel + t.GetSubresRangeMipCount R →
            t.GetSubresLayout l p = some L) := by
      intro l hl1
      obtain ⟨b, hb, hiff⟩ := forAllLoop_spec (fun MipIdx =>
          (TArrayGet t.SubresLayouts (u32 (l * t.NumMips + MipIdx))).map
            (fun x => decide (x = L)))
        R.baseMipLevel (R.baseMipLevel + t.GetSubresRangeMipCount R)
        (fun p _ hp => ⟨_, hentry l p hl1 (by omega)⟩)
      refine ⟨b, hb, ?_⟩
      rw [hiff]
      constructor
      · intro h p hp1 hp2
        have := h p hp1 hp2
        rw [hentry l p hl1 (by omega)] at this
        simpa using this
      · intro h p hp1 hp2
        rw [hentry l p hl1 (by omega)]
        simpa using h p hp1 hp2
    obtain ⟨b, hb, hiff⟩ := forAllLoop_spec (fun LayerIdx =>
        forAllLoop (fun MipIdx =>
          (TArrayGet t.SubresLayouts (u32 (LayerIdx * t.NumMips + MipIdx))).map
            (fun x => decide (x = L)))
          R.baseMipLevel (R.baseMipLevel + t.GetSubresRangeMipCount R))
      R.baseArrayLayer (R.baseArrayLayer + t.GetSubresRangeLayerCount R)
      (fun l _ hl2 => by
        obtain ⟨b, hb, _⟩ := hinner l (by omega)
        exact ⟨b, hb⟩)
    refine ⟨b, by simp only [AreSubresourcesSameLayout, if_neg h0, huL, huM]; exact hb, ?_⟩
    rw [hiff]
    constructor
    · intro h l p ⟨h1, h2, h3, h4⟩
      obtain ⟨b1, hb1, hiff1⟩ := hinner l (by omega)
      have := h l h1 h2
      rw [hb1] at this
      cases this
      exact hiff1.mp rfl p h3 h4
    · intro h l h1 h2
      obtain ⟨b1, hb1, hiff1⟩ := hinner l (by omega)
      rw [hb1]
      congr 1
      exact hiff1.mpr (fun p h3 h4 => h l p ⟨h1, h2, h3, h4⟩)

end FVulkanImageLayout

/-! ## The access classifier -/

open ERHIAccess VkImageLayout FRHITransitionInfo in
theorem GetVkStageAndAccessFlags_not_case_label (G : ERHIAccess.Generic) (RHIAccess : Nat)
    (ResourceType : EType) (bIsDepthStencil bIsSourceState : Bool)
    (h : RHIAccess ∉ G.CaseLabels) (hR : RHIAccess ≠ (RTV ||| ResolveDst)) :
    GetVkStageAndAccessFlags G RHIAccess ResourceType bIsDepthStencil bIsSourceState =
      if EnumHasAnyFlags RHIAccess DSVWrite then
        if bIsDepthStencil then
          some ⟨VK_PIPELINE_STAGE_EARLY_FRAGMENT_TESTS_BIT ||| VK_PIPELINE_STAGE_LATE_FRAGMENT_TESTS_BIT,
            VK_ACCESS_DEPTH_STENCIL_ATTACHMENT_READ_BIT |||
              VK_ACCESS_DEPTH_STENCIL_ATTACHMENT_WRITE_BIT,
            VK_IMAGE_LAYOUT_DEPTH_STENCIL_ATTACHMENT_OPTIMAL, false⟩
        else none
      else
        (GetVkStageAndAccessFlags.Combine RHIAccess ResourceType bIsDepthStencil
          (if bIsDepthStencil then VK_IMAGE_LAYOUT_DEPTH_STENCIL_READ_ONLY_OPTIMAL
            else VK_IMAGE_LAYOUT_SHADER_READ_ONLY_OPTIMAL)).map (fun a =>
          ⟨a.StageFlags, a.AccessFlags, a.Layout,
            (RHIAccess &&& (4294967295 ^^^ a.ProcessedRHIFlags)) != 0⟩) := by
  simp only [Generic.CaseLabels, List.mem_cons, List.mem_singleton, not_or, List.mem_nil_iff,
    or_false] at h
  obtain ⟨h1, h2, h3, h4, h5, h6, h7, h8, h9⟩ := h
  simp only [GetVkStageAndAccessFlags, if_neg hR, if_neg h1, if_neg h2, if_neg h3, if_neg h4,
    if_neg h5, if_neg h6, if_neg h7, if_neg h8, if_neg h9]

open ERHIAccess in
theorem Generic_Valid_labels (G : ERHIAccess.Generic) (hV : G.Valid) :
    (G.EReadable ≠ (RTV ||| ResolveDst) ∧ G.EReadable ≠ Unknown ∧ G.EReadable ≠ CPURead ∧
      G.EReadable ≠ Present ∧ G.EReadable ≠ RTV ∧ G.EReadable ≠ CopyDest ∧
      G.EReadable ≠ ResolveDst) ∧
    (G.EWritable ≠ (RTV ||| ResolveDst) ∧ G.EWritable ≠ Unknown ∧ G.EWritable ≠ CPURead ∧
      G.EWritable ≠ Present ∧ G.EWritable ≠ RTV ∧ G.EWritable ≠ CopyDest ∧
      G.EWritable ≠ ResolveDst ∧ G.EWritable ≠ G.EReadable) := by
  obtain ⟨hnd, hr⟩ := hV
  simp only [Generic.CaseLabels, List.nodup_cons, List.mem_cons, List.mem_singleton, not_or,
    List.mem_nil_iff, List.not_mem_nil, not_false_eq_true, List.nodup_nil, and_true] at hnd hr
  obtain ⟨⟨_, _, _, _, _, a1, a2, _⟩, ⟨_, _, _, _, b1, b2, _⟩, ⟨_, _, _, c1, c2, _⟩,
    ⟨_, _, d1, d2, _⟩, ⟨_, e1, e2, _⟩, ⟨f1, f2, _⟩, ⟨g1, _⟩, _⟩ := hnd
  obtain ⟨r1, r2, _⟩ := hr
  exact ⟨⟨Ne.symm r1, Ne.symm a1, Ne.symm b1, Ne.symm c1, Ne.symm d1, Ne.symm e1, Ne.symm f1⟩,
    ⟨Ne.symm r2, Ne.symm a2, Ne.symm b2, Ne.symm c2, Ne.symm d2, Ne.symm e2, Ne.symm f2,
      Ne.symm g1⟩⟩

open ERHIAccess VkImageLayout FRHITransitionInfo in
/-- C7 (evaluation at the failing input): for a structured buffer, the classifier accepts
`IndirectArgs`, `CopySrc` and `IndirectArgs | CopySrc`, and for the combination it returns
only the transfer stage and the transfer-read access, because the copy-source block assigns
the masks instead of accumulating into them; the bitwise OR of the two separate results
also holds the draw-indirect stage and the indirect-command-read access. -/
theorem GetVkStageAndAccessFlags_CopySrc_drops_flags (G : ERHIAccess.Generic)
    (bIsDepthStencil bIsSourceState : Bool)
    (hA : IndirectArgs ∉ G.CaseLabels) (hB : CopySrc ∉ G.CaseLabels)
    (hAB : (IndirectArgs ||| CopySrc) ∉ G.CaseLabels) :
    GetVkStageAndAccessFlags G IndirectArgs EType.StructuredBuffer bIsDepthStencil bIsSourceState
      = some ⟨VK_PIPELINE_STAGE_DRAW_INDIRECT_BIT, VK_ACCESS_INDIRECT_COMMAND_READ_BIT,
          VK_IMAGE_LAYOUT_UNDEFINED, false⟩ ∧
    GetVkStageAndAccessFlags G CopySrc EType.StructuredBuffer bIsDepthStencil bIsSourceState
      = some ⟨VK_PIPELINE_STAGE_TRANSFER_BIT, VK_ACCESS_TRANSFER_READ_BIT,
          VK_IMAGE_LAYOUT_UNDEFINED, false⟩ ∧
    GetVkStageAndAccessFlags G (IndirectArgs ||| CopySrc) EType.StructuredBuffer bIsDepthStencil
        bIsSourceState
      = some ⟨VK_PIPELINE_STAGE_TRANSFER_BIT, VK_ACCESS_TRANSFER_READ_BIT,
          VK_IMAGE_LAYOUT_UNDEFINED, false⟩ ∧
    VK_PIPELINE_STAGE_TRANSFER_BIT ≠
      VK_PIPELINE_STAGE_DRAW_INDIRECT_BIT ||| VK_PIPELINE_STAGE_TRANSFER_BIT ∧
    VK_ACCESS_TRANSFER_READ_BIT ≠
      VK_ACCESS_INDIRECT_COMMAND_READ_BIT ||| VK_ACCESS_TRANSFER_READ_BIT := by
  refine ⟨?_, ?_, ?_, by decide, by decide⟩
  · rw [GetVkStageAndAccessFlags_not_case_label G _ _ _ _ hA (by decide)]
    cases bIsDepthStencil <;> rfl
  · rw [GetVkStageAndAccessFlags_not_case_label G _ _ _ _ hB (by decide)]
    cases bIsDepthStencil <;> rfl
  · rw [GetVkStageAndAccessFlags_not_case_label G _ _ _ _ hAB (by decide)]
    cases bIsDepthStencil <;> rfl

open ERHIAccess VkImageLayout FRHITransitionInfo in
/-- C8: for the intent `Unknown`, `GetVkStageAndAccessFlags` returns, for every resource
kind, depth-stencil flag and side, the stage mask `ALL_COMMANDS`, the access mask
`MEMORY_READ | MEMORY_WRITE` and the layout `UNDEFINED`. -/
theorem GetVkStageAndAccessFlags_Unknown (G : ERHIAccess.Generic) (ResourceType : EType)
    (bIsDepthStencil bIsSourceState : Bool) :
    GetVkStageAndAccessFlags G Unknown ResourceType bIsDepthStencil bIsSourceState =
      some ⟨VK_PIPELINE_STAGE_ALL_COMMANDS_BIT,
        VK_ACCESS_MEMORY_READ_BIT ||| VK_ACCESS_MEMORY_WRITE_BIT,
        VK_IMAGE_LAYOUT_UNDEFINED, false⟩ := by
  have h : Unknown ≠ (RTV ||| ResolveDst) := by decide
  simp only [GetVkStageAndAccessFlags, if_neg h, if_true]

open ERHIAccess VkImageLayout FRHITransitionInfo GetVkStageAndAccessFlags in
/-- C9: for the generic intents `EReadable` and `EWritable`, `GetVkStageAndAccessFlags`
returns layout `UNDEFINED` on the source side; on the destination side it returns the
shader-read-only layout (its depth-stencil read-only variant for a depth-stencil image) for
`EReadable` and `GENERAL` for `EWritable`; the stage and access masks are the same on both
sides. -/
theorem GetVkStageAndAccessFlags_generic_layout (G : ERHIAccess.Generic) (hV : G.Valid)
    (ResourceType : EType) (bIsDepthStencil : Bool) :
    GetVkStageAndAccessFlags G G.EReadable ResourceType bIsDepthStencil true =
      some ⟨GraphicsShaderStages ||| VK_PIPELINE_STAGE_EARLY_FRAGMENT_TESTS_BIT |||
          VK_PIPELINE_STAGE_LATE_FRAGMENT_TESTS_BIT ||| VK_PIPELINE_STAGE_COMPUTE_SHADER_BIT,
        VK_ACCESS_MEMORY_READ_BIT, VK_IMAGE_LAYOUT_UNDEFINED, false⟩ ∧
    GetVkStageAndAccessFlags G G.EReadable ResourceType bIsDepthStencil false =
      some ⟨GraphicsShaderStages ||| VK_PIPELINE_STAGE_EARLY_FRAGMENT_TESTS_BIT |||
          VK_PIPELINE_STAGE_LATE_FRAGMENT_TESTS_BIT ||| VK_PIPELINE_STAGE_COMPUTE_SHADER_BIT,
        VK_ACCESS_MEMORY_READ_BIT,
        if bIsDepthStencil then VK_IMAGE_LAYOUT_DEPTH_STENCIL_READ_ONLY_OPTIMAL
          else VK_IMAGE_LAYOUT_SHADER_READ_ONLY_OPTIMAL, false⟩ ∧
    GetVkStageAndAccessFlags G G.EWritable ResourceType bIsDepthStencil true =
      some ⟨GraphicsShaderStages ||| VK_PIPELINE_STAGE_EARLY_FRAGMENT_TESTS_BIT |||
          VK_PIPELINE_STAGE_LATE_FRAGMENT_TESTS_BIT |||
          VK_PIPELINE_STAGE_COLOR_ATTACHMENT_OUTPUT_BIT ||| VK_PIPELINE_STAGE_COMPUTE_SHADER_BIT,
        VK_ACCESS_MEMORY_WRITE_BIT, VK_IMAGE_LAYOUT_UNDEFINED, false⟩ ∧
    GetVkStageAndAccessFlags G G.EWritable ResourceType bIsDepthStencil false =
      some ⟨GraphicsShaderStages ||| VK_PIPELINE_STAGE_EARLY_FRAGMENT_TESTS_BIT |||
          VK_PIPELINE_STAGE_LATE_FRAGMENT_TESTS_BIT |||
          VK_PIPELINE_STAGE_COLOR_ATTACHMENT_OUTPUT_BIT ||| VK_PIPELINE_STAGE_COMPUTE_SHADER_BIT,
        VK_ACCESS_MEMORY_WRITE_BIT, VK_IMAGE_LAYOUT_GENERAL, false⟩ := by
  obtain ⟨⟨r0, r1, r2, r3, r4, r5, r6⟩, ⟨w0, w1, w2, w3, w4, w5, w6, w7⟩⟩ :=
    Generic_Valid_labels G hV
  refine ⟨?_, ?_, ?_, ?_⟩
  · simp only [GetVkStageAndAccessFlags, if_neg r0, if_neg r1, if_neg r2, if_neg r3, if_neg r4,
      if_neg r5, if_neg r6, if_true]
  · simp only [GetVkStageAndAccessFlags, if_neg r0, if_neg r1, if_neg r2, if_neg r3, if_neg r4,
      if_neg r5, if_neg r6, if_true]
    rfl
  · simp only [GetVkStageAndAccessFlags, if_neg w0, if_neg w1, if_neg w2, if_neg w3, if_neg w4,
      if_neg w5, if_neg w6, if_neg w7, if_true]
  · simp only [GetVkStageAndAccessFlags, if_neg w0, if_neg w1, if_neg w2, if_neg w3, if_neg w4,
      if_neg w5, if_neg w6, if_neg w7, if_true]
    rfl

open ERHIAccess VkImageLayout FRHITransitionInfo in
/-- C10: depth-write wins the layout. For every intent mask that contains `DSVWrite` and is
not one of the dominant single values, classified for a depth-stencil image on either side,
`GetVkStageAndAccessFlags` returns the layout `DEPTH_STENCIL_ATTACHMENT_OPTIMAL`, whatever
other bits (depth-read included) are set in the mask. -/
theorem GetVkStageAndAccessFlags_DSVWrite_layout (G : ERHIAccess.Generic) (RHIAccess : Nat)
    (ResourceType : EType) (bIsSourceState : Bool)
    (hW : EnumHasAnyFlags RHIAccess DSVWrite = true) (hD : RHIAccess ∉ G.CaseLabels) :
    ∃ r, GetVkStageAndAccessFlags G RHIAccess ResourceType true bIsSourceState = some r ∧
      r.Layout = VK_IMAGE_LAYOUT_DEPTH_STENCIL_ATTACHMENT_OPTIMAL := by
  have hR : RHIAccess ≠ (RTV ||| ResolveDst) := by
    intro h
    rw [h] at hW
    revert hW
    decide
  rw [GetVkStageAndAccessFlags_not_case_label G RHIAccess ResourceType true bIsSourceState hD hR,
    if_pos hW]
  exact ⟨_, rfl, rfl⟩

/-! ## The theorems at concrete inputs -/

open VkImageLayout in
theorem FVulkanImageLayout.Set_writes_range_witness :
    (⟨3, 2, VK_IMAGE_LAYOUT_UNDEFINED, []⟩ : FVulkanImageLayout).WellFormed ∧
    (⟨3, 2, VK_IMAGE_LAYOUT_UNDEFINED, []⟩ : FVulkanImageLayout).InBounds ⟨1, 1, 2, 0, 1⟩ ∧
    ∃ t1, (⟨3, 2, VK_IMAGE_LAYOUT_UNDEFINED, []⟩ : FVulkanImageLayout).Set
        VK_IMAGE_LAYOUT_GENERAL ⟨1, 1, 2, 0, 1⟩ = some t1 ∧
      ∀ Layer Mip,
        (⟨3, 2, VK_IMAGE_LAYOUT_UNDEFINED, []⟩ : FVulkanImageLayout).InRange ⟨1, 1, 2, 0, 1⟩
          Layer Mip →
        t1.GetSubresLayout Layer Mip = some VK_IMAGE_LAYOUT_GENERAL :=
  ⟨by decide, by decide,
    FVulkanImageLayout.Set_writes_range ⟨3, 2, VK_IMAGE_LAYOUT_UNDEFINED, []⟩
      VK_IMAGE_LAYOUT_GENERAL ⟨1, 1, 2, 0, 1⟩ (by decide) (by decide)⟩

open VkImageLayout in
theorem FVulkanImageLayout.Set_frame_witness :
    (⟨2, 2, VK_IMAGE_LAYOUT_UNDEFINED,
      [VK_IMAGE_LAYOUT_GENERAL, VK_IMAGE_LAYOUT_UNDEFINED, VK_IMAGE_LAYOUT_UNDEFINED,
        VK_IMAGE_LAYOUT_TRANSFER_DST_OPTIMAL]⟩ : FVulkanImageLayout).WellFormed ∧
    (⟨2, 2, VK_IMAGE_LAYOUT_UNDEFINED,
      [VK_IMAGE_LAYOUT_GENERAL, VK_IMAGE_LAYOUT_UNDEFINED, VK_IMAGE_LAYOUT_UNDEFINED,
        VK_IMAGE_LAYOUT_TRANSFER_DST_OPTIMAL]⟩ : FVulkanImageLayout).InBounds
      ⟨1, 0, 1, 1, VK_REMAINING_ARRAY_LAYERS⟩ ∧
    ∃ t1, (⟨2, 2, VK_IMAGE_LAYOUT_UNDEFINED,
        [VK_IMAGE_LAYOUT_GENERAL, VK_IMAGE_LAYOUT_UNDEFINED, VK_IMAGE_LAYOUT_UNDEFINED,
          VK_IMAGE_LAYOUT_TRANSFER_DST_OPTIMAL]⟩ : FVulkanImageLayout).Set
        VK_IMAGE_LAYOUT_SHADER_READ_ONLY_OPTIMAL ⟨1, 0, 1, 1, VK_REMAINING_ARRAY_LAYERS⟩ = some t1 ∧
      ∀ Layer Mip, Layer < 2 → Mip < 2 →
        ¬ (⟨2, 2, VK_IMAGE_LAYOUT_UNDEFINED,
          [VK_IMAGE_LAYOUT_GENERAL, VK_IMAGE_LAYOUT_UNDEFINED, VK_IMAGE_LAYOUT_UNDEFINED,
            VK_IMAGE_LAYOUT_TRANSFER_DST_OPTIMAL]⟩ : FVulkanImageLayout).InRange
          ⟨1, 0, 1, 1, VK_REMAINING_ARRAY_LAYERS⟩ Layer Mip →
        t1.GetSubresLayout Layer Mip =
          (⟨2, 2, VK_IMAGE_LAYOUT_UNDEFINED,
            [VK_IMAGE_LAYOUT_GENERAL, VK_IMAGE_LAYOUT_UNDEFINED, VK_IMAGE_LAYOUT_UNDEFINED,
              VK_IMAGE_LAYOUT_TRANSFER_DST_OPTIMAL]⟩ : FVulkanImageLayout).GetSubresLayout
            Layer Mip :=
  ⟨by decide, by decide,
    FVulkanImageLayout.Set_frame
      ⟨2, 2, VK_IMAGE_LAYOUT_UNDEFINED,
        [VK_IMAGE_LAYOUT_GENERAL, VK_IMAGE_LAYOUT_UNDEFINED, VK_IMAGE_LAYOUT_UNDEFINED,
          VK_IMAGE_LAYOUT_TRANSFER_DST_OPTIMAL]⟩
      VK_IMAGE_LAYOUT_SHADER_READ_ONLY_OPTIMAL ⟨1, 0, 1, 1, VK_REMAINING_ARRAY_LAYERS⟩
      (by decide) (by decide)⟩

open VkImageLayout in
theorem FVulkanImageLayout.Set_collapse_law_witness :
    (⟨2, 2, VK_IMAGE_LAYOUT_UNDEFINED, []⟩ : FVulkanImageLayout).WellFormed ∧
    (∀ c ∈ [(VK_IMAGE_LAYOUT_GENERAL, (⟨1, 0, 1, 0, 2⟩ : VkImageSubresourceRange)),
        (VK_IMAGE_LAYOUT_GENERAL, (⟨1, 1, 1, 0, VK_REMAINING_ARRAY_LAYERS⟩ :
          VkImageSubresourceRange))],
      (⟨2, 2, VK_IMAGE_LAYOUT_UNDEFINED, []⟩ : FVulkanImageLayout).InBounds c.2) ∧
    ∃ t1, (⟨2, 2, VK_IMAGE_LAYOUT_UNDEFINED, []⟩ : FVulkanImageLayout).SetAll
        [(VK_IMAGE_LAYOUT_GENERAL, ⟨1, 0, 1, 0, 2⟩),
          (VK_IMAGE_LAYOUT_GENERAL, ⟨1, 1, 1, 0, VK_REMAINING_ARRAY_LAYERS⟩)] = some t1 ∧
      (t1.AreAllSubresourcesSameLayout = true ↔
        ∃ L, ∀ Layer Mip, Layer < t1.NumLayers → Mip < t1.NumMips →
          t1.GetSubresLayout Layer Mip = some L) ∧
      (t1.AreAllSubresourcesSameLayout = true →
        t1.SubresLayouts = [] ∧
        ∀ Layer Mip, t1.GetSubresLayout Layer Mip = some t1.MainLayout) ∧
      (t1.AreAllSubresourcesSameLayout = false →
        ∃ i j, i < t1.SubresLayouts.length ∧ j < t1.SubresLayouts.length ∧
          t1.SubresLayouts[i]? ≠ t1.SubresLayouts[j]?) :=
  ⟨by decide, by decide,
    FVulkanImageLayout.Set_collapse_law ⟨2, 2, VK_IMAGE_LAYOUT_UNDEFINED, []⟩
      [(VK_IMAGE_LAYOUT_GENERAL, ⟨1, 0, 1, 0, 2⟩),
        (VK_IMAGE_LAYOUT_GENERAL, ⟨1, 1, 1, 0, VK_REMAINING_ARRAY_LAYERS⟩)]
      (by decide) rfl (by decide)⟩

open VkImageLayout in
theorem FVulkanImageLayout.Set_full_range_witness :
    ((⟨1, 0, VK_REMAINING_MIP_LEVELS, 0, 2⟩ : VkImageSubresourceRange).layerCount = 2 ∨
      (⟨1, 0, VK_REMAINING_MIP_LEVELS, 0, 2⟩ : VkImageSubresourceRange).layerCount =
        VK_REMAINING_ARRAY_LAYERS) ∧
    ((⟨1, 0, VK_REMAINING_MIP_LEVELS, 0, 2⟩ : VkImageSubresourceRange).levelCount = 2 ∨
      (⟨1, 0, VK_REMAINING_MIP_LEVELS, 0, 2⟩ : VkImageSubresourceRange).levelCount =
        VK_REMAINING_MIP_LEVELS) ∧
    ∃ t1, (⟨2, 2, VK_IMAGE_LAYOUT_UNDEFINED,
        [VK_IMAGE_LAYOUT_GENERAL, VK_IMAGE_LAYOUT_UNDEFINED, VK_IMAGE_LAYOUT_UNDEFINED,
          VK_IMAGE_LAYOUT_TRANSFER_DST_OPTIMAL]⟩ : FVulkanImageLayout).Set
        VK_IMAGE_LAYOUT_COLOR_ATTACHMENT_OPTIMAL ⟨1, 0, VK_REMAINING_MIP_LEVELS, 0, 2⟩ = some t1 ∧
      (∀ Layer Mip, t1.GetSubresLayout Layer Mip = some VK_IMAGE_LAYOUT_COLOR_ATTACHMENT_OPTIMAL) ∧
      t1.AreAllSubresourcesSameLayout = true ∧ t1.SubresLayouts = [] ∧
      t1.MainLayout = VK_IMAGE_LAYOUT_COLOR_ATTACHMENT_OPTIMAL :=
  ⟨by decide, by decide,
    FVulkanImageLayout.Set_full_range
      ⟨2, 2, VK_IMAGE_LAYOUT_UNDEFINED,
        [VK_IMAGE_LAYOUT_GENERAL, VK_IMAGE_LAYOUT_UNDEFINED, VK_IMAGE_LAYOUT_UNDEFINED,
          VK_IMAGE_LAYOUT_TRANSFER_DST_OPTIMAL]⟩
      VK_IMAGE_LAYOUT_COLOR_ATTACHMENT_OPTIMAL ⟨1, 0, VK_REMAINING_MIP_LEVELS, 0, 2⟩
      rfl rfl (by decide) (by decide)⟩

open VkImageLayout in
theorem FVulkanImageLayout.Set_idempotent_witness :
    (⟨2, 2, VK_IMAGE_LAYOUT_UNDEFINED,
      [VK_IMAGE_LAYOUT_GENERAL, VK_IMAGE_LAYOUT_GENERAL, VK_IMAGE_LAYOUT_UNDEFINED,
        VK_IMAGE_LAYOUT_GENERAL]⟩ : FVulkanImageLayout).WellFormed ∧
    (⟨2, 2, VK_IMAGE_LAYOUT_UNDEFINED,
      [VK_IMAGE_LAYOUT_GENERAL, VK_IMAGE_LAYOUT_GENERAL, VK_IMAGE_LAYOUT_UNDEFINED,
        VK_IMAGE_LAYOUT_GENERAL]⟩ : FVulkanImageLayout).InBounds ⟨1, 0, 1, 1, 1⟩ ∧
    ∃ t1, (⟨2, 2, VK_IMAGE_LAYOUT_UNDEFINED,
        [VK_IMAGE_LAYOUT_GENERAL, VK_IMAGE_LAYOUT_GENERAL, VK_IMAGE_LAYOUT_UNDEFINED,
          VK_IMAGE_LAYOUT_GENERAL]⟩ : FVulkanImageLayout).Set
        VK_IMAGE_LAYOUT_GENERAL ⟨1, 0, 1, 1, 1⟩ = some t1 ∧
      t1.Set VK_IMAGE_LAYOUT_GENERAL ⟨1, 0, 1, 1, 1⟩ = some t1 :=
  ⟨by decide, by decide,
    FVulkanImageLayout.Set_idempotent
      ⟨2, 2, VK_IMAGE_LAYOUT_UNDEFINED,
        [VK_IMAGE_LAYOUT_GENERAL, VK_IMAGE_LAYOUT_GENERAL, VK_IMAGE_LAYOUT_UNDEFINED,
          VK_IMAGE_LAYOUT_GENERAL]⟩
      VK_IMAGE_LAYOUT_GENERAL ⟨1, 0, 1, 1, 1⟩ (by decide) (by decide)⟩

open VkImageLayout in
theorem FVulkanImageLayout.AreSubresourcesSameLayout_iff_witness :
    (⟨2, 2, VK_IMAGE_LAYOUT_UNDEFINED,
      [VK_IMAGE_LAYOUT_GENERAL, VK_IMAGE_LAYOUT_GENERAL, VK_IMAGE_LAYOUT_UNDEFINED,
        VK_IMAGE_LAYOUT_GENERAL]⟩ : FVulkanImageLayout).WellFormed ∧
    (⟨2, 2, VK_IMAGE_LAYOUT_UNDEFINED,
      [VK_IMAGE_LAYOUT_GENERAL, VK_IMAGE_LAYOUT_GENERAL, VK_IMAGE_LAYOUT_UNDEFINED,
        VK_IMAGE_LAYOUT_GENERAL]⟩ : FVulkanImageLayout).InBounds
      ⟨1, 1, 1, 0, VK_REMAINING_ARRAY_LAYERS⟩ ∧
    ∃ b, (⟨2, 2, VK_IMAGE_LAYOUT_UNDEFINED,
        [VK_IMAGE_LAYOUT_GENERAL, VK_IMAGE_LAYOUT_GENERAL, VK_IMAGE_LAYOUT_UNDEFINED,
          VK_IMAGE_LAYOUT_GENERAL]⟩ : FVulkanImageLayout).AreSubresourcesSameLayout
        VK_IMAGE_LAYOUT_GENERAL ⟨1, 1, 1, 0, VK_REMAINING_ARRAY_LAYERS⟩ = some b ∧
      (b = true ↔ ∀ Layer Mip,
        (⟨2, 2, VK_IMAGE_LAYOUT_UNDEFINED,
          [VK_IMAGE_LAYOUT_GENERAL, VK_IMAGE_LAYOUT_GENERAL, VK_IMAGE_LAYOUT_UNDEFINED,
            VK_IMAGE_LAYOUT_GENERAL]⟩ : FVulkanImageLayout).InRange
          ⟨1, 1, 1, 0, VK_REMAINING_ARRAY_LAYERS⟩ Layer Mip →
        (⟨2, 2, VK_IMAGE_LAYOUT_UNDEFINED,
          [VK_IMAGE_LAYOUT_GENERAL, VK_IMAGE_LAYOUT_GENERAL, VK_IMAGE_LAYOUT_UNDEFINED,
            VK_IMAGE_LAYOUT_GENERAL]⟩ : FVulkanImageLayout).GetSubresLayout Layer Mip =
          some VK_IMAGE_LAYOUT_GENERAL) :=
  ⟨by decide, by decide,
    FVulkanImageLayout.AreSubresourcesSameLayout_iff
      ⟨2, 2, VK_IMAGE_LAYOUT_UNDEFINED,
        [VK_IMAGE_LAYOUT_GENERAL, VK_IMAGE_LAYOUT_GENERAL, VK_IMAGE_LAYOUT_UNDEFINED,
          VK_IMAGE_LAYOUT_GENERAL]⟩
      VK_IMAGE_LAYOUT_GENERAL ⟨1, 1, 1, 0, VK_REMAINING_ARRAY_LAYERS⟩
      (by decide) (by decide) (by decide) (by decide)⟩

open ERHIAccess VkImageLayout FRHITransitionInfo in
theorem GetVkStageAndAccessFlags_CopySrc_drops_flags_witness :
    IndirectArgs ∉ Generic.FromComments.CaseLabels ∧
    CopySrc ∉ Generic.FromComments.CaseLabels ∧
    (IndirectArgs ||| CopySrc) ∉ Generic.FromComments.CaseLabels ∧
    (GetVkStageAndAccessFlags Generic.FromComments IndirectArgs EType.StructuredBuffer
        false true
      = some ⟨VK_PIPELINE_STAGE_DRAW_INDIRECT_BIT, VK_ACCESS_INDIRECT_COMMAND_READ_BIT,
          VK_IMAGE_LAYOUT_UNDEFINED, false⟩ ∧
    GetVkStageAndAccessFlags Generic.FromComments CopySrc EType.StructuredBuffer false true
      = some ⟨VK_PIPELINE_STAGE_TRANSFER_BIT, VK_ACCESS_TRANSFER_READ_BIT,
          VK_IMAGE_LAYOUT_UNDEFINED, false⟩ ∧
    GetVkStageAndAccessFlags Generic.FromComments (IndirectArgs ||| CopySrc)
        EType.StructuredBuffer false true
      = some ⟨VK_PIPELINE_STAGE_TRANSFER_BIT, VK_ACCESS_TRANSFER_READ_BIT,
          VK_IMAGE_LAYOUT_UNDEFINED, false⟩ ∧
    VK_PIPELINE_STAGE_TRANSFER_BIT ≠
      VK_PIPELINE_STAGE_DRAW_INDIRECT_BIT ||| VK_PIPELINE_STAGE_TRANSFER_BIT ∧
    VK_ACCESS_TRANSFER_READ_BIT ≠
      VK_ACCESS_INDIRECT_COMMAND_READ_BIT ||| VK_ACCESS_TRANSFER_READ_BIT) :=
  ⟨by decide, by decide, by decide,
    GetVkStageAndAccessFlags_CopySrc_drops_flags Generic.FromComments false true
      (by decide) (by decide) (by decide)⟩

open ERHIAccess VkImageLayout FRHITransitionInfo GetVkStageAndAccessFlags in
theorem GetVkStageAndAccessFlags_generic_layout_witness :
    Generic.FromComments.Valid ∧
    (GetVkStageAndAccessFlags Generic.FromComments Generic.FromComments.EReadable
        EType.Texture true true =
      some ⟨GraphicsShaderStages ||| VK_PIPELINE_STAGE_EARLY_FRAGMENT_TESTS_BIT |||
          VK_PIPELINE_STAGE_LATE_FRAGMENT_TESTS_BIT ||| VK_PIPELINE_STAGE_COMPUTE_SHADER_BIT,
        VK_ACCESS_MEMORY_READ_BIT, VK_IMAGE_LAYOUT_UNDEFINED, false⟩ ∧
    GetVkStageAndAccessFlags Generic.FromComments Generic.FromComments.EReadable
        EType.Texture true false =
      some ⟨GraphicsShaderStages ||| VK_PIPELINE_STAGE_EARLY_FRAGMENT_TESTS_BIT |||
          VK_PIPELINE_STAGE_LATE_FRAGMENT_TESTS_BIT ||| VK_PIPELINE_STAGE_COMPUTE_SHADER_BIT,
        VK_ACCESS_MEMORY_READ_BIT,
        if true then VK_IMAGE_LAYOUT_DEPTH_STENCIL_READ_ONLY_OPTIMAL
          else VK_IMAGE_LAYOUT_SHADER_READ_ONLY_OPTIMAL, false⟩ ∧
    GetVkStageAndAccessFlags Generic.FromComments Generic.FromComments.EWritable
        EType.Texture true true =
      some ⟨GraphicsShaderStages ||| VK_PIPELINE_STAGE_EARLY_FRAGMENT_TESTS_BIT |||
          VK_PIPELINE_STAGE_LATE_FRAGMENT_TESTS_BIT |||
          VK_PIPELINE_STAGE_COLOR_ATTACHMENT_OUTPUT_BIT ||| VK_PIPELINE_STAGE_COMPUTE_SHADER_BIT,
        VK_ACCESS_MEMORY_WRITE_BIT, VK_IMAGE_LAYOUT_UNDEFINED, false⟩ ∧
    GetVkStageAndAccessFlags Generic.FromComments Generic.FromComments.EWritable
        EType.Texture true false =
      some ⟨GraphicsShaderStages ||| VK_PIPELINE_STAGE_EARLY_FRAGMENT_TESTS_BIT |||
          VK_PIPELINE_STAGE_LATE_FRAGMENT_TESTS_BIT |||
          VK_PIPELINE_STAGE_COLOR_ATTACHMENT_OUTPUT_BIT ||| VK_PIPELINE_STAGE_COMPUTE_SHADER_BIT,
        VK_ACCESS_MEMORY_WRITE_BIT, VK_IMAGE_LAYOUT_GENERAL, false⟩) :=
  ⟨by decide,
    GetVkStageAndAccessFlags_generic_layout Generic.FromComments (by decide) EType.Texture true⟩

open ERHIAccess VkImageLayout FRHITransitionInfo in
theorem GetVkStageAndAccessFlags_DSVWrite_layout_witness :
    EnumHasAnyFlags (DSVWrite ||| DSVRead) DSVWrite = true ∧
    (DSVWrite ||| DSVRead) ∉ Generic.FromComments.CaseLabels ∧
    ∃ r, GetVkStageAndAccessFlags Generic.FromComments (DSVWrite ||| DSVRead) EType.Texture
        true false = some r ∧
      r.Layout = VK_IMAGE_LAYOUT_DEPTH_STENCIL_ATTACHMENT_OPTIMAL :=
  ⟨by decide, by decide,
    GetVkStageAndAccessFlags_DSVWrite_layout Generic.FromComments (DSVWrite ||| DSVRead)
      EType.Texture false (by decide) (by decide)⟩

/-! ## The access classifier: depth-write, exhaustiveness and the kind check -/

theorem remaining_flags_ne_zero (M P C : Nat) (hPC : P ||| C = C) (hC32 : C < 4294967296)
    (hX : M &&& (4294967295 ^^^ C) ≠ 0) : M &&& (4294967295 ^^^ P) ≠ 0 := by
  obtain ⟨i, hi⟩ := Nat.ne_zero_implies_bit_true hX
  have hN : (4294967295 : Nat) = 2 ^ 32 - 1 := by norm_num
  rw [hN] at hi
  simp only [Nat.testBit_and, Nat.testBit_xor, Nat.testBit_two_pow_sub_one,
    Bool.and_eq_true] at hi
  obtain ⟨hM, hC⟩ := hi
  have hPi : P.testBit i = true → C.testBit i = true := by
    intro hp
    have : (P ||| C).testBit i = true := by simp [Nat.testBit_or, hp]
    rw [hPC] at this
    exact this
  intro h0
  have hbit : (M &&& (4294967295 ^^^ P)).testBit i = true := by
    rw [hN]
    simp only [Nat.testBit_and, Nat.testBit_xor, Nat.testBit_two_pow_sub_one, Bool.and_eq_true]
    refine ⟨hM, ?_⟩
    by_cases hlt : i < 32
    · simp only [hlt, decide_True, Bool.true_xor, Bool.not_eq_true'] at hC ⊢
      cases hp : P.testBit i with
      | false => rfl
      | true => rw [hPi hp] at hC; cases hC
    · simp only [hlt, decide_False, Bool.false_xor] at hC
      have hpow : (4294967296 : Nat) ≤ 2 ^ i := by
        have : (2 : Nat) ^ 32 ≤ 2 ^ i := Nat.pow_le_pow_right (by norm_num) (by omega)
        simpa using this
      have := Nat.testBit_lt_two_pow (Nat.lt_of_lt_of_le hC32 hpow)
      rw [this] at hC
      cases hC
  rw [h0] at hbit
  simp at hbit

theorem or_absorb (p F C : Nat) (hp : p ||| C = C) (hF : F ||| C = C) :
    (p ||| F) ||| C = C := by
  rw [Nat.or_assoc, hF, hp]

namespace GetVkStageAndAccessFlags

open ERHIAccess VkImageLayout FRHITransitionInfo

theorem IndirectArgsBlock_processed (M : Nat) (k : EType) (a b : FVkClassifyLocals)
    (h : IndirectArgsBlock M k a = some b)
    (ha : a.ProcessedRHIFlags ||| ComposableFlags = ComposableFlags) :
    b.ProcessedRHIFlags ||| ComposableFlags = ComposableFlags ∧ b.Layout = a.Layout := by
  unfold IndirectArgsBlock at h
  split_ifs at h
  · cases h; exact ⟨or_absorb _ _ _ ha (by decide), rfl⟩
  · cases h; exact ⟨ha, rfl⟩

theorem VertexOrIndexBufferBlock_processed (M : Nat) (k : EType) (a b : FVkClassifyLocals)
    (h : VertexOrIndexBufferBlock M k a = some b)
    (ha : a.ProcessedRHIFlags ||| ComposableFlags = ComposableFlags) :
    b.ProcessedRHIFlags ||| ComposableFlags = ComposableFlags ∧ b.Layout = a.Layout := by
  unfold VertexOrIndexBufferBlock at h
  split_ifs at h
  · cases k <;> simp at h
    · cases h; exact ⟨or_absorb _ _ _ ha (by decide), rfl⟩
    · cases h; exact ⟨or_absorb _ _ _ ha (by decide), rfl⟩
  · cases h; exact ⟨ha, rfl⟩

theorem DSVReadBlock_processed (M : Nat) (ds : Bool) (a b : FVkClassifyLocals)
    (h : DSVReadBlock M ds a = some b)
    (ha : a.ProcessedRHIFlags ||| ComposableFlags = ComposableFlags) :
    b.ProcessedRHIFlags ||| ComposableFlags = ComposableFlags := by
  unfold DSVReadBlock at h
  split_ifs at h
  · cases h; exact or_absorb _ _ _ ha (by decide)
  · cases h; exact ha

theorem ShaderBlocks_processed (M : Nat) (L : VkImageLayout) (a : FVkClassifyLocals)
    (ha : a.ProcessedRHIFlags ||| ComposableFlags = ComposableFlags) :
    (UAVComputeBlock M (UAVGraphicsBlock M (SRVComputeBlock M L
      (SRVGraphicsBlock M L a)))).ProcessedRHIFlags ||| ComposableFlags = ComposableFlags := by
  have h1 : (SRVGraphicsBlock M L a).ProcessedRHIFlags ||| ComposableFlags = ComposableFlags := by
    unfold SRVGraphicsBlock
    split_ifs
    · exact or_absorb _ _ _ ha (by decide)
    · exact ha
  have h2 : (SRVComputeBlock M L (SRVGraphicsBlock M L a)).ProcessedRHIFlags |||
      ComposableFlags = ComposableFlags := by
    unfold SRVComputeBlock
    split_ifs
    · exact or_absorb _ _ _ h1 (by decide)
    · exact h1
  have h3 : (UAVGraphicsBlock M (SRVComputeBlock M L (SRVGraphicsBlock M L a))).ProcessedRHIFlags
      ||| ComposableFlags = ComposableFlags := by
    unfold UAVGraphicsBlock
    split_ifs
    · exact or_absorb _ _ _ h2 (by decide)
    · exact h2
  unfold UAVComputeBlock
  split_ifs
  · exact or_absorb _ _ _ h3 (by decide)
  · exact h3

theorem CopySrcBlock_processed (M : Nat) (k : EType) (a b : FVkClassifyLocals)
    (h : CopySrcBlock M k a = some b)
    (ha : a.ProcessedRHIFlags ||| ComposableFlags = ComposableFlags) :
    b.ProcessedRHIFlags ||| ComposableFlags = ComposableFlags := by
  unfold CopySrcBlock at h
  split_ifs at h
  · cases h; exact or_absorb _ _ _ ha (by decide)
  · cases h; exact or_absorb _ _ _ ha (by decide)
  · cases h; exact ha

theorem Combine_processed (M : Nat) (k : EType) (ds : Bool) (L : VkImageLayout)
    (a : FVkClassifyLocals) (h : Combine M k ds L = some a) :
    a.ProcessedRHIFlags ||| ComposableFlags = ComposableFlags := by
  unfold Combine at h
  simp only [Option.bind_eq_some, Option.map_eq_some'] at h
  obtain ⟨a4, ⟨a3, ⟨a2, ⟨a1, h1, h2⟩, h3⟩, rfl⟩, h5⟩ := h
  have q1 := (IndirectArgsBlock_processed M k _ a1 h1 (by decide)).1
  have q2 := (VertexOrIndexBufferBlock_processed M k a1 a2 h2 q1).1
  have q3 := DSVReadBlock_processed M ds a2 a3 h3 q2
  have q4 := ShaderBlocks_processed M L a3 q3
  exact CopySrcBlock_processed M k _ a h5 q4

end GetVkStageAndAccessFlags

open ERHIAccess VkImageLayout FRHITransitionInfo in
/-- C11 (counterexample): for `DSVWrite | SRVGraphics` on a depth-stencil texture the
classifier returns the early/late fragment-test stages and the depth-stencil attachment
accesses only; the shader stages and the shader-read access that it returns for
`SRVGraphics` alone are not contained in them. -/
theorem GetVkStageAndAccessFlags_DSVWrite_drops_SRVGraphics :
    ∃ rM rX,
      GetVkStageAndAccessFlags Generic.FromComments (DSVWrite ||| SRVGraphics) EType.Texture
        true true = some rM ∧
      GetVkStageAndAccessFlags Generic.FromComments SRVGraphics EType.Texture true true =
        some rX ∧
      rM.StageFlags &&& rX.StageFlags ≠ rX.StageFlags ∧
      rM.AccessFlags &&& rX.AccessFlags ≠ rX.AccessFlags :=
  ⟨⟨VK_PIPELINE_STAGE_EARLY_FRAGMENT_TESTS_BIT ||| VK_PIPELINE_STAGE_LATE_FRAGMENT_TESTS_BIT,
      VK_ACCESS_DEPTH_STENCIL_ATTACHMENT_READ_BIT ||| VK_ACCESS_DEPTH_STENCIL_ATTACHMENT_WRITE_BIT,
      VK_IMAGE_LAYOUT_DEPTH_STENCIL_ATTACHMENT_OPTIMAL, false⟩,
    ⟨GetVkStageAndAccessFlags.GraphicsShaderStages, VK_ACCESS_SHADER_READ_BIT,
      VK_IMAGE_LAYOUT_DEPTH_STENCIL_READ_ONLY_OPTIMAL, false⟩,
    by decide, by decide, by decide, by decide⟩

open ERHIAccess VkImageLayout FRHITransitionInfo in
/-- C11 (amended): for every intent mask that contains `DSVWrite` and is not a dominant
value, on a depth-stencil image and on either side, the classifier returns exactly the
early/late fragment-test stages and the depth-stencil attachment read and write accesses,
whatever other bits are set; these masks contain the stage and access bits returned for
depth-read (`DSVRead`) alone. -/
theorem GetVkStageAndAccessFlags_DSVWrite_masks (G : ERHIAccess.Generic) (RHIAccess : Nat)
    (ResourceType : EType) (bIsSourceState : Bool)
    (hW : EnumHasAnyFlags RHIAccess DSVWrite = true) (hD : RHIAccess ∉ G.CaseLabels)
    (hX : DSVRead ∉ G.CaseLabels) :
    GetVkStageAndAccessFlags G RHIAccess ResourceType true bIsSourceState =
      some ⟨VK_PIPELINE_STAGE_EARLY_FRAGMENT_TESTS_BIT ||| VK_PIPELINE_STAGE_LATE_FRAGMENT_TESTS_BIT,
        VK_ACCESS_DEPTH_STENCIL_ATTACHMENT_READ_BIT ||| VK_ACCESS_DEPTH_STENCIL_ATTACHMENT_WRITE_BIT,
        VK_IMAGE_LAYOUT_DEPTH_STENCIL_ATTACHMENT_OPTIMAL, false⟩ ∧
    ∃ rX, GetVkStageAndAccessFlags G DSVRead ResourceType true bIsSourceState = some rX ∧
      (VK_PIPELINE_STAGE_EARLY_FRAGMENT_TESTS_BIT ||| VK_PIPELINE_STAGE_LATE_FRAGMENT_TESTS_BIT) &&&
        rX.StageFlags = rX.StageFlags ∧
      (VK_ACCESS_DEPTH_STENCIL_ATTACHMENT_READ_BIT |||
        VK_ACCESS_DEPTH_STENCIL_ATTACHMENT_WRITE_BIT) &&& rX.AccessFlags = rX.AccessFlags := by
  have hR : RHIAccess ≠ (RTV ||| ResolveDst) := by
    intro h
    rw [h] at hW
    revert hW
    decide
  constructor
  · rw [GetVkStageAndAccessFlags_not_case_label G RHIAccess ResourceType true bIsSourceState hD
      hR, if_pos hW]
    rfl
  · rw [GetVkStageAndAccessFlags_not_case_label G DSVRead ResourceType true bIsSourceState hX
      (by decide)]
    cases ResourceType <;> exact ⟨_, rfl, by decide, by decide⟩

open ERHIAccess VkImageLayout FRHITransitionInfo GetVkStageAndAccessFlags in
/-- C12 (counterexample): `DSVWrite | RTV` is not a dominant value and contains the
render-target bit, which the composable accumulation does not recognise; for a
depth-stencil texture the classifier returns from the depth-write block without reporting
unprocessed flags. -/
theorem GetVkStageAndAccessFlags_DSVWrite_RTV_not_reported :
    ¬ Generic.FromComments.IsDominant (DSVWrite ||| RTV) ∧
    (DSVWrite ||| RTV) &&& (4294967295 ^^^ (ComposableFlags ||| DSVWrite)) ≠ 0 ∧
    GetVkStageAndAccessFlags Generic.FromComments (DSVWrite ||| RTV) EType.Texture true false =
      some ⟨VK_PIPELINE_STAGE_EARLY_FRAGMENT_TESTS_BIT ||| VK_PIPELINE_STAGE_LATE_FRAGMENT_TESTS_BIT,
        VK_ACCESS_DEPTH_STENCIL_ATTACHMENT_READ_BIT ||| VK_ACCESS_DEPTH_STENCIL_ATTACHMENT_WRITE_BIT,
        VK_IMAGE_LAYOUT_DEPTH_STENCIL_ATTACHMENT_OPTIMAL, false⟩ :=
  ⟨by decide, by decide, by decide⟩

open ERHIAccess VkImageLayout FRHITransitionInfo GetVkStageAndAccessFlags in
/-- C12 (amended): for every intent mask that is not a dominant value (nor the combination
`RTV | ResolveDst`, which is treated as `RTV`) and does not contain `DSVWrite`, if the mask
contains a bit that the composable accumulation does not recognise, then the classifier
either fails a `check` or returns with the "Some access flags were not processed"
violation reported; it never returns silently. -/
theorem GetVkStageAndAccessFlags_unprocessed_reported (G : ERHIAccess.Generic)
    (RHIAccess : Nat) (ResourceType : EType) (bIsDepthStencil bIsSourceState : Bool)
    (hD : ¬ G.IsDominant RHIAccess) (hW : EnumHasAnyFlags RHIAccess DSVWrite = false)
    (hX : RHIAccess &&& (4294967295 ^^^ ComposableFlags) ≠ 0) :
    GetVkStageAndAccessFlags G RHIAccess ResourceType bIsDepthStencil bIsSourceState = none ∨
    ∃ r, GetVkStageAndAccessFlags G RHIAccess ResourceType bIsDepthStencil bIsSourceState =
        some r ∧ r.bUnprocessedFlags = true := by
  have hL : RHIAccess ∉ G.CaseLabels := fun h => hD (Or.inl h)
  have hR : RHIAccess ≠ (RTV ||| ResolveDst) := fun h => hD (Or.inr h)
  rw [GetVkStageAndAccessFlags_not_case_label G RHIAccess ResourceType bIsDepthStencil
    bIsSourceState hL hR]
  simp only [hW, Bool.false_eq_true, if_false]
  cases hC : Combine RHIAccess ResourceType bIsDepthStencil
      (if bIsDepthStencil then VK_IMAGE_LAYOUT_DEPTH_STENCIL_READ_ONLY_OPTIMAL
        else VK_IMAGE_LAYOUT_SHADER_READ_ONLY_OPTIMAL) with
  | none => left; rfl
  | some a =>
    right
    refine ⟨_, rfl, ?_⟩
    have hP := Combine_processed _ _ _ _ a hC
    have := remaining_flags_ne_zero RHIAccess a.ProcessedRHIFlags ComposableFlags hP (by decide) hX
    simpa using this

namespace GetVkStageAndAccessFlags

open ERHIAccess VkImageLayout FRHITransitionInfo

theorem KindBlocks_none_iff (M : Nat) (k : EType) (a : FVkClassifyLocals) :
    (IndirectArgsBlock M k a).bind (VertexOrIndexBufferBlock M k) = none ↔
      ((EnumHasAnyFlags M IndirectArgs = true ∨ EnumHasAnyFlags M VertexOrIndexBuffer = true) ∧
        k = EType.Texture) ∨
      (EnumHasAnyFlags M VertexOrIndexBuffer = true ∧ k ≠ EType.VertexBuffer ∧
        k ≠ EType.IndexBuffer) := by
  unfold IndirectArgsBlock VertexOrIndexBufferBlock
  cases hIA : EnumHasAnyFlags M IndirectArgs <;> cases hVB : EnumHasAnyFlags M VertexOrIndexBuffer <;>
    cases k <;> simp

theorem KindBlocks_layout (M : Nat) (k : EType) (a b : FVkClassifyLocals)
    (h : (IndirectArgsBlock M k a).bind (VertexOrIndexBufferBlock M k) = some b) :
    b.Layout = a.Layout := by
  simp only [Option.bind_eq_some] at h
  obtain ⟨a1, h1, h2⟩ := h
  have e1 : a1.Layout = a.Layout := by
    unfold IndirectArgsBlock at h1
    split_ifs at h1 <;> cases h1 <;> rfl
  have e2 : b.Layout = a1.Layout := by
    unfold VertexOrIndexBufferBlock at h2
    split_ifs at h2
    · cases k <;> simp at h2 <;> cases h2 <;> rfl
    · cases h2; rfl
  rw [e2, e1]

theorem Combine_none_iff (M : Nat) (k : EType) (ds : Bool) (L : VkImageLayout)
    (hDS : EnumHasAnyFlags M DSVRead = true → ds = true)
    (hCopy : k = EType.Texture → EnumHasAnyFlags M (CopySrc ||| ResolveSrc) = true →
      EnumHasAnyFlags M DSVRead = false ∧ EnumHasAnyFlags M SRVGraphics = false ∧
      EnumHasAnyFlags M SRVCompute = false ∧ EnumHasAnyFlags M UAVGraphics = false ∧
      EnumHasAnyFlags M UAVCompute = false) :
    Combine M k ds L = none ↔
      ((EnumHasAnyFlags M IndirectArgs = true ∨ EnumHasAnyFlags M VertexOrIndexBuffer = true) ∧
        k = EType.Texture) ∨
      (EnumHasAnyFlags M VertexOrIndexBuffer = true ∧ k ≠ EType.VertexBuffer ∧
        k ≠ EType.IndexBuffer) := by
  rw [← KindBlocks_none_iff M k
    { StageFlags := 0, AccessFlags := 0, Layout := VK_IMAGE_LAYOUT_UNDEFINED,
      ProcessedRHIFlags := 0 }]
  unfold Combine
  cases hK : (IndirectArgsBlock M k
      { StageFlags := 0, AccessFlags := 0, Layout := VK_IMAGE_LAYOUT_UNDEFINED,
        ProcessedRHIFlags := 0 }).bind (VertexOrIndexBufferBlock M k) with
  | none => simp
  | some a2 =>
    have hLay := KindBlocks_layout M k _ a2 hK
    simp only [Option.some_bind, reduceCtorEq, iff_false]
    -- the depth-read block and the copy-source block pass their checks
    cases hR : EnumHasAnyFlags M DSVRead with
    | true =>
      have hds := hDS hR
      subst hds
      cases hC : EnumHasAnyFlags M (CopySrc ||| ResolveSrc) with
      | false => simp [DSVReadBlock, CopySrcBlock, hR, hC]
      | true =>
        by_cases hk : k = EType.Texture
        · have := (hCopy hk hC).1
          rw [hR] at this
          cases this
        · simp [DSVReadBlock, CopySrcBlock, hR, hC, hk]
    | false =>
      cases hC : EnumHasAnyFlags M (CopySrc ||| ResolveSrc) with
      | false => simp [DSVReadBlock, CopySrcBlock, hR, hC]
      | true =>
        by_cases hk : k = EType.Texture
        · obtain ⟨_, h1, h2, h3, h4⟩ := hCopy hk hC
          simp [DSVReadBlock, CopySrcBlock, SRVGraphicsBlock, SRVComputeBlock, UAVGraphicsBlock,
            UAVComputeBlock, hR, hC, hk, h1, h2, h3, h4, hLay]
        · simp [DSVReadBlock, CopySrcBlock, hR, hC, hk]

end GetVkStageAndAccessFlags

open ERHIAccess VkImageLayout FRHITransitionInfo GetVkStageAndAccessFlags in
/-- C13: the resource-kind cross-check of the classifier. For every composable intent mask
(no dominant value, no depth-write) the kind check (the indirect-args block followed by the
vertex/index block) fails exactly when (the mask contains indirect-args or vertex/index-read
and the kind is texture) or (the mask contains vertex/index-read and the kind is neither
vertex buffer nor index buffer); when the other checks of the classifier pass (depth-read
only on a depth-stencil image, copy-source on a texture without a layout-setting flag) this
is exactly when `GetVkStageAndAccessFlags` fails; and for vertex/index-read the block adds
`INDEX_READ` for an index buffer and `VERTEX_ATTRIBUTE_READ` for a vertex buffer. -/
theorem GetVkStageAndAccessFlags_kind_check (G : ERHIAccess.Generic) (RHIAccess : Nat)
    (ResourceType : EType) (bIsDepthStencil bIsSourceState : Bool)
    (hD : ¬ G.IsDominant RHIAccess) (hW : EnumHasAnyFlags RHIAccess DSVWrite = false)
    (hDS : EnumHasAnyFlags RHIAccess DSVRead = true → bIsDepthStencil = true)
    (hCopy : ResourceType = EType.Texture →
      EnumHasAnyFlags RHIAccess (CopySrc ||| ResolveSrc) = true →
      EnumHasAnyFlags RHIAccess DSVRead = false ∧ EnumHasAnyFlags RHIAccess SRVGraphics = false ∧
      EnumHasAnyFlags RHIAccess SRVCompute = false ∧ EnumHasAnyFlags RHIAccess UAVGraphics = false ∧
      EnumHasAnyFlags RHIAccess UAVCompute = false) :
    (∀ a, (IndirectArgsBlock RHIAccess ResourceType a).bind
        (VertexOrIndexBufferBlock RHIAccess ResourceType) = none ↔
      ((EnumHasAnyFlags RHIAccess IndirectArgs = true ∨
          EnumHasAnyFlags RHIAccess VertexOrIndexBuffer = true) ∧
        ResourceType = EType.Texture) ∨
      (EnumHasAnyFlags RHIAccess VertexOrIndexBuffer = true ∧
        ResourceType ≠ EType.VertexBuffer ∧ ResourceType ≠ EType.IndexBuffer)) ∧
    (GetVkStageAndAccessFlags G RHIAccess ResourceType bIsDepthStencil bIsSourceState = none ↔
      ((EnumHasAnyFlags RHIAccess IndirectArgs = true ∨
          EnumHasAnyFlags RHIAccess VertexOrIndexBuffer = true) ∧
        ResourceType = EType.Texture) ∨
      (EnumHasAnyFlags RHIAccess VertexOrIndexBuffer = true ∧
        ResourceType ≠ EType.VertexBuffer ∧ ResourceType ≠ EType.IndexBuffer)) ∧
    (EnumHasAnyFlags RHIAccess VertexOrIndexBuffer = true →
      ∀ a, VertexOrIndexBufferBlock RHIAccess EType.IndexBuffer a = some { a with
          StageFlags := a.StageFlags ||| VK_PIPELINE_STAGE_VERTEX_INPUT_BIT
          AccessFlags := a.AccessFlags ||| VK_ACCESS_INDEX_READ_BIT
          ProcessedRHIFlags := a.ProcessedRHIFlags ||| VertexOrIndexBuffer } ∧
        VertexOrIndexBufferBlock RHIAccess EType.VertexBuffer a = some { a with
          StageFlags := a.StageFlags ||| VK_PIPELINE_STAGE_VERTEX_INPUT_BIT
          AccessFlags := a.AccessFlags ||| VK_ACCESS_VERTEX_ATTRIBUTE_READ_BIT
          ProcessedRHIFlags := a.ProcessedRHIFlags ||| VertexOrIndexBuffer }) := by
  have hL : RHIAccess ∉ G.CaseLabels := fun h => hD (Or.inl h)
  have hR : RHIAccess ≠ (RTV ||| ResolveDst) := fun h => hD (Or.inr h)
  refine ⟨fun a => KindBlocks_none_iff RHIAccess ResourceType a, ?_, ?_⟩
  · rw [GetVkStageAndAccessFlags_not_case_label G RHIAccess ResourceType bIsDepthStencil
      bIsSourceState hL hR]
    simp only [hW, Bool.false_eq_true, if_false, Option.map_eq_none']
    exact Combine_none_iff RHIAccess ResourceType bIsDepthStencil _ hDS hCopy
  · intro hVB a
    simp [VertexOrIndexBufferBlock, hVB]

/-! ## Combined depth-stencil classification and the memory barrier -/

open ERHIAccess VkImageLayout in
/-- C14: the layout returned by `GetDepthStencilStageAndAccessFlags` for a depth access `d`
and a stencil access `s`. If neither is `Unknown` it is decided by which aspects contain
depth-write: both, `DEPTH_STENCIL_ATTACHMENT_OPTIMAL`; only `d`,
`DEPTH_ATTACHMENT_STENCIL_READ_ONLY_OPTIMAL`; only `s`,
`DEPTH_READ_ONLY_STENCIL_ATTACHMENT_OPTIMAL`; neither, `DEPTH_STENCIL_READ_ONLY_OPTIMAL`. If
`d` or `s` is `Unknown` the result is layout `UNDEFINED` with stage `ALL_COMMANDS` and access
`MEMORY_READ | MEMORY_WRITE`. -/
theorem GetDepthStencilStageAndAccessFlags_layout (DepthAccess StencilAccess : Nat)
    (bIsSourceState : Bool) :
    (GetDepthStencilStageAndAccessFlags DepthAccess StencilAccess bIsSourceState).Layout =
      (if DepthAccess = Unknown ∨ StencilAccess = Unknown then VK_IMAGE_LAYOUT_UNDEFINED
       else if EnumHasAnyFlags DepthAccess DSVWrite = true ∧
          EnumHasAnyFlags StencilAccess DSVWrite = true then
        VK_IMAGE_LAYOUT_DEPTH_STENCIL_ATTACHMENT_OPTIMAL
       else if EnumHasAnyFlags DepthAccess DSVWrite = true then
        VK_IMAGE_LAYOUT_DEPTH_ATTACHMENT_STENCIL_READ_ONLY_OPTIMAL_KHR
       else if EnumHasAnyFlags StencilAccess DSVWrite = true then
        VK_IMAGE_LAYOUT_DEPTH_READ_ONLY_STENCIL_ATTACHMENT_OPTIMAL_KHR
       else VK_IMAGE_LAYOUT_DEPTH_STENCIL_READ_ONLY_OPTIMAL) ∧
    (DepthAccess = Unknown ∨ StencilAccess = Unknown →
      GetDepthStencilStageAndAccessFlags DepthAccess StencilAccess bIsSourceState =
        ⟨VK_PIPELINE_STAGE_ALL_COMMANDS_BIT,
          VK_ACCESS_MEMORY_READ_BIT ||| VK_ACCESS_MEMORY_WRITE_BIT,
          VK_IMAGE_LAYOUT_UNDEFINED, false⟩) := by
  constructor
  · by_cases hU : DepthAccess = Unknown ∨ StencilAccess = Unknown
    · simp only [GetDepthStencilStageAndAccessFlags, if_pos hU]
    · have hLay : ∀ (C F S A : Nat) (a : FVkClassifyLocals),
          (GetDepthStencilStageAndAccessFlags.Accumulate C F S A a).Layout = a.Layout := by
        intro C F S A a
        unfold GetDepthStencilStageAndAccessFlags.Accumulate
        split_ifs <;> rfl
      simp only [GetDepthStencilStageAndAccessFlags, if_neg hU, hLay]
      cases EnumHasAnyFlags DepthAccess DSVWrite <;>
        cases EnumHasAnyFlags StencilAccess DSVWrite <;> simp
  · intro hU
    simp only [GetDepthStencilStageAndAccessFlags, if_pos hU]

open ERHIAccess VkImageLayout in
theorem GetDepthStencilStageAndAccessFlags_layout_witness :
    (DSVWrite = Unknown ∨ Unknown = Unknown) ∧
    GetDepthStencilStageAndAccessFlags DSVWrite Unknown true =
      ⟨VK_PIPELINE_STAGE_ALL_COMMANDS_BIT,
        VK_ACCESS_MEMORY_READ_BIT ||| VK_ACCESS_MEMORY_WRITE_BIT,
        VK_IMAGE_LAYOUT_UNDEFINED, false⟩ :=
  ⟨Or.inr rfl, (GetDepthStencilStageAndAccessFlags_layout DSVWrite Unknown true).2 (Or.inr rfl)⟩

/-- C16 (evaluation at the failing input): a source access of `MEMORY_READ` alone holds no
write-capable bit, yet `AddMemoryBarrier` widens the memory barrier with it, because
`ReadMask` does not list `MEMORY_READ` (nor `HOST_READ`). -/
theorem AddMemoryBarrier_widens_for_MEMORY_READ :
    VK_ACCESS_MEMORY_READ_BIT &&& WriteAccessMask = 0 ∧
    AddMemoryBarrier ⟨0, 0⟩ VK_ACCESS_MEMORY_READ_BIT VK_ACCESS_SHADER_READ_BIT =
      ⟨VK_ACCESS_MEMORY_READ_BIT, VK_ACCESS_SHADER_READ_BIT⟩ ∧
    VK_ACCESS_HOST_READ_BIT &&& WriteAccessMask = 0 ∧
    AddMemoryBarrier ⟨0, 0⟩ VK_ACCESS_HOST_READ_BIT VK_ACCESS_SHADER_READ_BIT =
      ⟨VK_ACCESS_HOST_READ_BIT, VK_ACCESS_SHADER_READ_BIT⟩ := by
  decide

namespace RHICreateTransition

open FRHITransitionInfo FRHISubresourceRange

theorem ProcessInfo_null (G : ERHIAccess.Generic) (SrcP DstP : ERHIPipeline) (q1 q2 : Nat)
    (Info : FRHITransitionInfo) (s : FState) (h : Info.Resource = none) :
    ProcessInfo G SrcP DstP q1 q2 Info s = some s := by
  simp only [ProcessInfo, h]

theorem ProcessInfo_unknown_after (G : ERHIAccess.Generic) (SrcP DstP : ERHIPipeline)
    (q1 q2 : Nat) (Info : FRHITransitionInfo) (s : FState) (hR : Info.Resource ≠ none)
    (hU : Info.AccessAfter = ERHIAccess.Unknown) :
    ProcessInfo G SrcP DstP q1 q2 Info s = none := by
  cases hRes : Info.Resource with
  | none => exact absurd hRes hR
  | some R => simp only [ProcessInfo, hRes, hU, if_true]

theorem ProcessInfos_append (G : ERHIAccess.Generic) (SrcP DstP : ERHIPipeline) (q1 q2 : Nat)
    (l1 l2 : List FRHITransitionInfo) :
    ∀ s, ProcessInfos G SrcP DstP q1 q2 (l1 ++ l2) s =
      (ProcessInfos G SrcP DstP q1 q2 l1 s).bind (ProcessInfos G SrcP DstP q1 q2 l2) := by
  induction l1 with
  | nil => intro s; rfl
  | cons e l1 ih =>
    intro s
    simp only [List.cons_append, ProcessInfos]
    cases ProcessInfo G SrcP DstP q1 q2 e s with
    | none => rfl
    | some s1 => exact ih s1

theorem ProcessInfos_filter_null (G : ERHIAccess.Generic) (SrcP DstP : ERHIPipeline)
    (q1 q2 : Nat) (Infos : List FRHITransitionInfo) :
    ∀ s, ProcessInfos G SrcP DstP q1 q2 (Infos.filter (fun Info => Info.Resource.isSome)) s =
      ProcessInfos G SrcP DstP q1 q2 Infos s := by
  induction Infos with
  | nil => intro s; rfl
  | cons e l ih =>
    intro s
    cases hRes : e.Resource with
    | none =>
      have hf : (e :: l).filter (fun Info => Info.Resource.isSome) =
          l.filter (fun Info => Info.Resource.isSome) := by
        simp [List.filter_cons, hRes]
      rw [hf, ih s]
      simp only [ProcessInfos, ProcessInfo_null G SrcP DstP q1 q2 e s hRes]
    | some R =>
      have hf : (e :: l).filter (fun Info => Info.Resource.isSome) =
          e :: l.filter (fun Info => Info.Resource.isSome) := by
        simp [List.filter_cons, hRes]
      rw [hf]
      simp only [ProcessInfos]
      cases ProcessInfo G SrcP DstP q1 q2 e s with
      | none => rfl
      | some s1 => exact ih s1

theorem ProcessInfos_none_of_mem (G : ERHIAccess.Generic) (SrcP DstP : ERHIPipeline)
    (q1 q2 : Nat) (Info : FRHITransitionInfo)
    (hfail : ∀ s, ProcessInfo G SrcP DstP q1 q2 Info s = none) :
    ∀ (Infos : List FRHITransitionInfo), Info ∈ Infos →
      ∀ s, ProcessInfos G SrcP DstP q1 q2 Infos s = none := by
  intro Infos
  induction Infos with
  | nil => intro h; cases h
  | cons e l ih =>
    intro hmem s
    simp only [ProcessInfos]
    cases hs : ProcessInfo G SrcP DstP q1 q2 e s with
    | none => rfl
    | some s1 =>
      rcases List.mem_cons.mp hmem with rfl | hin
      · rw [hfail s] at hs; cases hs
      · exact ih hin s1

/-- The ways one iteration of the main loop can succeed: the entry is skipped, it is parked
as a pending depth-stencil aspect, or it is emitted. -/
theorem ProcessInfo_cases (G : ERHIAccess.Generic) (SrcP DstP : ERHIPipeline) (q1 q2 : Nat)
    (Info : FRHITransitionInfo) (s s1 : FState)
    (h : ProcessInfo G SrcP DstP q1 q2 Info s = some s1) :
    (Info.Resource = none ∧ s1 = s) ∨
    ∃ R Res Pending bEnsure, Info.Resource = some R ∧ Info.AccessAfter ≠ ERHIAccess.Unknown ∧
      ResolveResource R = some Res ∧
      ((ClassifyInfo G Info Res s = some (Pending, bEnsure, none) ∧
          s1 = { s with DSSubresTransitions := Pending, bEnsureFailed := bEnsure }) ∨
        ∃ C, ClassifyInfo G Info Res s = some (Pending, bEnsure, some C) ∧
          s1 = { Data := EmitBarrier SrcP DstP q1 q2 Info Res (AsyncComputeOverride SrcP DstP C)
                   s.Data
                 DSSubresTransitions := Pending
                 bEnsureFailed := bEnsure }) := by
  unfold ProcessInfo at h
  cases hRes : Info.Resource with
  | none =>
    rw [hRes] at h
    simp only at h
    cases h
    exact Or.inl ⟨rfl, rfl⟩
  | some R =>
    rw [hRes] at h
    simp only at h
    by_cases hU : Info.AccessAfter = ERHIAccess.Unknown
    · rw [if_pos hU] at h; cases h
    · rw [if_neg hU] at h
      cases hRR : ResolveResource R with
      | none => rw [hRR] at h; cases h
      | some Res =>
        rw [hRR] at h
        simp only at h
        cases hC : ClassifyInfo G Info Res s with
        | none => rw [hC] at h; cases h
        | some r =>
          obtain ⟨Pending, bEnsure, oc⟩ := r
          rw [hC] at h
          cases oc with
          | none =>
            simp only [Option.some.injEq] at h
            exact Or.inr ⟨R, Res, Pending, bEnsure, rfl, hU, hRR, Or.inl ⟨hC, h.symm⟩⟩
          | some C =>
            simp only [Option.some.injEq] at h
            exact Or.inr ⟨R, Res, Pending, bEnsure, rfl, hU, hRR, Or.inr ⟨C, hC, h.symm⟩⟩

theorem ProcessInfos_inv (G : ERHIAccess.Generic) (SrcP DstP : ERHIPipeline) (q1 q2 : Nat)
    (Q : FState → Prop)
    (hstep : ∀ Info s s1, ProcessInfo G SrcP DstP q1 q2 Info s = some s1 → Q s → Q s1) :
    ∀ (Infos : List FRHITransitionInfo) (s s1 : FState),
      ProcessInfos G SrcP DstP q1 q2 Infos s = some s1 → Q s → Q s1 := by
  intro Infos
  induction Infos with
  | nil => intro s s1 h hq; simp only [ProcessInfos, Option.some.injEq] at h; rw [← h]; exact hq
  | cons e l ih =>
    intro s s1 h hq
    simp only [ProcessInfos] at h
    cases hs : ProcessInfo G SrcP DstP q1 q2 e s with
    | none => rw [hs] at h; cases h
    | some s2 =>
      rw [hs] at h
      exact ih s2 s1 h (hstep e s s2 hs hq)

theorem EmitBarrier_Semaphore (SrcP DstP : ERHIPipeline) (q1 q2 : Nat)
    (Info : FRHITransitionInfo) (Res : FResolved) (C : FClassified)
    (Data : FVulkanPipelineBarrier) :
    (EmitBarrier SrcP DstP q1 q2 Info Res C Data).Semaphore = Data.Semaphore := by
  unfold EmitBarrier
  cases Res <;> simp only <;> split_ifs <;> rfl

theorem ProcessPending_foldl_inv (q1 q2 : Nat) (Q : FVulkanPipelineBarrier × Bool → Prop)
    (hstep : ∀ P r, Q r → Q (ProcessPending q1 q2 P r)) :
    ∀ (L : List FDepthStencilSubresTransition) (r : FVulkanPipelineBarrier × Bool),
      Q r → Q (L.foldl (fun r P => ProcessPending q1 q2 P r) r) := by
  intro L
  induction L with
  | nil => intro r h; exact h
  | cons P L ih => intro r h; exact ih _ (hstep P r h)

end RHICreateTransition

namespace RHICreateTransition

theorem ProcessInfo_Semaphore (G : ERHIAccess.Generic) (SrcP DstP : ERHIPipeline) (q1 q2 : Nat)
    (Info : FRHITransitionInfo) (s s1 : FState)
    (h : ProcessInfo G SrcP DstP q1 q2 Info s = some s1) :
    s1.Data.Semaphore = s.Data.Semaphore := by
  rcases ProcessInfo_cases G SrcP DstP q1 q2 Info s s1 h with ⟨_, rfl⟩ |
    ⟨R, Res, Pending, bEnsure, _, _, _, ⟨_, rfl⟩ | ⟨C, _, rfl⟩⟩
  · rfl
  · rfl
  · exact EmitBarrier_Semaphore SrcP DstP q1 q2 Info Res _ s.Data

theorem ProcessPending_Semaphore (q1 q2 : Nat) (P : FDepthStencilSubresTransition)
    (r : FVulkanPipelineBarrier × Bool) :
    (ProcessPending q1 q2 P r).1.Semaphore = r.1.Semaphore := rfl

end RHICreateTransition

open RHICreateTransition in
/-- C18: `RHICreateTransition` allocates a semaphore exactly for cross-queue transitions.
For every list of entries, a transition that is built holds the one semaphore allocated for
it if the source pipeline differs from the destination pipeline and holds none if they are
equal; and for the empty list a transition is built. -/
theorem RHICreateTransition_semaphore (G : ERHIAccess.Generic)
    (GfxQueueIndex ComputeQueueIndex NewSemaphore : Nat) (SrcPipelines DstPipelines : ERHIPipeline)
    (Infos : List FRHITransitionInfo) :
    (∀ Data bEnsure,
      RHICreateTransition G GfxQueueIndex ComputeQueueIndex NewSemaphore SrcPipelines DstPipelines
        Infos = some (Data, bEnsure) →
      Data.Semaphore = if SrcPipelines ≠ DstPipelines then some NewSemaphore else none) ∧
    (∃ Data bEnsure,
      RHICreateTransition G GfxQueueIndex ComputeQueueIndex NewSemaphore SrcPipelines DstPipelines
        [] = some (Data, bEnsure) ∧
      Data.Semaphore = if SrcPipelines ≠ DstPipelines then some NewSemaphore else none) := by
  have hInit : (InitialData NewSemaphore SrcPipelines DstPipelines).Semaphore =
      if SrcPipelines ≠ DstPipelines then some NewSemaphore else none := by
    unfold InitialData
    split_ifs <;> rfl
  constructor
  · intro Data bEnsure h
    simp only [RHICreateTransition, Option.map_eq_some'] at h
    obtain ⟨s, hs, hfold⟩ := h
    have h1 := ProcessInfos_inv G SrcPipelines DstPipelines _ _
      (fun t => t.Data.Semaphore = if SrcPipelines ≠ DstPipelines then some NewSemaphore else none)
      (fun Info t t1 ht hq => by
        show t1.Data.Semaphore = _
        rw [ProcessInfo_Semaphore G SrcPipelines DstPipelines _ _ Info t t1 ht]; exact hq)
      Infos _ s hs hInit
    have h2 := ProcessPending_foldl_inv
      (SrcQueueFamilyIndex GfxQueueIndex ComputeQueueIndex SrcPipelines DstPipelines)
      (DstQueueFamilyIndex GfxQueueIndex ComputeQueueIndex SrcPipelines DstPipelines)
      (fun r => r.1.Semaphore = if SrcPipelines ≠ DstPipelines then some NewSemaphore else none)
      (fun P r hq => by
        show (ProcessPending _ _ P r).1.Semaphore = _
        rw [ProcessPending_Semaphore]; exact hq)
      s.DSSubresTransitions (s.Data, s.bEnsureFailed) h1
    unfold ProcessAllPending at hfold
    rw [hfold] at h2
    exact h2
  · exact ⟨_, _, rfl, hInit⟩

theorem RHICreateTransition_semaphore_witness :
    RHICreateTransition ERHIAccess.Generic.FromComments 0 1 99 ERHIPipeline.Graphics
      ERHIPipeline.AsyncCompute
      [⟨some (FRHITransitionInfo.FResource.StructuredBuffer ⟨5⟩), ERHIAccess.UAVGraphics,
        ERHIAccess.UAVCompute, 0, 0, 0⟩] =
      some (⟨ERHIPipeline.Graphics, ERHIPipeline.AsyncCompute, 248, 2048, ⟨0, 0⟩, [], [],
        [⟨96, 96, 0, 1, 5, 0, VK_WHOLE_SIZE⟩], some 99⟩, false) ∧
    (⟨ERHIPipeline.Graphics, ERHIPipeline.AsyncCompute, 248, 2048, ⟨0, 0⟩, [], [],
        [⟨96, 96, 0, 1, 5, 0, VK_WHOLE_SIZE⟩], some 99⟩ : FVulkanPipelineBarrier).Semaphore =
      (if ERHIPipeline.Graphics ≠ ERHIPipeline.AsyncCompute then some 99 else none) :=
  ⟨by decide,
    (RHICreateTransition_semaphore ERHIAccess.Generic.FromComments 0 1 99 ERHIPipeline.Graphics
      ERHIPipeline.AsyncCompute
      [⟨some (FRHITransitionInfo.FResource.StructuredBuffer ⟨5⟩), ERHIAccess.UAVGraphics,
        ERHIAccess.UAVCompute, 0, 0, 0⟩]).1
      ⟨ERHIPipeline.Graphics, ERHIPipeline.AsyncCompute, 248, 2048, ⟨0, 0⟩, [], [],
        [⟨96, 96, 0, 1, 5, 0, VK_WHOLE_SIZE⟩], some 99⟩ false (by decide)⟩

open RHICreateTransition in
/-- C19: a destination intent of `Unknown` is rejected. `RHICreateTransition` fails (a fatal
check, no transition is produced) whenever some entry with a non-null resource has
access-after `Unknown`, and `AddImageAccessTransition` fails (no barrier is produced)
whenever its destination access is `Unknown`. -/
theorem RHICreateTransition_rejects_unknown_after (G : ERHIAccess.Generic)
    (GfxQueueIndex ComputeQueueIndex NewSemaphore : Nat) (SrcPipelines DstPipelines : ERHIPipeline)
    (Infos : List FRHITransitionInfo) (Info : FRHITransitionInfo) (hmem : Info ∈ Infos)
    (hR : Info.Resource ≠ none) (hU : Info.AccessAfter = ERHIAccess.Unknown) :
    RHICreateTransition G GfxQueueIndex ComputeQueueIndex NewSemaphore SrcPipelines DstPipelines
      Infos = none ∧
    ∀ (P : FVulkanPlatformDefines) (Barrier : FVulkanPipelineBarrier) (Surface : FVulkanSurface)
      (SrcAccess : Nat) (SubresourceRange : VkImageSubresourceRange) (InOutLayout : VkImageLayout),
      FVulkanPipelineBarrier.AddImageAccessTransition G P Barrier Surface SrcAccess
        ERHIAccess.Unknown SubresourceRange InOutLayout = none := by
  constructor
  · simp only [RHICreateTransition, Option.map_eq_none']
    exact ProcessInfos_none_of_mem G SrcPipelines DstPipelines _ _ Info
      (fun s => ProcessInfo_unknown_after G SrcPipelines DstPipelines _ _ Info s hR hU)
      Infos hmem _
  · intro P Barrier Surface SrcAccess SubresourceRange InOutLayout
    simp only [FVulkanPipelineBarrier.AddImageAccessTransition, if_true]

theorem RHICreateTransition_rejects_unknown_after_witness :
    (⟨some (FRHITransitionInfo.FResource.StructuredBuffer ⟨5⟩), ERHIAccess.UAVGraphics,
        ERHIAccess.Unknown, 0, 0, 0⟩ : FRHITransitionInfo) ∈
      [(⟨none, 0, 0, 0, 0, 0⟩ : FRHITransitionInfo),
        ⟨some (FRHITransitionInfo.FResource.StructuredBuffer ⟨5⟩), ERHIAccess.UAVGraphics,
          ERHIAccess.Unknown, 0, 0, 0⟩] ∧
    RHICreateTransition ERHIAccess.Generic.FromComments 0 1 99 ERHIPipeline.Graphics
      ERHIPipeline.Graphics
      [⟨none, 0, 0, 0, 0, 0⟩,
        ⟨some (FRHITransitionInfo.FResource.StructuredBuffer ⟨5⟩), ERHIAccess.UAVGraphics,
          ERHIAccess.Unknown, 0, 0, 0⟩] = none :=
  ⟨by decide,
    (RHICreateTransition_rejects_unknown_after ERHIAccess.Generic.FromComments 0 1 99
      ERHIPipeline.Graphics ERHIPipeline.Graphics
      [⟨none, 0, 0, 0, 0, 0⟩,
        ⟨some (FRHITransitionInfo.FResource.StructuredBuffer ⟨5⟩), ERHIAccess.UAVGraphics,
          ERHIAccess.Unknown, 0, 0, 0⟩]
      ⟨some (FRHITransitionInfo.FResource.StructuredBuffer ⟨5⟩), ERHIAccess.UAVGraphics,
        ERHIAccess.Unknown, 0, 0, 0⟩ (by decide) (by decide) rfl).1⟩

open RHICreateTransition in
/-- C20: entries with a null resource are skipped. For every entry list and pipeline pair the
result of `RHICreateTransition` (the whole transition: buffer barriers, image barriers with
their textures, memory barrier, stage masks, or the failure) is equal to its result on the
same list with all null-resource entries removed; a null-resource entry never causes a
failure, whatever its access values are, and leaves the state of the loop unchanged. -/
theorem RHICreateTransition_skips_null (G : ERHIAccess.Generic)
    (GfxQueueIndex ComputeQueueIndex NewSemaphore : Nat) (SrcPipelines DstPipelines : ERHIPipeline)
    (Infos : List FRHITransitionInfo) :
    RHICreateTransition G GfxQueueIndex ComputeQueueIndex NewSemaphore SrcPipelines DstPipelines
        Infos =
      RHICreateTransition G GfxQueueIndex ComputeQueueIndex NewSemaphore SrcPipelines DstPipelines
        (Infos.filter (fun Info => Info.Resource.isSome)) ∧
    ∀ (q1 q2 AccessBefore AccessAfter MipIndex ArraySlice PlaneSlice : Nat) (s : FState),
      ProcessInfo G SrcPipelines DstPipelines q1 q2
        ⟨none, AccessBefore, AccessAfter, MipIndex, ArraySlice, PlaneSlice⟩ s = some s := by
  constructor
  · simp only [RHICreateTransition, ProcessInfos_filter_null]
  · intro q1 q2 AccessBefore AccessAfter MipIndex ArraySlice PlaneSlice s
    exact ProcessInfo_null G SrcPipelines DstPipelines q1 q2 _ s rfl

namespace RHICreateTransition

open FRHITransitionInfo

theorem ClassifyInfo_buffer (G : ERHIAccess.Generic) (Info : FRHITransitionInfo)
    (B : FVulkanResourceMultiBuffer) (ty : EType) (s : FState) :
    ClassifyInfo G Info (FResolved.Buffer B ty) s =
      (GetVkStageAndAccessFlags G Info.AccessBefore ty false true).bind (fun Src =>
        (GetVkStageAndAccessFlags G Info.AccessAfter ty false false).map (fun Dst =>
          (s.DSSubresTransitions,
            s.bEnsureFailed || Src.bUnprocessedFlags || Dst.bUnprocessedFlags,
            some { SrcStageMask := Src.StageFlags, DstStageMask := Dst.StageFlags,
                   SrcAccessFlags := Src.AccessFlags, DstAccessFlags := Dst.AccessFlags,
                   SrcLayout := Src.Layout, DstLayout := Dst.Layout }))) := rfl

theorem ClassifyInfo_buffer_some (G : ERHIAccess.Generic) (Info : FRHITransitionInfo)
    (B : FVulkanResourceMultiBuffer) (ty : EType) (s : FState)
    (Pending : List FDepthStencilSubresTransition) (bEnsure : Bool) (oc : Option FClassified)
    (h : ClassifyInfo G Info (FResolved.Buffer B ty) s = some (Pending, bEnsure, oc)) :
    Pending = s.DSSubresTransitions ∧
    ∃ Src Dst, GetVkStageAndAccessFlags G Info.AccessBefore ty false true = some Src ∧
      GetVkStageAndAccessFlags G Info.AccessAfter ty false false = some Dst ∧
      oc = some { SrcStageMask := Src.StageFlags, DstStageMask := Dst.StageFlags,
                  SrcAccessFlags := Src.AccessFlags, DstAccessFlags := Dst.AccessFlags,
                  SrcLayout := Src.Layout, DstLayout := Dst.Layout } := by
  rw [ClassifyInfo_buffer] at h
  simp only [Option.bind_eq_some, Option.map_eq_some', Prod.mk.injEq] at h
  obtain ⟨Src, hS, Dst, hD, h1, _, h3⟩ := h
  exact ⟨h1.symm, Src, Dst, hS, hD, h3.symm⟩

end RHICreateTransition

namespace RHICreateTransition

open FRHITransitionInfo

theorem EmitBarrier_buffer_lists (SrcP DstP : ERHIPipeline) (q1 q2 : Nat)
    (Info : FRHITransitionInfo) (B : FVulkanResourceMultiBuffer) (ty : EType) (C : FClassified)
    (Data : FVulkanPipelineBarrier) :
    (EmitBarrier SrcP DstP q1 q2 Info (FResolved.Buffer B ty) C Data).ImageBarriers =
        Data.ImageBarriers ∧
    (EmitBarrier SrcP DstP q1 q2 Info (FResolved.Buffer B ty) C Data).Textures =
        Data.Textures := by
  unfold EmitBarrier
  simp only
  split_ifs <;> exact ⟨rfl, rfl⟩

end RHICreateTransition

namespace RHICreateTransition

open FRHITransitionInfo

end RHICreateTransition

theorem TArrayIndexOfByPredicate_none {α : Type} (Pred : α → Bool) (A : List α) :
    TArrayIndexOfByPredicate Pred A = none ↔ ∀ x ∈ A, Pred x = false := by
  induction A with
  | nil => simp [TArrayIndexOfByPredicate]
  | cons a l ih =>
    simp only [TArrayIndexOfByPredicate, List.mem_cons, forall_eq_or_imp]
    cases hp : Pred a with
    | true => simp
    | false => simp [ih]

theorem TArrayIndexOfByPredicate_some {α : Type} (Pred : α → Bool) (A : List α) :
    ∀ i, TArrayIndexOfByPredicate Pred A = some i → ∃ x, A[i]? = some x ∧ Pred x = true := by
  induction A with
  | nil => intro i h; simp [TArrayIndexOfByPredicate] at h
  | cons a l ih =>
    intro i h
    simp only [TArrayIndexOfByPredicate] at h
    cases hp : Pred a with
    | true =>
      rw [hp] at h
      simp only [if_true, Option.some.injEq] at h
      subst h
      exact ⟨a, by simp, hp⟩
    | false =>
      rw [hp] at h
      simp only [Bool.false_eq_true, if_false, Option.map_eq_some'] at h
      obtain ⟨j, hj, rfl⟩ := h
      obtain ⟨x, hx, hpx⟩ := ih j hj
      exact ⟨x, by simpa using hx, hpx⟩

theorem set_perm {α : Type} (y : α) : ∀ (l : List α) (i : Nat) (x : α), l[i]? = some x →
    (x :: l.set i y).Perm (y :: l) := by
  intro l
  induction l with
  | nil => intro i x h; simp at h
  | cons a l ih =>
    intro i x h
    cases i with
    | zero =>
      simp only [List.getElem?_cons_zero, Option.some.injEq] at h
      subst h
      simp only [List.set_cons_zero]
      exact List.Perm.swap _ _ _
    | succ j =>
      simp only [List.getElem?_cons_succ] at h
      simp only [List.set_cons_succ]
      exact (List.Perm.swap _ _ _).trans (((ih j x h).cons a).trans (List.Perm.swap _ _ _))

theorem TArrayRemoveAtSwap_perm {α : Type} (A : List α) (i : Nat) (x : α)
    (h : A[i]? = some x) : A.Perm (x :: TArrayRemoveAtSwap A i) := by
  rcases List.eq_nil_or_concat A with rfl | ⟨L, b, hA⟩
  · simp at h
  · rw [List.concat_eq_append] at hA
    subst hA
    have hl : (L ++ [b]).getLast? = some b := by simp
    simp only [TArrayRemoveAtSwap, hl]
    rcases Nat.lt_trichotomy i L.length with hi | hi | hi
    · have hx : L[i]? = some x := by
        rw [List.getElem?_append_left hi] at h; exact h
      rw [List.set_append_left _ _ hi, List.dropLast_concat]
      exact (List.perm_append_singleton b L).trans (set_perm b L i x hx).symm
    · subst hi
      have hx : x = b := by simpa using h.symm
      subst hx
      have : (L ++ [x]).set L.length x = L ++ [x] := by
        rw [List.set_append_right _ _ (le_refl _)]; simp
      rw [this, List.dropLast_concat]
      exact List.perm_append_singleton x L
    · rw [List.getElem?_eq_none (by simp; omega)] at h
      cases h

namespace RHICreateTransition

open FRHITransitionInfo FRHISubresourceRange

theorem ClassifyInfo_texture_cases (G : ERHIAccess.Generic) (Info : FRHITransitionInfo)
    (T : FVulkanTextureBase) (s : FState)
    (Pending : List FDepthStencilSubresTransition) (bEnsure : Bool) (oc : Option FClassified)
    (h : ClassifyInfo G Info (FResolved.Texture T) s = some (Pending, bEnsure, oc)) :
    (¬(T.Surface.bIsDepthOrStencilAspect = true ∧ Info.PlaneSlice ≠ kAllSubresources) ∧
      Pending = s.DSSubresTransitions) ∨
    (TArrayIndexOfByPredicate (fun Entry => Entry.Texture.Surface.Image == T.Surface.Image)
        s.DSSubresTransitions = none ∧
      Pending = s.DSSubresTransitions ++ [(SetAspectAccess (NewPendingTransition T) Info).1] ∧
      oc = none) ∨
    (∃ Index Pd,
      TArrayIndexOfByPredicate (fun Entry => Entry.Texture.Surface.Image == T.Surface.Image)
        s.DSSubresTransitions = some Index ∧
      s.DSSubresTransitions[Index]? = some Pd ∧
      Pending = TArrayRemoveAtSwap s.DSSubresTransitions Index ∧
      ∃ C : FClassified, oc = some C ∧
        C.SrcLayout = (GetDepthStencilStageAndAccessFlags (SetAspectAccess Pd Info).1.SrcDepthAccess
          (SetAspectAccess Pd Info).1.SrcStencilAccess true).Layout ∧
        C.DstLayout = (GetDepthStencilStageAndAccessFlags (SetAspectAccess Pd Info).1.DestDepthAccess
          (SetAspectAccess Pd Info).1.DestStencilAccess false).Layout) := by
  unfold ClassifyInfo at h
  simp only at h
  split_ifs at h
  · cases hI : TArrayIndexOfByPredicate
        (fun Entry => Entry.Texture.Surface.Image == T.Surface.Image) s.DSSubresTransitions with
    | none =>
      rw [hI] at h
      simp only [Option.some.injEq, Prod.mk.injEq] at h
      exact Or.inr (Or.inl ⟨rfl, h.1.symm, h.2.2.symm⟩)
    | some Index =>
      rw [hI] at h
      simp only [TArrayGet] at h
      cases hG : s.DSSubresTransitions[Index]? with
      | none => rw [hG] at h; cases h
      | some Pd =>
        rw [hG] at h
        simp only [Option.some.injEq, Prod.mk.injEq] at h
        exact Or.inr (Or.inr ⟨Index, Pd, rfl, hG, h.1.symm, _, h.2.2.symm, rfl, rfl⟩)
  · simp only [Option.bind_eq_some, Option.map_eq_some', Prod.mk.injEq] at h
    obtain ⟨Src, _, Dst, _, h1, _, _⟩ := h
    exact Or.inl ⟨by assumption, h1.symm⟩

theorem ClassifyInfo_pending_other (G : ERHIAccess.Generic) (Info : FRHITransitionInfo)
    (T : FVulkanTextureBase) (s : FState)
    (Pending : List FDepthStencilSubresTransition) (bEnsure : Bool) (oc : Option FClassified)
    (h : ClassifyInfo G Info (FResolved.Texture T) s = some (Pending, bEnsure, oc))
    (Image : Nat) (hne : T.Surface.Image ≠ Image) :
    (Pending.filter (fun Entry => Entry.Texture.Surface.Image == Image)).Perm
      (s.DSSubresTransitions.filter (fun Entry => Entry.Texture.Surface.Image == Image)) := by
  rcases ClassifyInfo_texture_cases G Info T s Pending bEnsure oc h with ⟨_, h1⟩ |
    ⟨_, h1, _⟩ | ⟨Index, Pd, hI, hG, h1, _⟩
  · rw [h1]
  · rw [h1, List.filter_append]
    have hT : (SetAspectAccess (NewPendingTransition T) Info).1.Texture = T := by
      unfold SetAspectAccess NewPendingTransition
      split_ifs <;> rfl
    have : [(SetAspectAccess (NewPendingTransition T) Info).1].filter
        (fun Entry => Entry.Texture.Surface.Image == Image) = [] := by
      simp [List.filter_cons, hT, hne]
    rw [this, List.append_nil]
  · rw [h1]
    obtain ⟨x, hx, hpx⟩ := TArrayIndexOfByPredicate_some _ _ _ hI
    rw [hG] at hx
    cases hx
    have hperm := (TArrayRemoveAtSwap_perm s.DSSubresTransitions Index Pd hG).filter
      (fun Entry => Entry.Texture.Surface.Image == Image)
    have hPd : (Pd.Texture.Surface.Image == Image) = false := by
      have : Pd.Texture.Surface.Image = T.Surface.Image := by simpa using hpx
      simp [this, hne]
    rw [List.filter_cons, hPd] at hperm
    exact hperm.symm

theorem AsyncComputeOverride_layouts (SrcP DstP : ERHIPipeline) (C : FClassified) :
    (AsyncComputeOverride SrcP DstP C).SrcLayout = C.SrcLayout ∧
    (AsyncComputeOverride SrcP DstP C).DstLayout = C.DstLayout := by
  unfold AsyncComputeOverride
  simp only
  split_ifs <;> exact ⟨rfl, rfl⟩

theorem EmitBarrier_zip_other (SrcP DstP : ERHIPipeline) (q1 q2 : Nat)
    (Info : FRHITransitionInfo) (Res : FResolved) (C : FClassified)
    (Data : FVulkanPipelineBarrier) (Image : Nat)
    (hlen : Data.ImageBarriers.length = Data.Textures.length)
    (hne : ∀ T, Res = FResolved.Texture T → T.Surface.Image ≠ Image) :
    (EmitBarrier SrcP DstP q1 q2 Info Res C Data).ImageBarriers.length =
        (EmitBarrier SrcP DstP q1 q2 Info Res C Data).Textures.length ∧
    ((EmitBarrier SrcP DstP q1 q2 Info Res C Data).ImageBarriers.zip
        (EmitBarrier SrcP DstP q1 q2 Info Res C Data).Textures).filter
        (fun p => p.2.Surface.Image == Image) =
      (Data.ImageBarriers.zip Data.Textures).filter (fun p => p.2.Surface.Image == Image) := by
  cases Res with
  | Buffer B ty =>
    obtain ⟨e1, e2⟩ := EmitBarrier_buffer_lists SrcP DstP q1 q2 Info B ty C Data
    rw [e1, e2]
    exact ⟨hlen, rfl⟩
  | Texture T =>
    have hT := hne T rfl
    unfold EmitBarrier
    simp only
    split_ifs
    · exact ⟨hlen, rfl⟩
    · simp only [List.length_append, List.length_singleton, hlen, true_and]
      rw [List.zip_append hlen, List.filter_append]
      simp [List.filter_cons, hT]

theorem EmitBarrier_zip_texture (SrcP DstP : ERHIPipeline) (q1 q2 : Nat)
    (Info : FRHITransitionInfo) (T : FVulkanTextureBase) (C : FClassified)
    (Data : FVulkanPipelineBarrier)
    (hlen : Data.ImageBarriers.length = Data.Textures.length)
    (hcross : ¬(SrcP = DstP ∧ C.SrcLayout = C.DstLayout)) :
    (EmitBarrier SrcP DstP q1 q2 Info (FResolved.Texture T) C Data).ImageBarriers.length =
        (EmitBarrier SrcP DstP q1 q2 Info (FResolved.Texture T) C Data).Textures.length ∧
    ∃ b : VkImageMemoryBarrier, b.newLayout = C.DstLayout ∧
      b.subresourceRange.aspectMask = T.Surface.FullAspectMask ∧
      (EmitBarrier SrcP DstP q1 q2 Info (FResolved.Texture T) C Data).ImageBarriers.zip
          (EmitBarrier SrcP DstP q1 q2 Info (FResolved.Texture T) C Data).Textures =
        Data.ImageBarriers.zip Data.Textures ++ [(b, T)] := by
  unfold EmitBarrier
  simp only [if_neg hcross]
  refine ⟨by simp [hlen],
    { SetupImageBarrier VK_NULL_HANDLE C.SrcAccessFlags C.DstAccessFlags C.SrcLayout
        C.DstLayout (SetupSubresourceRange Info T.Surface.FullAspectMask) with
      srcQueueFamilyIndex := q1
      dstQueueFamilyIndex := q2 }, rfl, rfl, ?_⟩
  rw [List.zip_append hlen]
  rfl

/-- An entry that does not name the image leaves the image barriers of the image and the
pending transitions of the image as they are. -/
theorem ProcessInfo_other_image (G : ERHIAccess.Generic) (SrcP DstP : ERHIPipeline)
    (q1 q2 : Nat) (Info : FRHITransitionInfo) (s s1 : FState) (Image : Nat)
    (hImg : ImageOfInfo Info ≠ some Image)
    (h : ProcessInfo G SrcP DstP q1 q2 Info s = some s1)
    (hlen : s.Data.ImageBarriers.length = s.Data.Textures.length) :
    s1.Data.ImageBarriers.length = s1.Data.Textures.length ∧
    (s1.Data.ImageBarriers.zip s1.Data.Textures).filter (fun p => p.2.Surface.Image == Image) =
      (s.Data.ImageBarriers.zip s.Data.Textures).filter (fun p => p.2.Surface.Image == Image) ∧
    (s1.DSSubresTransitions.filter (fun Entry => Entry.Texture.Surface.Image == Image)).Perm
      (s.DSSubresTransitions.filter (fun Entry => Entry.Texture.Surface.Image == Image)) := by
  rcases ProcessInfo_cases G SrcP DstP q1 q2 Info s s1 h with ⟨_, rfl⟩ |
    ⟨R, Res, Pending, bEnsure, hR, _, hRes, hcase⟩
  · exact ⟨hlen, rfl, List.Perm.refl _⟩
  · have hne : ∀ T, Res = FResolved.Texture T → T.Surface.Image ≠ Image := by
      intro T hT hEq
      apply hImg
      simp only [ImageOfInfo, hR, hRes, hT, hEq]
    have hPend : ∀ oc, ClassifyInfo G Info Res s = some (Pending, bEnsure, oc) →
        (Pending.filter (fun Entry => Entry.Texture.Surface.Image == Image)).Perm
          (s.DSSubresTransitions.filter (fun Entry => Entry.Texture.Surface.Image == Image)) := by
      intro oc hC
      cases Res with
      | Buffer B ty =>
        rw [(ClassifyInfo_buffer_some G Info B ty s _ _ _ hC).1]
      | Texture T =>
        exact ClassifyInfo_pending_other G Info T s _ _ _ hC Image (hne T rfl)
    rcases hcase with ⟨hC, rfl⟩ | ⟨C, hC, rfl⟩
    · exact ⟨hlen, rfl, hPend _ hC⟩
    · obtain ⟨e1, e2⟩ := EmitBarrier_zip_other SrcP DstP q1 q2 Info Res
        (AsyncComputeOverride SrcP DstP C) s.Data Image hlen hne
      exact ⟨e1, e2, hPend _ hC⟩

theorem ProcessInfos_other_images (G : ERHIAccess.Generic) (SrcP DstP : ERHIPipeline)
    (q1 q2 : Nat) (Image : Nat) :
    ∀ (Infos : List FRHITransitionInfo) (s s1 : FState),
      (∀ Info ∈ Infos, ImageOfInfo Info ≠ some Image) →
      ProcessInfos G SrcP DstP q1 q2 Infos s = some s1 →
      s.Data.ImageBarriers.length = s.Data.Textures.length →
      s1.Data.ImageBarriers.length = s1.Data.Textures.length ∧
      (s1.Data.ImageBarriers.zip s1.Data.Textures).filter (fun p => p.2.Surface.Image == Image) =
        (s.Data.ImageBarriers.zip s.Data.Textures).filter (fun p => p.2.Surface.Image == Image) ∧
      (s1.DSSubresTransitions.filter (fun Entry => Entry.Texture.Surface.Image == Image)).Perm
        (s.DSSubresTransitions.filter (fun Entry => Entry.Texture.Surface.Image == Image)) := by
  intro Infos
  induction Infos with
  | nil =>
    intro s s1 _ h hlen
    simp only [ProcessInfos, Option.some.injEq] at h
    subst h
    exact ⟨hlen, rfl, List.Perm.refl _⟩
  | cons e l ih =>
    intro s s1 hO h hlen
    simp only [ProcessInfos] at h
    cases hs : ProcessInfo G SrcP DstP q1 q2 e s with
    | none => rw [hs] at h; cases h
    | some s2 =>
      rw [hs] at h
      obtain ⟨a1, a2, a3⟩ := ProcessInfo_other_image G SrcP DstP q1 q2 e s s2 Image
        (hO e (List.mem_cons_self _ _)) hs hlen
      obtain ⟨b1, b2, b3⟩ := ih s2 s1 (fun I hI => hO I (List.mem_cons_of_mem _ hI)) h a1
      exact ⟨b1, b2.trans a2, b3.trans a3⟩

theorem ProcessInfos_cons_some (G : ERHIAccess.Generic) (SrcP DstP : ERHIPipeline)
    (q1 q2 : Nat) (e : FRHITransitionInfo) (l : List FRHITransitionInfo) (s sf : FState)
    (h : ProcessInfos G SrcP DstP q1 q2 (e :: l) s = some sf) :
    ∃ s1, ProcessInfo G SrcP DstP q1 q2 e s = some s1 ∧
      ProcessInfos G SrcP DstP q1 q2 l s1 = some sf := by
  simp only [ProcessInfos] at h
  cases hs : ProcessInfo G SrcP DstP q1 q2 e s with
  | none => rw [hs] at h; cases h
  | some s1 => rw [hs] at h; exact ⟨s1, rfl, h⟩

theorem ProcessInfos_append_some (G : ERHIAccess.Generic) (SrcP DstP : ERHIPipeline)
    (q1 q2 : Nat) (l1 l2 : List FRHITransitionInfo) (s sf : FState)
    (h : ProcessInfos G SrcP DstP q1 q2 (l1 ++ l2) s = some sf) :
    ∃ s1, ProcessInfos G SrcP DstP q1 q2 l1 s = some s1 ∧
      ProcessInfos G SrcP DstP q1 q2 l2 s1 = some sf := by
  rw [ProcessInfos_append] at h
  simpa only [Option.bind_eq_some] using h

theorem SetAspectAccess_Texture (Pending : FDepthStencilSubresTransition)
    (Info : FRHITransitionInfo) :
    (SetAspectAccess Pending Info).1.Texture = Pending.Texture := by
  unfold SetAspectAccess
  split_ifs <;> rfl

/-- The first entry of an image that names one plane is parked: no barrier is emitted. -/
theorem ProcessInfo_first_aspect (G : ERHIAccess.Generic) (SrcP DstP : ERHIPipeline)
    (q1 q2 : Nat) (Info : FRHITransitionInfo) (s s1 : FState) (R : FResource)
    (T : FVulkanTextureBase) (hR : Info.Resource = some R)
    (hRes : ResolveResource R = some (FResolved.Texture T))
    (hDS : T.Surface.bIsDepthOrStencilAspect = true)
    (hPl : Info.PlaneSlice ≠ kAllSubresources)
    (hNo : s.DSSubresTransitions.filter
      (fun Entry => Entry.Texture.Surface.Image == T.Surface.Image) = [])
    (h : ProcessInfo G SrcP DstP q1 q2 Info s = some s1) :
    s1.Data = s.Data ∧
    s1.DSSubresTransitions =
      s.DSSubresTransitions ++ [(SetAspectAccess (NewPendingTransition T) Info).1] := by
  rcases ProcessInfo_cases G SrcP DstP q1 q2 Info s s1 h with ⟨hnull, _⟩ |
    ⟨R1, Res, Pending, bEnsure, hR1, _, hRes1, hcase⟩
  · rw [hR] at hnull; cases hnull
  · rw [hR] at hR1
    cases hR1
    rw [hRes] at hRes1
    cases hRes1
    have key : ∀ oc, ClassifyInfo G Info (FResolved.Texture T) s = some (Pending, bEnsure, oc) →
        oc = none ∧ Pending =
          s.DSSubresTransitions ++ [(SetAspectAccess (NewPendingTransition T) Info).1] := by
      intro oc hC
      rcases ClassifyInfo_texture_cases G Info T s Pending bEnsure oc hC with ⟨hn, _⟩ |
        ⟨_, h1, h2⟩ | ⟨Index, Pd, hI, hG, _, _⟩
      · exact absurd ⟨hDS, hPl⟩ hn
      · exact ⟨h2, h1⟩
      · obtain ⟨x, hx, hpx⟩ := TArrayIndexOfByPredicate_some _ _ _ hI
        have hmem : x ∈ s.DSSubresTransitions.filter
            (fun Entry => Entry.Texture.Surface.Image == T.Surface.Image) :=
          List.mem_filter.mpr ⟨List.getElem?_mem hx, hpx⟩
        rw [hNo] at hmem
        cases hmem
    rcases hcase with ⟨hC, rfl⟩ | ⟨C, hC, rfl⟩
    · exact ⟨rfl, (key _ hC).2⟩
    · have := (key _ hC).1
      cases this

/-- The second entry of an image that names one plane is merged with the parked one and
emitted with the combined layouts. -/
theorem ProcessInfo_second_aspect (G : ERHIAccess.Generic) (SrcP DstP : ERHIPipeline)
    (q1 q2 : Nat) (Info : FRHITransitionInfo) (s s1 : FState) (R : FResource)
    (T : FVulkanTextureBase) (P1 : FDepthStencilSubresTransition)
    (hR : Info.Resource = some R)
    (hRes : ResolveResource R = some (FResolved.Texture T))
    (hDS : T.Surface.bIsDepthOrStencilAspect = true)
    (hPl : Info.PlaneSlice ≠ kAllSubresources)
    (hOne : s.DSSubresTransitions.filter
      (fun Entry => Entry.Texture.Surface.Image == T.Surface.Image) = [P1])
    (h : ProcessInfo G SrcP DstP q1 q2 Info s = some s1) :
    s1.DSSubresTransitions.filter
      (fun Entry => Entry.Texture.Surface.Image == T.Surface.Image) = [] ∧
    ∃ C : FClassified,
      C.SrcLayout = (GetDepthStencilStageAndAccessFlags (SetAspectAccess P1 Info).1.SrcDepthAccess
        (SetAspectAccess P1 Info).1.SrcStencilAccess true).Layout ∧
      C.DstLayout = (GetDepthStencilStageAndAccessFlags (SetAspectAccess P1 Info).1.DestDepthAccess
        (SetAspectAccess P1 Info).1.DestStencilAccess false).Layout ∧
      s1.Data = EmitBarrier SrcP DstP q1 q2 Info (FResolved.Texture T)
        (AsyncComputeOverride SrcP DstP C) s.Data := by
  rcases ProcessInfo_cases G SrcP DstP q1 q2 Info s s1 h with ⟨hnull, _⟩ |
    ⟨R1, Res, Pending, bEnsure, hR1, _, hRes1, hcase⟩
  · rw [hR] at hnull; cases hnull
  · rw [hR] at hR1
    cases hR1
    rw [hRes] at hRes1
    cases hRes1
    have key : ∀ oc, ClassifyInfo G Info (FResolved.Texture T) s = some (Pending, bEnsure, oc) →
        Pending.filter (fun Entry => Entry.Texture.Surface.Image == T.Surface.Image) = [] ∧
        ∃ C : FClassified, oc = some C ∧
          C.SrcLayout = (GetDepthStencilStageAndAccessFlags
            (SetAspectAccess P1 Info).1.SrcDepthAccess
            (SetAspectAccess P1 Info).1.SrcStencilAccess true).Layout ∧
          C.DstLayout = (GetDepthStencilStageAndAccessFlags
            (SetAspectAccess P1 Info).1.DestDepthAccess
            (SetAspectAccess P1 Info).1.DestStencilAccess false).Layout := by
      intro oc hC
      rcases ClassifyInfo_texture_cases G Info T s Pending bEnsure oc hC with ⟨hn, _⟩ |
        ⟨hI, _, _⟩ | ⟨Index, Pd, hI, hG, hPend, C, hoc, hC1, hC2⟩
      · exact absurd ⟨hDS, hPl⟩ hn
      · have hall := (TArrayIndexOfByPredicate_none _ _).mp hI
        have hmem : P1 ∈ s.DSSubresTransitions.filter
            (fun Entry => Entry.Texture.Surface.Image == T.Surface.Image) := by
          rw [hOne]; exact List.mem_singleton_self _
        obtain ⟨hm1, hm2⟩ := List.mem_filter.mp hmem
        rw [hall P1 hm1] at hm2
        cases hm2
      · obtain ⟨x, hx, hpx⟩ := TArrayIndexOfByPredicate_some _ _ _ hI
        rw [hG] at hx
        cases hx
        have hmem : Pd ∈ s.DSSubresTransitions.filter
            (fun Entry => Entry.Texture.Surface.Image == T.Surface.Image) :=
          List.mem_filter.mpr ⟨List.getElem?_mem hG, hpx⟩
        rw [hOne] at hmem
        have hPd : Pd = P1 := List.mem_singleton.mp hmem
        subst hPd
        have hperm := (TArrayRemoveAtSwap_perm s.DSSubresTransitions Index Pd hG).filter
          (fun Entry => Entry.Texture.Surface.Image == T.Surface.Image)
        rw [hOne, List.filter_cons, hpx, if_pos rfl] at hperm
        have hlen := hperm.length_eq
        simp only [List.length_singleton, List.length_cons, List.length_nil] at hlen
        refine ⟨?_, C, hoc, hC1, hC2⟩
        rw [hPend]
        exact List.eq_nil_of_length_eq_zero (by omega)
    rcases hcase with ⟨hC, rfl⟩ | ⟨C, hC, rfl⟩
    · obtain ⟨_, C, hoc, _⟩ := key _ hC
      cases hoc
    · obtain ⟨hf, C1, hoc, hC1, hC2⟩ := key _ hC
      cases hoc
      exact ⟨hf, C, hC1, hC2, rfl⟩

/-- A single-plane entry of a depth-stencil image whose access-after is known passes every
check of its iteration. -/
theorem ProcessInfo_depth_stencil_some (G : ERHIAccess.Generic) (SrcP DstP : ERHIPipeline)
    (q1 q2 : Nat) (Info : FRHITransitionInfo) (s : FState) (R : FResource)
    (T : FVulkanTextureBase) (hR : Info.Resource = some R)
    (hRes : ResolveResource R = some (FResolved.Texture T))
    (hDS : T.Surface.bIsDepthOrStencilAspect = true)
    (hPl : Info.PlaneSlice ≠ kAllSubresources)
    (hU : Info.AccessAfter ≠ ERHIAccess.Unknown) :
    ∃ s1, ProcessInfo G SrcP DstP q1 q2 Info s = some s1 := by
  have hcond : T.Surface.bIsDepthOrStencilAspect = true ∧ Info.PlaneSlice ≠ kAllSubresources :=
    ⟨hDS, hPl⟩
  cases hI : TArrayIndexOfByPredicate
      (fun Entry => Entry.Texture.Surface.Image == T.Surface.Image) s.DSSubresTransitions with
  | none =>
    simp only [ProcessInfo, hR, if_neg hU, hRes, ClassifyInfo, if_pos hcond, hI]
    exact ⟨_, rfl⟩
  | some Index =>
    obtain ⟨x, hx, _⟩ := TArrayIndexOfByPredicate_some _ _ _ hI
    simp only [ProcessInfo, hR, if_neg hU, hRes, ClassifyInfo, if_pos hcond, hI, TArrayGet, hx]
    exact ⟨_, rfl⟩

theorem ProcessInfo_after_known (G : ERHIAccess.Generic) (SrcP DstP : ERHIPipeline)
    (q1 q2 : Nat) (Info : FRHITransitionInfo) (s s1 : FState) (R : FResource)
    (hR : Info.Resource = some R) (h : ProcessInfo G SrcP DstP q1 q2 Info s = some s1) :
    Info.AccessAfter ≠ ERHIAccess.Unknown := by
  intro hU
  rw [ProcessInfo_unknown_after G SrcP DstP q1 q2 Info s (by rw [hR]; simp) hU] at h
  cases h

theorem ProcessPending_foldl_zip (q1 q2 : Nat) (Image : Nat) :
    ∀ (L : List FDepthStencilSubresTransition) (r : FVulkanPipelineBarrier × Bool),
      (∀ P ∈ L, P.Texture.Surface.Image ≠ Image) →
      r.1.ImageBarriers.length = r.1.Textures.length →
      (L.foldl (fun r P => ProcessPending q1 q2 P r) r).1.ImageBarriers.length =
        (L.foldl (fun r P => ProcessPending q1 q2 P r) r).1.Textures.length ∧
      ((L.foldl (fun r P => ProcessPending q1 q2 P r) r).1.ImageBarriers.zip
          (L.foldl (fun r P => ProcessPending q1 q2 P r) r).1.Textures).filter
          (fun p => p.2.Surface.Image == Image) =
        (r.1.ImageBarriers.zip r.1.Textures).filter (fun p => p.2.Surface.Image == Image) := by
  intro L
  induction L with
  | nil => intro r _ hlen; exact ⟨hlen, rfl⟩
  | cons P L ih =>
    intro r hO hlen
    simp only [List.foldl_cons]
    have hP := hO P (List.mem_cons_self _ _)
    have hlen1 : (ProcessPending q1 q2 P r).1.ImageBarriers.length =
        (ProcessPending q1 q2 P r).1.Textures.length := by
      simp [ProcessPending, hlen]
    obtain ⟨a1, a2⟩ := ih (ProcessPending q1 q2 P r)
      (fun Q hQ => hO Q (List.mem_cons_of_mem _ hQ)) hlen1
    refine ⟨a1, a2.trans ?_⟩
    simp only [ProcessPending]
    rw [List.zip_append hlen, List.filter_append]
    simp [List.filter_cons, hP]

theorem SetAspectAccess_pair (T : FVulkanTextureBase) (eD eS : FRHITransitionInfo)
    (hPD : eD.PlaneSlice = kDepthPlaneSlice) (hPS : eS.PlaneSlice = kStencilPlaneSlice) :
    ((SetAspectAccess (SetAspectAccess (NewPendingTransition T) eD).1 eS).1.SrcDepthAccess =
        eD.AccessBefore ∧
      (SetAspectAccess (SetAspectAccess (NewPendingTransition T) eD).1 eS).1.SrcStencilAccess =
        eS.AccessBefore ∧
      (SetAspectAccess (SetAspectAccess (NewPendingTransition T) eD).1 eS).1.DestDepthAccess =
        eD.AccessAfter ∧
      (SetAspectAccess (SetAspectAccess (NewPendingTransition T) eD).1 eS).1.DestStencilAccess =
        eS.AccessAfter) ∧
    ((SetAspectAccess (SetAspectAccess (NewPendingTransition T) eS).1 eD).1.SrcDepthAccess =
        eD.AccessBefore ∧
      (SetAspectAccess (SetAspectAccess (NewPendingTransition T) eS).1 eD).1.SrcStencilAccess =
        eS.AccessBefore ∧
      (SetAspectAccess (SetAspectAccess (NewPendingTransition T) eS).1 eD).1.DestDepthAccess =
        eD.AccessAfter ∧
      (SetAspectAccess (SetAspectAccess (NewPendingTransition T) eS).1 eD).1.DestStencilAccess =
        eS.AccessAfter) := by
  have h01 : kStencilPlaneSlice ≠ kDepthPlaneSlice := by decide
  simp [SetAspectAccess, hPD, hPS, h01, NewPendingTransition]

end RHICreateTransition

open ERHIAccess VkImageLayout in
theorem GetDepthStencilStageAndAccessFlags_write_read (DepthAccess StencilAccess : Nat)
    (bIsSourceState : Bool) (hS : StencilAccess ≠ Unknown)
    (hD : EnumHasAnyFlags DepthAccess DSVWrite = true)
    (hSW : EnumHasAnyFlags StencilAccess DSVWrite = false) :
    (GetDepthStencilStageAndAccessFlags DepthAccess StencilAccess bIsSourceState).Layout =
      VK_IMAGE_LAYOUT_DEPTH_ATTACHMENT_STENCIL_READ_ONLY_OPTIMAL_KHR := by
  have hDU : DepthAccess ≠ Unknown := by
    intro h
    rw [h] at hD
    revert hD
    decide
  have hU : ¬(DepthAccess = Unknown ∨ StencilAccess = Unknown) := by
    rintro (h | h)
    · exact hDU h
    · exact hS h
  have hLay : ∀ (C F S A : Nat) (a : FVkClassifyLocals),
      (GetDepthStencilStageAndAccessFlags.Accumulate C F S A a).Layout = a.Layout := by
    intro C F S A a
    unfold GetDepthStencilStageAndAccessFlags.Accumulate
    split_ifs <;> rfl
  simp only [GetDepthStencilStageAndAccessFlags, if_neg hU, hLay, hD, hSW]
  simp

namespace RHICreateTransition

open FRHITransitionInfo FRHISubresourceRange

/-- The main loop on a batch with exactly two entries for one depth-stencil image, each naming
one plane: the image ends with one image barrier, emitted at the second entry. -/
theorem ProcessInfos_merges (G : ERHIAccess.Generic) (SrcP DstP : ERHIPipeline) (q1 q2 : Nat)
    (pre mid post : List FRHITransitionInfo) (e1 e2 : FRHITransitionInfo) (R1 R2 : FResource)
    (T : FVulkanTextureBase) (s0 sf : FState) (P2 : FDepthStencilSubresTransition)
    (hR1 : e1.Resource = some R1) (hR2 : e2.Resource = some R2)
    (hT1 : ResolveResource R1 = some (FResolved.Texture T))
    (hT2 : ResolveResource R2 = some (FResolved.Texture T))
    (hDS : T.Surface.bIsDepthOrStencilAspect = true)
    (hP1 : e1.PlaneSlice ≠ kAllSubresources) (hP2 : e2.PlaneSlice ≠ kAllSubresources)
    (hOther : ∀ e ∈ pre ++ mid ++ post, ImageOfInfo e ≠ some T.Surface.Image)
    (hP2def : P2 = (SetAspectAccess (SetAspectAccess (NewPendingTransition T) e1).1 e2).1)
    (hProv : SrcP ≠ DstP ∨
      (GetDepthStencilStageAndAccessFlags P2.SrcDepthAccess P2.SrcStencilAccess true).Layout ≠
        (GetDepthStencilStageAndAccessFlags P2.DestDepthAccess P2.DestStencilAccess false).Layout)
    (hlen0 : s0.Data.ImageBarriers.length = s0.Data.Textures.length)
    (hK0 : (s0.Data.ImageBarriers.zip s0.Data.Textures).filter
      (fun p => p.2.Surface.Image == T.Surface.Image) = [])
    (hD0 : s0.DSSubresTransitions.filter
      (fun Entry => Entry.Texture.Surface.Image == T.Surface.Image) = [])
    (h : ProcessInfos G SrcP DstP q1 q2 (pre ++ e1 :: (mid ++ e2 :: post)) s0 = some sf) :
    sf.Data.ImageBarriers.length = sf.Data.Textures.length ∧
    sf.DSSubresTransitions.filter
      (fun Entry => Entry.Texture.Surface.Image == T.Surface.Image) = [] ∧
    (∃ b : VkImageMemoryBarrier,
      (sf.Data.ImageBarriers.zip sf.Data.Textures).filter
        (fun p => p.2.Surface.Image == T.Surface.Image) = [(b, T)] ∧
      b.newLayout =
        (GetDepthStencilStageAndAccessFlags P2.DestDepthAccess P2.DestStencilAccess false).Layout ∧
      b.subresourceRange.aspectMask = T.Surface.FullAspectMask) ∧
    e1.AccessAfter ≠ ERHIAccess.Unknown ∧ e2.AccessAfter ≠ ERHIAccess.Unknown := by
  have hOpre : ∀ e ∈ pre, ImageOfInfo e ≠ some T.Surface.Image := fun e he =>
    hOther e (List.mem_append_left _ (List.mem_append_left _ he))
  have hOmid : ∀ e ∈ mid, ImageOfInfo e ≠ some T.Surface.Image := fun e he =>
    hOther e (List.mem_append_left _ (List.mem_append_right _ he))
  have hOpost : ∀ e ∈ post, ImageOfInfo e ≠ some T.Surface.Image := fun e he =>
    hOther e (List.mem_append_right _ he)
  obtain ⟨sa, hsa, h⟩ := ProcessInfos_append_some G SrcP DstP q1 q2 _ _ _ _ h
  obtain ⟨sb, hsb, h⟩ := ProcessInfos_cons_some G SrcP DstP q1 q2 _ _ _ _ h
  obtain ⟨sc, hsc, h⟩ := ProcessInfos_append_some G SrcP DstP q1 q2 _ _ _ _ h
  obtain ⟨sd, hsd, h⟩ := ProcessInfos_cons_some G SrcP DstP q1 q2 _ _ _ _ h
  -- before the first entry
  obtain ⟨alen, aK, aD⟩ := ProcessInfos_other_images G SrcP DstP q1 q2 T.Surface.Image pre s0 sa
    hOpre hsa hlen0
  rw [hK0] at aK
  rw [hD0] at aD
  have aD1 := List.perm_nil.mp aD
  -- the first entry
  obtain ⟨bData, bD⟩ := ProcessInfo_first_aspect G SrcP DstP q1 q2 e1 sa sb R1 T hR1 hT1 hDS hP1
    aD1 hsb
  have bD1 : sb.DSSubresTransitions.filter
      (fun Entry => Entry.Texture.Surface.Image == T.Surface.Image) =
      [(SetAspectAccess (NewPendingTransition T) e1).1] := by
    rw [bD, List.filter_append, aD1]
    have hTex : (SetAspectAccess (NewPendingTransition T) e1).1.Texture = T :=
      SetAspectAccess_Texture _ _
    simp [List.filter_cons, hTex]
  -- between the two entries
  obtain ⟨clen, cK, cD⟩ := ProcessInfos_other_images G SrcP DstP q1 q2 T.Surface.Image mid sb sc
    hOmid hsc (by rw [bData]; exact alen)
  rw [bData, aK] at cK
  rw [bD1] at cD
  have cD1 := List.perm_singleton.mp cD
  -- the second entry
  obtain ⟨dD, C, hCs, hCd, dData⟩ := ProcessInfo_second_aspect G SrcP DstP q1 q2 e2 sc sd R2 T _
    hR2 hT2 hDS hP2 cD1 hsd
  rw [← hP2def] at hCs hCd
  obtain ⟨oS, oD⟩ := AsyncComputeOverride_layouts SrcP DstP C
  have hcross : ¬(SrcP = DstP ∧
      (AsyncComputeOverride SrcP DstP C).SrcLayout = (AsyncComputeOverride SrcP DstP C).DstLayout) := by
    rintro ⟨hp, hl⟩
    rw [oS, oD, hCs, hCd] at hl
    rcases hProv with hne | hne
    · exact hne hp
    · exact hne hl
  obtain ⟨dlen, b, hbL, hbA, hbZ⟩ := EmitBarrier_zip_texture SrcP DstP q1 q2 e2 T
    (AsyncComputeOverride SrcP DstP C) sc.Data clen hcross
  rw [← dData] at dlen hbZ
  have dK : (sd.Data.ImageBarriers.zip sd.Data.Textures).filter
      (fun p => p.2.Surface.Image == T.Surface.Image) = [(b, T)] := by
    rw [hbZ, List.filter_append, cK]
    simp [List.filter_cons]
  -- after the second entry
  obtain ⟨elen, eK, eD⟩ := ProcessInfos_other_images G SrcP DstP q1 q2 T.Surface.Image post sd sf
    hOpost h dlen
  rw [dK] at eK
  rw [dD] at eD
  refine ⟨elen, List.perm_nil.mp eD, ⟨b, eK, ?_, hbA⟩,
    ProcessInfo_after_known G SrcP DstP q1 q2 e1 sa sb R1 hR1 hsb,
    ProcessInfo_after_known G SrcP DstP q1 q2 e2 sc sd R2 hR2 hsd⟩
  rw [hbL, oD, hCd]

end RHICreateTransition

namespace RHICreateTransition

open FRHITransitionInfo FRHISubresourceRange

/-- A batch of two single-plane entries for one depth-stencil image is built whenever both
access-after values are known. -/
theorem ProcessInfos_pair_some (G : ERHIAccess.Generic) (SrcP DstP : ERHIPipeline) (q1 q2 : Nat)
    (e1 e2 : FRHITransitionInfo) (R1 R2 : FResource) (T : FVulkanTextureBase) (s0 : FState)
    (hR1 : e1.Resource = some R1) (hR2 : e2.Resource = some R2)
    (hT1 : ResolveResource R1 = some (FResolved.Texture T))
    (hT2 : ResolveResource R2 = some (FResolved.Texture T))
    (hDS : T.Surface.bIsDepthOrStencilAspect = true)
    (hP1 : e1.PlaneSlice ≠ kAllSubresources) (hP2 : e2.PlaneSlice ≠ kAllSubresources)
    (hU1 : e1.AccessAfter ≠ ERHIAccess.Unknown) (hU2 : e2.AccessAfter ≠ ERHIAccess.Unknown) :
    ∃ sf, ProcessInfos G SrcP DstP q1 q2 [e1, e2] s0 = some sf := by
  obtain ⟨s1, h1⟩ := ProcessInfo_depth_stencil_some G SrcP DstP q1 q2 e1 s0 R1 T hR1 hT1 hDS hP1
    hU1
  obtain ⟨s2, h2⟩ := ProcessInfo_depth_stencil_some G SrcP DstP q1 q2 e2 s1 R2 T hR2 hT2 hDS hP2
    hU2
  exact ⟨s2, by simp only [ProcessInfos, h1, h2]⟩

end RHICreateTransition

open RHICreateTransition FRHISubresourceRange in
/-- C15: depth-stencil aspect merging in `RHICreateTransition`. Take a batch that holds exactly
two entries for one depth-stencil image, one naming the depth plane and one naming the stencil
plane, in either order and with any other entries before, between and after them, and assume
the transition is cross-queue or the combined source layout differs from the combined
destination layout. Then the transition that is built holds exactly one image barrier whose
texture is that image; its new layout is the layout `GetDepthStencilStageAndAccessFlags`
computes from the two access-after values (`DEPTH_ATTACHMENT_STENCIL_READ_ONLY_OPTIMAL` for depth
write with a stencil access without depth-write) and its aspect mask is the full aspect mask
of the image. The batch of the two entries alone is built. -/
theorem RHICreateTransition_merges_depth_stencil (G : ERHIAccess.Generic)
    (GfxQueueIndex ComputeQueueIndex NewSemaphore : Nat) (SrcPipelines DstPipelines : ERHIPipeline)
    (pre mid post : List FRHITransitionInfo) (e1 e2 eD eS : FRHITransitionInfo)
    (RD RS : FRHITransitionInfo.FResource) (T : FVulkanTextureBase)
    (Data : FVulkanPipelineBarrier) (bEnsure : Bool)
    (hOrder : (e1 = eD ∧ e2 = eS) ∨ (e1 = eS ∧ e2 = eD))
    (hRD : eD.Resource = some RD) (hRS : eS.Resource = some RS)
    (hTD : ResolveResource RD = some (FResolved.Texture T))
    (hTS : ResolveResource RS = some (FResolved.Texture T))
    (hDS : T.Surface.bIsDepthOrStencilAspect = true)
    (hPD : eD.PlaneSlice = kDepthPlaneSlice) (hPS : eS.PlaneSlice = kStencilPlaneSlice)
    (hOther : ∀ e ∈ pre ++ mid ++ post, ImageOfInfo e ≠ some T.Surface.Image)
    (hProv : SrcPipelines ≠ DstPipelines ∨
      (GetDepthStencilStageAndAccessFlags eD.AccessBefore eS.AccessBefore true).Layout ≠
        (GetDepthStencilStageAndAccessFlags eD.AccessAfter eS.AccessAfter false).Layout)
    (h : RHICreateTransition G GfxQueueIndex ComputeQueueIndex NewSemaphore SrcPipelines
      DstPipelines (pre ++ e1 :: (mid ++ e2 :: post)) = some (Data, bEnsure)) :
    Data.ImageBarriers.length = Data.Textures.length ∧
    (∃ b : VkImageMemoryBarrier,
      (Data.ImageBarriers.zip Data.Textures).filter
        (fun p => p.2.Surface.Image == T.Surface.Image) = [(b, T)] ∧
      b.newLayout =
        (GetDepthStencilStageAndAccessFlags eD.AccessAfter eS.AccessAfter false).Layout ∧
      b.subresourceRange.aspectMask = T.Surface.FullAspectMask ∧
      (EnumHasAnyFlags eD.AccessAfter ERHIAccess.DSVWrite = true →
        EnumHasAnyFlags eS.AccessAfter ERHIAccess.DSVWrite = false →
        b.newLayout =
          VkImageLayout.VK_IMAGE_LAYOUT_DEPTH_ATTACHMENT_STENCIL_READ_ONLY_OPTIMAL_KHR)) ∧
    (∃ Data2 bEnsure2,
      RHICreateTransition G GfxQueueIndex ComputeQueueIndex NewSemaphore SrcPipelines DstPipelines
        [e1, e2] = some (Data2, bEnsure2)) := by
  have hkD : eD.PlaneSlice ≠ kAllSubresources := by rw [hPD]; decide
  have hkS : eS.PlaneSlice ≠ kAllSubresources := by rw [hPS]; decide
  obtain ⟨pairDS, pairSD⟩ := SetAspectAccess_pair T eD eS hPD hPS
  simp only [RHICreateTransition, Option.map_eq_some'] at h
  obtain ⟨s, hs, hfold⟩ := h
  have hI0 : (InitialData NewSemaphore SrcPipelines DstPipelines).ImageBarriers = [] ∧
      (InitialData NewSemaphore SrcPipelines DstPipelines).Textures = [] := by
    unfold InitialData
    split_ifs <;> exact ⟨rfl, rfl⟩
  have hlen0 : (InitialData NewSemaphore SrcPipelines DstPipelines).ImageBarriers.length =
      (InitialData NewSemaphore SrcPipelines DstPipelines).Textures.length := by
    rw [hI0.1, hI0.2]
    rfl
  have hK0 : ((InitialData NewSemaphore SrcPipelines DstPipelines).ImageBarriers.zip
      (InitialData NewSemaphore SrcPipelines DstPipelines).Textures).filter
      (fun p => p.2.Surface.Image == T.Surface.Image) = [] := by
    rw [hI0.1, hI0.2]
    rfl
  -- the state after the main loop, for either order of the two entries
  have hmain : s.Data.ImageBarriers.length = s.Data.Textures.length ∧
      s.DSSubresTransitions.filter
        (fun Entry => Entry.Texture.Surface.Image == T.Surface.Image) = [] ∧
      (∃ b : VkImageMemoryBarrier,
        (s.Data.ImageBarriers.zip s.Data.Textures).filter
          (fun p => p.2.Surface.Image == T.Surface.Image) = [(b, T)] ∧
        b.newLayout =
          (GetDepthStencilStageAndAccessFlags eD.AccessAfter eS.AccessAfter false).Layout ∧
        b.subresourceRange.aspectMask = T.Surface.FullAspectMask) ∧
      eD.AccessAfter ≠ ERHIAccess.Unknown ∧ eS.AccessAfter ≠ ERHIAccess.Unknown := by
    rcases hOrder with ⟨rfl, rfl⟩ | ⟨rfl, rfl⟩
    · obtain ⟨m1, m2, ⟨b, m3, m4, m5⟩, m6, m7⟩ := ProcessInfos_merges G SrcPipelines DstPipelines
        _ _ pre mid post e1 e2 RD RS T
        { Data := InitialData NewSemaphore SrcPipelines DstPipelines
          DSSubresTransitions := []
          bEnsureFailed := false } s _ hRD hRS hTD hTS hDS hkD hkS hOther rfl
        (by rw [pairDS.1, pairDS.2.1, pairDS.2.2.1, pairDS.2.2.2]; exact hProv)
        hlen0 hK0 rfl hs
      rw [pairDS.2.2.1, pairDS.2.2.2] at m4
      exact ⟨m1, m2, ⟨b, m3, m4, m5⟩, m6, m7⟩
    · obtain ⟨m1, m2, ⟨b, m3, m4, m5⟩, m6, m7⟩ := ProcessInfos_merges G SrcPipelines DstPipelines
        _ _ pre mid post e1 e2 RS RD T
        { Data := InitialData NewSemaphore SrcPipelines DstPipelines
          DSSubresTransitions := []
          bEnsureFailed := false } s _ hRS hRD hTS hTD hDS hkS hkD hOther rfl
        (by rw [pairSD.1, pairSD.2.1, pairSD.2.2.1, pairSD.2.2.2]; exact hProv)
        hlen0 hK0 rfl hs
      rw [pairSD.2.2.1, pairSD.2.2.2] at m4
      exact ⟨m1, m2, ⟨b, m3, m4, m5⟩, m7, m6⟩
  obtain ⟨m1, m2, ⟨b, m3, m4, m5⟩, hUD, hUS⟩ := hmain
  -- the loop over the pending transitions
  have hpend : ∀ P ∈ s.DSSubresTransitions, P.Texture.Surface.Image ≠ T.Surface.Image := by
    intro P hP hEq
    have : P ∈ s.DSSubresTransitions.filter
        (fun Entry => Entry.Texture.Surface.Image == T.Surface.Image) :=
      List.mem_filter.mpr ⟨hP, by simp [hEq]⟩
    rw [m2] at this
    cases this
  obtain ⟨f1, f2⟩ := ProcessPending_foldl_zip
    (SrcQueueFamilyIndex GfxQueueIndex ComputeQueueIndex SrcPipelines DstPipelines)
    (DstQueueFamilyIndex GfxQueueIndex ComputeQueueIndex SrcPipelines DstPipelines)
    T.Surface.Image s.DSSubresTransitions (s.Data, s.bEnsureFailed) hpend m1
  unfold ProcessAllPending at hfold
  rw [hfold] at f1 f2
  refine ⟨f1, ⟨b, f2.trans m3, m4, m5, ?_⟩, ?_⟩
  · intro hW hR
    rw [m4]
    exact GetDepthStencilStageAndAccessFlags_write_read _ _ _ hUS hW hR
  · have hpair : ∃ sf, ProcessInfos G SrcPipelines DstPipelines
        (SrcQueueFamilyIndex GfxQueueIndex ComputeQueueIndex SrcPipelines DstPipelines)
        (DstQueueFamilyIndex GfxQueueIndex ComputeQueueIndex SrcPipelines DstPipelines) [e1, e2]
        { Data := InitialData NewSemaphore SrcPipelines DstPipelines
          DSSubresTransitions := []
          bEnsureFailed := false } = some sf := by
      rcases hOrder with ⟨rfl, rfl⟩ | ⟨rfl, rfl⟩
      · exact ProcessInfos_pair_some G SrcPipelines DstPipelines _ _ e1 e2 RD RS T _ hRD hRS hTD
          hTS hDS hkD hkS hUD hUS
      · exact ProcessInfos_pair_some G SrcPipelines DstPipelines _ _ e1 e2 RS RD T _ hRS hRD hTS
          hTD hDS hkS hkD hUS hUD
    obtain ⟨sf, hsf⟩ := hpair
    exact ⟨_, _, by simp only [RHICreateTransition, hsf, Option.map_some']; rfl⟩

open RHICreateTransition in
theorem RHICreateTransition_merges_depth_stencil_witness :
    RHICreateTransition ERHIAccess.Generic.FromComments 0 1 99 ERHIPipeline.Graphics
      ERHIPipeline.Graphics
      ([] ++ (⟨some (FRHITransitionInfo.FResource.Texture ⟨⟨7, 6, true, 1, 1, false⟩⟩), ERHIAccess.SRVGraphics,
          ERHIAccess.DSVWrite, 4294967295, 4294967295, 0⟩ : FRHITransitionInfo) ::
        ([⟨some (FRHITransitionInfo.FResource.StructuredBuffer ⟨5⟩), ERHIAccess.UAVCompute,
          ERHIAccess.SRVCompute, 0, 0, 0⟩] ++
        (⟨some (FRHITransitionInfo.FResource.Texture ⟨⟨7, 6, true, 1, 1, false⟩⟩), ERHIAccess.SRVGraphics,
          ERHIAccess.DSVRead, 4294967295, 4294967295, 1⟩ : FRHITransitionInfo) :: [])) =
      some (⟨ERHIPipeline.Graphics, ERHIPipeline.Graphics, 2176, 2816, ⟨96, 32⟩,
        [⟨32, 1536, VkImageLayout.VK_IMAGE_LAYOUT_DEPTH_STENCIL_READ_ONLY_OPTIMAL,
          VkImageLayout.VK_IMAGE_LAYOUT_DEPTH_ATTACHMENT_STENCIL_READ_ONLY_OPTIMAL_KHR,
          4294967295, 4294967295, 0, ⟨6, 0, 4294967295, 0, 4294967295⟩⟩],
        [⟨⟨7, 6, true, 1, 1, false⟩⟩], [], none⟩, false) ∧
    (⟨ERHIPipeline.Graphics, ERHIPipeline.Graphics, 2176, 2816, ⟨96, 32⟩,
        [⟨32, 1536, VkImageLayout.VK_IMAGE_LAYOUT_DEPTH_STENCIL_READ_ONLY_OPTIMAL,
          VkImageLayout.VK_IMAGE_LAYOUT_DEPTH_ATTACHMENT_STENCIL_READ_ONLY_OPTIMAL_KHR,
          4294967295, 4294967295, 0, ⟨6, 0, 4294967295, 0, 4294967295⟩⟩],
        [⟨⟨7, 6, true, 1, 1, false⟩⟩], [], none⟩ : FVulkanPipelineBarrier).ImageBarriers.length =
      (⟨ERHIPipeline.Graphics, ERHIPipeline.Graphics, 2176, 2816, ⟨96, 32⟩,
        [⟨32, 1536, VkImageLayout.VK_IMAGE_LAYOUT_DEPTH_STENCIL_READ_ONLY_OPTIMAL,
          VkImageLayout.VK_IMAGE_LAYOUT_DEPTH_ATTACHMENT_STENCIL_READ_ONLY_OPTIMAL_KHR,
          4294967295, 4294967295, 0, ⟨6, 0, 4294967295, 0, 4294967295⟩⟩],
        [⟨⟨7, 6, true, 1, 1, false⟩⟩], [], none⟩ : FVulkanPipelineBarrier).Textures.length :=
  ⟨by decide,
    (RHICreateTransition_merges_depth_stencil ERHIAccess.Generic.FromComments 0 1 99
      ERHIPipeline.Graphics ERHIPipeline.Graphics []
      [⟨some (FRHITransitionInfo.FResource.StructuredBuffer ⟨5⟩), ERHIAccess.UAVCompute,
        ERHIAccess.SRVCompute, 0, 0, 0⟩] []
      ⟨some (FRHITransitionInfo.FResource.Texture ⟨⟨7, 6, true, 1, 1, false⟩⟩), ERHIAccess.SRVGraphics,
        ERHIAccess.DSVWrite, 4294967295, 4294967295, 0⟩
      ⟨some (FRHITransitionInfo.FResource.Texture ⟨⟨7, 6, true, 1, 1, false⟩⟩), ERHIAccess.SRVGraphics,
        ERHIAccess.DSVRead, 4294967295, 4294967295, 1⟩
      ⟨some (FRHITransitionInfo.FResource.Texture ⟨⟨7, 6, true, 1, 1, false⟩⟩), ERHIAccess.SRVGraphics,
        ERHIAccess.DSVWrite, 4294967295, 4294967295, 0⟩
      ⟨some (FRHITransitionInfo.FResource.Texture ⟨⟨7, 6, true, 1, 1, false⟩⟩), ERHIAccess.SRVGraphics,
        ERHIAccess.DSVRead, 4294967295, 4294967295, 1⟩
      (FRHITransitionInfo.FResource.Texture ⟨⟨7, 6, true, 1, 1, false⟩⟩)
      (FRHITransitionInfo.FResource.Texture ⟨⟨7, 6, true, 1, 1, false⟩⟩) ⟨⟨7, 6, true, 1, 1, false⟩⟩
      ⟨ERHIPipeline.Graphics, ERHIPipeline.Graphics, 2176, 2816, ⟨96, 32⟩,
        [⟨32, 1536, VkImageLayout.VK_IMAGE_LAYOUT_DEPTH_STENCIL_READ_ONLY_OPTIMAL,
          VkImageLayout.VK_IMAGE_LAYOUT_DEPTH_ATTACHMENT_STENCIL_READ_ONLY_OPTIMAL_KHR,
          4294967295, 4294967295, 0, ⟨6, 0, 4294967295, 0, 4294967295⟩⟩],
        [⟨⟨7, 6, true, 1, 1, false⟩⟩], [], none⟩ false
      (Or.inl ⟨rfl, rfl⟩) rfl rfl rfl rfl rfl rfl rfl (by decide) (Or.inr (by decide))
      (by decide)).1⟩

/-! ## The classifier theorems at concrete inputs -/

open ERHIAccess VkImageLayout FRHITransitionInfo in
theorem GetVkStageAndAccessFlags_DSVWrite_masks_witness :
    EnumHasAnyFlags (DSVWrite ||| SRVGraphics) DSVWrite = true ∧
    (DSVWrite ||| SRVGraphics) ∉ Generic.FromComments.CaseLabels ∧
    GetVkStageAndAccessFlags Generic.FromComments (DSVWrite ||| SRVGraphics) EType.Texture true
        true =
      some ⟨VK_PIPELINE_STAGE_EARLY_FRAGMENT_TESTS_BIT ||| VK_PIPELINE_STAGE_LATE_FRAGMENT_TESTS_BIT,
        VK_ACCESS_DEPTH_STENCIL_ATTACHMENT_READ_BIT ||| VK_ACCESS_DEPTH_STENCIL_ATTACHMENT_WRITE_BIT,
        VK_IMAGE_LAYOUT_DEPTH_STENCIL_ATTACHMENT_OPTIMAL, false⟩ :=
  ⟨by decide, by decide,
    (GetVkStageAndAccessFlags_DSVWrite_masks Generic.FromComments (DSVWrite ||| SRVGraphics)
      EType.Texture true (by decide) (by decide) (by decide)).1⟩

open ERHIAccess VkImageLayout FRHITransitionInfo GetVkStageAndAccessFlags in
theorem GetVkStageAndAccessFlags_unprocessed_reported_witness :
    ¬ Generic.FromComments.IsDominant (SRVGraphics ||| RTV) ∧
    EnumHasAnyFlags (SRVGraphics ||| RTV) DSVWrite = false ∧
    (SRVGraphics ||| RTV) &&& (4294967295 ^^^ ComposableFlags) ≠ 0 ∧
    (GetVkStageAndAccessFlags Generic.FromComments (SRVGraphics ||| RTV) EType.Texture false
        true = none ∨
      ∃ r, GetVkStageAndAccessFlags Generic.FromComments (SRVGraphics ||| RTV) EType.Texture
          false true = some r ∧ r.bUnprocessedFlags = true) :=
  ⟨by decide, by decide, by decide,
    GetVkStageAndAccessFlags_unprocessed_reported Generic.FromComments (SRVGraphics ||| RTV)
      EType.Texture false true (by decide) (by decide) (by decide)⟩

open ERHIAccess VkImageLayout FRHITransitionInfo GetVkStageAndAccessFlags in
theorem GetVkStageAndAccessFlags_kind_check_witness :
    ¬ Generic.FromComments.IsDominant (VertexOrIndexBuffer ||| SRVCompute) ∧
    EnumHasAnyFlags (VertexOrIndexBuffer ||| SRVCompute) DSVWrite = false ∧
    (GetVkStageAndAccessFlags Generic.FromComments (VertexOrIndexBuffer ||| SRVCompute)
        EType.StructuredBuffer false true = none ↔
      ((EnumHasAnyFlags (VertexOrIndexBuffer ||| SRVCompute) IndirectArgs = true ∨
          EnumHasAnyFlags (VertexOrIndexBuffer ||| SRVCompute) VertexOrIndexBuffer = true) ∧
        EType.StructuredBuffer = EType.Texture) ∨
      (EnumHasAnyFlags (VertexOrIndexBuffer ||| SRVCompute) VertexOrIndexBuffer = true ∧
        EType.StructuredBuffer ≠ EType.VertexBuffer ∧
        EType.StructuredBuffer ≠ EType.IndexBuffer)) :=
  ⟨by decide, by decide,
    (GetVkStageAndAccessFlags_kind_check Generic.FromComments (VertexOrIndexBuffer ||| SRVCompute)
      EType.StructuredBuffer false true (by decide) (by decide) (by decide) (by decide)).2.1⟩

/-! ## The transition executor: depth-stencil layout correction -/

open VkImageLayout in
/-- C29: `AdjustDepthStencilLayout` repairs the other aspect. For every barrier whose aspect
mask is the depth bit alone or the stencil bit alone, on an image whose full aspect mask is
not that bit, and whose prepared new layout leaves the other aspect read-only: after the
adjustment the writability of the other aspect under the new layout equals its writability
under the old layout, the writability of the addressed aspect under the new layout is the one
the prepared new layout specified, the aspect mask is `DEPTH | STENCIL`, no `ensure` is
violated and the other fields of the barrier are kept. A barrier whose aspect mask equals the
full aspect mask of the image is returned unchanged. -/
theorem AdjustDepthStencilLayout_repairs (Barrier : VkImageMemoryBarrier) (FullAspectMask : Nat)
    (hAspect : Barrier.subresourceRange.aspectMask = VK_IMAGE_ASPECT_DEPTH_BIT ∨
      Barrier.subresourceRange.aspectMask = VK_IMAGE_ASPECT_STENCIL_BIT)
    (hFull : FullAspectMask ≠ Barrier.subresourceRange.aspectMask)
    (hOther : if Barrier.subresourceRange.aspectMask = VK_IMAGE_ASPECT_DEPTH_BIT then
        (GetDepthStencilWritableState Barrier.newLayout).2 = false
      else (GetDepthStencilWritableState Barrier.newLayout).1 = false) :
    (if Barrier.subresourceRange.aspectMask = VK_IMAGE_ASPECT_DEPTH_BIT then
        (GetDepthStencilWritableState (AdjustDepthStencilLayout Barrier FullAspectMask).1.newLayout).2 =
          (GetDepthStencilWritableState Barrier.oldLayout).2 ∧
        (GetDepthStencilWritableState (AdjustDepthStencilLayout Barrier FullAspectMask).1.newLayout).1 =
          (GetDepthStencilWritableState Barrier.newLayout).1
      else
        (GetDepthStencilWritableState (AdjustDepthStencilLayout Barrier FullAspectMask).1.newLayout).1 =
          (GetDepthStencilWritableState Barrier.oldLayout).1 ∧
        (GetDepthStencilWritableState (AdjustDepthStencilLayout Barrier FullAspectMask).1.newLayout).2 =
          (GetDepthStencilWritableState Barrier.newLayout).2) ∧
    (AdjustDepthStencilLayout Barrier FullAspectMask).1.subresourceRange.aspectMask =
      VK_IMAGE_ASPECT_DEPTH_BIT ||| VK_IMAGE_ASPECT_STENCIL_BIT ∧
    (AdjustDepthStencilLayout Barrier FullAspectMask).2 = false ∧
    (AdjustDepthStencilLayout Barrier FullAspectMask).1 =
      { Barrier with
        newLayout := (AdjustDepthStencilLayout Barrier FullAspectMask).1.newLayout
        subresourceRange := { Barrier.subresourceRange with
          aspectMask := VK_IMAGE_ASPECT_DEPTH_BIT ||| VK_IMAGE_ASPECT_STENCIL_BIT } } ∧
    ∀ B : VkImageMemoryBarrier,
      AdjustDepthStencilLayout B B.subresourceRange.aspectMask = (B, false) := by
  have hnn : ¬¬(Barrier.subresourceRange.aspectMask = VK_IMAGE_ASPECT_DEPTH_BIT ∨
      Barrier.subresourceRange.aspectMask = VK_IMAGE_ASPECT_STENCIL_BIT) := not_not.mpr hAspect
  refine ⟨?_, ?_, ?_, ?_, ?_⟩
  · by_cases hD : Barrier.subresourceRange.aspectMask = VK_IMAGE_ASPECT_DEPTH_BIT
    · rw [if_pos hD] at hOther ⊢
      simp only [AdjustDepthStencilLayout, if_neg hFull, if_neg hnn, if_pos hD]
      cases h1 : (GetDepthStencilWritableState Barrier.oldLayout).2 <;>
        cases h2 : (GetDepthStencilWritableState Barrier.newLayout).1 <;>
        simp only [Bool.false_eq_true, if_false, if_true, hOther, h2] <;>
        first | exact ⟨rfl, rfl⟩ | decide
    · rw [if_neg hD] at hOther ⊢
      simp only [AdjustDepthStencilLayout, if_neg hFull, if_neg hnn, if_neg hD]
      cases h1 : (GetDepthStencilWritableState Barrier.oldLayout).1 <;>
        cases h2 : (GetDepthStencilWritableState Barrier.newLayout).2 <;>
        simp only [Bool.false_eq_true, if_false, if_true, hOther, h2] <;>
        first | exact ⟨rfl, rfl⟩ | decide
  · simp only [AdjustDepthStencilLayout, if_neg hFull, if_neg hnn]
  · simp only [AdjustDepthStencilLayout, if_neg hFull, if_neg hnn]
  · simp only [AdjustDepthStencilLayout, if_neg hFull, if_neg hnn]
  · intro B
    simp only [AdjustDepthStencilLayout, if_true]

open VkImageLayout in
theorem AdjustDepthStencilLayout_repairs_witness :
    (GetDepthStencilWritableState VK_IMAGE_LAYOUT_DEPTH_ATTACHMENT_STENCIL_READ_ONLY_OPTIMAL_KHR).2 =
      false ∧
    (AdjustDepthStencilLayout
      ⟨0, 1536, VK_IMAGE_LAYOUT_DEPTH_READ_ONLY_STENCIL_ATTACHMENT_OPTIMAL_KHR,
        VK_IMAGE_LAYOUT_DEPTH_ATTACHMENT_STENCIL_READ_ONLY_OPTIMAL_KHR, 0, 1, 7,
        ⟨VK_IMAGE_ASPECT_DEPTH_BIT, 0, 1, 0, 1⟩⟩ 6).1.subresourceRange.aspectMask =
      VK_IMAGE_ASPECT_DEPTH_BIT ||| VK_IMAGE_ASPECT_STENCIL_BIT :=
  ⟨by decide,
    (AdjustDepthStencilLayout_repairs
      ⟨0, 1536, VK_IMAGE_LAYOUT_DEPTH_READ_ONLY_STENCIL_ATTACHMENT_OPTIMAL_KHR,
        VK_IMAGE_LAYOUT_DEPTH_ATTACHMENT_STENCIL_READ_ONLY_OPTIMAL_KHR, 0, 1, 7,
        ⟨VK_IMAGE_ASPECT_DEPTH_BIT, 0, 1, 0, 1⟩⟩ 6 (Or.inl rfl) (by decide) (by decide)).2.1⟩

/-! ## The transition executor: the per-subresource fan-out -/

open VkImageLayout in
/-- C22 (evaluation at the failing input): one layer with three mips in the layouts
`SHADER_READ_ONLY`, `COLOR_ATTACHMENT`, `SHADER_READ_ONLY`, a template range over the whole
image and the destination layout `COLOR_ATTACHMENT`. The only barrier appended has old layout
`SHADER_READ_ONLY` and covers mips 0 and 1, although mip 1 was tracked in the destination
layout: the `continue` for mip 1 leaves `PrevMipBarrier` set, and mip 2 is merged into the
barrier of mip 0. -/
theorem AddSubresourceTransitions_covers_skipped_mip :
    FVulkanImageLayout.GetSubresLayout
      ⟨3, 1, VK_IMAGE_LAYOUT_UNDEFINED,
        [VK_IMAGE_LAYOUT_SHADER_READ_ONLY_OPTIMAL, VK_IMAGE_LAYOUT_COLOR_ATTACHMENT_OPTIMAL,
          VK_IMAGE_LAYOUT_SHADER_READ_ONLY_OPTIMAL]⟩ 0 1 =
      some VK_IMAGE_LAYOUT_COLOR_ATTACHMENT_OPTIMAL ∧
    AddSubresourceTransitions ⟨true, true⟩ [] 0
      ⟨0, 384, VK_IMAGE_LAYOUT_UNDEFINED, VK_IMAGE_LAYOUT_COLOR_ATTACHMENT_OPTIMAL,
        VK_QUEUE_FAMILY_IGNORED, VK_QUEUE_FAMILY_IGNORED, VK_NULL_HANDLE,
        ⟨VK_IMAGE_ASPECT_COLOR_BIT, 0, VK_REMAINING_MIP_LEVELS, 0, VK_REMAINING_ARRAY_LAYERS⟩⟩ 7
      ⟨3, 1, VK_IMAGE_LAYOUT_UNDEFINED,
        [VK_IMAGE_LAYOUT_SHADER_READ_ONLY_OPTIMAL, VK_IMAGE_LAYOUT_COLOR_ATTACHMENT_OPTIMAL,
          VK_IMAGE_LAYOUT_SHADER_READ_ONLY_OPTIMAL]⟩
      VK_IMAGE_LAYOUT_COLOR_ATTACHMENT_OPTIMAL =
    some ([⟨VK_ACCESS_SHADER_READ_BIT, 384, VK_IMAGE_LAYOUT_SHADER_READ_ONLY_OPTIMAL,
          VK_IMAGE_LAYOUT_COLOR_ATTACHMENT_OPTIMAL, VK_QUEUE_FAMILY_IGNORED,
          VK_QUEUE_FAMILY_IGNORED, 7, ⟨VK_IMAGE_ASPECT_COLOR_BIT, 0, 2, 0, 1⟩⟩],
      VK_PIPELINE_STAGE_FRAGMENT_SHADER_BIT,
      ⟨3, 1, VK_IMAGE_LAYOUT_COLOR_ATTACHMENT_OPTIMAL, []⟩) := by
  decide

open VkImageLayout in
/-- C23 (evaluation at the failing input): one layer with three mips in the layouts `GENERAL`,
`TRANSFER_DST`, `GENERAL`, a template range over the whole image and the destination layout
`TRANSFER_DST`. Mip 2 is tracked in `GENERAL`, which is not the destination layout, and the
only barrier appended covers mips 0 and 1: no barrier covers mip 2, yet the table records the
destination layout for it. -/
theorem AddSubresourceTransitions_misses_mip :
    FVulkanImageLayout.GetSubresLayout
      ⟨3, 1, VK_IMAGE_LAYOUT_UNDEFINED,
        [VK_IMAGE_LAYOUT_GENERAL, VK_IMAGE_LAYOUT_TRANSFER_DST_OPTIMAL,
          VK_IMAGE_LAYOUT_GENERAL]⟩ 0 2 = some VK_IMAGE_LAYOUT_GENERAL ∧
    ∃ Barriers Stage Table,
      AddSubresourceTransitions ⟨true, true⟩ [] 0
        ⟨0, VK_ACCESS_TRANSFER_WRITE_BIT, VK_IMAGE_LAYOUT_UNDEFINED,
          VK_IMAGE_LAYOUT_TRANSFER_DST_OPTIMAL, VK_QUEUE_FAMILY_IGNORED,
          VK_QUEUE_FAMILY_IGNORED, VK_NULL_HANDLE,
          ⟨VK_IMAGE_ASPECT_COLOR_BIT, 0, VK_REMAINING_MIP_LEVELS, 0,
            VK_REMAINING_ARRAY_LAYERS⟩⟩ 7
        ⟨3, 1, VK_IMAGE_LAYOUT_UNDEFINED,
          [VK_IMAGE_LAYOUT_GENERAL, VK_IMAGE_LAYOUT_TRANSFER_DST_OPTIMAL,
            VK_IMAGE_LAYOUT_GENERAL]⟩
        VK_IMAGE_LAYOUT_TRANSFER_DST_OPTIMAL = some (Barriers, Stage, Table) ∧
      Barriers.length = 1 ∧
      (∀ b ∈ Barriers, ¬(b.subresourceRange.baseMipLevel ≤ 2 ∧
        2 < b.subresourceRange.baseMipLevel + b.subresourceRange.levelCount)) ∧
      Table.GetSubresLayout 0 2 = some VK_IMAGE_LAYOUT_TRANSFER_DST_OPTIMAL :=
  ⟨by decide,
    [⟨0, VK_ACCESS_TRANSFER_WRITE_BIT, VK_IMAGE_LAYOUT_GENERAL,
        VK_IMAGE_LAYOUT_TRANSFER_DST_OPTIMAL, VK_QUEUE_FAMILY_IGNORED, VK_QUEUE_FAMILY_IGNORED, 7,
        ⟨VK_IMAGE_ASPECT_COLOR_BIT, 0, 2, 0, 1⟩⟩],
    VK_PIPELINE_STAGE_TOP_OF_PIPE_BIT,
    ⟨3, 1, VK_IMAGE_LAYOUT_TRANSFER_DST_OPTIMAL, []⟩,
    by decide, by decide, by decide, by decide⟩

/-! ## The transition executor: the release phase -/

namespace RHIBeginTransitions

theorem TransitionBody_same_queue (P : FVulkanPlatformDefines) (DO_GUARD_SLOW : Bool)
    (Data : FVulkanPipelineBarrier) (s : FState) (h : Data.SrcPipelines = Data.DstPipelines) :
    TransitionBody P DO_GUARD_SLOW Data s = some s := by
  simp only [TransitionBody, if_pos h]

theorem TransitionLoop_same_queue (P : FVulkanPlatformDefines) (DO_GUARD_SLOW : Bool) :
    ∀ (Transitions : List FVulkanPipelineBarrier) (s : FState),
      (∀ Data ∈ Transitions, Data.SrcPipelines = Data.DstPipelines) →
      TransitionLoop P DO_GUARD_SLOW Transitions s = some s := by
  intro Transitions
  induction Transitions with
  | nil => intro s _; rfl
  | cons D Rest ih =>
    intro s h
    simp only [TransitionLoop,
      TransitionBody_same_queue P DO_GUARD_SLOW D s (h D (List.mem_cons_self _ _))]
    exact ih s (fun D1 h1 => h D1 (List.mem_cons_of_mem _ h1))

end RHIBeginTransitions

/-- C24: `RHIBeginTransitions` is a no-op for same-queue transitions. For every context and
every batch in which every transition has its source pipeline equal to its destination
pipeline, the call returns the context it was given: no pipeline barrier is recorded, no
command buffer is submitted and so no semaphore is signalled, and the layout manager is
unchanged; no `ensure` is violated. -/
theorem RHIBeginTransitions_same_queue (P : FVulkanPlatformDefines) (DO_GUARD_SLOW : Bool)
    (Context : FVulkanCommandListContext) (Transitions : List FVulkanPipelineBarrier)
    (h : ∀ Data ∈ Transitions, Data.SrcPipelines = Data.DstPipelines) :
    RHIBeginTransitions P DO_GUARD_SLOW Context Transitions = some (Context, false) := by
  simp [RHIBeginTransitions,
    RHIBeginTransitions.TransitionLoop_same_queue P DO_GUARD_SLOW Transitions _ h]

open VkImageLayout in
theorem RHIBeginTransitions_same_queue_witness :
    (∀ Data ∈ [(⟨ERHIPipeline.Graphics, ERHIPipeline.Graphics, 65536, 1024, ⟨0, 0⟩,
        [⟨98304, 384, VK_IMAGE_LAYOUT_UNDEFINED, VK_IMAGE_LAYOUT_COLOR_ATTACHMENT_OPTIMAL,
          4294967295, 4294967295, 0, ⟨1, 0, 4294967295, 0, 4294967295⟩⟩],
        [⟨⟨7, 1, false, 1, 1, false⟩⟩], [], none⟩ : FVulkanPipelineBarrier)],
      Data.SrcPipelines = Data.DstPipelines) ∧
    RHIBeginTransitions ⟨true, true⟩ true
      ⟨⟨[(7, ⟨1, 1, VK_IMAGE_LAYOUT_SHADER_READ_ONLY_OPTIMAL, []⟩)]⟩, ⟨some ⟨[], []⟩, []⟩, false,
        []⟩
      [⟨ERHIPipeline.Graphics, ERHIPipeline.Graphics, 65536, 1024, ⟨0, 0⟩,
        [⟨98304, 384, VK_IMAGE_LAYOUT_UNDEFINED, VK_IMAGE_LAYOUT_COLOR_ATTACHMENT_OPTIMAL,
          4294967295, 4294967295, 0, ⟨1, 0, 4294967295, 0, 4294967295⟩⟩],
        [⟨⟨7, 1, false, 1, 1, false⟩⟩], [], none⟩] =
      some (⟨⟨[(7, ⟨1, 1, VK_IMAGE_LAYOUT_SHADER_READ_ONLY_OPTIMAL, []⟩)]⟩, ⟨some ⟨[], []⟩, []⟩,
        false, []⟩, false) :=
  ⟨by decide,
    RHIBeginTransitions_same_queue ⟨true, true⟩ true
      ⟨⟨[(7, ⟨1, 1, VK_IMAGE_LAYOUT_SHADER_READ_ONLY_OPTIMAL, []⟩)]⟩, ⟨some ⟨[], []⟩, []⟩, false,
        []⟩
      [⟨ERHIPipeline.Graphics, ERHIPipeline.Graphics, 65536, 1024, ⟨0, 0⟩,
        [⟨98304, 384, VK_IMAGE_LAYOUT_UNDEFINED, VK_IMAGE_LAYOUT_COLOR_ATTACHMENT_OPTIMAL,
          4294967295, 4294967295, 0, ⟨1, 0, 4294967295, 0, 4294967295⟩⟩],
        [⟨⟨7, 1, false, 1, 1, false⟩⟩], [], none⟩] (by decide)⟩

/-! ## The transition executor: the merging law -/

theorem forLoop_one {σ : Type} (Body : Nat → σ → Option σ) (First : Nat) (s : σ) :
    forLoop Body First (First + 1) s = Body First s := by
  have h : First + 1 - First = 1 := by omega
  simp only [forLoop, h, forLoopAux]
  cases Body First s <;> rfl

namespace AddSubresourceTransitions

/-- The barrier that covers `Count` mips of one layer from `FirstMip` on. -/
theorem MipLoop_merges (P : FVulkanPlatformDefines) (TemplateBarrier : VkImageMemoryBarrier)
    (ImageHandle : Nat) (t : FVulkanImageLayout) (L0 L1 : VkImageLayout)
    (LayerIdx FirstMip N Stage Access : Nat) (B0 : List VkImageMemoryBarrier) (S0 : Nat)
    (hN : 1 ≤ N) (hN32 : N < 4294967296)
    (hL0 : ∀ Mip, FirstMip ≤ Mip → Mip < FirstMip + N → t.GetSubresLayout LayerIdx Mip = some L0)
    (hne : L0 ≠ L1)
    (hStage : GetVkStageFlagsForLayout P L0 = some Stage)
    (hAccess : GetVkAccessMaskForLayout P L0 = some Access) :
    forLoop (MipBody P TemplateBarrier ImageHandle t L1 LayerIdx) FirstMip (FirstMip + N)
        { Barriers := B0, SrcStageMask := S0, PrevMipBarrier := none } =
      some { Barriers := B0 ++ [{ TemplateBarrier with
                srcAccessMask := Access
                oldLayout := L0
                newLayout := L1
                image := ImageHandle
                subresourceRange := { TemplateBarrier.subresourceRange with
                  baseMipLevel := FirstMip
                  levelCount := N
                  baseArrayLayer := LayerIdx
                  layerCount := 1 } }]
             SrcStageMask := S0 ||| Stage
             PrevMipBarrier := some B0.length } := by
  obtain ⟨s1, h1, h2⟩ := forLoop_inv (MipBody P TemplateBarrier ImageHandle t L1 LayerIdx)
    (fun i s => (i = FirstMip ∧ s = { Barriers := B0, SrcStageMask := S0, PrevMipBarrier := none }) ∨
      (FirstMip < i ∧ s =
        { Barriers := B0 ++ [{ TemplateBarrier with
              srcAccessMask := Access
              oldLayout := L0
              newLayout := L1
              image := ImageHandle
              subresourceRange := { TemplateBarrier.subresourceRange with
                baseMipLevel := FirstMip
                levelCount := i - FirstMip
                baseArrayLayer := LayerIdx
                layerCount := 1 } }]
          SrcStageMask := S0 ||| Stage
          PrevMipBarrier := some B0.length }))
    FirstMip (FirstMip + N) _ (by omega) (Or.inl ⟨rfl, rfl⟩)
    (by
      intro i s0 hi hlt hinv
      have hLay := hL0 i hi hlt
      rcases hinv with ⟨rfl, rfl⟩ | ⟨hgt, rfl⟩
      · refine ⟨_, ?_, Or.inr ⟨by omega, rfl⟩⟩
        simp only [MipBody, hLay, Option.some_bind, NewBarrier, if_neg hne, hStage, hAccess,
          Option.map_some']
        have : i + 1 - i = 1 := by omega
        rw [this]
      · refine ⟨_, ?_, Or.inr ⟨by omega, rfl⟩⟩
        have hk : u32 (i - FirstMip + 1) = i + 1 - FirstMip := by
          rw [u32_of_lt (by omega)]; omega
        simp only [MipBody, hLay, Option.some_bind, TArrayGet, List.getElem?_concat_length,
          if_true, hk, List.set_append_right _ _ (Nat.le_refl _), Nat.sub_self, List.set_cons_zero])
  rw [h1]
  rcases h2 with ⟨hEq, _⟩ | ⟨_, rfl⟩
  · omega
  · have : FirstMip + N - FirstMip = N := by omega
    rw [this]

end AddSubresourceTransitions

open AddSubresourceTransitions in
/-- C21: the merging law of `AddSubresourceTransitions`. For every well-formed table, every
layer and every run of `N >= 1` adjacent mips of that layer that all have tracked layout `L0`,
with a destination layout `L1` different from `L0` and a template range that covers exactly
that layer and those `N` mips (in bounds of the table), the function returns and appends
exactly one image barrier: a copy of the template with old layout `L0`, new layout `L1`,
the access mask of `L0` as source access, the given image handle, `baseMipLevel` the first
mip, `levelCount = N`, `baseArrayLayer` the layer and `layerCount = 1`. The stage mask gains
the stages of `L0` and the table is the result of `Set(L1, range)`. `L0` is a layout for which
the two mask functions are defined (they end in `checkNoEntry` otherwise). -/
theorem AddSubresourceTransitions_merges (P : FVulkanPlatformDefines)
    (Barriers : List VkImageMemoryBarrier) (SrcStageMask : Nat)
    (TemplateBarrier : VkImageMemoryBarrier) (ImageHandle : Nat) (t : FVulkanImageLayout)
    (L0 L1 : VkImageLayout) (N Stage Access : Nat)
    (hWF : t.WellFormed) (hIB : t.InBounds TemplateBarrier.subresourceRange)
    (hLayers : t.GetSubresRangeLayerCount TemplateBarrier.subresourceRange = 1)
    (hMips : t.GetSubresRangeMipCount TemplateBarrier.subresourceRange = N) (hN : 1 ≤ N)
    (hL0 : ∀ Mip, TemplateBarrier.subresourceRange.baseMipLevel ≤ Mip →
      Mip < TemplateBarrier.subresourceRange.baseMipLevel + N →
      t.GetSubresLayout TemplateBarrier.subresourceRange.baseArrayLayer Mip = some L0)
    (hne : L0 ≠ L1)
    (hStage : GetVkStageFlagsForLayout P L0 = some Stage)
    (hAccess : GetVkAccessMaskForLayout P L0 = some Access) :
    ∃ t1, t.Set L1 TemplateBarrier.subresourceRange = some t1 ∧
      AddSubresourceTransitions P Barriers SrcStageMask TemplateBarrier ImageHandle t L1 =
        some (Barriers ++ [{ TemplateBarrier with
            srcAccessMask := Access
            oldLayout := L0
            newLayout := L1
            image := ImageHandle
            subresourceRange := { TemplateBarrier.subresourceRange with
              baseMipLevel := TemplateBarrier.subresourceRange.baseMipLevel
              levelCount := N
              baseArrayLayer := TemplateBarrier.subresourceRange.baseArrayLayer
              layerCount := 1 } }],
          SrcStageMask ||| Stage, t1) := by
  obtain ⟨t1, hSet, _⟩ := FVulkanImageLayout.Set_spec t L1 TemplateBarrier.subresourceRange hWF hIB
  refine ⟨t1, hSet, ?_⟩
  obtain ⟨hNL, hNM, _, _⟩ := hWF
  obtain ⟨hIBL, hIBM⟩ := hIB
  rw [hLayers] at hIBL
  rw [hMips] at hIBM
  have hLast : u32 (TemplateBarrier.subresourceRange.baseArrayLayer + 1) =
      TemplateBarrier.subresourceRange.baseArrayLayer + 1 := u32_of_lt (by omega)
  have hLastM : u32 (TemplateBarrier.subresourceRange.baseMipLevel + N) =
      TemplateBarrier.subresourceRange.baseMipLevel + N := u32_of_lt (by omega)
  simp only [AddSubresourceTransitions, hLayers, hMips, hLast, hLastM, forLoop_one, LayerBody,
    MipLoop_merges P TemplateBarrier ImageHandle t L0 L1 _ _ N Stage Access Barriers SrcStageMask
      hN (by omega) hL0 hne hStage hAccess, hSet, Option.map_some', Option.some_bind]

open VkImageLayout in
theorem AddSubresourceTransitions_merges_witness :
    FVulkanImageLayout.WellFormed
      ⟨3, 1, VK_IMAGE_LAYOUT_UNDEFINED,
        [VK_IMAGE_LAYOUT_SHADER_READ_ONLY_OPTIMAL, VK_IMAGE_LAYOUT_SHADER_READ_ONLY_OPTIMAL,
          VK_IMAGE_LAYOUT_GENERAL]⟩ ∧
    ∃ t1,
      FVulkanImageLayout.Set
        ⟨3, 1, VK_IMAGE_LAYOUT_UNDEFINED,
          [VK_IMAGE_LAYOUT_SHADER_READ_ONLY_OPTIMAL, VK_IMAGE_LAYOUT_SHADER_READ_ONLY_OPTIMAL,
            VK_IMAGE_LAYOUT_GENERAL]⟩ VK_IMAGE_LAYOUT_COLOR_ATTACHMENT_OPTIMAL
        ⟨VK_IMAGE_ASPECT_COLOR_BIT, 0, 2, 0, 1⟩ = some t1 ∧
      AddSubresourceTransitions ⟨true, true⟩ [] 0
        ⟨0, 384, VK_IMAGE_LAYOUT_UNDEFINED, VK_IMAGE_LAYOUT_COLOR_ATTACHMENT_OPTIMAL,
          VK_QUEUE_FAMILY_IGNORED, VK_QUEUE_FAMILY_IGNORED, VK_NULL_HANDLE,
          ⟨VK_IMAGE_ASPECT_COLOR_BIT, 0, 2, 0, 1⟩⟩ 7
        ⟨3, 1, VK_IMAGE_LAYOUT_UNDEFINED,
          [VK_IMAGE_LAYOUT_SHADER_READ_ONLY_OPTIMAL, VK_IMAGE_LAYOUT_SHADER_READ_ONLY_OPTIMAL,
            VK_IMAGE_LAYOUT_GENERAL]⟩
        VK_IMAGE_LAYOUT_COLOR_ATTACHMENT_OPTIMAL =
      some ([] ++ [⟨VK_ACCESS_SHADER_READ_BIT, 384, VK_IMAGE_LAYOUT_SHADER_READ_ONLY_OPTIMAL,
            VK_IMAGE_LAYOUT_COLOR_ATTACHMENT_OPTIMAL, VK_QUEUE_FAMILY_IGNORED,
            VK_QUEUE_FAMILY_IGNORED, 7, ⟨VK_IMAGE_ASPECT_COLOR_BIT, 0, 2, 0, 1⟩⟩],
        0 ||| VK_PIPELINE_STAGE_FRAGMENT_SHADER_BIT, t1) :=
  ⟨by decide,
    AddSubresourceTransitions_merges ⟨true, true⟩ [] 0
      ⟨0, 384, VK_IMAGE_LAYOUT_UNDEFINED, VK_IMAGE_LAYOUT_COLOR_ATTACHMENT_OPTIMAL,
        VK_QUEUE_FAMILY_IGNORED, VK_QUEUE_FAMILY_IGNORED, VK_NULL_HANDLE,
        ⟨VK_IMAGE_ASPECT_COLOR_BIT, 0, 2, 0, 1⟩⟩ 7
      ⟨3, 1, VK_IMAGE_LAYOUT_UNDEFINED,
        [VK_IMAGE_LAYOUT_SHADER_READ_ONLY_OPTIMAL, VK_IMAGE_LAYOUT_SHADER_READ_ONLY_OPTIMAL,
          VK_IMAGE_LAYOUT_GENERAL]⟩
      VK_IMAGE_LAYOUT_SHADER_READ_ONLY_OPTIMAL VK_IMAGE_LAYOUT_COLOR_ATTACHMENT_OPTIMAL 2
      VK_PIPELINE_STAGE_FRAGMENT_SHADER_BIT VK_ACCESS_SHADER_READ_BIT
      (by decide) (by decide) (by decide) (by decide) (by decide)
      (fun Mip _ h => by
        have h2 : Mip < 2 := h
        interval_cases Mip <;> decide)
      (by decide) (by decide) (by decide)⟩

/-! ## The transition executor: the acquire phase on one queue -/

theorem forLoopAux_preserves {σ : Type} (Body : Nat → σ → Option σ) (Inv : σ → Prop)
    (hstep : ∀ i s s1, Body i s = some s1 → Inv s → Inv s1) :
    ∀ (n First : Nat) (s s1 : σ), forLoopAux Body First n s = some s1 → Inv s → Inv s1 := by
  intro n
  induction n with
  | zero =>
    intro First s s1 h hi
    simp only [forLoopAux, Option.some.injEq] at h
    rw [← h]; exact hi
  | succ n ih =>
    intro First s s1 h hi
    simp only [forLoopAux] at h
    cases hb : Body First s with
    | none => rw [hb] at h; cases h
    | some s2 =>
      rw [hb] at h
      exact ih (First + 1) s2 s1 h (hstep First s s2 hb hi)

theorem forLoop_preserves {σ : Type} (Body : Nat → σ → Option σ) (Inv : σ → Prop)
    (hstep : ∀ i s s1, Body i s = some s1 → Inv s → Inv s1) (First Last : Nat) (s s1 : σ)
    (h : forLoop Body First Last s = some s1) (hi : Inv s) : Inv s1 :=
  forLoopAux_preserves Body Inv hstep _ _ s s1 h hi

namespace AddSubresourceTransitions

end AddSubresourceTransitions

theorem AdjustDepthStencilLayout_fields (Barrier : VkImageMemoryBarrier) (FullAspectMask : Nat) :
    (AdjustDepthStencilLayout Barrier FullAspectMask).1 =
      { Barrier with
        newLayout := (AdjustDepthStencilLayout Barrier FullAspectMask).1.newLayout
        subresourceRange := { Barrier.subresourceRange with
          aspectMask :=
            (AdjustDepthStencilLayout Barrier FullAspectMask).1.subresourceRange.aspectMask } } := by
  unfold AdjustDepthStencilLayout
  split_ifs <;> rfl

namespace RHIEndTransitions

open VkImageLayout

/-- The two ways the last part of the body of the image loop can end: the barrier is folded
into the memory barrier, or it is appended and its new layout committed. -/
theorem CommitBarrier_cases (Data : FVulkanPipelineBarrier) (ImageBarrier : VkImageMemoryBarrier)
    (Texture : FVulkanTextureBase) (M : FVulkanLayoutManager) (Layout : FVulkanImageLayout)
    (SrcLayout : VkImageLayout) (SrcAccessFlags RealSrcStageMask : Nat)
    (Calls : List (FVulkanTextureBase × VkImageLayout)) (s s1 : FImageLoop)
    (A : VkImageMemoryBarrier × Bool)
    (hA : A = AdjustDepthStencilLayout { ImageBarrier with
      image := Texture.Surface.Image
      srcAccessMask := SrcAccessFlags
      oldLayout := SrcLayout
      newLayout := ImageBarrier.newLayout } Texture.Surface.FullAspectMask)
    (h : CommitBarrier Data ImageBarrier Texture M Layout SrcLayout SrcAccessFlags
      RealSrcStageMask Calls s = some s1) :
    (Data.SrcPipelines = Data.DstPipelines ∧ A.1.oldLayout = A.1.newLayout ∧
      s1 = { LayoutManager := M
             OnLayoutTransitionCalls := Calls
             RealImageBarriers := s.RealImageBarriers
             RealSrcStageMask := RealSrcStageMask
             RealMemoryBarrier :=
               AddMemoryBarrier s.RealMemoryBarrier A.1.srcAccessMask A.1.dstAccessMask
             bEnsureFailed := s.bEnsureFailed || A.2 }) ∨
    (¬(Data.SrcPipelines = Data.DstPipelines ∧ A.1.oldLayout = A.1.newLayout) ∧
      ∃ Layout1, Layout.Set A.1.newLayout A.1.subresourceRange = some Layout1 ∧
        s1 = { LayoutManager := M.Assign Texture.Surface.Image Layout1
               OnLayoutTransitionCalls := Calls
               RealImageBarriers := s.RealImageBarriers ++
                 [if Data.SrcPipelines = Data.DstPipelines then A.1
                  else { A.1 with srcAccessMask := 0 }]
               RealSrcStageMask := RealSrcStageMask
               RealMemoryBarrier := s.RealMemoryBarrier
               bEnsureFailed := s.bEnsureFailed || A.2 }) := by
  unfold CommitBarrier at h
  simp only [← hA] at h
  by_cases hc : Data.SrcPipelines = Data.DstPipelines ∧ A.1.oldLayout = A.1.newLayout
  · rw [if_pos hc] at h
    cases h
    exact Or.inl ⟨hc.1, hc.2, rfl⟩
  · rw [if_neg hc] at h
    simp only [Option.map_eq_some'] at h
    obtain ⟨Layout1, hSet, rfl⟩ := h
    refine Or.inr ⟨hc, Layout1, ?_, rfl⟩
    rw [← hSet]
    by_cases hp : Data.SrcPipelines = Data.DstPipelines
    · simp only [if_pos hp]
    · simp only [if_neg hp]

/-- The ways one iteration of the image loop can succeed: the texture is skipped, the source
layout is resolved from a uniform table, the barrier is fanned out over a table that is not
uniform, or the asserted source layout is used. `Texture1` is the texture after the call of
`OnLayoutTransition`. -/
theorem ImageBarrierBody_cases {OnLayoutTransition : FVulkanTextureBase → VkImageLayout → Nat}
    (P : FVulkanPlatformDefines) (DO_GUARD_SLOW : Bool)
    (Data : FVulkanPipelineBarrier) (ImageBarrier : VkImageMemoryBarrier)
    (Texture : FVulkanTextureBase) (s s1 : FImageLoop)
    (h : ImageBarrierBody OnLayoutTransition P DO_GUARD_SLOW Data ImageBarrier Texture s = some s1)
    (Texture1 : FVulkanTextureBase)
    (hT1 : Texture1 = Texture.AfterLayoutTransition OnLayoutTransition ImageBarrier.newLayout) :
    (Texture.Surface.bCPUReadback = true ∧ s1 = s) ∨
    (Texture.Surface.bCPUReadback = false ∧ Texture1.Surface.Image ≠ VK_NULL_HANDLE ∧
      ImageBarrier.image = VK_NULL_HANDLE ∧ ImageBarrier.newLayout ≠ VK_IMAGE_LAYOUT_UNDEFINED ∧
      ((ImageBarrier.oldLayout = VK_IMAGE_LAYOUT_UNDEFINED ∧
          (s.LayoutManager.GetOrAddFullLayout Texture1.Surface
            VK_IMAGE_LAYOUT_UNDEFINED).2.AreAllSubresourcesSameLayout = true ∧
          ∃ SrcAccessFlags Stage,
            GetVkAccessMaskForLayout P (s.LayoutManager.GetOrAddFullLayout Texture1.Surface
              VK_IMAGE_LAYOUT_UNDEFINED).2.MainLayout = some SrcAccessFlags ∧
            GetVkStageFlagsForLayout P (s.LayoutManager.GetOrAddFullLayout Texture1.Surface
              VK_IMAGE_LAYOUT_UNDEFINED).2.MainLayout = some Stage ∧
            CommitBarrier Data ImageBarrier Texture1
              (s.LayoutManager.GetOrAddFullLayout Texture1.Surface VK_IMAGE_LAYOUT_UNDEFINED).1
              (s.LayoutManager.GetOrAddFullLayout Texture1.Surface VK_IMAGE_LAYOUT_UNDEFINED).2
              (s.LayoutManager.GetOrAddFullLayout Texture1.Surface
                VK_IMAGE_LAYOUT_UNDEFINED).2.MainLayout
              SrcAccessFlags (s.RealSrcStageMask ||| Stage)
              (s.OnLayoutTransitionCalls ++ [(Texture, ImageBarrier.newLayout)]) s = some s1) ∨
        (ImageBarrier.oldLayout = VK_IMAGE_LAYOUT_UNDEFINED ∧
          (s.LayoutManager.GetOrAddFullLayout Texture1.Surface
            VK_IMAGE_LAYOUT_UNDEFINED).2.AreAllSubresourcesSameLayout = false ∧
          Data.SrcPipelines = Data.DstPipelines ∧
          ∃ r, AddSubresourceTransitions P s.RealImageBarriers s.RealSrcStageMask ImageBarrier
              Texture1.Surface.Image
              (s.LayoutManager.GetOrAddFullLayout Texture1.Surface VK_IMAGE_LAYOUT_UNDEFINED).2
              ImageBarrier.newLayout = some r ∧
            s1 = { LayoutManager :=
                     (s.LayoutManager.GetOrAddFullLayout Texture1.Surface
                       VK_IMAGE_LAYOUT_UNDEFINED).1.Assign Texture1.Surface.Image r.2.2
                   OnLayoutTransitionCalls :=
                     s.OnLayoutTransitionCalls ++ [(Texture, ImageBarrier.newLayout)]
                   RealImageBarriers := r.1
                   RealSrcStageMask := r.2.1
                   RealMemoryBarrier := s.RealMemoryBarrier
                   bEnsureFailed := s.bEnsureFailed }) ∨
        (ImageBarrier.oldLayout ≠ VK_IMAGE_LAYOUT_UNDEFINED ∧
          (DO_GUARD_SLOW = true →
            (s.LayoutManager.GetOrAddFullLayout Texture1.Surface
              VK_IMAGE_LAYOUT_UNDEFINED).2.AreSubresourcesSameLayout ImageBarrier.oldLayout
              ImageBarrier.subresourceRange = some true) ∧
          CommitBarrier Data ImageBarrier Texture1
            (s.LayoutManager.GetOrAddFullLayout Texture1.Surface VK_IMAGE_LAYOUT_UNDEFINED).1
            (s.LayoutManager.GetOrAddFullLayout Texture1.Surface VK_IMAGE_LAYOUT_UNDEFINED).2
            ImageBarrier.oldLayout ImageBarrier.srcAccessMask s.RealSrcStageMask
            (s.OnLayoutTransitionCalls ++ [(Texture, ImageBarrier.newLayout)]) s = some s1))) := by
  unfold ImageBarrierBody at h
  rw [← hT1] at h
  cases hR : Texture.Surface.bCPUReadback with
  | true =>
    rw [hR] at h
    simp only [if_true, Option.some.injEq] at h
    exact Or.inl ⟨rfl, h.symm⟩
  | false =>
    rw [hR] at h
    simp only [Bool.false_eq_true, if_false] at h
    by_cases hH : Texture1.Surface.Image ≠ VK_NULL_HANDLE ∧ ImageBarrier.image = VK_NULL_HANDLE
    · rw [if_neg (not_not.mpr hH)] at h
      by_cases hN : ImageBarrier.newLayout = VK_IMAGE_LAYOUT_UNDEFINED
      · rw [if_pos hN] at h; cases h
      · rw [if_neg hN] at h
        refine Or.inr ⟨rfl, hH.1, hH.2, hN, ?_⟩
        by_cases hO : ImageBarrier.oldLayout = VK_IMAGE_LAYOUT_UNDEFINED
        · rw [if_pos hO] at h
          cases hU : (s.LayoutManager.GetOrAddFullLayout Texture1.Surface
              VK_IMAGE_LAYOUT_UNDEFINED).2.AreAllSubresourcesSameLayout with
          | true =>
            rw [hU] at h
            simp only [if_true, Option.bind_eq_some] at h
            obtain ⟨Acc, hAcc, St, hSt, hC⟩ := h
            exact Or.inl ⟨hO, rfl, Acc, St, hAcc, hSt, hC⟩
          | false =>
            rw [hU] at h
            simp only [Bool.false_eq_true, if_false] at h
            by_cases hp : Data.SrcPipelines = Data.DstPipelines
            · rw [if_neg (not_not.mpr hp)] at h
              simp only [Option.map_eq_some'] at h
              obtain ⟨r, hr, rfl⟩ := h
              exact Or.inr (Or.inl ⟨hO, rfl, hp, r, hr, rfl⟩)
            · rw [if_pos hp] at h; cases h
        · rw [if_neg hO] at h
          by_cases hG : DO_GUARD_SLOW = true ∧
              (s.LayoutManager.GetOrAddFullLayout Texture1.Surface
                VK_IMAGE_LAYOUT_UNDEFINED).2.AreSubresourcesSameLayout ImageBarrier.oldLayout
                ImageBarrier.subresourceRange ≠ some true
          · rw [if_pos hG] at h; cases h
          · rw [if_neg hG] at h
            refine Or.inr (Or.inr ⟨hO, ?_, h⟩)
            intro hg
            by_contra hc
            exact hG ⟨hg, hc⟩
    · rw [if_pos hH] at h; cases h

end RHIEndTransitions

namespace FVulkanCommandBufferManager

theorem RecordedImageBarriers_Submit (M M1 : FVulkanCommandBufferManager)
    (SignalSemaphores : List Nat) (h : M.SubmitActiveCmdBuffer SignalSemaphores = some M1) :
    M1.RecordedImageBarriers = M.RecordedImageBarriers := by
  unfold SubmitActiveCmdBuffer at h
  cases hA : M.ActiveCmdBuffer with
  | none => rw [hA] at h; cases h
  | some cb =>
    rw [hA] at h
    simp only [Option.map_some', Option.some.injEq] at h
    subst h
    simp [RecordedImageBarriers, hA]

theorem RecordedImageBarriers_Prepare (M : FVulkanCommandBufferManager)
    (h : M.ActiveCmdBuffer = none) :
    M.PrepareForNewActiveCommandBuffer.RecordedImageBarriers = M.RecordedImageBarriers := by
  simp [RecordedImageBarriers, PrepareForNewActiveCommandBuffer, h]

theorem RecordedImageBarriers_AddWaitSemaphore (M M1 : FVulkanCommandBufferManager)
    (StageFlags Semaphore : Nat) (h : M.AddWaitSemaphore StageFlags Semaphore = some M1) :
    M1.RecordedImageBarriers = M.RecordedImageBarriers := by
  unfold AddWaitSemaphore at h
  cases hA : M.ActiveCmdBuffer with
  | none => rw [hA] at h; cases h
  | some cb =>
    rw [hA] at h
    simp only [Option.map_some', Option.some.injEq] at h
    subst h
    simp [RecordedImageBarriers, hA]

theorem RecordedImageBarriers_CmdPipelineBarrier (M M1 : FVulkanCommandBufferManager)
    (Call : FVulkanCmdPipelineBarrier) (h : M.CmdPipelineBarrier Call = some M1) :
    M1.RecordedImageBarriers = M.RecordedImageBarriers ++ Call.ImageBarriers := by
  unfold CmdPipelineBarrier at h
  cases hA : M.ActiveCmdBuffer with
  | none => rw [hA] at h; cases h
  | some cb =>
    rw [hA] at h
    simp only [Option.map_some', Option.some.injEq] at h
    subst h
    simp [RecordedImageBarriers, hA]

end FVulkanCommandBufferManager

namespace RHIEndTransitions

open VkImageLayout

theorem WaitBody_Recorded (Data : FVulkanPipelineBarrier) (s s1 : FWaitLoop)
    (h : WaitBody Data s = some s1) :
    s1.CommandBufferManager.RecordedImageBarriers =
      s.CommandBufferManager.RecordedImageBarriers := by
  unfold WaitBody at h
  cases hS : Data.Semaphore with
  | none => rw [hS] at h; cases h; rfl
  | some Sem =>
    rw [hS] at h
    simp only [Option.bind_eq_some, Option.map_eq_some'] at h
    obtain ⟨CBM, hPrep, CBM1, hAdd, rfl⟩ := h
    show CBM1.RecordedImageBarriers = _
    rw [FVulkanCommandBufferManager.RecordedImageBarriers_AddWaitSemaphore CBM CBM1 _ _ hAdd]
    cases hSeen : s.bSeenWaitSemaphore with
    | true =>
      rw [hSeen] at hPrep
      simp only [Bool.not_true, Bool.false_eq_true, if_false, Option.some.injEq] at hPrep
      rw [← hPrep]
    | false =>
      rw [hSeen] at hPrep
      simp only [Bool.not_false, if_true] at hPrep
      cases hP : s.CommandBufferManager.HasPendingActiveCmdBuffer with
      | false =>
        rw [hP] at hPrep
        simp only [Bool.false_eq_true, if_false, Option.some.injEq] at hPrep
        rw [← hPrep]
      | true =>
        rw [hP] at hPrep
        simp only [if_true, Option.map_eq_some'] at hPrep
        obtain ⟨CBM0, hSub, rfl⟩ := hPrep
        have hNone : CBM0.ActiveCmdBuffer = none := by
          unfold FVulkanCommandBufferManager.SubmitActiveCmdBuffer at hSub
          simp only [Option.map_eq_some'] at hSub
          obtain ⟨cb, _, rfl⟩ := hSub
          rfl
        rw [FVulkanCommandBufferManager.RecordedImageBarriers_Prepare CBM0 hNone,
          FVulkanCommandBufferManager.RecordedImageBarriers_Submit _ CBM0 _ hSub]

theorem WaitLoop_Recorded :
    ∀ (Transitions : List FVulkanPipelineBarrier) (s s1 : FWaitLoop),
      WaitLoop Transitions s = some s1 →
      s1.CommandBufferManager.RecordedImageBarriers =
        s.CommandBufferManager.RecordedImageBarriers := by
  intro Transitions
  induction Transitions with
  | nil => intro s s1 h; simp only [WaitLoop, Option.some.injEq] at h; rw [h]
  | cons D Rest ih =>
    intro s s1 h
    simp only [WaitLoop] at h
    cases hb : WaitBody D s with
    | none => rw [hb] at h; cases h
    | some s2 =>
      rw [hb] at h
      rw [ih s2 s1 h, WaitBody_Recorded D s s2 hb]

/-- The ways one iteration of the second loop can succeed: the transition is skipped, or its
image loop runs and the pipeline barrier is recorded unless it is empty. -/
theorem TransitionBody_cases {OnLayoutTransition : FVulkanTextureBase → VkImageLayout → Nat}
    (P : FVulkanPlatformDefines) (DO_GUARD_SLOW : Bool)
    (Data : FVulkanPipelineBarrier) (s s1 : FState)
    (h : TransitionBody OnLayoutTransition P DO_GUARD_SLOW Data s = some s1) :
    ((Data.SrcStageMask = 0 ∨ Data.DstStageMask = 0) ∧ s1 = s) ∨
    (¬(Data.SrcStageMask = 0 ∨ Data.DstStageMask = 0) ∧
      (DO_GUARD_SLOW = true →
        GuardDstPipeline Data.DstPipelines s.Context.bIsRealAsyncComputeContext = true) ∧
      (Data.SrcPipelines ≠ Data.DstPipelines ∨ Data.BufferBarriers.length = 0) ∧
      Data.ImageBarriers.length = Data.Textures.length ∧
      ∃ r, ImageBarrierLoop OnLayoutTransition P DO_GUARD_SLOW Data
        (Data.ImageBarriers.zip Data.Textures)
          { LayoutManager := s.Context.LayoutManager
            OnLayoutTransitionCalls := s.Context.OnLayoutTransitionCalls
            RealImageBarriers := []
            RealSrcStageMask := Data.SrcStageMask
            RealMemoryBarrier := Data.MemoryBarrier
            bEnsureFailed := s.bEnsureFailed } = some r ∧
        ((r.RealMemoryBarrier.srcAccessMask = 0 ∧ r.RealMemoryBarrier.dstAccessMask = 0 ∧
            Data.BufferBarriers = [] ∧ r.RealImageBarriers = [] ∧
            s1 = { Context := { s.Context with
                     LayoutManager := r.LayoutManager
                     OnLayoutTransitionCalls := r.OnLayoutTransitionCalls }
                   bEnsureFailed := r.bEnsureFailed }) ∨
          ∃ CBM, s.Context.CommandBufferManager.CmdPipelineBarrier
              { srcStageMask := r.RealSrcStageMask
                dstStageMask := Data.DstStageMask
                MemoryBarriers :=
                  if r.RealMemoryBarrier.srcAccessMask ≠ 0 ∨
                      r.RealMemoryBarrier.dstAccessMask ≠ 0 then [r.RealMemoryBarrier] else []
                BufferBarriers := Data.BufferBarriers.map (fun BufferBarrier =>
                  { BufferBarrier with srcAccessMask := 0 })
                ImageBarriers := r.RealImageBarriers } = some CBM ∧
            s1 = { Context := { s.Context with
                     LayoutManager := r.LayoutManager
                     CommandBufferManager := CBM
                     OnLayoutTransitionCalls := r.OnLayoutTransitionCalls }
                   bEnsureFailed := r.bEnsureFailed })) := by
  unfold TransitionBody at h
  by_cases h1 : Data.SrcStageMask = 0 ∨ Data.DstStageMask = 0
  · rw [if_pos h1] at h
    by_cases h2 : Data.ImageBarriers.length = 0 ∧ Data.BufferBarriers.length = 0
    · rw [if_pos h2] at h; cases h; exact Or.inl ⟨h1, rfl⟩
    · rw [if_neg h2] at h; cases h
  · rw [if_neg h1] at h
    by_cases h3 : DO_GUARD_SLOW = true ∧
        GuardDstPipeline Data.DstPipelines s.Context.bIsRealAsyncComputeContext = false
    · rw [if_pos h3] at h; cases h
    · rw [if_neg h3] at h
      by_cases h4 : Data.SrcPipelines ≠ Data.DstPipelines ∨ Data.BufferBarriers.length = 0
      · rw [if_neg (not_not.mpr h4)] at h
        by_cases h5 : Data.ImageBarriers.length = Data.Textures.length
        · rw [if_neg (not_not.mpr h5)] at h
          simp only [Option.bind_eq_some] at h
          obtain ⟨r, hr, h⟩ := h
          refine Or.inr ⟨h1, ?_, h4, h5, r, hr, ?_⟩
          · intro hg
            cases hG : GuardDstPipeline Data.DstPipelines s.Context.bIsRealAsyncComputeContext with
            | true => rfl
            | false => exact absurd ⟨hg, hG⟩ h3
          · by_cases hm : r.RealMemoryBarrier.srcAccessMask ≠ 0 ∨
                r.RealMemoryBarrier.dstAccessMask ≠ 0
            · simp only [if_pos hm, Nat.succ_ne_zero, false_and, if_false, if_true,
                Option.map_eq_some'] at h
              obtain ⟨CBM, hCBM, rfl⟩ := h
              exact Or.inr ⟨CBM, by rw [if_pos hm]; exact hCBM, rfl⟩
            · simp only [if_neg hm, true_and, Nat.zero_ne_one, if_false] at h
              by_cases he : (Data.BufferBarriers.map (fun BufferBarrier =>
                  ({ BufferBarrier with srcAccessMask := 0 } : VkBufferMemoryBarrier))).length = 0 ∧
                  r.RealImageBarriers.length = 0
              · rw [if_pos he] at h
                cases h
                have hm1 : r.RealMemoryBarrier.srcAccessMask = 0 ∧
                    r.RealMemoryBarrier.dstAccessMask = 0 := by
                  constructor
                  · by_contra hc; exact hm (Or.inl hc)
                  · by_contra hc; exact hm (Or.inr hc)
                refine Or.inl ⟨hm1.1, hm1.2, ?_, List.length_eq_zero.mp he.2, rfl⟩
                have := he.1
                rw [List.length_map] at this
                exact List.length_eq_zero.mp this
              · rw [if_neg he] at h
                simp only [Option.map_eq_some'] at h
                obtain ⟨CBM, hCBM, rfl⟩ := h
                exact Or.inr ⟨CBM, by rw [if_neg hm]; exact hCBM, rfl⟩
        · rw [if_pos h5] at h; cases h
      · rw [if_pos h4] at h; cases h

end RHIEndTransitions

namespace FVulkanLayoutManager

theorem lookup_map_replace (Image Key : Nat) (Layout : FVulkanImageLayout) :
    ∀ (L : List (Nat × FVulkanImageLayout)),
      (L.map (fun e => if e.1 == Image then (e.1, Layout) else e)).lookup Key =
        if Key = Image then (L.lookup Key).map (fun _ => Layout) else L.lookup Key := by
  intro L
  induction L with
  | nil => simp
  | cons e L ih =>
    obtain ⟨k, v⟩ := e
    by_cases hk : Key = k
    · subst hk
      by_cases hI : Key = Image
      · subst hI
        simp [List.lookup_cons]
      · have : (Key == Image) = false := by simpa using hI
        simp [List.lookup_cons, hI, this]
    · have hk1 : (Key == k) = false := by simpa using hk
      by_cases hI : k = Image
      · subst hI
        simp only [List.map_cons, beq_self_eq_true, if_true, List.lookup_cons, hk1, ih]
      · have : (k == Image) = false := by simpa using hI
        simp only [List.map_cons, this, Bool.false_eq_true, if_false, List.lookup_cons, hk1, ih]

theorem Find_Assign_same (M : FVulkanLayoutManager) (Image : Nat) (t t1 : FVulkanImageLayout)
    (h : M.Find Image = some t) : (M.Assign Image t1).Find Image = some t1 := by
  unfold Find at h
  simp only [Find, Assign, lookup_map_replace, if_true, h, Option.map_some']

theorem Find_Assign_other (M : FVulkanLayoutManager) (Image Key : Nat) (t1 : FVulkanImageLayout)
    (h : Key ≠ Image) : (M.Assign Image t1).Find Key = M.Find Key := by
  simp only [Find, Assign, lookup_map_replace, if_neg h]

theorem GetOrAddFullLayout_Find (M : FVulkanLayoutManager) (Surface : FVulkanSurface)
    (LayoutIfNotFound : VkImageLayout) :
    (M.GetOrAddFullLayout Surface LayoutIfNotFound).1.Find Surface.Image =
      some (M.GetOrAddFullLayout Surface LayoutIfNotFound).2 := by
  unfold GetOrAddFullLayout
  cases h : M.Find Surface.Image with
  | some t => exact h
  | none =>
    unfold Find at h
    simp [Find, List.lookup_append, h, List.lookup_cons]

theorem GetOrAddFullLayout_Find_other (M : FVulkanLayoutManager) (Surface : FVulkanSurface)
    (LayoutIfNotFound : VkImageLayout) (Key : Nat) (hk : Key ≠ Surface.Image) :
    (M.GetOrAddFullLayout Surface LayoutIfNotFound).1.Find Key = M.Find Key := by
  unfold GetOrAddFullLayout
  cases h : M.Find Surface.Image with
  | some t => rfl
  | none =>
    have : (Key == Surface.Image) = false := by simpa using hk
    simp [Find, List.lookup_append, List.lookup_cons, this]

end FVulkanLayoutManager

theorem AdjustDepthStencilLayout_newLayout_congr (B1 B2 : VkImageMemoryBarrier)
    (FullAspectMask : Nat) (hO : B1.oldLayout = B2.oldLayout) (hN : B1.newLayout = B2.newLayout)
    (hA : B1.subresourceRange.aspectMask = B2.subresourceRange.aspectMask) :
    (AdjustDepthStencilLayout B1 FullAspectMask).1.newLayout =
      (AdjustDepthStencilLayout B2 FullAspectMask).1.newLayout := by
  unfold AdjustDepthStencilLayout
  rw [hO, hN, hA]
  split_ifs <;> first | rfl | exact hN

theorem AdjustDepthStencilLayout_range (Barrier : VkImageMemoryBarrier) (FullAspectMask : Nat)
    (t : FVulkanImageLayout) :
    (t.InBounds (AdjustDepthStencilLayout Barrier FullAspectMask).1.subresourceRange ↔
      t.InBounds Barrier.subresourceRange) ∧
    ∀ l m, t.InRange (AdjustDepthStencilLayout Barrier FullAspectMask).1.subresourceRange l m ↔
      t.InRange Barrier.subresourceRange l m := by
  rw [AdjustDepthStencilLayout_fields]
  exact ⟨Iff.rfl, fun _ _ => Iff.rfl⟩

namespace AddSubresourceTransitions

theorem MipBody_newLayout (P : FVulkanPlatformDefines) (TemplateBarrier : VkImageMemoryBarrier)
    (ImageHandle : Nat) (CurrentLayout : FVulkanImageLayout) (DstLayout : VkImageLayout)
    (LayerIdx MipIdx : Nat) (s s1 : FLocals)
    (h : MipBody P TemplateBarrier ImageHandle CurrentLayout DstLayout LayerIdx MipIdx s = some s1)
    (hi : ∀ b ∈ s.Barriers, b.newLayout = DstLayout) :
    ∀ b ∈ s1.Barriers, b.newLayout = DstLayout := by
  have hNew : ∀ SrcLayout,
      NewBarrier P TemplateBarrier ImageHandle DstLayout LayerIdx MipIdx SrcLayout s = some s1 →
      ∀ b ∈ s1.Barriers, b.newLayout = DstLayout := by
    intro SrcLayout hN
    unfold NewBarrier at hN
    by_cases hEq : SrcLayout = DstLayout
    · rw [if_pos hEq] at hN
      cases hN
      exact hi
    · rw [if_neg hEq] at hN
      simp only [Option.bind_eq_some, Option.map_eq_some'] at hN
      obtain ⟨Stage, _, Access, _, rfl⟩ := hN
      intro b hb
      rcases List.mem_append.mp hb with hb | hb
      · exact hi b hb
      · rw [List.mem_singleton.mp hb]
  unfold MipBody at h
  simp only [Option.bind_eq_some] at h
  obtain ⟨SrcLayout, _, h⟩ := h
  cases hp : s.PrevMipBarrier with
  | none => rw [hp] at h; exact hNew SrcLayout h
  | some Index =>
    rw [hp] at h
    simp only [Option.bind_eq_some, TArrayGet] at h
    obtain ⟨Prev, hPrev, h⟩ := h
    by_cases hEq : Prev.oldLayout = SrcLayout
    · rw [if_pos hEq] at h
      cases h
      intro b hb
      rcases List.mem_or_eq_of_mem_set hb with hb | rfl
      · exact hi b hb
      · exact hi Prev (List.getElem?_mem hPrev)
    · rw [if_neg hEq] at h
      exact hNew SrcLayout h

end AddSubresourceTransitions

open AddSubresourceTransitions in
/-- What the fan-out returns: barriers whose new layout is the destination layout, and the
table that `Set` gives for the template range. -/
theorem AddSubresourceTransitions_result (P : FVulkanPlatformDefines)
    (Barriers : List VkImageMemoryBarrier) (SrcStageMask : Nat)
    (TemplateBarrier : VkImageMemoryBarrier) (ImageHandle : Nat)
    (CurrentLayout : FVulkanImageLayout) (DstLayout : VkImageLayout)
    (r : List VkImageMemoryBarrier × Nat × FVulkanImageLayout)
    (h : AddSubresourceTransitions P Barriers SrcStageMask TemplateBarrier ImageHandle
      CurrentLayout DstLayout = some r)
    (hi : ∀ b ∈ Barriers, b.newLayout = DstLayout) :
    (∀ b ∈ r.1, b.newLayout = DstLayout) ∧
    CurrentLayout.Set DstLayout TemplateBarrier.subresourceRange = some r.2.2 := by
  unfold AddSubresourceTransitions at h
  simp only [Option.bind_eq_some, Option.map_eq_some'] at h
  obtain ⟨r1, hloop, t1, hSet, rfl⟩ := h
  refine ⟨?_, hSet⟩
  refine forLoop_preserves _ (fun s : List VkImageMemoryBarrier × Nat =>
    ∀ b ∈ s.1, b.newLayout = DstLayout) ?_ _ _ _ r1 hloop hi
  intro LayerIdx s s1 hb hs
  unfold LayerBody at hb
  simp only [Option.map_eq_some'] at hb
  obtain ⟨m, hm, rfl⟩ := hb
  exact forLoop_preserves _ (fun s : FLocals => ∀ b ∈ s.Barriers, b.newLayout = DstLayout)
    (fun i s2 s3 h23 h2 => MipBody_newLayout P TemplateBarrier ImageHandle CurrentLayout DstLayout
      LayerIdx i s2 s3 h23 h2) _ _ _ m hm hs

namespace RHIEndTransitions

open VkImageLayout

theorem AdjustDepthStencilLayout_oldLayout (Barrier : VkImageMemoryBarrier)
    (FullAspectMask : Nat) :
    (AdjustDepthStencilLayout Barrier FullAspectMask).1.oldLayout = Barrier.oldLayout := by
  rw [AdjustDepthStencilLayout_fields]

/-- What the last part of the body of the image loop leaves in the layout table when the
subresources of the range are in the source layout: the range holds the adjusted new layout,
the rest of the table is kept, and an appended barrier carries that layout. -/
theorem CommitBarrier_commits (Data : FVulkanPipelineBarrier) (ImageBarrier : VkImageMemoryBarrier)
    (Texture : FVulkanTextureBase) (M : FVulkanLayoutManager) (t : FVulkanImageLayout)
    (SrcLayout : VkImageLayout) (SrcAccessFlags RealSrcStageMask : Nat)
    (Calls : List (FVulkanTextureBase × VkImageLayout)) (s s1 : FImageLoop)
    (hFind : M.Find Texture.Surface.Image = some t)
    (hWF : t.WellFormed) (hIB : t.InBounds ImageBarrier.subresourceRange)
    (hE : s.RealImageBarriers = [])
    (hSrc : ∀ l m, t.InRange ImageBarrier.subresourceRange l m →
      t.GetSubresLayout l m = some SrcLayout)
    (h : CommitBarrier Data ImageBarrier Texture M t SrcLayout SrcAccessFlags
      RealSrcStageMask Calls s = some s1) :
    ∃ t1, s1.LayoutManager.Find Texture.Surface.Image = some t1 ∧
      (∀ b ∈ s1.RealImageBarriers, b.newLayout =
        (AdjustDepthStencilLayout { ImageBarrier with oldLayout := SrcLayout }
          Texture.Surface.FullAspectMask).1.newLayout) ∧
      ∀ l m, l < t.NumLayers → m < t.NumMips →
        t1.GetSubresLayout l m =
          if t.InRange ImageBarrier.subresourceRange l m then
            some (AdjustDepthStencilLayout { ImageBarrier with oldLayout := SrcLayout }
              Texture.Surface.FullAspectMask).1.newLayout
          else t.GetSubresLayout l m := by
  have hNL : (AdjustDepthStencilLayout { ImageBarrier with
        image := Texture.Surface.Image
        srcAccessMask := SrcAccessFlags
        oldLayout := SrcLayout
        newLayout := ImageBarrier.newLayout } Texture.Surface.FullAspectMask).1.newLayout =
      (AdjustDepthStencilLayout { ImageBarrier with oldLayout := SrcLayout }
        Texture.Surface.FullAspectMask).1.newLayout :=
    AdjustDepthStencilLayout_newLayout_congr _ _ _ rfl rfl rfl
  have hOld := AdjustDepthStencilLayout_oldLayout { ImageBarrier with
        image := Texture.Surface.Image
        srcAccessMask := SrcAccessFlags
        oldLayout := SrcLayout
        newLayout := ImageBarrier.newLayout } Texture.Surface.FullAspectMask
  have hRange := AdjustDepthStencilLayout_range { ImageBarrier with
        image := Texture.Surface.Image
        srcAccessMask := SrcAccessFlags
        oldLayout := SrcLayout
        newLayout := ImageBarrier.newLayout } Texture.Surface.FullAspectMask t
  rcases CommitBarrier_cases Data ImageBarrier Texture M t SrcLayout SrcAccessFlags
    RealSrcStageMask Calls s s1 _ rfl h with ⟨_, hEq, rfl⟩ | ⟨_, Layout1, hSet, rfl⟩
  · refine ⟨t, hFind, ?_, ?_⟩
    · intro b hb
      rw [hE] at hb
      cases hb
    · intro l m _ _
      by_cases hin : t.InRange ImageBarrier.subresourceRange l m
      · rw [if_pos hin, hSrc l m hin, ← hNL, ← hEq, hOld]
      · rw [if_neg hin]
  · obtain ⟨t1, hSet1, _, _, _, hGet, _⟩ := FVulkanImageLayout.Set_spec t _ _ hWF
      (hRange.1.mpr hIB)
    rw [hSet] at hSet1
    cases hSet1
    refine ⟨Layout1, FVulkanLayoutManager.Find_Assign_same M _ t Layout1 hFind, ?_, ?_⟩
    · intro b hb
      rw [hE, List.nil_append, List.mem_singleton] at hb
      rw [hb, ← hNL]
      split_ifs <;> rfl
    · intro l m hl hm
      rw [hGet l m hl hm, hNL]
      by_cases hin : t.InRange ImageBarrier.subresourceRange l m
      · rw [if_pos hin, if_pos ((hRange.2 l m).mpr hin)]
      · rw [if_neg hin, if_neg (fun hc => hin ((hRange.2 l m).mp hc))]

/-- What one iteration of the image loop leaves in the layout table of a texture that is not a
CPU-readback texture, when the loop has appended no barrier yet. `Texture1` is the texture
after the call of `OnLayoutTransition` and `t` the table of its image. -/
theorem ImageBarrierBody_commits {OnLayoutTransition : FVulkanTextureBase → VkImageLayout → Nat}
    (P : FVulkanPlatformDefines) (DO_GUARD_SLOW : Bool)
    (Data : FVulkanPipelineBarrier) (ImageBarrier : VkImageMemoryBarrier)
    (Texture Texture1 : FVulkanTextureBase) (s s1 : FImageLoop) (t : FVulkanImageLayout)
    (hCPU : Texture.Surface.bCPUReadback = false)
    (hT1 : Texture1 = Texture.AfterLayoutTransition OnLayoutTransition ImageBarrier.newLayout)
    (ht : (s.LayoutManager.GetOrAddFullLayout Texture1.Surface VK_IMAGE_LAYOUT_UNDEFINED).2 = t)
    (hWF : t.WellFormed) (hIB : t.InBounds ImageBarrier.subresourceRange)
    (hE : s.RealImageBarriers = [])
    (hAsserted : ImageBarrier.oldLayout ≠ VK_IMAGE_LAYOUT_UNDEFINED →
      ∀ l m, t.InRange ImageBarrier.subresourceRange l m →
        t.GetSubresLayout l m = some ImageBarrier.oldLayout)
    (h : ImageBarrierBody OnLayoutTransition P DO_GUARD_SLOW Data ImageBarrier Texture s = some s1) :
    ∃ t1, s1.LayoutManager.Find Texture1.Surface.Image = some t1 ∧
      (∀ b ∈ s1.RealImageBarriers, b.newLayout =
        if ImageBarrier.oldLayout = VK_IMAGE_LAYOUT_UNDEFINED ∧
            t.AreAllSubresourcesSameLayout = false then ImageBarrier.newLayout
        else (AdjustDepthStencilLayout { ImageBarrier with
            oldLayout := if ImageBarrier.oldLayout = VK_IMAGE_LAYOUT_UNDEFINED then t.MainLayout
              else ImageBarrier.oldLayout } Texture1.Surface.FullAspectMask).1.newLayout) ∧
      ∀ l m, l < t.NumLayers → m < t.NumMips →
        t1.GetSubresLayout l m =
          if t.InRange ImageBarrier.subresourceRange l m then
            some (if ImageBarrier.oldLayout = VK_IMAGE_LAYOUT_UNDEFINED ∧
                t.AreAllSubresourcesSameLayout = false then ImageBarrier.newLayout
              else (AdjustDepthStencilLayout { ImageBarrier with
                oldLayout := if ImageBarrier.oldLayout = VK_IMAGE_LAYOUT_UNDEFINED then
                    t.MainLayout
                  else ImageBarrier.oldLayout } Texture1.Surface.FullAspectMask).1.newLayout)
          else t.GetSubresLayout l m := by
  have hFind := FVulkanLayoutManager.GetOrAddFullLayout_Find s.LayoutManager Texture1.Surface
    VK_IMAGE_LAYOUT_UNDEFINED
  rw [ht] at hFind
  rcases ImageBarrierBody_cases P DO_GUARD_SLOW Data ImageBarrier Texture s s1 h _ hT1 with
    ⟨hR, _⟩ | ⟨_, _, _, _, ⟨hO, hU, _, _, _, _, hC⟩ | ⟨hO, hU, _, r, hr, rfl⟩ | ⟨hO, _, hC⟩⟩
  · rw [hCPU] at hR; cases hR
  · rw [ht] at hU hC
    have hne : ¬(ImageBarrier.oldLayout = VK_IMAGE_LAYOUT_UNDEFINED ∧
        t.AreAllSubresourcesSameLayout = false) := by
      rw [hU]; exact fun hc => Bool.noConfusion hc.2
    simp only [if_neg hne, if_pos hO]
    have hEmpty : t.SubresLayouts = [] := by
      unfold FVulkanImageLayout.AreAllSubresourcesSameLayout at hU
      exact List.length_eq_zero.mp (by simpa using hU)
    exact CommitBarrier_commits Data ImageBarrier Texture1 _ t t.MainLayout _ _ _ s s1 hFind hWF
      hIB hE (fun l m _ => FVulkanImageLayout.GetSubresLayout_uniform t hEmpty l m) hC
  · rw [ht] at hU hr
    simp only [if_pos (And.intro hO hU)]
    obtain ⟨hNew, hSet⟩ := AddSubresourceTransitions_result P _ _ _ _ _ _ r hr
      (by rw [hE]; intro b hb; cases hb)
    obtain ⟨t1, hSet1, _, _, _, hGet, _⟩ := FVulkanImageLayout.Set_spec t ImageBarrier.newLayout
      ImageBarrier.subresourceRange hWF hIB
    rw [hSet] at hSet1
    cases hSet1
    exact ⟨r.2.2, FVulkanLayoutManager.Find_Assign_same _ _ t r.2.2 hFind, hNew, hGet⟩
  · rw [ht] at hC
    have hne : ¬(ImageBarrier.oldLayout = VK_IMAGE_LAYOUT_UNDEFINED ∧
        t.AreAllSubresourcesSameLayout = false) := fun hc => hO hc.1
    simp only [if_neg hne, if_neg hO]
    exact CommitBarrier_commits Data ImageBarrier Texture1 _ t ImageBarrier.oldLayout _ _ _ s s1
      hFind hWF hIB hE (hAsserted hO) hC

/-- A transition that the second loop does not skip: its image loop runs, its layout manager
is kept and the barriers of the loop are what the transition records. -/
theorem TransitionBody_run {OnLayoutTransition : FVulkanTextureBase → VkImageLayout → Nat}
    (P : FVulkanPlatformDefines) (DO_GUARD_SLOW : Bool)
    (Data : FVulkanPipelineBarrier) (s s1 : FState)
    (h : TransitionBody OnLayoutTransition P DO_GUARD_SLOW Data s = some s1)
    (hne : Data.ImageBarriers ≠ [] ∨ Data.BufferBarriers ≠ []) :
    ¬(Data.SrcStageMask = 0 ∨ Data.DstStageMask = 0) ∧
    ∃ r, ImageBarrierLoop OnLayoutTransition P DO_GUARD_SLOW Data
        (Data.ImageBarriers.zip Data.Textures)
        { LayoutManager := s.Context.LayoutManager
          OnLayoutTransitionCalls := s.Context.OnLayoutTransitionCalls
          RealImageBarriers := []
          RealSrcStageMask := Data.SrcStageMask
          RealMemoryBarrier := Data.MemoryBarrier
          bEnsureFailed := s.bEnsureFailed } = some r ∧
      s1.Context.LayoutManager = r.LayoutManager ∧
      s1.Context.OnLayoutTransitionCalls = r.OnLayoutTransitionCalls ∧
      s1.Context.CommandBufferManager.RecordedImageBarriers =
        s.Context.CommandBufferManager.RecordedImageBarriers ++ r.RealImageBarriers := by
  have hz : ¬(Data.SrcStageMask = 0 ∨ Data.DstStageMask = 0) := by
    intro hz
    unfold TransitionBody at h
    rw [if_pos hz] at h
    by_cases h2 : Data.ImageBarriers.length = 0 ∧ Data.BufferBarriers.length = 0
    · rcases hne with hne | hne
      · exact hne (List.length_eq_zero.mp h2.1)
      · exact hne (List.length_eq_zero.mp h2.2)
    · rw [if_neg h2] at h; cases h
  refine ⟨hz, ?_⟩
  rcases TransitionBody_cases P DO_GUARD_SLOW Data s s1 h with ⟨hz1, _⟩ |
    ⟨_, _, _, _, r, hr, ⟨_, _, _, hI, rfl⟩ | ⟨CBM, hCBM, rfl⟩⟩
  · exact absurd hz1 hz
  · exact ⟨r, hr, rfl, rfl, by rw [hI, List.append_nil]⟩
  · exact ⟨r, hr, rfl, rfl,
      FVulkanCommandBufferManager.RecordedImageBarriers_CmdPipelineBarrier _ CBM _ hCBM⟩

end RHIEndTransitions

open RHIEndTransitions VkImageLayout in
/-- C28: `RHIEndTransitions` commits the new layout. For every transition holding a single
image barrier `b` on a texture that is not a CPU-readback texture, with `Texture1` the texture
after the call of `OnLayoutTransition` (it holds the up to date image handle), `t` the
well-formed tracked table of its image (created uniform at UNDEFINED when the image has none),
the range of `b` inside the table, and the subresources of the range tracked in the old layout
of `b` when that layout is not UNDEFINED: if the call returns, the table tracked for the image
gives every subresource of the range the new layout of the barrier as recorded and every other
subresource its layout before the call. The new layout as recorded is the new layout of `b`
on the per-subresource fan-out path (old layout UNDEFINED on a table that is not uniform) and
the new layout after the depth-stencil adjustment otherwise; every image barrier that the call
records carries it. -/
theorem RHIEndTransitions_commits_layout
    (OnLayoutTransition : FVulkanTextureBase → VkImageLayout → Nat)
    (P : FVulkanPlatformDefines) (DO_GUARD_SLOW : Bool)
    (Context Context1 : FVulkanCommandListContext) (Data : FVulkanPipelineBarrier)
    (b : VkImageMemoryBarrier) (Texture Texture1 : FVulkanTextureBase) (t : FVulkanImageLayout)
    (bEnsure : Bool)
    (hBarriers : Data.ImageBarriers = [b]) (hTextures : Data.Textures = [Texture])
    (hCPU : Texture.Surface.bCPUReadback = false)
    (hAfter : Texture1 = Texture.AfterLayoutTransition OnLayoutTransition b.newLayout)
    (ht : (Context.LayoutManager.GetOrAddFullLayout Texture1.Surface
      VK_IMAGE_LAYOUT_UNDEFINED).2 = t)
    (hWF : t.WellFormed) (hIB : t.InBounds b.subresourceRange)
    (hAsserted : b.oldLayout ≠ VK_IMAGE_LAYOUT_UNDEFINED →
      ∀ l m, t.InRange b.subresourceRange l m → t.GetSubresLayout l m = some b.oldLayout)
    (h : RHIEndTransitions OnLayoutTransition P DO_GUARD_SLOW Context [Data] =
      some (Context1, bEnsure)) :
    ∃ t1 New, Context1.LayoutManager.Find Texture1.Surface.Image = some t1 ∧
      Context1.CommandBufferManager.RecordedImageBarriers =
        Context.CommandBufferManager.RecordedImageBarriers ++ New ∧
      (∀ b1 ∈ New, b1.newLayout =
        if b.oldLayout = VK_IMAGE_LAYOUT_UNDEFINED ∧
            t.AreAllSubresourcesSameLayout = false then b.newLayout
        else (AdjustDepthStencilLayout { b with
            oldLayout := if b.oldLayout = VK_IMAGE_LAYOUT_UNDEFINED then t.MainLayout
              else b.oldLayout } Texture1.Surface.FullAspectMask).1.newLayout) ∧
      ∀ l m, l < t.NumLayers → m < t.NumMips →
        t1.GetSubresLayout l m =
          if t.InRange b.subresourceRange l m then
            some (if b.oldLayout = VK_IMAGE_LAYOUT_UNDEFINED ∧
                t.AreAllSubresourcesSameLayout = false then b.newLayout
              else (AdjustDepthStencilLayout { b with
                oldLayout := if b.oldLayout = VK_IMAGE_LAYOUT_UNDEFINED then t.MainLayout
                  else b.oldLayout } Texture1.Surface.FullAspectMask).1.newLayout)
          else t.GetSubresLayout l m := by
  simp only [RHIEndTransitions, Option.bind_eq_some, Option.map_eq_some', Prod.mk.injEq] at h
  obtain ⟨w, hw, s1, hs1, rfl, _⟩ := h
  have hBody : TransitionBody OnLayoutTransition P DO_GUARD_SLOW Data
      { Context := { Context with CommandBufferManager := w.CommandBufferManager }
        bEnsureFailed := false } = some s1 := by
    simp only [TransitionLoop] at hs1
    cases hb : TransitionBody OnLayoutTransition P DO_GUARD_SLOW Data
      { Context := { Context with CommandBufferManager := w.CommandBufferManager }
        bEnsureFailed := false } with
    | none => rw [hb] at hs1; cases hs1
    | some s2 => rw [hb] at hs1; exact hs1
  obtain ⟨_, r, hr, hLM, _, hRec⟩ := TransitionBody_run P DO_GUARD_SLOW Data _ s1 hBody
    (Or.inl (by rw [hBarriers]; exact List.cons_ne_nil _ _))
  rw [hBarriers, hTextures] at hr
  simp only [List.zip_cons_cons, List.zip_nil_right, ImageBarrierLoop] at hr
  have hr1 : ImageBarrierBody OnLayoutTransition P DO_GUARD_SLOW Data b Texture
      { LayoutManager := Context.LayoutManager
        OnLayoutTransitionCalls := Context.OnLayoutTransitionCalls
        RealImageBarriers := []
        RealSrcStageMask := Data.SrcStageMask
        RealMemoryBarrier := Data.MemoryBarrier
        bEnsureFailed := false } = some r := by
    cases hb : ImageBarrierBody OnLayoutTransition P DO_GUARD_SLOW Data b Texture
      { LayoutManager := Context.LayoutManager
        OnLayoutTransitionCalls := Context.OnLayoutTransitionCalls
        RealImageBarriers := []
        RealSrcStageMask := Data.SrcStageMask
        RealMemoryBarrier := Data.MemoryBarrier
        bEnsureFailed := false } with
    | none => rw [hb] at hr; cases hr
    | some r2 => rw [hb] at hr; rw [← hr]
  obtain ⟨t1, hFind, hNew, hGet⟩ := ImageBarrierBody_commits P DO_GUARD_SLOW Data b Texture
    Texture1 _ r t hCPU hAfter ht hWF hIB rfl hAsserted hr1
  refine ⟨t1, r.RealImageBarriers, by rw [hLM]; exact hFind, ?_, hNew, hGet⟩
  rw [hRec]
  show w.CommandBufferManager.RecordedImageBarriers ++ _ = _
  rw [WaitLoop_Recorded [Data] _ w hw]

open VkImageLayout in
theorem RHIEndTransitions_commits_layout_witness :
    RHIEndTransitions (fun _ _ => 7) ⟨true, true⟩ true
      ⟨⟨[(7, ⟨2, 1, VK_IMAGE_LAYOUT_SHADER_READ_ONLY_OPTIMAL, []⟩)]⟩, ⟨some ⟨[], []⟩, []⟩, false,
        []⟩
      [⟨ERHIPipeline.Graphics, ERHIPipeline.Graphics, 65536, 1024, ⟨0, 0⟩,
        [⟨98304, 384, VK_IMAGE_LAYOUT_UNDEFINED, VK_IMAGE_LAYOUT_COLOR_ATTACHMENT_OPTIMAL,
          4294967295, 4294967295, 0, ⟨1, 1, 1, 0, 1⟩⟩],
        [⟨⟨0, 1, false, 2, 1, false⟩⟩], [], none⟩] =
      some (⟨⟨[(7, ⟨2, 1, VK_IMAGE_LAYOUT_SHADER_READ_ONLY_OPTIMAL,
          [VK_IMAGE_LAYOUT_SHADER_READ_ONLY_OPTIMAL, VK_IMAGE_LAYOUT_COLOR_ATTACHMENT_OPTIMAL]⟩)]⟩,
        ⟨some ⟨[⟨65664, 1024, [], [],
          [⟨32, 384, VK_IMAGE_LAYOUT_SHADER_READ_ONLY_OPTIMAL,
            VK_IMAGE_LAYOUT_COLOR_ATTACHMENT_OPTIMAL, 4294967295, 4294967295, 7,
            ⟨1, 1, 1, 0, 1⟩⟩]⟩], []⟩, []⟩, false,
        [(⟨⟨0, 1, false, 2, 1, false⟩⟩, VK_IMAGE_LAYOUT_COLOR_ATTACHMENT_OPTIMAL)]⟩, false) ∧
    ∃ t1 New,
      FVulkanLayoutManager.Find
          ⟨[(7, ⟨2, 1, VK_IMAGE_LAYOUT_SHADER_READ_ONLY_OPTIMAL,
            [VK_IMAGE_LAYOUT_SHADER_READ_ONLY_OPTIMAL,
              VK_IMAGE_LAYOUT_COLOR_ATTACHMENT_OPTIMAL]⟩)]⟩ 7 = some t1 ∧
      FVulkanCommandBufferManager.RecordedImageBarriers
          ⟨some ⟨[⟨65664, 1024, [], [],
            [⟨32, 384, VK_IMAGE_LAYOUT_SHADER_READ_ONLY_OPTIMAL,
              VK_IMAGE_LAYOUT_COLOR_ATTACHMENT_OPTIMAL, 4294967295, 4294967295, 7,
              ⟨1, 1, 1, 0, 1⟩⟩]⟩], []⟩, []⟩ =
        FVulkanCommandBufferManager.RecordedImageBarriers ⟨some ⟨[], []⟩, []⟩ ++ New ∧
      (∀ b1 ∈ New, b1.newLayout = VK_IMAGE_LAYOUT_COLOR_ATTACHMENT_OPTIMAL) ∧
      ∀ l m, l < 1 → m < 2 →
        t1.GetSubresLayout l m =
          if FVulkanImageLayout.InRange ⟨2, 1, VK_IMAGE_LAYOUT_SHADER_READ_ONLY_OPTIMAL, []⟩
              ⟨1, 1, 1, 0, 1⟩ l m then
            some VK_IMAGE_LAYOUT_COLOR_ATTACHMENT_OPTIMAL
          else FVulkanImageLayout.GetSubresLayout
            ⟨2, 1, VK_IMAGE_LAYOUT_SHADER_READ_ONLY_OPTIMAL, []⟩ l m :=
  ⟨by decide,
    RHIEndTransitions_commits_layout (fun _ _ => 7) ⟨true, true⟩ true
      ⟨⟨[(7, ⟨2, 1, VK_IMAGE_LAYOUT_SHADER_READ_ONLY_OPTIMAL, []⟩)]⟩, ⟨some ⟨[], []⟩, []⟩, false,
        []⟩
      ⟨⟨[(7, ⟨2, 1, VK_IMAGE_LAYOUT_SHADER_READ_ONLY_OPTIMAL,
          [VK_IMAGE_LAYOUT_SHADER_READ_ONLY_OPTIMAL, VK_IMAGE_LAYOUT_COLOR_ATTACHMENT_OPTIMAL]⟩)]⟩,
        ⟨some ⟨[⟨65664, 1024, [], [],
          [⟨32, 384, VK_IMAGE_LAYOUT_SHADER_READ_ONLY_OPTIMAL,
            VK_IMAGE_LAYOUT_COLOR_ATTACHMENT_OPTIMAL, 4294967295, 4294967295, 7,
            ⟨1, 1, 1, 0, 1⟩⟩]⟩], []⟩, []⟩, false,
        [(⟨⟨0, 1, false, 2, 1, false⟩⟩, VK_IMAGE_LAYOUT_COLOR_ATTACHMENT_OPTIMAL)]⟩
      ⟨ERHIPipeline.Graphics, ERHIPipeline.Graphics, 65536, 1024, ⟨0, 0⟩,
        [⟨98304, 384, VK_IMAGE_LAYOUT_UNDEFINED, VK_IMAGE_LAYOUT_COLOR_ATTACHMENT_OPTIMAL,
          4294967295, 4294967295, 0, ⟨1, 1, 1, 0, 1⟩⟩],
        [⟨⟨0, 1, false, 2, 1, false⟩⟩], [], none⟩
      ⟨98304, 384, VK_IMAGE_LAYOUT_UNDEFINED, VK_IMAGE_LAYOUT_COLOR_ATTACHMENT_OPTIMAL,
        4294967295, 4294967295, 0, ⟨1, 1, 1, 0, 1⟩⟩
      ⟨⟨0, 1, false, 2, 1, false⟩⟩ ⟨⟨7, 1, false, 2, 1, false⟩⟩
      ⟨2, 1, VK_IMAGE_LAYOUT_SHADER_READ_ONLY_OPTIMAL, []⟩
      false rfl rfl rfl rfl rfl (by decide) (by decide) (fun hc => absurd rfl hc) (by decide)⟩

/-! ## The transition executor: a source resolved from the tracked state -/

namespace RHICreateTransition

open FRHITransitionInfo FRHISubresourceRange VkImageLayout

/-- The transition built from one whole-image entry of a colour texture, from the unknown
access to the render-target access, on a single pipeline. -/
theorem Unknown_to_RTV (G : ERHIAccess.Generic) (GfxQueueIndex ComputeQueueIndex NewSemaphore : Nat)
    (Pipeline : ERHIPipeline) (Texture : FVulkanTextureBase)
    (hColour : Texture.Surface.bIsDepthOrStencilAspect = false) :
    RHICreateTransition G GfxQueueIndex ComputeQueueIndex NewSemaphore Pipeline Pipeline
      [{ Resource := some (FResource.Texture Texture)
         AccessBefore := ERHIAccess.Unknown
         AccessAfter := ERHIAccess.RTV
         MipIndex := kAllSubresources
         ArraySlice := kAllSubresources
         PlaneSlice := kAllSubresources }] =
    some ({ SrcPipelines := Pipeline
            DstPipelines := Pipeline
            SrcStageMask := if Pipeline = ERHIPipeline.AsyncCompute then
                VK_PIPELINE_STAGE_COMPUTE_SHADER_BIT
              else VK_PIPELINE_STAGE_ALL_COMMANDS_BIT
            DstStageMask := if Pipeline = ERHIPipeline.AsyncCompute then
                VK_PIPELINE_STAGE_COMPUTE_SHADER_BIT
              else VK_PIPELINE_STAGE_COLOR_ATTACHMENT_OUTPUT_BIT
            MemoryBarrier := { srcAccessMask := 0, dstAccessMask := 0 }
            ImageBarriers := [
              { srcAccessMask := if Pipeline = ERHIPipeline.AsyncCompute then 0
                  else VK_ACCESS_MEMORY_READ_BIT ||| VK_ACCESS_MEMORY_WRITE_BIT
                dstAccessMask := if Pipeline = ERHIPipeline.AsyncCompute then 0
                  else VK_ACCESS_COLOR_ATTACHMENT_READ_BIT ||| VK_ACCESS_COLOR_ATTACHMENT_WRITE_BIT
                oldLayout := VK_IMAGE_LAYOUT_UNDEFINED
                newLayout := VK_IMAGE_LAYOUT_COLOR_ATTACHMENT_OPTIMAL
                srcQueueFamilyIndex := VK_QUEUE_FAMILY_IGNORED
                dstQueueFamilyIndex := VK_QUEUE_FAMILY_IGNORED
                image := VK_NULL_HANDLE
                subresourceRange :=
                  { aspectMask := Texture.Surface.FullAspectMask
                    baseMipLevel := 0
                    levelCount := VK_REMAINING_MIP_LEVELS
                    baseArrayLayer := 0
                    layerCount := VK_REMAINING_ARRAY_LAYERS } }]
            Textures := [Texture]
            BufferBarriers := []
            Semaphore := none }, false) := by
  cases Pipeline <;>
  simp [RHICreateTransition, ProcessInfos, ProcessInfo, ResolveResource, ClassifyInfo, hColour,
    FResolved.UnderlyingType, FResolved.bIsDepthStencil, GetVkStageAndAccessFlags,
    AsyncComputeOverride, EmitBarrier, ProcessAllPending, InitialData, NewPipelineBarrier,
    SrcQueueFamilyIndex, DstQueueFamilyIndex, SetupImageBarrier, SetupSubresourceRange,
    FRHITransitionInfo.IsAllMips, FRHITransitionInfo.IsAllArraySlices, kAllSubresources,
    ERHIAccess.Unknown, ERHIAccess.RTV, ERHIAccess.ResolveDst, ERHIAccess.CPURead,
    ERHIAccess.Present, VK_PIPELINE_STAGE_ALL_COMMANDS_BIT, VK_ACCESS_MEMORY_READ_BIT,
    VK_ACCESS_MEMORY_WRITE_BIT, VK_PIPELINE_STAGE_COLOR_ATTACHMENT_OUTPUT_BIT,
    VK_ACCESS_COLOR_ATTACHMENT_READ_BIT, VK_ACCESS_COLOR_ATTACHMENT_WRITE_BIT,
    VK_PIPELINE_STAGE_COMPUTE_SHADER_BIT, VK_ACCESS_SHADER_READ_BIT, VK_ACCESS_SHADER_WRITE_BIT,
    VK_QUEUE_FAMILY_IGNORED, VK_NULL_HANDLE, VK_REMAINING_MIP_LEVELS, VK_REMAINING_ARRAY_LAYERS]
  decide

end RHICreateTransition

namespace RHIEndTransitions

open VkImageLayout

theorem WaitLoop_no_semaphore (Data : FVulkanPipelineBarrier) (s : FWaitLoop)
    (h : Data.Semaphore = none) : WaitLoop [Data] s = some s := by
  simp [WaitLoop, WaitBody, h]

/-- A transition that passes the checks of the second loop, on a context with an active
command buffer, is executed once its image loop succeeds. -/
theorem TransitionBody_some {OnLayoutTransition : FVulkanTextureBase → VkImageLayout → Nat}
    (P : FVulkanPlatformDefines) (DO_GUARD_SLOW : Bool)
    (Data : FVulkanPipelineBarrier) (s : FState) (r : FImageLoop) (CmdBuffer : FVulkanCmdBuffer)
    (hMask : ¬(Data.SrcStageMask = 0 ∨ Data.DstStageMask = 0))
    (hGuard : DO_GUARD_SLOW = true →
      GuardDstPipeline Data.DstPipelines s.Context.bIsRealAsyncComputeContext = true)
    (hBuf : Data.SrcPipelines ≠ Data.DstPipelines ∨ Data.BufferBarriers.length = 0)
    (hLen : Data.ImageBarriers.length = Data.Textures.length)
    (hLoop : ImageBarrierLoop OnLayoutTransition P DO_GUARD_SLOW Data
      (Data.ImageBarriers.zip Data.Textures)
      { LayoutManager := s.Context.LayoutManager
        OnLayoutTransitionCalls := s.Context.OnLayoutTransitionCalls
        RealImageBarriers := []
        RealSrcStageMask := Data.SrcStageMask
        RealMemoryBarrier := Data.MemoryBarrier
        bEnsureFailed := s.bEnsureFailed } = some r)
    (hActive : s.Context.CommandBufferManager.ActiveCmdBuffer = some CmdBuffer) :
    ∃ s1, TransitionBody OnLayoutTransition P DO_GUARD_SLOW Data s = some s1 := by
  have hG : ¬(DO_GUARD_SLOW = true ∧
      GuardDstPipeline Data.DstPipelines s.Context.bIsRealAsyncComputeContext = false) := by
    intro hc
    rw [hGuard hc.1] at hc
    exact Bool.noConfusion hc.2
  unfold TransitionBody
  rw [if_neg hMask, if_neg hG, if_neg (not_not.mpr hBuf), if_neg (not_not.mpr hLen), hLoop]
  simp only [Option.some_bind]
  split_ifs <;>
    first
    | exact ⟨_, rfl⟩
    | simp [FVulkanCommandBufferManager.CmdPipelineBarrier, hActive]

theorem ImageBarrierBody_resolve {OnLayoutTransition : FVulkanTextureBase → VkImageLayout → Nat}
    (P : FVulkanPlatformDefines) (DO_GUARD_SLOW : Bool)
    (Data : FVulkanPipelineBarrier) (ImageBarrier : VkImageMemoryBarrier)
    (Texture Texture1 : FVulkanTextureBase) (s : FImageLoop) (t : FVulkanImageLayout)
    (SrcAccessFlags Stage : Nat)
    (hCPU : Texture.Surface.bCPUReadback = false)
    (hT1 : Texture1 = Texture.AfterLayoutTransition OnLayoutTransition ImageBarrier.newLayout)
    (hImage : Texture1.Surface.Image ≠ VK_NULL_HANDLE)
    (hNull : ImageBarrier.image = VK_NULL_HANDLE)
    (hNew : ImageBarrier.newLayout ≠ VK_IMAGE_LAYOUT_UNDEFINED)
    (hOld : ImageBarrier.oldLayout = VK_IMAGE_LAYOUT_UNDEFINED)
    (ht : (s.LayoutManager.GetOrAddFullLayout Texture1.Surface VK_IMAGE_LAYOUT_UNDEFINED).2 = t)
    (hUniform : t.SubresLayouts = [])
    (hA : GetVkAccessMaskForLayout P t.MainLayout = some SrcAccessFlags)
    (hS : GetVkStageFlagsForLayout P t.MainLayout = some Stage) :
    ImageBarrierBody OnLayoutTransition P DO_GUARD_SLOW Data ImageBarrier Texture s =
      CommitBarrier Data ImageBarrier Texture1
        (s.LayoutManager.GetOrAddFullLayout Texture1.Surface VK_IMAGE_LAYOUT_UNDEFINED).1 t
        t.MainLayout SrcAccessFlags (s.RealSrcStageMask ||| Stage)
        (s.OnLayoutTransitionCalls ++ [(Texture, ImageBarrier.newLayout)]) s := by
  unfold ImageBarrierBody
  rw [← hT1]
  simp [hCPU, hImage, hNull, hNew, hOld, ht, FVulkanImageLayout.AreAllSubresourcesSameLayout,
    hUniform, hA, hS]

theorem ImageBarrierBody_asserted {OnLayoutTransition : FVulkanTextureBase → VkImageLayout → Nat}
    (P : FVulkanPlatformDefines) (DO_GUARD_SLOW : Bool)
    (Data : FVulkanPipelineBarrier) (ImageBarrier : VkImageMemoryBarrier)
    (Texture Texture1 : FVulkanTextureBase) (s : FImageLoop) (t : FVulkanImageLayout)
    (hCPU : Texture.Surface.bCPUReadback = false)
    (hT1 : Texture1 = Texture.AfterLayoutTransition OnLayoutTransition ImageBarrier.newLayout)
    (hImage : Texture1.Surface.Image ≠ VK_NULL_HANDLE)
    (hNull : ImageBarrier.image = VK_NULL_HANDLE)
    (hNew : ImageBarrier.newLayout ≠ VK_IMAGE_LAYOUT_UNDEFINED)
    (hOld : ImageBarrier.oldLayout ≠ VK_IMAGE_LAYOUT_UNDEFINED)
    (ht : (s.LayoutManager.GetOrAddFullLayout Texture1.Surface VK_IMAGE_LAYOUT_UNDEFINED).2 = t)
    (hSame : DO_GUARD_SLOW = true →
      t.AreSubresourcesSameLayout ImageBarrier.oldLayout ImageBarrier.subresourceRange =
        some true) :
    ImageBarrierBody OnLayoutTransition P DO_GUARD_SLOW Data ImageBarrier Texture s =
      CommitBarrier Data ImageBarrier Texture1
        (s.LayoutManager.GetOrAddFullLayout Texture1.Surface VK_IMAGE_LAYOUT_UNDEFINED).1 t
        ImageBarrier.oldLayout ImageBarrier.srcAccessMask s.RealSrcStageMask
        (s.OnLayoutTransitionCalls ++ [(Texture, ImageBarrier.newLayout)]) s := by
  have hG : ¬(DO_GUARD_SLOW = true ∧
      t.AreSubresourcesSameLayout ImageBarrier.oldLayout ImageBarrier.subresourceRange ≠
        some true) := fun hc => hc.2 (hSame hc.1)
  unfold ImageBarrierBody
  rw [← hT1]
  simp only [hCPU, Bool.false_eq_true, if_false, ht]
  rw [if_neg (not_not.mpr ⟨hImage, hNull⟩), if_neg hNew, if_neg hOld, if_neg hG]

/-- The last part of the body of the image loop for a barrier whose aspect mask is the full
aspect mask of the texture: the depth-stencil adjustment leaves the barrier as it is. -/
theorem CommitBarrier_full_aspect (Data : FVulkanPipelineBarrier)
    (ImageBarrier : VkImageMemoryBarrier) (Texture : FVulkanTextureBase)
    (M : FVulkanLayoutManager) (t : FVulkanImageLayout) (SrcLayout : VkImageLayout)
    (SrcAccessFlags RealSrcStageMask : Nat)
    (Calls : List (FVulkanTextureBase × VkImageLayout)) (s : FImageLoop)
    (hAspect : Texture.Surface.FullAspectMask = ImageBarrier.subresourceRange.aspectMask) :
    CommitBarrier Data ImageBarrier Texture M t SrcLayout SrcAccessFlags RealSrcStageMask Calls
        s =
      if Data.SrcPipelines = Data.DstPipelines ∧ SrcLayout = ImageBarrier.newLayout then
        some { LayoutManager := M
               OnLayoutTransitionCalls := Calls
               RealImageBarriers := s.RealImageBarriers
               RealSrcStageMask := RealSrcStageMask
               RealMemoryBarrier :=
                 AddMemoryBarrier s.RealMemoryBarrier SrcAccessFlags ImageBarrier.dstAccessMask
               bEnsureFailed := s.bEnsureFailed }
      else
        (t.Set ImageBarrier.newLayout ImageBarrier.subresourceRange).map (fun Layout1 =>
          { LayoutManager := M.Assign Texture.Surface.Image Layout1
            OnLayoutTransitionCalls := Calls
            RealImageBarriers := s.RealImageBarriers ++ [{ ImageBarrier with
              image := Texture.Surface.Image
              srcAccessMask :=
                if Data.SrcPipelines = Data.DstPipelines then SrcAccessFlags else 0
              oldLayout := SrcLayout }]
            RealSrcStageMask := RealSrcStageMask
            RealMemoryBarrier := s.RealMemoryBarrier
            bEnsureFailed := s.bEnsureFailed }) := by
  unfold CommitBarrier AdjustDepthStencilLayout
  simp only [hAspect, if_true, Bool.or_false]
  by_cases hc : Data.SrcPipelines = Data.DstPipelines ∧ SrcLayout = ImageBarrier.newLayout
  · rw [if_pos hc, if_pos hc]
  · rw [if_neg hc, if_neg hc]
    by_cases hp : Data.SrcPipelines = Data.DstPipelines
    · simp only [if_pos hp]
    · simp only [if_neg hp]

end RHIEndTransitions

theorem FVulkanImageLayout.Set_whole (t : FVulkanImageLayout) (L : VkImageLayout)
    (R : VkImageSubresourceRange) (h1 : R.baseArrayLayer = 0)
    (h2 : R.layerCount = VK_REMAINING_ARRAY_LAYERS) (h3 : R.baseMipLevel = 0)
    (h4 : R.levelCount = VK_REMAINING_MIP_LEVELS) :
    t.Set L R = some { t with MainLayout := L, SubresLayouts := [] } := by
  simp [FVulkanImageLayout.Set, FVulkanImageLayout.GetSubresRangeLayerCount,
    FVulkanImageLayout.GetSubresRangeMipCount, h1, h2, h3, h4]

namespace RHIEndTransitions

open VkImageLayout

/-- The call on a single same-queue transition without buffer barriers that holds one
whole-image barrier with an unresolved source layout, on a texture tracked uniform: the call
returns, and records the barrier from the tracked layout unless that is the new layout.
`Texture1` is the texture after the call of `OnLayoutTransition`. -/
theorem single_resolved {OnLayoutTransition : FVulkanTextureBase → VkImageLayout → Nat}
    (P : FVulkanPlatformDefines) (DO_GUARD_SLOW : Bool)
    (Context : FVulkanCommandListContext) (Data : FVulkanPipelineBarrier)
    (b : VkImageMemoryBarrier) (Texture Texture1 : FVulkanTextureBase)
    (t : FVulkanImageLayout) (SrcAccessFlags Stage : Nat) (CmdBuffer : FVulkanCmdBuffer)
    (hSame : Data.SrcPipelines = Data.DstPipelines)
    (hMask : ¬(Data.SrcStageMask = 0 ∨ Data.DstStageMask = 0))
    (hGuard : DO_GUARD_SLOW = true →
      GuardDstPipeline Data.DstPipelines Context.bIsRealAsyncComputeContext = true)
    (hBuffers : Data.BufferBarriers = []) (hSemaphore : Data.Semaphore = none)
    (hBarriers : Data.ImageBarriers = [b]) (hTextures : Data.Textures = [Texture])
    (hCPU : Texture.Surface.bCPUReadback = false)
    (hT1 : Texture1 = Texture.AfterLayoutTransition OnLayoutTransition b.newLayout)
    (hImage : Texture1.Surface.Image ≠ VK_NULL_HANDLE)
    (hNull : b.image = VK_NULL_HANDLE)
    (hNew : b.newLayout ≠ VK_IMAGE_LAYOUT_UNDEFINED)
    (hOld : b.oldLayout = VK_IMAGE_LAYOUT_UNDEFINED)
    (hAspect : Texture1.Surface.FullAspectMask = b.subresourceRange.aspectMask)
    (hWhole : b.subresourceRange.baseArrayLayer = 0 ∧
      b.subresourceRange.layerCount = VK_REMAINING_ARRAY_LAYERS ∧
      b.subresourceRange.baseMipLevel = 0 ∧
      b.subresourceRange.levelCount = VK_REMAINING_MIP_LEVELS)
    (ht : (Context.LayoutManager.GetOrAddFullLayout Texture1.Surface
      VK_IMAGE_LAYOUT_UNDEFINED).2 = t)
    (hUniform : t.SubresLayouts = [])
    (hA : GetVkAccessMaskForLayout P t.MainLayout = some SrcAccessFlags)
    (hS : GetVkStageFlagsForLayout P t.MainLayout = some Stage)
    (hActive : Context.CommandBufferManager.ActiveCmdBuffer = some CmdBuffer) :
    ∃ Context1 bEnsure,
      RHIEndTransitions OnLayoutTransition P DO_GUARD_SLOW Context [Data] = some (Context1, bEnsure) ∧
      Context1.CommandBufferManager.RecordedImageBarriers =
        Context.CommandBufferManager.RecordedImageBarriers ++
          (if t.MainLayout = b.newLayout then []
           else [{ b with
             image := Texture1.Surface.Image
             srcAccessMask := SrcAccessFlags
             oldLayout := t.MainLayout }]) := by
  obtain ⟨r, hr, hReal⟩ : ∃ r, ImageBarrierBody OnLayoutTransition P DO_GUARD_SLOW Data b Texture
      { LayoutManager := Context.LayoutManager
        OnLayoutTransitionCalls := Context.OnLayoutTransitionCalls
        RealImageBarriers := []
        RealSrcStageMask := Data.SrcStageMask
        RealMemoryBarrier := Data.MemoryBarrier
        bEnsureFailed := false } = some r ∧
      r.RealImageBarriers = (if t.MainLayout = b.newLayout then []
           else [{ b with
             image := Texture1.Surface.Image
             srcAccessMask := SrcAccessFlags
             oldLayout := t.MainLayout }]) := by
    rw [ImageBarrierBody_resolve P DO_GUARD_SLOW Data b Texture Texture1 _ t SrcAccessFlags Stage
      hCPU hT1 hImage hNull hNew hOld ht hUniform hA hS, CommitBarrier_full_aspect _ _ _ _ _ _ _ _ _ _
      hAspect, FVulkanImageLayout.Set_whole t _ _ hWhole.1 hWhole.2.1 hWhole.2.2.1 hWhole.2.2.2]
    by_cases hL : t.MainLayout = b.newLayout
    · rw [if_pos ⟨hSame, hL⟩, if_pos hL]
      exact ⟨_, rfl, rfl⟩
    · rw [if_neg (fun hc => hL hc.2), if_neg hL]
      refine ⟨_, rfl, ?_⟩
      simp only [Option.map_some', List.nil_append, if_pos hSame]
  have hLoop : ImageBarrierLoop OnLayoutTransition P DO_GUARD_SLOW Data
      (Data.ImageBarriers.zip Data.Textures)
      { LayoutManager := Context.LayoutManager
        OnLayoutTransitionCalls := Context.OnLayoutTransitionCalls
        RealImageBarriers := []
        RealSrcStageMask := Data.SrcStageMask
        RealMemoryBarrier := Data.MemoryBarrier
        bEnsureFailed := false } = some r := by
    rw [hBarriers, hTextures]
    simp only [List.zip_cons_cons, List.zip_nil_right, ImageBarrierLoop, hr]
  obtain ⟨s1, hs1⟩ := TransitionBody_some P DO_GUARD_SLOW Data
    { Context := Context, bEnsureFailed := false } r CmdBuffer hMask hGuard
    (Or.inr (by rw [hBuffers]; rfl)) (by rw [hBarriers, hTextures]; rfl) hLoop hActive
  obtain ⟨_, r1, hr1, _, _, hRec⟩ := TransitionBody_run P DO_GUARD_SLOW Data _ s1 hs1
    (Or.inl (by rw [hBarriers]; exact List.cons_ne_nil _ _))
  rw [hLoop] at hr1
  cases hr1
  refine ⟨s1.Context, s1.bEnsureFailed, ?_, ?_⟩
  · simp only [RHIEndTransitions, WaitLoop_no_semaphore Data _ hSemaphore, Option.some_bind,
      TransitionLoop]
    have hCtx : ({ Context with CommandBufferManager := Context.CommandBufferManager } :
        FVulkanCommandListContext) = Context := rfl
    rw [hCtx, hs1]
    rfl
  · rw [hRec, hReal]

end RHIEndTransitions

open VkImageLayout in
/-- C27 (counterexample): the same-queue transition built on the async-compute pipeline from
one whole-image texture entry, unknown to render-target, has the source stage mask
COMPUTE_SHADER, which is not ALL_COMMANDS. -/
theorem RHICreateTransition_unknown_source_on_async_compute :
    ∃ Data, RHICreateTransition ERHIAccess.Generic.FromComments 0 1 99 ERHIPipeline.AsyncCompute
        ERHIPipeline.AsyncCompute
        [⟨some (FRHITransitionInfo.FResource.Texture ⟨⟨7, 1, false, 1, 1, false⟩⟩),
          ERHIAccess.Unknown, ERHIAccess.RTV, FRHISubresourceRange.kAllSubresources,
          FRHISubresourceRange.kAllSubresources, FRHISubresourceRange.kAllSubresources⟩] =
        some (Data, false) ∧
      Data.SrcPipelines = Data.DstPipelines ∧
      Data.SrcStageMask = VK_PIPELINE_STAGE_COMPUTE_SHADER_BIT ∧
      Data.SrcStageMask ≠ VK_PIPELINE_STAGE_ALL_COMMANDS_BIT :=
  ⟨⟨ERHIPipeline.AsyncCompute, ERHIPipeline.AsyncCompute, 2048, 2048, ⟨0, 0⟩,
      [⟨0, 0, VK_IMAGE_LAYOUT_UNDEFINED, VK_IMAGE_LAYOUT_COLOR_ATTACHMENT_OPTIMAL, 4294967295,
        4294967295, 0, ⟨1, 0, 4294967295, 0, 4294967295⟩⟩],
      [⟨⟨7, 1, false, 1, 1, false⟩⟩], [], none⟩,
    by decide, by decide, by decide, by decide⟩

open RHIEndTransitions VkImageLayout FRHITransitionInfo FRHISubresourceRange in
/-- C27 (amended): unknown source resolved from the tracked state. For every same-queue
transition built from one whole-image texture entry with access-before unknown and
access-after render-target, on a colour image that is not a CPU-readback texture, holds a
non-null image handle after `OnLayoutTransition` and is tracked uniform at a layout `L` for
which the access and stage masks are defined: the built transition has the source stage mask
ALL_COMMANDS on the graphics pipeline and COMPUTE_SHADER on the async-compute pipeline, and
one prepared image barrier with new layout COLOR_ATTACHMENT_OPTIMAL; `RHIBeginTransitions`
returns the context unchanged; `RHIEndTransitions`, on a context of the pipeline with an
active command buffer, returns and records exactly one image barrier, on the image handle
that the texture holds after `OnLayoutTransition`, with old layout `L`, source access the
access mask of `L` and new layout COLOR_ATTACHMENT_OPTIMAL when `L` differs from
COLOR_ATTACHMENT_OPTIMAL, and no image barrier when `L` equals it. -/
theorem RHIEndTransitions_resolves_unknown_source (G : ERHIAccess.Generic)
    (OnLayoutTransition : FVulkanTextureBase → VkImageLayout → Nat)
    (P : FVulkanPlatformDefines) (DO_GUARD_SLOW : Bool)
    (GfxQueueIndex ComputeQueueIndex NewSemaphore : Nat) (Pipeline : ERHIPipeline)
    (Texture : FVulkanTextureBase) (Context : FVulkanCommandListContext)
    (t : FVulkanImageLayout) (L : VkImageLayout) (SrcAccessFlags Stage : Nat)
    (CmdBuffer : FVulkanCmdBuffer)
    (hColour : Texture.Surface.bIsDepthOrStencilAspect = false)
    (hCPU : Texture.Surface.bCPUReadback = false)
    (hImage : OnLayoutTransition Texture VK_IMAGE_LAYOUT_COLOR_ATTACHMENT_OPTIMAL ≠
      VK_NULL_HANDLE)
    (ht : (Context.LayoutManager.GetOrAddFullLayout
      (Texture.AfterLayoutTransition OnLayoutTransition
        VK_IMAGE_LAYOUT_COLOR_ATTACHMENT_OPTIMAL).Surface VK_IMAGE_LAYOUT_UNDEFINED).2 = t)
    (hUniform : t.SubresLayouts = []) (hL : t.MainLayout = L)
    (hA : GetVkAccessMaskForLayout P L = some SrcAccessFlags)
    (hS : GetVkStageFlagsForLayout P L = some Stage)
    (hGuard : DO_GUARD_SLOW = true →
      GuardDstPipeline Pipeline Context.bIsRealAsyncComputeContext = true)
    (hActive : Context.CommandBufferManager.ActiveCmdBuffer = some CmdBuffer) :
    ∃ Data b,
      RHICreateTransition G GfxQueueIndex ComputeQueueIndex NewSemaphore Pipeline Pipeline
        [{ Resource := some (FResource.Texture Texture)
           AccessBefore := ERHIAccess.Unknown
           AccessAfter := ERHIAccess.RTV
           MipIndex := kAllSubresources
           ArraySlice := kAllSubresources
           PlaneSlice := kAllSubresources }] = some (Data, false) ∧
      Data.SrcStageMask = (if Pipeline = ERHIPipeline.AsyncCompute then
          VK_PIPELINE_STAGE_COMPUTE_SHADER_BIT
        else VK_PIPELINE_STAGE_ALL_COMMANDS_BIT) ∧
      Data.ImageBarriers = [b] ∧ Data.Textures = [Texture] ∧
      b.newLayout = VK_IMAGE_LAYOUT_COLOR_ATTACHMENT_OPTIMAL ∧
      RHIBeginTransitions P DO_GUARD_SLOW Context [Data] = some (Context, false) ∧
      ∃ Context1 bEnsure,
        RHIEndTransitions OnLayoutTransition P DO_GUARD_SLOW Context [Data] =
          some (Context1, bEnsure) ∧
        Context1.CommandBufferManager.RecordedImageBarriers =
          Context.CommandBufferManager.RecordedImageBarriers ++
            (if L = VK_IMAGE_LAYOUT_COLOR_ATTACHMENT_OPTIMAL then []
             else [{ b with
               image := OnLayoutTransition Texture VK_IMAGE_LAYOUT_COLOR_ATTACHMENT_OPTIMAL
               srcAccessMask := SrcAccessFlags
               oldLayout := L }]) := by
  subst hL
  refine ⟨_, _, RHICreateTransition.Unknown_to_RTV G GfxQueueIndex ComputeQueueIndex NewSemaphore
    Pipeline Texture hColour, rfl, rfl, rfl, rfl, ?_, ?_⟩
  · simp [RHIBeginTransitions, RHIBeginTransitions.TransitionBody_same_queue,
      RHIBeginTransitions.TransitionLoop]
  · refine single_resolved P DO_GUARD_SLOW Context _
      { srcAccessMask := if Pipeline = ERHIPipeline.AsyncCompute then 0
          else VK_ACCESS_MEMORY_READ_BIT ||| VK_ACCESS_MEMORY_WRITE_BIT
        dstAccessMask := if Pipeline = ERHIPipeline.AsyncCompute then 0
          else VK_ACCESS_COLOR_ATTACHMENT_READ_BIT ||| VK_ACCESS_COLOR_ATTACHMENT_WRITE_BIT
        oldLayout := VK_IMAGE_LAYOUT_UNDEFINED
        newLayout := VK_IMAGE_LAYOUT_COLOR_ATTACHMENT_OPTIMAL
        srcQueueFamilyIndex := VK_QUEUE_FAMILY_IGNORED
        dstQueueFamilyIndex := VK_QUEUE_FAMILY_IGNORED
        image := VK_NULL_HANDLE
        subresourceRange :=
          { aspectMask := Texture.Surface.FullAspectMask
            baseMipLevel := 0
            levelCount := VK_REMAINING_MIP_LEVELS
            baseArrayLayer := 0
            layerCount := VK_REMAINING_ARRAY_LAYERS } }
      Texture
      (Texture.AfterLayoutTransition OnLayoutTransition VK_IMAGE_LAYOUT_COLOR_ATTACHMENT_OPTIMAL)
      t SrcAccessFlags Stage CmdBuffer
      ?_ ?_ ?_ ?_ ?_ ?_ ?_ hCPU rfl hImage ?_ ?_ ?_ ?_ ?_ ht hUniform hA hS hActive
    · rfl
    · cases Pipeline <;>
        simp [VK_PIPELINE_STAGE_COMPUTE_SHADER_BIT, VK_PIPELINE_STAGE_ALL_COMMANDS_BIT,
          VK_PIPELINE_STAGE_COLOR_ATTACHMENT_OUTPUT_BIT]
    · exact hGuard
    · rfl
    · rfl
    · rfl
    · rfl
    · rfl
    · intro hc
      cases hc
    · rfl
    · rfl
    · exact ⟨rfl, rfl, rfl, rfl⟩

open VkImageLayout FRHITransitionInfo FRHISubresourceRange in
theorem RHIEndTransitions_resolves_unknown_source_witness :
    ∃ Data b,
      RHICreateTransition ERHIAccess.Generic.FromComments 0 1 99 ERHIPipeline.Graphics
        ERHIPipeline.Graphics
        [{ Resource := some (FResource.Texture ⟨⟨0, 1, false, 1, 1, false⟩⟩)
           AccessBefore := ERHIAccess.Unknown
           AccessAfter := ERHIAccess.RTV
           MipIndex := kAllSubresources
           ArraySlice := kAllSubresources
           PlaneSlice := kAllSubresources }] = some (Data, false) ∧
      Data.SrcStageMask = (if ERHIPipeline.Graphics = ERHIPipeline.AsyncCompute then
          VK_PIPELINE_STAGE_COMPUTE_SHADER_BIT
        else VK_PIPELINE_STAGE_ALL_COMMANDS_BIT) ∧
      Data.ImageBarriers = [b] ∧ Data.Textures = [⟨⟨0, 1, false, 1, 1, false⟩⟩] ∧
      b.newLayout = VK_IMAGE_LAYOUT_COLOR_ATTACHMENT_OPTIMAL ∧
      RHIBeginTransitions ⟨true, true⟩ true
          ⟨⟨[(7, ⟨1, 1, VK_IMAGE_LAYOUT_SHADER_READ_ONLY_OPTIMAL, []⟩)]⟩,
            ⟨some ⟨[], []⟩, []⟩, false, []⟩ [Data] =
        some (⟨⟨[(7, ⟨1, 1, VK_IMAGE_LAYOUT_SHADER_READ_ONLY_OPTIMAL, []⟩)]⟩,
          ⟨some ⟨[], []⟩, []⟩, false, []⟩, false) ∧
      ∃ Context1 bEnsure,
        RHIEndTransitions (fun _ _ => 7) ⟨true, true⟩ true
            ⟨⟨[(7, ⟨1, 1, VK_IMAGE_LAYOUT_SHADER_READ_ONLY_OPTIMAL, []⟩)]⟩,
              ⟨some ⟨[], []⟩, []⟩, false, []⟩ [Data] = some (Context1, bEnsure) ∧
        Context1.CommandBufferManager.RecordedImageBarriers =
          FVulkanCommandBufferManager.RecordedImageBarriers ⟨some ⟨[], []⟩, []⟩ ++
            (if VK_IMAGE_LAYOUT_SHADER_READ_ONLY_OPTIMAL =
                VK_IMAGE_LAYOUT_COLOR_ATTACHMENT_OPTIMAL then []
             else [{ b with
               image := 7
               srcAccessMask := 32
               oldLayout := VK_IMAGE_LAYOUT_SHADER_READ_ONLY_OPTIMAL }]) :=
  RHIEndTransitions_resolves_unknown_source ERHIAccess.Generic.FromComments (fun _ _ => 7)
    ⟨true, true⟩ true
    0 1 99 ERHIPipeline.Graphics ⟨⟨0, 1, false, 1, 1, false⟩⟩
    ⟨⟨[(7, ⟨1, 1, VK_IMAGE_LAYOUT_SHADER_READ_ONLY_OPTIMAL, []⟩)]⟩, ⟨some ⟨[], []⟩, []⟩, false,
      []⟩
    ⟨1, 1, VK_IMAGE_LAYOUT_SHADER_READ_ONLY_OPTIMAL, []⟩ VK_IMAGE_LAYOUT_SHADER_READ_ONLY_OPTIMAL
    32 128 ⟨[], []⟩ rfl rfl (by decide) rfl rfl rfl rfl rfl (fun _ => rfl) rfl

/-! ## The transition executor: the acquire phase of a cross-queue transition -/

namespace FVulkanCommandBufferManager

theorem RecordedPipelineBarriers_Submit (M M1 : FVulkanCommandBufferManager)
    (SignalSemaphores : List Nat) (h : M.SubmitActiveCmdBuffer SignalSemaphores = some M1) :
    M1.RecordedPipelineBarriers = M.RecordedPipelineBarriers := by
  unfold SubmitActiveCmdBuffer at h
  cases hA : M.ActiveCmdBuffer with
  | none => rw [hA] at h; cases h
  | some cb =>
    rw [hA] at h
    simp only [Option.map_some', Option.some.injEq] at h
    subst h
    simp [RecordedPipelineBarriers, hA]

theorem RecordedPipelineBarriers_Prepare (M : FVulkanCommandBufferManager)
    (h : M.ActiveCmdBuffer = none) :
    M.PrepareForNewActiveCommandBuffer.RecordedPipelineBarriers = M.RecordedPipelineBarriers := by
  simp [RecordedPipelineBarriers, PrepareForNewActiveCommandBuffer, h]

theorem RecordedPipelineBarriers_AddWaitSemaphore (M M1 : FVulkanCommandBufferManager)
    (StageFlags Semaphore : Nat) (h : M.AddWaitSemaphore StageFlags Semaphore = some M1) :
    M1.RecordedPipelineBarriers = M.RecordedPipelineBarriers := by
  unfold AddWaitSemaphore at h
  cases hA : M.ActiveCmdBuffer with
  | none => rw [hA] at h; cases h
  | some cb =>
    rw [hA] at h
    simp only [Option.map_some', Option.some.injEq] at h
    subst h
    simp [RecordedPipelineBarriers, hA]

theorem RecordedPipelineBarriers_CmdPipelineBarrier (M M1 : FVulkanCommandBufferManager)
    (Call : FVulkanCmdPipelineBarrier) (h : M.CmdPipelineBarrier Call = some M1) :
    M1.RecordedPipelineBarriers = M.RecordedPipelineBarriers ++ [Call] := by
  unfold CmdPipelineBarrier at h
  cases hA : M.ActiveCmdBuffer with
  | none => rw [hA] at h; cases h
  | some cb =>
    rw [hA] at h
    simp only [Option.map_some', Option.some.injEq] at h
    subst h
    simp [RecordedPipelineBarriers, hA]

theorem Submit_ActiveCmdBuffer (M M1 : FVulkanCommandBufferManager)
    (SignalSemaphores : List Nat) (h : M.SubmitActiveCmdBuffer SignalSemaphores = some M1) :
    M1.ActiveCmdBuffer = none := by
  unfold SubmitActiveCmdBuffer at h
  simp only [Option.map_eq_some'] at h
  obtain ⟨cb, _, rfl⟩ := h
  rfl

end FVulkanCommandBufferManager

namespace RHIEndTransitions

open VkImageLayout

theorem WaitBody_RecordedPipelineBarriers (Data : FVulkanPipelineBarrier) (s s1 : FWaitLoop)
    (h : WaitBody Data s = some s1) :
    s1.CommandBufferManager.RecordedPipelineBarriers =
      s.CommandBufferManager.RecordedPipelineBarriers := by
  unfold WaitBody at h
  cases hS : Data.Semaphore with
  | none => rw [hS] at h; cases h; rfl
  | some Sem =>
    rw [hS] at h
    simp only [Option.bind_eq_some, Option.map_eq_some'] at h
    obtain ⟨CBM, hPrep, CBM1, hAdd, rfl⟩ := h
    show CBM1.RecordedPipelineBarriers = _
    rw [FVulkanCommandBufferManager.RecordedPipelineBarriers_AddWaitSemaphore CBM CBM1 _ _ hAdd]
    cases hSeen : s.bSeenWaitSemaphore with
    | true =>
      rw [hSeen] at hPrep
      simp only [Bool.not_true, Bool.false_eq_true, if_false, Option.some.injEq] at hPrep
      rw [← hPrep]
    | false =>
      rw [hSeen] at hPrep
      simp only [Bool.not_false, if_true] at hPrep
      cases hP : s.CommandBufferManager.HasPendingActiveCmdBuffer with
      | false =>
        rw [hP] at hPrep
        simp only [Bool.false_eq_true, if_false, Option.some.injEq] at hPrep
        rw [← hPrep]
      | true =>
        rw [hP] at hPrep
        simp only [if_true, Option.map_eq_some'] at hPrep
        obtain ⟨CBM0, hSub, rfl⟩ := hPrep
        rw [FVulkanCommandBufferManager.RecordedPipelineBarriers_Prepare CBM0
            (FVulkanCommandBufferManager.Submit_ActiveCmdBuffer _ CBM0 _ hSub),
          FVulkanCommandBufferManager.RecordedPipelineBarriers_Submit _ CBM0 _ hSub]

theorem WaitLoop_RecordedPipelineBarriers :
    ∀ (Transitions : List FVulkanPipelineBarrier) (s s1 : FWaitLoop),
      WaitLoop Transitions s = some s1 →
      s1.CommandBufferManager.RecordedPipelineBarriers =
        s.CommandBufferManager.RecordedPipelineBarriers := by
  intro Transitions
  induction Transitions with
  | nil => intro s s1 h; simp only [WaitLoop, Option.some.injEq] at h; rw [h]
  | cons D Rest ih =>
    intro s s1 h
    simp only [WaitLoop] at h
    cases hb : WaitBody D s with
    | none => rw [hb] at h; cases h
    | some s2 =>
      rw [hb] at h
      rw [ih s2 s1 h, WaitBody_RecordedPipelineBarriers D s s2 hb]

/-- The first loop on a single transition that has a semaphore, on a context with an active
command buffer: the command buffer is submitted without a signal semaphore and the wait is
added to a fresh command buffer. -/
theorem WaitLoop_semaphore (Data : FVulkanPipelineBarrier) (M : FVulkanCommandBufferManager)
    (Semaphore : Nat) (CmdBuffer : FVulkanCmdBuffer)
    (hSemaphore : Data.Semaphore = some Semaphore)
    (hActive : M.ActiveCmdBuffer = some CmdBuffer) :
    WaitLoop [Data] { CommandBufferManager := M, bSeenWaitSemaphore := false } =
      some { CommandBufferManager :=
               { ActiveCmdBuffer := some
                   { PipelineBarriers := []
                     WaitSemaphores := [(VK_PIPELINE_STAGE_TOP_OF_PIPE_BIT, Semaphore)] }
                 Submitted := M.Submitted ++ [(CmdBuffer, [])] }
             bSeenWaitSemaphore := true } := by
  simp [WaitLoop, WaitBody, hSemaphore, FVulkanCommandBufferManager.HasPendingActiveCmdBuffer,
    FVulkanCommandBufferManager.SubmitActiveCmdBuffer,
    FVulkanCommandBufferManager.PrepareForNewActiveCommandBuffer,
    FVulkanCommandBufferManager.AddWaitSemaphore, hActive]

end RHIEndTransitions

namespace RHIEndTransitions

open VkImageLayout

/-- A transition that passes the checks of the second loop and whose image loop succeeds:
the pipeline barrier is recorded unless it is empty. -/
theorem TransitionBody_eq {OnLayoutTransition : FVulkanTextureBase → VkImageLayout → Nat}
    (P : FVulkanPlatformDefines) (DO_GUARD_SLOW : Bool)
    (Data : FVulkanPipelineBarrier) (s : FState) (r : FImageLoop)
    (hMask : ¬(Data.SrcStageMask = 0 ∨ Data.DstStageMask = 0))
    (hGuard : DO_GUARD_SLOW = true →
      GuardDstPipeline Data.DstPipelines s.Context.bIsRealAsyncComputeContext = true)
    (hBuf : Data.SrcPipelines ≠ Data.DstPipelines ∨ Data.BufferBarriers.length = 0)
    (hLen : Data.ImageBarriers.length = Data.Textures.length)
    (hLoop : ImageBarrierLoop OnLayoutTransition P DO_GUARD_SLOW Data
      (Data.ImageBarriers.zip Data.Textures)
      { LayoutManager := s.Context.LayoutManager
        OnLayoutTransitionCalls := s.Context.OnLayoutTransitionCalls
        RealImageBarriers := []
        RealSrcStageMask := Data.SrcStageMask
        RealMemoryBarrier := Data.MemoryBarrier
        bEnsureFailed := s.bEnsureFailed } = some r) :
    TransitionBody OnLayoutTransition P DO_GUARD_SLOW Data s =
      if r.RealMemoryBarrier.srcAccessMask = 0 ∧ r.RealMemoryBarrier.dstAccessMask = 0 ∧
          Data.BufferBarriers = [] ∧ r.RealImageBarriers = [] then
        some { Context := { s.Context with
                 LayoutManager := r.LayoutManager
                 OnLayoutTransitionCalls := r.OnLayoutTransitionCalls }
               bEnsureFailed := r.bEnsureFailed }
      else
        (s.Context.CommandBufferManager.CmdPipelineBarrier
            { srcStageMask := r.RealSrcStageMask
              dstStageMask := Data.DstStageMask
              MemoryBarriers :=
                if r.RealMemoryBarrier.srcAccessMask ≠ 0 ∨
                    r.RealMemoryBarrier.dstAccessMask ≠ 0 then [r.RealMemoryBarrier] else []
              BufferBarriers := Data.BufferBarriers.map (fun BufferBarrier =>
                { BufferBarrier with srcAccessMask := 0 })
              ImageBarriers := r.RealImageBarriers }).map (fun CBM =>
          { Context := { s.Context with
              LayoutManager := r.LayoutManager
              CommandBufferManager := CBM
              OnLayoutTransitionCalls := r.OnLayoutTransitionCalls }
            bEnsureFailed := r.bEnsureFailed }) := by
  have hG : ¬(DO_GUARD_SLOW = true ∧
      GuardDstPipeline Data.DstPipelines s.Context.bIsRealAsyncComputeContext = false) := by
    intro hc
    rw [hGuard hc.1] at hc
    exact Bool.noConfusion hc.2
  unfold TransitionBody
  rw [if_neg hMask, if_neg hG, if_neg (not_not.mpr hBuf), if_neg (not_not.mpr hLen), hLoop]
  simp only [Option.some_bind]
  by_cases hm : r.RealMemoryBarrier.srcAccessMask ≠ 0 ∨ r.RealMemoryBarrier.dstAccessMask ≠ 0
  · have hn : ¬(r.RealMemoryBarrier.srcAccessMask = 0 ∧ r.RealMemoryBarrier.dstAccessMask = 0 ∧
        Data.BufferBarriers = [] ∧ r.RealImageBarriers = []) := by
      intro hc
      rcases hm with hm | hm
      · exact hm hc.1
      · exact hm hc.2.1
    simp only [if_pos hm, if_neg hn, Nat.succ_ne_zero, false_and, if_false, if_true]
  · have hm1 : r.RealMemoryBarrier.srcAccessMask = 0 ∧ r.RealMemoryBarrier.dstAccessMask = 0 := by
      constructor
      · by_contra hc; exact hm (Or.inl hc)
      · by_contra hc; exact hm (Or.inr hc)
    simp [hm1.1, hm1.2]

/-- The call on a single cross-queue transition, on a context with an active command buffer:
nothing in the call depends on a release having been recorded before. -/
theorem single_cross_queue {OnLayoutTransition : FVulkanTextureBase → VkImageLayout → Nat}
    (P : FVulkanPlatformDefines) (DO_GUARD_SLOW : Bool)
    (Context : FVulkanCommandListContext) (Data : FVulkanPipelineBarrier) (Semaphore : Nat)
    (CmdBuffer : FVulkanCmdBuffer) (r : FImageLoop)
    (hCross : Data.SrcPipelines ≠ Data.DstPipelines)
    (hSemaphore : Data.Semaphore = some Semaphore)
    (hMask : ¬(Data.SrcStageMask = 0 ∨ Data.DstStageMask = 0))
    (hGuard : DO_GUARD_SLOW = true →
      GuardDstPipeline Data.DstPipelines Context.bIsRealAsyncComputeContext = true)
    (hLen : Data.ImageBarriers.length = Data.Textures.length)
    (hLoop : ImageBarrierLoop OnLayoutTransition P DO_GUARD_SLOW Data
      (Data.ImageBarriers.zip Data.Textures)
      { LayoutManager := Context.LayoutManager
        OnLayoutTransitionCalls := Context.OnLayoutTransitionCalls
        RealImageBarriers := []
        RealSrcStageMask := Data.SrcStageMask
        RealMemoryBarrier := Data.MemoryBarrier
        bEnsureFailed := false } = some r)
    (hActive : Context.CommandBufferManager.ActiveCmdBuffer = some CmdBuffer) :
    RHIEndTransitions OnLayoutTransition P DO_GUARD_SLOW Context [Data] =
      some ({ LayoutManager := r.LayoutManager
              CommandBufferManager :=
                { ActiveCmdBuffer := some
                    { PipelineBarriers :=
                        if r.RealMemoryBarrier.srcAccessMask = 0 ∧
                            r.RealMemoryBarrier.dstAccessMask = 0 ∧
                            Data.BufferBarriers = [] ∧ r.RealImageBarriers = [] then []
                        else
                          [{ srcStageMask := r.RealSrcStageMask
                             dstStageMask := Data.DstStageMask
                             MemoryBarriers :=
                               if r.RealMemoryBarrier.srcAccessMask ≠ 0 ∨
                                   r.RealMemoryBarrier.dstAccessMask ≠ 0 then
                                 [r.RealMemoryBarrier]
                               else []
                             BufferBarriers := Data.BufferBarriers.map (fun BufferBarrier =>
                               { BufferBarrier with srcAccessMask := 0 })
                             ImageBarriers := r.RealImageBarriers }]
                      WaitSemaphores := [(VK_PIPELINE_STAGE_TOP_OF_PIPE_BIT, Semaphore)] }
                  Submitted := Context.CommandBufferManager.Submitted ++ [(CmdBuffer, [])] }
              bIsRealAsyncComputeContext := Context.bIsRealAsyncComputeContext
              OnLayoutTransitionCalls := r.OnLayoutTransitionCalls }, r.bEnsureFailed) := by
  unfold RHIEndTransitions
  rw [WaitLoop_semaphore Data _ Semaphore CmdBuffer hSemaphore hActive]
  simp only [Option.some_bind, TransitionLoop]
  rw [TransitionBody_eq P DO_GUARD_SLOW Data _ r hMask hGuard (Or.inl hCross) hLen hLoop]
  by_cases hn : r.RealMemoryBarrier.srcAccessMask = 0 ∧ r.RealMemoryBarrier.dstAccessMask = 0 ∧
      Data.BufferBarriers = [] ∧ r.RealImageBarriers = []
  · simp only [if_pos hn, Option.map_some']
  · simp only [if_neg hn, FVulkanCommandBufferManager.CmdPipelineBarrier, Option.map_some',
      List.nil_append]

end RHIEndTransitions

open VkImageLayout in
/-- C30 (counterexample): on a context on which nothing has been recorded or submitted, so
that no release was recorded, the call on a cross-queue transition does not fail: it submits the active command
buffer, waits on the semaphore, records the acquire barriers and commits the new layout. The
texture is a plain one, which keeps its image handle in `OnLayoutTransition`. -/
theorem RHIEndTransitions_acquires_on_fresh_context :
    RHIEndTransitions (fun Texture _ => Texture.Surface.Image) ⟨true, true⟩ true
      ⟨⟨[(7, ⟨1, 1, VK_IMAGE_LAYOUT_COLOR_ATTACHMENT_OPTIMAL, []⟩)]⟩, ⟨some ⟨[], []⟩, []⟩, true,
        []⟩
      [⟨ERHIPipeline.Graphics, ERHIPipeline.AsyncCompute, 65784, 2048, ⟨0, 0⟩,
        [⟨98304, 0, VK_IMAGE_LAYOUT_UNDEFINED, VK_IMAGE_LAYOUT_SHADER_READ_ONLY_OPTIMAL, 0, 1, 0,
          ⟨1, 0, 4294967295, 0, 4294967295⟩⟩],
        [⟨⟨7, 1, false, 1, 1, false⟩⟩], [⟨96, 96, 0, 1, 5, 0, 18446744073709551615⟩],
        some 99⟩] =
      some (⟨⟨[(7, ⟨1, 1, VK_IMAGE_LAYOUT_SHADER_READ_ONLY_OPTIMAL, []⟩)]⟩,
        ⟨some ⟨[⟨66808, 2048, [], [⟨0, 96, 0, 1, 5, 0, 18446744073709551615⟩],
          [⟨0, 0, VK_IMAGE_LAYOUT_COLOR_ATTACHMENT_OPTIMAL,
            VK_IMAGE_LAYOUT_SHADER_READ_ONLY_OPTIMAL, 0, 1, 7,
            ⟨1, 0, 4294967295, 0, 4294967295⟩⟩]⟩], [(1, 99)]⟩, [(⟨[], []⟩, [])]⟩, true,
        [(⟨⟨7, 1, false, 1, 1, false⟩⟩, VK_IMAGE_LAYOUT_SHADER_READ_ONLY_OPTIMAL)]⟩, false) ∧
    FVulkanCommandBufferManager.RecordedPipelineBarriers ⟨some ⟨[], []⟩, []⟩ = [] := by
  decide

open RHIEndTransitions in
/-- C30 (amended): Begin-before-End protocol. For every cross-queue transition, calling
`RHIEndTransitions` on it when `RHIBeginTransitions` has not previously been called on it is
a contract violation that the call does not detect: the call reads the context and the
private data of the transition, neither of which records a call of `RHIBeginTransitions`, and
it proceeds. For every context with an active command buffer and every cross-queue transition
with a semaphore and non-zero stage masks that passes the pipeline guard and whose image loop
succeeds, the call returns: it submits the active command buffer without a signal semaphore,
adds the wait on the semaphore of the transition to a fresh command buffer, records there the
acquire barriers (the buffer barriers with source access 0 and the image barriers of the
loop) unless there is none, and commits the layouts of the loop. -/
theorem RHIEndTransitions_proceeds_without_release
    (OnLayoutTransition : FVulkanTextureBase → VkImageLayout → Nat) (P : FVulkanPlatformDefines)
    (DO_GUARD_SLOW : Bool) (Context : FVulkanCommandListContext)
    (Data : FVulkanPipelineBarrier) (Semaphore : Nat) (CmdBuffer : FVulkanCmdBuffer)
    (r : FImageLoop)
    (hCross : Data.SrcPipelines ≠ Data.DstPipelines)
    (hSemaphore : Data.Semaphore = some Semaphore)
    (hMask : ¬(Data.SrcStageMask = 0 ∨ Data.DstStageMask = 0))
    (hGuard : DO_GUARD_SLOW = true →
      GuardDstPipeline Data.DstPipelines Context.bIsRealAsyncComputeContext = true)
    (hLen : Data.ImageBarriers.length = Data.Textures.length)
    (hLoop : ImageBarrierLoop OnLayoutTransition P DO_GUARD_SLOW Data
      (Data.ImageBarriers.zip Data.Textures)
      { LayoutManager := Context.LayoutManager
        OnLayoutTransitionCalls := Context.OnLayoutTransitionCalls
        RealImageBarriers := []
        RealSrcStageMask := Data.SrcStageMask
        RealMemoryBarrier := Data.MemoryBarrier
        bEnsureFailed := false } = some r)
    (hActive : Context.CommandBufferManager.ActiveCmdBuffer = some CmdBuffer) :
    ∃ Context1 bEnsure Calls,
      RHIEndTransitions OnLayoutTransition P DO_GUARD_SLOW Context [Data] =
        some (Context1, bEnsure) ∧
      Context1.LayoutManager = r.LayoutManager ∧
      Context1.CommandBufferManager.Submitted =
        Context.CommandBufferManager.Submitted ++ [(CmdBuffer, [])] ∧
      Context1.CommandBufferManager.ActiveCmdBuffer =
        some { PipelineBarriers := Calls
               WaitSemaphores := [(VK_PIPELINE_STAGE_TOP_OF_PIPE_BIT, Semaphore)] } ∧
      ((Data.BufferBarriers = [] ∧ r.RealImageBarriers = [] ∧ Calls = []) ∨
        ∃ MemoryBarriers, Calls =
          [{ srcStageMask := r.RealSrcStageMask
             dstStageMask := Data.DstStageMask
             MemoryBarriers := MemoryBarriers
             BufferBarriers := Data.BufferBarriers.map (fun BufferBarrier =>
               { BufferBarrier with srcAccessMask := 0 })
             ImageBarriers := r.RealImageBarriers }]) := by
  refine ⟨_, _, _, single_cross_queue P DO_GUARD_SLOW Context Data Semaphore CmdBuffer r hCross
    hSemaphore hMask hGuard hLen hLoop hActive, rfl, rfl, rfl, ?_⟩
  by_cases hn : r.RealMemoryBarrier.srcAccessMask = 0 ∧ r.RealMemoryBarrier.dstAccessMask = 0 ∧
      Data.BufferBarriers = [] ∧ r.RealImageBarriers = []
  · exact Or.inl ⟨hn.2.2.1, hn.2.2.2, if_pos hn⟩
  · exact Or.inr ⟨_, if_neg hn⟩

open VkImageLayout in
theorem RHIEndTransitions_proceeds_without_release_witness :
    ∃ Context1 bEnsure Calls,
      RHIEndTransitions (fun Texture _ => Texture.Surface.Image) ⟨true, true⟩ true
        ⟨⟨[(7, ⟨1, 1, VK_IMAGE_LAYOUT_COLOR_ATTACHMENT_OPTIMAL, []⟩)]⟩, ⟨some ⟨[], []⟩, []⟩, true,
          []⟩
        [⟨ERHIPipeline.Graphics, ERHIPipeline.AsyncCompute, 65784, 2048, ⟨0, 0⟩,
          [⟨98304, 0, VK_IMAGE_LAYOUT_UNDEFINED, VK_IMAGE_LAYOUT_SHADER_READ_ONLY_OPTIMAL, 0, 1, 0,
            ⟨1, 0, 4294967295, 0, 4294967295⟩⟩],
          [⟨⟨7, 1, false, 1, 1, false⟩⟩], [⟨96, 96, 0, 1, 5, 0, 18446744073709551615⟩],
          some 99⟩] = some (Context1, bEnsure) ∧
      Context1.LayoutManager =
        ⟨[(7, ⟨1, 1, VK_IMAGE_LAYOUT_SHADER_READ_ONLY_OPTIMAL, []⟩)]⟩ ∧
      Context1.CommandBufferManager.Submitted = [] ++ [(⟨[], []⟩, [])] ∧
      Context1.CommandBufferManager.ActiveCmdBuffer =
        some { PipelineBarriers := Calls
               WaitSemaphores := [(VK_PIPELINE_STAGE_TOP_OF_PIPE_BIT, 99)] } ∧
      (((([⟨96, 96, 0, 1, 5, 0, 18446744073709551615⟩] : List VkBufferMemoryBarrier) = [] ∧
          ([⟨0, 0, VK_IMAGE_LAYOUT_COLOR_ATTACHMENT_OPTIMAL,
            VK_IMAGE_LAYOUT_SHADER_READ_ONLY_OPTIMAL, 0, 1, 7,
            ⟨1, 0, 4294967295, 0, 4294967295⟩⟩] : List VkImageMemoryBarrier) = [] ∧
          Calls = [])) ∨
        ∃ MemoryBarriers, Calls =
          [{ srcStageMask := 66808
             dstStageMask := 2048
             MemoryBarriers := MemoryBarriers
             BufferBarriers := [⟨0, 96, 0, 1, 5, 0, 18446744073709551615⟩]
             ImageBarriers := [⟨0, 0, VK_IMAGE_LAYOUT_COLOR_ATTACHMENT_OPTIMAL,
               VK_IMAGE_LAYOUT_SHADER_READ_ONLY_OPTIMAL, 0, 1, 7,
               ⟨1, 0, 4294967295, 0, 4294967295⟩⟩] }]) :=
  RHIEndTransitions_proceeds_without_release (fun Texture _ => Texture.Surface.Image)
    ⟨true, true⟩ true
    ⟨⟨[(7, ⟨1, 1, VK_IMAGE_LAYOUT_COLOR_ATTACHMENT_OPTIMAL, []⟩)]⟩, ⟨some ⟨[], []⟩, []⟩, true,
      []⟩
    ⟨ERHIPipeline.Graphics, ERHIPipeline.AsyncCompute, 65784, 2048, ⟨0, 0⟩,
      [⟨98304, 0, VK_IMAGE_LAYOUT_UNDEFINED, VK_IMAGE_LAYOUT_SHADER_READ_ONLY_OPTIMAL, 0, 1, 0,
        ⟨1, 0, 4294967295, 0, 4294967295⟩⟩],
      [⟨⟨7, 1, false, 1, 1, false⟩⟩], [⟨96, 96, 0, 1, 5, 0, 18446744073709551615⟩],
      some 99⟩
    99 ⟨[], []⟩
    ⟨⟨[(7, ⟨1, 1, VK_IMAGE_LAYOUT_SHADER_READ_ONLY_OPTIMAL, []⟩)]⟩,
      [(⟨⟨7, 1, false, 1, 1, false⟩⟩, VK_IMAGE_LAYOUT_SHADER_READ_ONLY_OPTIMAL)],
      [⟨0, 0, VK_IMAGE_LAYOUT_COLOR_ATTACHMENT_OPTIMAL, VK_IMAGE_LAYOUT_SHADER_READ_ONLY_OPTIMAL,
        0, 1, 7, ⟨1, 0, 4294967295, 0, 4294967295⟩⟩],
      66808, ⟨0, 0⟩, false⟩
    (by decide) rfl (by decide) (fun _ => rfl) rfl (by decide) rfl

/-! ## Release and acquire barriers of a cross-queue transition: what is prepared -/

namespace RHICreateTransition

open FRHITransitionInfo

theorem EmitBarrier_Pipelines (SrcP DstP : ERHIPipeline) (q1 q2 : Nat)
    (Info : FRHITransitionInfo) (Res : FResolved) (C : FClassified)
    (Data : FVulkanPipelineBarrier) :
    (EmitBarrier SrcP DstP q1 q2 Info Res C Data).SrcPipelines = Data.SrcPipelines ∧
    (EmitBarrier SrcP DstP q1 q2 Info Res C Data).DstPipelines = Data.DstPipelines := by
  unfold EmitBarrier
  cases Res <;> simp only <;> split_ifs <;> exact ⟨rfl, rfl⟩

/-- What an emitted entry adds to the buffer barriers of a cross-queue transition: one
barrier for a buffer, none for a texture. -/
theorem EmitBarrier_cross_buffers (SrcP DstP : ERHIPipeline) (hCross : SrcP ≠ DstP) (q1 q2 : Nat)
    (Info : FRHITransitionInfo) (Res : FResolved) (C : FClassified)
    (Data : FVulkanPipelineBarrier) :
    (EmitBarrier SrcP DstP q1 q2 Info Res C Data).BufferBarriers =
      Data.BufferBarriers ++
        (match Res with
         | FResolved.Buffer Buffer _ =>
           [{ srcAccessMask := C.SrcAccessFlags
              dstAccessMask := C.DstAccessFlags
              srcQueueFamilyIndex := q1
              dstQueueFamilyIndex := q2
              buffer := Buffer.Handle
              offset := 0
              size := VK_WHOLE_SIZE }]
         | FResolved.Texture _ => []) := by
  unfold EmitBarrier
  cases Res with
  | Buffer B ty => simp only [if_neg hCross]
  | Texture T => simp only; split_ifs <;> simp

theorem EmitBarrier_image_queues (SrcP DstP : ERHIPipeline) (q1 q2 : Nat)
    (Info : FRHITransitionInfo) (Res : FResolved) (C : FClassified)
    (Data : FVulkanPipelineBarrier)
    (h : ∀ b ∈ Data.ImageBarriers, b.srcQueueFamilyIndex = q1 ∧ b.dstQueueFamilyIndex = q2) :
    ∀ b ∈ (EmitBarrier SrcP DstP q1 q2 Info Res C Data).ImageBarriers,
      b.srcQueueFamilyIndex = q1 ∧ b.dstQueueFamilyIndex = q2 := by
  unfold EmitBarrier
  cases Res with
  | Buffer B ty => simp only; split_ifs <;> exact h
  | Texture T =>
    simp only
    split_ifs
    · exact h
    · intro b hb
      rcases List.mem_append.mp hb with hb | hb
      · exact h b hb
      · rw [List.mem_singleton.mp hb]
        exact ⟨rfl, rfl⟩

theorem BufferOfInfo_resolved (Info : FRHITransitionInfo) (R : FResource) (Res : FResolved)
    (hR : Info.Resource = some R) (hRes : ResolveResource R = some Res) :
    BufferOfInfo Info =
      match Res with
      | FResolved.Buffer Buffer _ => some Buffer.Handle
      | FResolved.Texture _ => none := by
  unfold BufferOfInfo
  rw [hR]
  simp only [hRes]
  cases Res <;> rfl

/-- The buffer barriers of a cross-queue transition after the main loop: one more per entry
that resolves to a buffer, in order, each with the queue family indices of the transition. -/
theorem ProcessInfos_cross_buffers (G : ERHIAccess.Generic) (SrcP DstP : ERHIPipeline)
    (hCross : SrcP ≠ DstP) (q1 q2 : Nat) :
    ∀ (Infos : List FRHITransitionInfo) (s s1 : FState),
      ProcessInfos G SrcP DstP q1 q2 Infos s = some s1 →
      (∀ b ∈ s.Data.BufferBarriers, b.srcQueueFamilyIndex = q1 ∧ b.dstQueueFamilyIndex = q2) →
      s1.Data.BufferBarriers.map (fun b => b.buffer) =
          s.Data.BufferBarriers.map (fun b => b.buffer) ++ Infos.filterMap BufferOfInfo ∧
      ∀ b ∈ s1.Data.BufferBarriers, b.srcQueueFamilyIndex = q1 ∧ b.dstQueueFamilyIndex = q2 := by
  intro Infos
  induction Infos with
  | nil =>
    intro s s1 h hq
    simp only [ProcessInfos, Option.some.injEq] at h
    subst h
    exact ⟨by simp, hq⟩
  | cons Info Rest ih =>
    intro s s1 h hq
    simp only [ProcessInfos] at h
    cases hs : ProcessInfo G SrcP DstP q1 q2 Info s with
    | none => rw [hs] at h; cases h
    | some s2 =>
      rw [hs] at h
      have hstep : s2.Data.BufferBarriers.map (fun b => b.buffer) =
            s.Data.BufferBarriers.map (fun b => b.buffer) ++ (BufferOfInfo Info).toList ∧
          ∀ b ∈ s2.Data.BufferBarriers,
            b.srcQueueFamilyIndex = q1 ∧ b.dstQueueFamilyIndex = q2 := by
        rcases ProcessInfo_cases G SrcP DstP q1 q2 Info s s2 hs with ⟨hN, rfl⟩ |
          ⟨R, Res, Pending, bEnsure, hR, _, hRes, ⟨hC, rfl⟩ | ⟨C, hC, rfl⟩⟩
        · refine ⟨?_, hq⟩
          simp [BufferOfInfo, hN]
        · refine ⟨?_, hq⟩
          rw [BufferOfInfo_resolved Info R Res hR hRes]
          cases Res with
          | Buffer B ty =>
            obtain ⟨_, _, _, _, _, hoc⟩ := ClassifyInfo_buffer_some G Info B ty s _ _ _ hC
            cases hoc
          | Texture T => simp
        · rw [BufferOfInfo_resolved Info R Res hR hRes]
          show ((EmitBarrier SrcP DstP q1 q2 Info Res _ s.Data).BufferBarriers.map _ = _) ∧
            ∀ b ∈ (EmitBarrier SrcP DstP q1 q2 Info Res _ s.Data).BufferBarriers, _
          rw [EmitBarrier_cross_buffers SrcP DstP hCross]
          cases Res with
          | Buffer B ty =>
            refine ⟨by simp, ?_⟩
            intro b hb
            rcases List.mem_append.mp hb with hb | hb
            · exact hq b hb
            · rw [List.mem_singleton.mp hb]
              exact ⟨rfl, rfl⟩
          | Texture T =>
            refine ⟨by simp, ?_⟩
            intro b hb
            rw [List.append_nil] at hb
            exact hq b hb
      obtain ⟨h1, h2⟩ := ih s2 s1 h hstep.2
      refine ⟨?_, h2⟩
      rw [h1, hstep.1, List.append_assoc]
      congr 1
      cases hB : BufferOfInfo Info <;> simp [List.filterMap_cons, hB]

theorem ProcessInfo_Pipelines (G : ERHIAccess.Generic) (SrcP DstP : ERHIPipeline) (q1 q2 : Nat)
    (Info : FRHITransitionInfo) (s s1 : FState)
    (h : ProcessInfo G SrcP DstP q1 q2 Info s = some s1) :
    s1.Data.SrcPipelines = s.Data.SrcPipelines ∧ s1.Data.DstPipelines = s.Data.DstPipelines := by
  rcases ProcessInfo_cases G SrcP DstP q1 q2 Info s s1 h with ⟨_, rfl⟩ |
    ⟨R, Res, Pending, bEnsure, _, _, _, ⟨_, rfl⟩ | ⟨C, _, rfl⟩⟩
  · exact ⟨rfl, rfl⟩
  · exact ⟨rfl, rfl⟩
  · exact EmitBarrier_Pipelines SrcP DstP q1 q2 Info Res _ s.Data

theorem ProcessInfo_image_queues (G : ERHIAccess.Generic) (SrcP DstP : ERHIPipeline)
    (q1 q2 : Nat) (Info : FRHITransitionInfo) (s s1 : FState)
    (h : ProcessInfo G SrcP DstP q1 q2 Info s = some s1)
    (hq : ∀ b ∈ s.Data.ImageBarriers, b.srcQueueFamilyIndex = q1 ∧ b.dstQueueFamilyIndex = q2) :
    ∀ b ∈ s1.Data.ImageBarriers, b.srcQueueFamilyIndex = q1 ∧ b.dstQueueFamilyIndex = q2 := by
  rcases ProcessInfo_cases G SrcP DstP q1 q2 Info s s1 h with ⟨_, rfl⟩ |
    ⟨R, Res, Pending, bEnsure, _, _, _, ⟨_, rfl⟩ | ⟨C, _, rfl⟩⟩
  · exact hq
  · exact hq
  · exact EmitBarrier_image_queues SrcP DstP q1 q2 Info Res _ s.Data hq

/-- What the transition built for two different pipelines holds: its pipelines, one buffer
barrier per entry that resolves to a buffer, and the queue family indices of the two queues
in every buffer barrier and every image barrier. -/
theorem cross_queue_data (G : ERHIAccess.Generic)
    (GfxQueueIndex ComputeQueueIndex NewSemaphore : Nat) (SrcP DstP : ERHIPipeline)
    (hCross : SrcP ≠ DstP) (Infos : List FRHITransitionInfo) (Data : FVulkanPipelineBarrier)
    (bEnsure : Bool)
    (h : RHICreateTransition G GfxQueueIndex ComputeQueueIndex NewSemaphore SrcP DstP Infos =
      some (Data, bEnsure)) :
    Data.SrcPipelines = SrcP ∧ Data.DstPipelines = DstP ∧
    Data.BufferBarriers.map (fun b => b.buffer) = Infos.filterMap BufferOfInfo ∧
    (∀ b ∈ Data.BufferBarriers,
      b.srcQueueFamilyIndex = SrcQueueFamilyIndex GfxQueueIndex ComputeQueueIndex SrcP DstP ∧
      b.dstQueueFamilyIndex = DstQueueFamilyIndex GfxQueueIndex ComputeQueueIndex SrcP DstP) ∧
    ∀ b ∈ Data.ImageBarriers,
      b.srcQueueFamilyIndex = SrcQueueFamilyIndex GfxQueueIndex ComputeQueueIndex SrcP DstP ∧
      b.dstQueueFamilyIndex = DstQueueFamilyIndex GfxQueueIndex ComputeQueueIndex SrcP DstP := by
  unfold RHICreateTransition at h
  simp only [Option.map_eq_some'] at h
  obtain ⟨s1, hs1, hP⟩ := h
  have hInit : (InitialData NewSemaphore SrcP DstP).SrcPipelines = SrcP ∧
      (InitialData NewSemaphore SrcP DstP).DstPipelines = DstP ∧
      (InitialData NewSemaphore SrcP DstP).BufferBarriers = [] ∧
      (InitialData NewSemaphore SrcP DstP).ImageBarriers = [] := by
    unfold InitialData NewPipelineBarrier
    rw [if_pos hCross]
    exact ⟨rfl, rfl, rfl, rfl⟩
  obtain ⟨hB1, hB2⟩ := ProcessInfos_cross_buffers G SrcP DstP hCross _ _ Infos _ s1 hs1
    (by intro b hb; rw [hInit.2.2.1] at hb; cases hb)
  have hPipes := ProcessInfos_inv G SrcP DstP _ _
    (fun s => s.Data.SrcPipelines = SrcP ∧ s.Data.DstPipelines = DstP)
    (fun Info s s2 hs hq => by
      obtain ⟨e1, e2⟩ := ProcessInfo_Pipelines G SrcP DstP _ _ Info s s2 hs
      exact ⟨e1.trans hq.1, e2.trans hq.2⟩) Infos _ s1 hs1 ⟨hInit.1, hInit.2.1⟩
  have hImg := ProcessInfos_inv G SrcP DstP _ _
    (fun s => ∀ b ∈ s.Data.ImageBarriers,
      b.srcQueueFamilyIndex = SrcQueueFamilyIndex GfxQueueIndex ComputeQueueIndex SrcP DstP ∧
      b.dstQueueFamilyIndex = DstQueueFamilyIndex GfxQueueIndex ComputeQueueIndex SrcP DstP)
    (fun Info s s2 hs hq => ProcessInfo_image_queues G SrcP DstP _ _ Info s s2 hs hq)
    Infos _ s1 hs1 (by intro b hb; rw [hInit.2.2.2] at hb; cases hb)
  rw [hInit.2.2.1, List.map_nil, List.nil_append] at hB1
  have hAll := ProcessPending_foldl_inv
    (SrcQueueFamilyIndex GfxQueueIndex ComputeQueueIndex SrcP DstP)
    (DstQueueFamilyIndex GfxQueueIndex ComputeQueueIndex SrcP DstP)
    (fun r => r.1.SrcPipelines = SrcP ∧ r.1.DstPipelines = DstP ∧
      r.1.BufferBarriers = s1.Data.BufferBarriers ∧
      ∀ b ∈ r.1.ImageBarriers,
        b.srcQueueFamilyIndex = SrcQueueFamilyIndex GfxQueueIndex ComputeQueueIndex SrcP DstP ∧
        b.dstQueueFamilyIndex = DstQueueFamilyIndex GfxQueueIndex ComputeQueueIndex SrcP DstP)
    (fun Pd r hr => by
      refine ⟨hr.1, hr.2.1, hr.2.2.1, ?_⟩
      intro b hb
      simp only [ProcessPending] at hb
      rcases List.mem_append.mp hb with hb | hb
      · exact hr.2.2.2 b hb
      · rw [List.mem_singleton.mp hb]
        exact ⟨rfl, rfl⟩)
    s1.DSSubresTransitions (s1.Data, s1.bEnsureFailed) ⟨hPipes.1, hPipes.2, rfl, hImg⟩
  unfold ProcessAllPending at hP
  rw [hP] at hAll
  obtain ⟨a1, a2, a3, a4⟩ := hAll
  refine ⟨a1, a2, ?_, ?_, a4⟩
  · show Data.BufferBarriers.map _ = _
    rw [a3]; exact hB1
  · intro b hb
    exact hB2 b (by rw [← a3]; exact hb)

end RHICreateTransition

theorem AdjustDepthStencilLayout_kept (Barrier : VkImageMemoryBarrier) (FullAspectMask : Nat) :
    (AdjustDepthStencilLayout Barrier FullAspectMask).1.srcAccessMask = Barrier.srcAccessMask ∧
    (AdjustDepthStencilLayout Barrier FullAspectMask).1.dstAccessMask = Barrier.dstAccessMask ∧
    (AdjustDepthStencilLayout Barrier FullAspectMask).1.srcQueueFamilyIndex =
      Barrier.srcQueueFamilyIndex ∧
    (AdjustDepthStencilLayout Barrier FullAspectMask).1.dstQueueFamilyIndex =
      Barrier.dstQueueFamilyIndex := by
  refine ⟨?_, ?_, ?_, ?_⟩ <;> rw [AdjustDepthStencilLayout_fields]

/-! ## The classifier: the present intent, and layouts of combined intents -/

open ERHIAccess VkImageLayout FRHITransitionInfo in
/-- C39 (evaluation): for the intent `Present`, `GetVkStageAndAccessFlags` returns layout
`COLOR_ATTACHMENT_OPTIMAL` and the stage `TOP_OF_PIPE` on the source side, `BOTTOM_OF_PIPE` on
the destination side, but the access mask it returns is the stage constant
`VK_PIPELINE_STAGE_COLOR_ATTACHMENT_OUTPUT_BIT`: as an access mask this value is
`VK_ACCESS_DEPTH_STENCIL_ATTACHMENT_WRITE_BIT`, it shares no bit with
`COLOR_ATTACHMENT_READ | COLOR_ATTACHMENT_WRITE` and it is a depth-stencil-attachment access
bit. -/
theorem GetVkStageAndAccessFlags_Present_access (G : ERHIAccess.Generic)
    (ResourceType : EType) (bIsDepthStencil bIsSourceState : Bool) :
    GetVkStageAndAccessFlags G Present ResourceType bIsDepthStencil bIsSourceState =
      some ⟨if bIsSourceState then VK_PIPELINE_STAGE_TOP_OF_PIPE_BIT
          else VK_PIPELINE_STAGE_BOTTOM_OF_PIPE_BIT,
        VK_PIPELINE_STAGE_COLOR_ATTACHMENT_OUTPUT_BIT,
        VK_IMAGE_LAYOUT_COLOR_ATTACHMENT_OPTIMAL, false⟩ ∧
    VK_PIPELINE_STAGE_COLOR_ATTACHMENT_OUTPUT_BIT = VK_ACCESS_DEPTH_STENCIL_ATTACHMENT_WRITE_BIT ∧
    VK_PIPELINE_STAGE_COLOR_ATTACHMENT_OUTPUT_BIT &&&
      (VK_ACCESS_COLOR_ATTACHMENT_READ_BIT ||| VK_ACCESS_COLOR_ATTACHMENT_WRITE_BIT) = 0 ∧
    VK_PIPELINE_STAGE_COLOR_ATTACHMENT_OUTPUT_BIT &&&
      (VK_ACCESS_DEPTH_STENCIL_ATTACHMENT_READ_BIT |||
        VK_ACCESS_DEPTH_STENCIL_ATTACHMENT_WRITE_BIT) ≠ 0 := by
  have h0 : Present ≠ (RTV ||| ResolveDst) := by decide
  have h1 : Present ≠ Unknown := by decide
  have h2 : Present ≠ CPURead := by decide
  refine ⟨?_, by decide, by decide, by decide⟩
  simp only [GetVkStageAndAccessFlags, if_neg h0, if_neg h1, if_neg h2, if_true]

theorem GetDepthStencilStageAndAccessFlags_Layout_known (DepthAccess StencilAccess : Nat)
    (bIsSourceState : Bool)
    (hU : ¬(DepthAccess = ERHIAccess.Unknown ∨ StencilAccess = ERHIAccess.Unknown)) :
    (GetDepthStencilStageAndAccessFlags DepthAccess StencilAccess bIsSourceState).Layout =
      if EnumHasAnyFlags DepthAccess ERHIAccess.DSVWrite then
        if EnumHasAnyFlags StencilAccess ERHIAccess.DSVWrite then
          VkImageLayout.VK_IMAGE_LAYOUT_DEPTH_STENCIL_ATTACHMENT_OPTIMAL
        else VkImageLayout.VK_IMAGE_LAYOUT_DEPTH_ATTACHMENT_STENCIL_READ_ONLY_OPTIMAL_KHR
      else
        if EnumHasAnyFlags StencilAccess ERHIAccess.DSVWrite then
          VkImageLayout.VK_IMAGE_LAYOUT_DEPTH_READ_ONLY_STENCIL_ATTACHMENT_OPTIMAL_KHR
        else VkImageLayout.VK_IMAGE_LAYOUT_DEPTH_STENCIL_READ_ONLY_OPTIMAL := by
  have hLay : ∀ (C F S A : Nat) (a : FVkClassifyLocals),
      (GetDepthStencilStageAndAccessFlags.Accumulate C F S A a).Layout = a.Layout := by
    intro C F S A a
    unfold GetDepthStencilStageAndAccessFlags.Accumulate
    split_ifs <;> rfl
  simp only [GetDepthStencilStageAndAccessFlags, if_neg hU, hLay]

open ERHIAccess in
/-- C37: writability round trip for the combined depth-stencil layouts. For every depth
access `d` and stencil access `s`, neither equal to `Unknown`, and on both sides,
`GetDepthStencilWritableState` applied to the layout that
`GetDepthStencilStageAndAccessFlags` returns for `(d, s)` yields (depth writable, stencil
writable) = (`d` contains `DSVWrite`, `s` contains `DSVWrite`). -/
theorem GetDepthStencilWritableState_round_trip (DepthAccess StencilAccess : Nat)
    (bIsSourceState : Bool) (hD : DepthAccess ≠ Unknown) (hS : StencilAccess ≠ Unknown) :
    GetDepthStencilWritableState
        (GetDepthStencilStageAndAccessFlags DepthAccess StencilAccess bIsSourceState).Layout =
      (EnumHasAnyFlags DepthAccess DSVWrite, EnumHasAnyFlags StencilAccess DSVWrite) := by
  rw [GetDepthStencilStageAndAccessFlags_Layout_known DepthAccess StencilAccess bIsSourceState
    (fun hc => hc.elim hD hS)]
  cases EnumHasAnyFlags DepthAccess DSVWrite <;>
    cases EnumHasAnyFlags StencilAccess DSVWrite <;> rfl

open ERHIAccess in
theorem GetDepthStencilWritableState_round_trip_witness :
    (DSVWrite ||| SRVGraphics) ≠ Unknown ∧ DSVRead ≠ Unknown ∧
    GetDepthStencilWritableState
        (GetDepthStencilStageAndAccessFlags (DSVWrite ||| SRVGraphics) DSVRead false).Layout =
      (EnumHasAnyFlags (DSVWrite ||| SRVGraphics) DSVWrite, EnumHasAnyFlags DSVRead DSVWrite) ∧
    (EnumHasAnyFlags (DSVWrite ||| SRVGraphics) DSVWrite, EnumHasAnyFlags DSVRead DSVWrite) =
      (true, false) :=
  ⟨by decide, by decide,
    GetDepthStencilWritableState_round_trip (DSVWrite ||| SRVGraphics) DSVRead false (by decide)
      (by decide),
    by decide⟩

namespace GetVkStageAndAccessFlags

open ERHIAccess VkImageLayout FRHITransitionInfo

/-- A texture mask that holds copy-source or resolve-source together with a flag that sets a
layout fails a check: the kind check, the check of the depth-read block, or the check of the
copy-source block on the layout. -/
theorem Combine_texture_copy_conflict (M : Nat) (ds : Bool) (L : VkImageLayout)
    (hL : L ≠ VK_IMAGE_LAYOUT_UNDEFINED)
    (hC : EnumHasAnyFlags M (CopySrc ||| ResolveSrc) = true)
    (hAny : EnumHasAnyFlags M DSVRead = true ∨ EnumHasAnyFlags M SRVGraphics = true ∨
      EnumHasAnyFlags M SRVCompute = true ∨ EnumHasAnyFlags M UAVGraphics = true ∨
      EnumHasAnyFlags M UAVCompute = true) :
    Combine M EType.Texture ds L = none := by
  unfold Combine
  cases hK : (IndirectArgsBlock M EType.Texture
      { StageFlags := 0, AccessFlags := 0, Layout := VK_IMAGE_LAYOUT_UNDEFINED,
        ProcessedRHIFlags := 0 }).bind (VertexOrIndexBufferBlock M EType.Texture) with
  | none => simp
  | some a2 =>
    have hLay := KindBlocks_layout M EType.Texture _ a2 hK
    simp only [Option.some_bind]
    cases h1 : EnumHasAnyFlags M DSVRead <;> cases h2 : EnumHasAnyFlags M SRVGraphics <;>
      cases h3 : EnumHasAnyFlags M SRVCompute <;> cases h4 : EnumHasAnyFlags M UAVGraphics <;>
      cases h5 : EnumHasAnyFlags M UAVCompute <;> cases ds <;>
      simp [h1, h2, h3, h4, h5] at hAny <;>
      simp [DSVReadBlock, CopySrcBlock, SRVGraphicsBlock, SRVComputeBlock, UAVGraphicsBlock,
        UAVComputeBlock, h1, h2, h3, h4, h5, hC, hLay, hL]

/-- A texture mask that holds copy-source or resolve-source and no other flag that the
composable part recognises. -/
theorem Combine_texture_copy_alone (M : Nat) (ds : Bool) (L : VkImageLayout)
    (hC : EnumHasAnyFlags M (CopySrc ||| ResolveSrc) = true)
    (hIA : EnumHasAnyFlags M IndirectArgs = false)
    (hVB : EnumHasAnyFlags M VertexOrIndexBuffer = false)
    (h1 : EnumHasAnyFlags M DSVRead = false) (h2 : EnumHasAnyFlags M SRVGraphics = false)
    (h3 : EnumHasAnyFlags M SRVCompute = false) (h4 : EnumHasAnyFlags M UAVGraphics = false)
    (h5 : EnumHasAnyFlags M UAVCompute = false) :
    Combine M EType.Texture ds L =
      some { StageFlags := VK_PIPELINE_STAGE_TRANSFER_BIT
             AccessFlags := VK_ACCESS_TRANSFER_READ_BIT
             Layout := VK_IMAGE_LAYOUT_TRANSFER_SRC_OPTIMAL
             ProcessedRHIFlags := 0 ||| (CopySrc ||| ResolveSrc) } := by
  simp [Combine, IndirectArgsBlock, VertexOrIndexBufferBlock, DSVReadBlock, CopySrcBlock,
    SRVGraphicsBlock, SRVComputeBlock, UAVGraphicsBlock, UAVComputeBlock, hC, hIA, hVB, h1, h2,
    h3, h4, h5]

/-- The layout of a mask with depth-read and without UAV and copy-source flags, on a
depth-stencil image. -/
theorem Combine_depth_read_layout (M : Nat) (k : EType) (a : FVkClassifyLocals)
    (hR : EnumHasAnyFlags M DSVRead = true)
    (h4 : EnumHasAnyFlags M UAVGraphics = false) (h5 : EnumHasAnyFlags M UAVCompute = false)
    (hC : EnumHasAnyFlags M (CopySrc ||| ResolveSrc) = false)
    (h : Combine M k true VK_IMAGE_LAYOUT_DEPTH_STENCIL_READ_ONLY_OPTIMAL = some a) :
    a.Layout = VK_IMAGE_LAYOUT_DEPTH_STENCIL_READ_ONLY_OPTIMAL := by
  unfold Combine at h
  simp only [Option.bind_eq_some, Option.map_eq_some'] at h
  obtain ⟨a4, ⟨a3, ⟨a2, _, h3⟩, rfl⟩, h5'⟩ := h
  simp only [DSVReadBlock, hR, if_true, Option.some.injEq] at h3
  subst h3
  simp only [CopySrcBlock, hC, Bool.false_eq_true, if_false, Option.some.injEq] at h5'
  subst h5'
  cases h2 : EnumHasAnyFlags M SRVGraphics <;> cases h3 : EnumHasAnyFlags M SRVCompute <;>
    simp [SRVGraphicsBlock, SRVComputeBlock, UAVGraphicsBlock, UAVComputeBlock, h2, h3, h4, h5]

end GetVkStageAndAccessFlags

open ERHIAccess VkImageLayout FRHITransitionInfo GetVkStageAndAccessFlags in
/-- C35: copy-source is layout-exclusive on textures. For every composable intent mask (no
dominant value, no depth-write) that contains copy-source or resolve-source: for a texture,
if the mask contains no flag that sets a layout (depth-read, SRV-graphics, SRV-compute,
UAV-graphics, UAV-compute), every result of `GetVkStageAndAccessFlags` has layout
`TRANSFER_SRC_OPTIMAL`, and the function returns (with the transfer stage and the
transfer-read access) when the kind check passes, that is when the mask holds neither
indirect-args nor vertex/index-read; for a texture, if the mask contains a flag that sets a
layout, the function fails a check; for a kind that is not texture the copy-source block has
no check, and the function returns whenever its other checks pass (depth-read only on a
depth-stencil resource, vertex/index-read only on a vertex or index buffer). -/
theorem GetVkStageAndAccessFlags_copy_source_exclusive (G : ERHIAccess.Generic)
    (RHIAccess : Nat) (bIsDepthStencil bIsSourceState : Bool)
    (hD : ¬ G.IsDominant RHIAccess) (hW : EnumHasAnyFlags RHIAccess DSVWrite = false)
    (hC : EnumHasAnyFlags RHIAccess (CopySrc ||| ResolveSrc) = true) :
    ((EnumHasAnyFlags RHIAccess DSVRead = false ∧ EnumHasAnyFlags RHIAccess SRVGraphics = false ∧
        EnumHasAnyFlags RHIAccess SRVCompute = false ∧
        EnumHasAnyFlags RHIAccess UAVGraphics = false ∧
        EnumHasAnyFlags RHIAccess UAVCompute = false) →
      (∀ r, GetVkStageAndAccessFlags G RHIAccess EType.Texture bIsDepthStencil bIsSourceState =
          some r → r.Layout = VK_IMAGE_LAYOUT_TRANSFER_SRC_OPTIMAL) ∧
      (EnumHasAnyFlags RHIAccess IndirectArgs = false →
        EnumHasAnyFlags RHIAccess VertexOrIndexBuffer = false →
        ∃ bUnprocessed,
          GetVkStageAndAccessFlags G RHIAccess EType.Texture bIsDepthStencil bIsSourceState =
            some ⟨VK_PIPELINE_STAGE_TRANSFER_BIT, VK_ACCESS_TRANSFER_READ_BIT,
              VK_IMAGE_LAYOUT_TRANSFER_SRC_OPTIMAL, bUnprocessed⟩)) ∧
    ((EnumHasAnyFlags RHIAccess DSVRead = true ∨ EnumHasAnyFlags RHIAccess SRVGraphics = true ∨
        EnumHasAnyFlags RHIAccess SRVCompute = true ∨
        EnumHasAnyFlags RHIAccess UAVGraphics = true ∨
        EnumHasAnyFlags RHIAccess UAVCompute = true) →
      GetVkStageAndAccessFlags G RHIAccess EType.Texture bIsDepthStencil bIsSourceState = none) ∧
    (∀ ResourceType, ResourceType ≠ EType.Texture →
      (EnumHasAnyFlags RHIAccess DSVRead = true → bIsDepthStencil = true) →
      (EnumHasAnyFlags RHIAccess VertexOrIndexBuffer = true →
        ResourceType = EType.VertexBuffer ∨ ResourceType = EType.IndexBuffer) →
      ∃ r, GetVkStageAndAccessFlags G RHIAccess ResourceType bIsDepthStencil bIsSourceState =
        some r) := by
  have hL : RHIAccess ∉ G.CaseLabels := fun h => hD (Or.inl h)
  have hR : RHIAccess ≠ (RTV ||| ResolveDst) := fun h => hD (Or.inr h)
  have hEq : ∀ k, GetVkStageAndAccessFlags G RHIAccess k bIsDepthStencil bIsSourceState =
      (Combine RHIAccess k bIsDepthStencil
        (if bIsDepthStencil then VK_IMAGE_LAYOUT_DEPTH_STENCIL_READ_ONLY_OPTIMAL
          else VK_IMAGE_LAYOUT_SHADER_READ_ONLY_OPTIMAL)).map (fun a =>
        ⟨a.StageFlags, a.AccessFlags, a.Layout,
          (RHIAccess &&& (4294967295 ^^^ a.ProcessedRHIFlags)) != 0⟩) := by
    intro k
    rw [GetVkStageAndAccessFlags_not_case_label G RHIAccess k bIsDepthStencil bIsSourceState hL
      hR]
    simp only [hW, Bool.false_eq_true, if_false]
  have hSRV : (if bIsDepthStencil then VK_IMAGE_LAYOUT_DEPTH_STENCIL_READ_ONLY_OPTIMAL
      else VK_IMAGE_LAYOUT_SHADER_READ_ONLY_OPTIMAL) ≠ VK_IMAGE_LAYOUT_UNDEFINED := by
    cases bIsDepthStencil <;> decide
  refine ⟨?_, ?_, ?_⟩
  · intro ⟨h1, h2, h3, h4, h5⟩
    constructor
    · intro r hr
      rw [hEq] at hr
      simp only [Option.map_eq_some'] at hr
      obtain ⟨a, ha, rfl⟩ := hr
      show a.Layout = _
      -- the kind check passed, so the mask holds no kind flag
      have hK : ¬(((EnumHasAnyFlags RHIAccess IndirectArgs = true ∨
            EnumHasAnyFlags RHIAccess VertexOrIndexBuffer = true) ∧
          EType.Texture = EType.Texture) ∨
          (EnumHasAnyFlags RHIAccess VertexOrIndexBuffer = true ∧
            EType.Texture ≠ EType.VertexBuffer ∧ EType.Texture ≠ EType.IndexBuffer)) := by
        intro hc
        have hN := (Combine_none_iff RHIAccess EType.Texture bIsDepthStencil
          (if bIsDepthStencil then VK_IMAGE_LAYOUT_DEPTH_STENCIL_READ_ONLY_OPTIMAL
            else VK_IMAGE_LAYOUT_SHADER_READ_ONLY_OPTIMAL)
          (fun hx => by rw [h1] at hx; cases hx)
          (fun _ _ => ⟨h1, h2, h3, h4, h5⟩)).mpr hc
        rw [hN] at ha
        cases ha
      have hIA : EnumHasAnyFlags RHIAccess IndirectArgs = false := by
        cases hx : EnumHasAnyFlags RHIAccess IndirectArgs
        · rfl
        · exact absurd (Or.inl ⟨Or.inl hx, rfl⟩) hK
      have hVB : EnumHasAnyFlags RHIAccess VertexOrIndexBuffer = false := by
        cases hx : EnumHasAnyFlags RHIAccess VertexOrIndexBuffer
        · rfl
        · exact absurd (Or.inl ⟨Or.inr hx, rfl⟩) hK
      rw [Combine_texture_copy_alone RHIAccess bIsDepthStencil _ hC hIA hVB h1 h2 h3 h4 h5] at ha
      cases ha
      rfl
    · intro hIA hVB
      rw [hEq, Combine_texture_copy_alone RHIAccess bIsDepthStencil _ hC hIA hVB h1 h2 h3 h4 h5]
      exact ⟨_, rfl⟩
  · intro hAny
    rw [hEq, Combine_texture_copy_conflict RHIAccess bIsDepthStencil _ hSRV hC hAny]
    rfl
  · intro k hk hDS hVB
    rw [hEq]
    cases hCmb : Combine RHIAccess k bIsDepthStencil
        (if bIsDepthStencil then VK_IMAGE_LAYOUT_DEPTH_STENCIL_READ_ONLY_OPTIMAL
          else VK_IMAGE_LAYOUT_SHADER_READ_ONLY_OPTIMAL) with
    | some a => exact ⟨_, rfl⟩
    | none =>
      exfalso
      rcases (Combine_none_iff RHIAccess k bIsDepthStencil _ hDS
        (fun hx => absurd hx hk)).mp hCmb with ⟨_, hx⟩ | ⟨hv, n1, n2⟩
      · exact hk hx
      · rcases hVB hv with hx | hx
        · exact n1 hx
        · exact n2 hx

open ERHIAccess VkImageLayout FRHITransitionInfo in
theorem GetVkStageAndAccessFlags_copy_source_exclusive_witness :
    (¬ Generic.FromComments.IsDominant CopySrc ∧ EnumHasAnyFlags CopySrc DSVWrite = false ∧
      EnumHasAnyFlags CopySrc (CopySrc ||| ResolveSrc) = true) ∧
    (∃ bUnprocessed,
      GetVkStageAndAccessFlags Generic.FromComments CopySrc EType.Texture false true =
        some ⟨VK_PIPELINE_STAGE_TRANSFER_BIT, VK_ACCESS_TRANSFER_READ_BIT,
          VK_IMAGE_LAYOUT_TRANSFER_SRC_OPTIMAL, bUnprocessed⟩) ∧
    GetVkStageAndAccessFlags Generic.FromComments (CopySrc ||| SRVGraphics) EType.Texture false
      true = none :=
  ⟨⟨by decide, by decide, by decide⟩,
    ((GetVkStageAndAccessFlags_copy_source_exclusive Generic.FromComments CopySrc false true
      (by decide) (by decide) (by decide)).1
        ⟨by decide, by decide, by decide, by decide, by decide⟩).2 (by decide) (by decide),
    (GetVkStageAndAccessFlags_copy_source_exclusive Generic.FromComments (CopySrc ||| SRVGraphics)
      false true (by decide) (by decide) (by decide)).2.1 (Or.inr (Or.inl (by decide)))⟩

open ERHIAccess VkImageLayout FRHITransitionInfo GetVkStageAndAccessFlags in
/-- C36: depth-read combined with shader-read keeps the depth read-only layout. For every
composable intent mask (no dominant value, no depth-write) that contains depth-read and
contains no UAV flag and no copy-source or resolve-source flag, classified for a depth-stencil
image: every result of `GetVkStageAndAccessFlags`, for every resource kind and on both sides,
has layout `DEPTH_STENCIL_READ_ONLY_OPTIMAL`; the function returns for a texture when the mask
holds neither indirect-args nor vertex/index-read; and this is the layout it returns for
depth-read alone. -/
theorem GetVkStageAndAccessFlags_depth_read_layout (G : ERHIAccess.Generic) (RHIAccess : Nat)
    (hD : ¬ G.IsDominant RHIAccess) (hW : EnumHasAnyFlags RHIAccess DSVWrite = false)
    (hR : EnumHasAnyFlags RHIAccess DSVRead = true)
    (hUG : EnumHasAnyFlags RHIAccess UAVGraphics = false)
    (hUC : EnumHasAnyFlags RHIAccess UAVCompute = false)
    (hC : EnumHasAnyFlags RHIAccess (CopySrc ||| ResolveSrc) = false) :
    (∀ ResourceType bIsSourceState r,
      GetVkStageAndAccessFlags G RHIAccess ResourceType true bIsSourceState = some r →
      r.Layout = VK_IMAGE_LAYOUT_DEPTH_STENCIL_READ_ONLY_OPTIMAL) ∧
    (EnumHasAnyFlags RHIAccess IndirectArgs = false →
      EnumHasAnyFlags RHIAccess VertexOrIndexBuffer = false →
      ∀ bIsSourceState, ∃ r,
        GetVkStageAndAccessFlags G RHIAccess EType.Texture true bIsSourceState = some r ∧
        r.Layout = VK_IMAGE_LAYOUT_DEPTH_STENCIL_READ_ONLY_OPTIMAL) ∧
    (¬ G.IsDominant DSVRead → ∀ bIsSourceState,
      GetVkStageAndAccessFlags G DSVRead EType.Texture true bIsSourceState =
        some ⟨VK_PIPELINE_STAGE_EARLY_FRAGMENT_TESTS_BIT |||
            VK_PIPELINE_STAGE_LATE_FRAGMENT_TESTS_BIT,
          VK_ACCESS_DEPTH_STENCIL_ATTACHMENT_READ_BIT,
          VK_IMAGE_LAYOUT_DEPTH_STENCIL_READ_ONLY_OPTIMAL, false⟩) := by
  have hL : RHIAccess ∉ G.CaseLabels := fun h => hD (Or.inl h)
  have hRd : RHIAccess ≠ (RTV ||| ResolveDst) := fun h => hD (Or.inr h)
  have hEq : ∀ k side, GetVkStageAndAccessFlags G RHIAccess k true side =
      (Combine RHIAccess k true VK_IMAGE_LAYOUT_DEPTH_STENCIL_READ_ONLY_OPTIMAL).map (fun a =>
        ⟨a.StageFlags, a.AccessFlags, a.Layout,
          (RHIAccess &&& (4294967295 ^^^ a.ProcessedRHIFlags)) != 0⟩) := by
    intro k side
    rw [GetVkStageAndAccessFlags_not_case_label G RHIAccess k true side hL hRd]
    simp only [hW, Bool.false_eq_true, if_false, if_true]
  have hAll : ∀ ResourceType bIsSourceState r,
      GetVkStageAndAccessFlags G RHIAccess ResourceType true bIsSourceState = some r →
      r.Layout = VK_IMAGE_LAYOUT_DEPTH_STENCIL_READ_ONLY_OPTIMAL := by
    intro k side r hr
    rw [hEq] at hr
    simp only [Option.map_eq_some'] at hr
    obtain ⟨a, ha, rfl⟩ := hr
    exact Combine_depth_read_layout RHIAccess k a hR hUG hUC hC ha
  refine ⟨hAll, ?_, ?_⟩
  · intro hIA hVB side
    cases hG : GetVkStageAndAccessFlags G RHIAccess EType.Texture true side with
    | some r => exact ⟨r, rfl, hAll _ _ r hG⟩
    | none =>
      exfalso
      rw [hEq] at hG
      simp only [Option.map_eq_none'] at hG
      rcases (Combine_none_iff RHIAccess EType.Texture true _ (fun _ => rfl)
        (fun _ hx => by rw [hC] at hx; cases hx)).mp hG with ⟨hx | hx, _⟩ | ⟨hx, _⟩
      · rw [hIA] at hx; cases hx
      · rw [hVB] at hx; cases hx
      · rw [hVB] at hx; cases hx
  · intro hDR side
    rw [GetVkStageAndAccessFlags_not_case_label G DSVRead EType.Texture true side
      (fun h => hDR (Or.inl h)) (fun h => hDR (Or.inr h))]
    rfl

open ERHIAccess VkImageLayout FRHITransitionInfo in
theorem GetVkStageAndAccessFlags_depth_read_layout_witness :
    (¬ Generic.FromComments.IsDominant (DSVRead ||| SRVGraphics) ∧
      EnumHasAnyFlags (DSVRead ||| SRVGraphics) DSVWrite = false ∧
      EnumHasAnyFlags (DSVRead ||| SRVGraphics) DSVRead = true ∧
      EnumHasAnyFlags (DSVRead ||| SRVGraphics) UAVGraphics = false ∧
      EnumHasAnyFlags (DSVRead ||| SRVGraphics) UAVCompute = false ∧
      EnumHasAnyFlags (DSVRead ||| SRVGraphics) (CopySrc ||| ResolveSrc) = false) ∧
    ∃ r, GetVkStageAndAccessFlags Generic.FromComments (DSVRead ||| SRVGraphics) EType.Texture
        true false = some r ∧
      r.Layout = VK_IMAGE_LAYOUT_DEPTH_STENCIL_READ_ONLY_OPTIMAL :=
  ⟨⟨by decide, by decide, by decide, by decide, by decide, by decide⟩,
    (GetVkStageAndAccessFlags_depth_read_layout Generic.FromComments (DSVRead ||| SRVGraphics)
      (by decide) (by decide) (by decide) (by decide) (by decide) (by decide)).2.1
      (by decide) (by decide) false⟩

/-! ## The builder: the async-compute remap of the destination side -/

open RHICreateTransition ERHIAccess VkImageLayout FRHITransitionInfo FRHISubresourceRange in
/-- C32 (evaluation at the failing input): when the destination pipeline is async compute the
override sets the destination stage mask to `COMPUTE_SHADER`, but it computes the destination
access mask from the source access, `SrcAccessFlags & (SHADER_READ | SHADER_WRITE)`, whatever
the classified destination access is. For a texture entry with access-after `SRVCompute`,
whose classified destination access is `SHADER_READ`, the prepared destination access is 0
when the access-before is unknown and `SHADER_READ | SHADER_WRITE` when the access-before is
`UAVGraphics`. -/
theorem AsyncComputeOverride_dst_access_from_source :
    (∀ (SrcPipelines : ERHIPipeline) (C : FClassified),
      (AsyncComputeOverride SrcPipelines ERHIPipeline.AsyncCompute C).DstStageMask =
        VK_PIPELINE_STAGE_COMPUTE_SHADER_BIT ∧
      (AsyncComputeOverride SrcPipelines ERHIPipeline.AsyncCompute C).DstAccessFlags =
        C.SrcAccessFlags &&& (VK_ACCESS_SHADER_READ_BIT ||| VK_ACCESS_SHADER_WRITE_BIT)) ∧
    GetVkStageAndAccessFlags Generic.FromComments SRVCompute EType.Texture false false =
      some ⟨VK_PIPELINE_STAGE_COMPUTE_SHADER_BIT, VK_ACCESS_SHADER_READ_BIT,
        VK_IMAGE_LAYOUT_SHADER_READ_ONLY_OPTIMAL, false⟩ ∧
    VK_ACCESS_SHADER_READ_BIT &&& (VK_ACCESS_SHADER_READ_BIT ||| VK_ACCESS_SHADER_WRITE_BIT) =
      VK_ACCESS_SHADER_READ_BIT ∧
    RHICreateTransition Generic.FromComments 0 1 99 ERHIPipeline.Graphics
        ERHIPipeline.AsyncCompute
        [⟨some (FResource.Texture ⟨⟨7, 1, false, 1, 1, false⟩⟩), Unknown, SRVCompute,
          kAllSubresources, kAllSubresources, kAllSubresources⟩] =
      some (⟨ERHIPipeline.Graphics, ERHIPipeline.AsyncCompute, 65536, 2048, ⟨0, 0⟩,
        [⟨VK_ACCESS_MEMORY_READ_BIT ||| VK_ACCESS_MEMORY_WRITE_BIT, 0, VK_IMAGE_LAYOUT_UNDEFINED,
          VK_IMAGE_LAYOUT_SHADER_READ_ONLY_OPTIMAL, 0, 1, 0,
          ⟨1, 0, 4294967295, 0, 4294967295⟩⟩],
        [⟨⟨7, 1, false, 1, 1, false⟩⟩], [], some 99⟩, false) ∧
    RHICreateTransition Generic.FromComments 0 1 99 ERHIPipeline.Graphics
        ERHIPipeline.AsyncCompute
        [⟨some (FResource.Texture ⟨⟨7, 1, false, 1, 1, false⟩⟩), UAVGraphics, SRVCompute,
          kAllSubresources, kAllSubresources, kAllSubresources⟩] =
      some (⟨ERHIPipeline.Graphics, ERHIPipeline.AsyncCompute, 248, 2048, ⟨0, 0⟩,
        [⟨VK_ACCESS_SHADER_READ_BIT ||| VK_ACCESS_SHADER_WRITE_BIT,
          VK_ACCESS_SHADER_READ_BIT ||| VK_ACCESS_SHADER_WRITE_BIT, VK_IMAGE_LAYOUT_GENERAL,
          VK_IMAGE_LAYOUT_SHADER_READ_ONLY_OPTIMAL, 0, 1, 0,
          ⟨1, 0, 4294967295, 0, 4294967295⟩⟩],
        [⟨⟨7, 1, false, 1, 1, false⟩⟩], [], some 99⟩, false) := by
  refine ⟨?_, by decide, by decide, by decide, by decide⟩
  intro SrcPipelines C
  cases SrcPipelines
  · simp [AsyncComputeOverride]
  · simp [AsyncComputeOverride, Nat.land_assoc]

/-! ## The layout table: checked indexing -/

namespace FVulkanImageLayout

theorem AreSubresourcesSameLayout_some (t : FVulkanImageLayout) (L : VkImageLayout)
    (R : VkImageSubresourceRange) (hWF : t.WellFormed) (hIB : t.InBounds R) :
    ∃ b, t.AreSubresourcesSameLayout L R = some b := by
  obtain ⟨hNL, hNM, hN, hlen⟩ := hWF
  obtain ⟨hl, hm⟩ := hIB
  by_cases h0 : t.SubresLayouts.length = 0
  · exact ⟨decide (t.MainLayout = L), by simp [AreSubresourcesSameLayout, h0]⟩
  · have hlenN : t.SubresLayouts.length = t.NumLayers * t.NumMips := by omega
    have huL : u32 (R.baseArrayLayer + t.GetSubresRangeLayerCount R) =
        R.baseArrayLayer + t.GetSubresRangeLayerCount R := u32_of_lt (by omega)
    have huM : u32 (R.baseMipLevel + t.GetSubresRangeMipCount R) =
        R.baseMipLevel + t.GetSubresRangeMipCount R := u32_of_lt (by omega)
    have hentry : ∀ l p, l < t.NumLayers → p < t.NumMips →
        ∃ b, (TArrayGet t.SubresLayouts (u32 (l * t.NumMips + p))).map
          (fun x => decide (x = L)) = some b := by
      intro l p hl1 hp1
      have hidx := subres_index_lt hl1 hp1
      rw [u32_of_lt (show l * t.NumMips + p < 4294967296 by omega)]
      simp [TArrayGet, List.getElem?_eq_getElem (show l * t.NumMips + p < t.SubresLayouts.length
        by omega)]
    obtain ⟨b, hb, _⟩ := forAllLoop_spec (fun LayerIdx =>
        forAllLoop (fun MipIdx =>
          (TArrayGet t.SubresLayouts (u32 (LayerIdx * t.NumMips + MipIdx))).map
            (fun x => decide (x = L)))
          R.baseMipLevel (R.baseMipLevel + t.GetSubresRangeMipCount R))
      R.baseArrayLayer (R.baseArrayLayer + t.GetSubresRangeLayerCount R)
      (fun l _ hl2 => by
        obtain ⟨b, hb, _⟩ := forAllLoop_spec (fun MipIdx =>
            (TArrayGet t.SubresLayouts (u32 (l * t.NumMips + MipIdx))).map
              (fun x => decide (x = L)))
          R.baseMipLevel (R.baseMipLevel + t.GetSubresRangeMipCount R)
          (fun p _ hp => hentry l p (by omega) (by omega))
        exact ⟨b, hb⟩)
    exact ⟨b, by simp only [AreSubresourcesSameLayout, if_neg h0, huL, huM]; exact hb⟩

theorem Collapse_some (t : FVulkanImageLayout) (hWF : t.WellFormed) :
    ∃ t1, t.CollapseSubresLayoutsIfSame = some t1 ∧ t1.NumLayers = t.NumLayers ∧
      t1.NumMips = t.NumMips ∧
      (t1.SubresLayouts.length = 0 ∨ t1.SubresLayouts.length = t.NumLayers * t.NumMips) := by
  obtain ⟨_, _, hN, hlen⟩ := hWF
  rcases hlen with h0 | hlenN
  · exact ⟨t, Collapse_empty t (List.length_eq_zero.mp h0), rfl, rfl, Or.inl h0⟩
  · rcases Collapse_cases t (by omega) hlenN with ⟨_, hC⟩ | ⟨c, _, _, hC⟩ | ⟨_, hC⟩
    · exact ⟨t, hC, rfl, rfl, Or.inr hlenN⟩
    · exact ⟨_, hC, rfl, rfl, Or.inl rfl⟩
    · exact ⟨t, hC, rfl, rfl, Or.inr hlenN⟩

end FVulkanImageLayout

/-- C38: in-bounds indexing of the dense layout table. An access of the array outside its
bounds is a failure (`none`) of the checked accessors `TArrayGet` and `TArraySet`, and a
failure inside a loop is a failure of the method. For every well-formed table (extents that
are `uint32` values with a product inside the size type of the array, and an array that is
empty or has exactly `NumLayers * NumMips` entries) and every in-bounds range: every
subresource of the range has an index `Layer * NumMips + Mip`, computed without wrap-around,
below `NumLayers * NumMips`; `Set`, `AreSubresourcesSameLayout` and
`CollapseSubresLayoutsIfSame` return, so none of their accesses leaves the array; and `Set`
and `CollapseSubresLayoutsIfSame` leave the array empty or of exactly `NumLayers * NumMips`
entries. -/
theorem FVulkanImageLayout_indexing_in_bounds (t : FVulkanImageLayout) (L : VkImageLayout)
    (R : VkImageSubresourceRange) (hWF : t.WellFormed) (hIB : t.InBounds R) :
    (∀ (A : List VkImageLayout) (Index : Nat) (Value : VkImageLayout),
      (TArrayGet A Index = none ↔ A.length ≤ Index) ∧
      (TArraySet A Index Value = none ↔ A.length ≤ Index)) ∧
    (∀ Layer Mip, t.InRange R Layer Mip →
      u32 (Layer * t.NumMips + Mip) = Layer * t.NumMips + Mip ∧
      Layer * t.NumMips + Mip < t.NumLayers * t.NumMips) ∧
    (∃ t1, t.Set L R = some t1 ∧ t1.NumLayers = t.NumLayers ∧ t1.NumMips = t.NumMips ∧
      (t1.SubresLayouts.length = 0 ∨ t1.SubresLayouts.length = t.NumLayers * t.NumMips)) ∧
    (∃ b, t.AreSubresourcesSameLayout L R = some b) ∧
    (∃ t2, t.CollapseSubresLayoutsIfSame = some t2 ∧ t2.NumLayers = t.NumLayers ∧
      t2.NumMips = t.NumMips ∧
      (t2.SubresLayouts.length = 0 ∨ t2.SubresLayouts.length = t.NumLayers * t.NumMips)) := by
  refine ⟨?_, ?_, ?_, FVulkanImageLayout.AreSubresourcesSameLayout_some t L R hWF hIB,
    FVulkanImageLayout.Collapse_some t hWF⟩
  · intro A Index Value
    constructor
    · simp [TArrayGet]
    · simp [TArraySet]
  · intro Layer Mip ⟨h1, h2, h3, h4⟩
    obtain ⟨hNL, hNM, hN, _⟩ := hWF
    obtain ⟨hl, hm⟩ := hIB
    have hidx := subres_index_lt (show Layer < t.NumLayers by omega)
      (show Mip < t.NumMips by omega)
    exact ⟨u32_of_lt (by omega), hidx⟩
  · obtain ⟨t1, hSet, e1, e2, hWF1, _, _⟩ := FVulkanImageLayout.Set_spec t L R hWF hIB
    refine ⟨t1, hSet, e1, e2, ?_⟩
    obtain ⟨_, _, _, hlen⟩ := hWF1
    rw [e1, e2] at hlen
    exact hlen

open VkImageLayout in
theorem FVulkanImageLayout_indexing_in_bounds_witness :
    FVulkanImageLayout.WellFormed ⟨2, 2, VK_IMAGE_LAYOUT_GENERAL, []⟩ ∧
    FVulkanImageLayout.InBounds ⟨2, 2, VK_IMAGE_LAYOUT_GENERAL, []⟩ ⟨1, 1, 1, 1, 1⟩ ∧
    ∃ t1, FVulkanImageLayout.Set ⟨2, 2, VK_IMAGE_LAYOUT_GENERAL, []⟩
        VK_IMAGE_LAYOUT_COLOR_ATTACHMENT_OPTIMAL ⟨1, 1, 1, 1, 1⟩ = some t1 ∧
      t1.NumLayers = 2 ∧ t1.NumMips = 2 ∧
      (t1.SubresLayouts.length = 0 ∨ t1.SubresLayouts.length = 2 * 2) :=
  ⟨by decide, by decide,
    (FVulkanImageLayout_indexing_in_bounds ⟨2, 2, VK_IMAGE_LAYOUT_GENERAL, []⟩
      VK_IMAGE_LAYOUT_COLOR_ATTACHMENT_OPTIMAL ⟨1, 1, 1, 1, 1⟩ (by decide) (by decide)).2.2.1⟩

/-! ## The semaphore of a cross-queue transition without resources -/

open RHICreateTransition FRHISubresourceRange in
/-- C31 (evaluation at the failing input): a cross-queue transition built from the empty list
of entries, or from a list whose only entry has a null resource, holds a semaphore and zero
stage masks. On every context with an active command buffer `RHIBeginTransitions` returns the
context unchanged for it, so that no command buffer is submitted and the semaphore is not
among any semaphores to signal, while `RHIEndTransitions` submits the active command buffer
and adds a wait on the semaphore to the fresh command buffer. -/
theorem RHIBeginTransitions_skips_signal_without_resources (G : ERHIAccess.Generic)
    (OnLayoutTransition : FVulkanTextureBase → VkImageLayout → Nat)
    (P : FVulkanPlatformDefines) (DO_GUARD_SLOW : Bool)
    (GfxQueueIndex ComputeQueueIndex NewSemaphore AccessBefore AccessAfter : Nat)
    (LayoutManager : FVulkanLayoutManager) (CmdBuffer : FVulkanCmdBuffer)
    (Submitted : List (FVulkanCmdBuffer × List Nat)) (bIsRealAsyncComputeContext : Bool)
    (Calls : List (FVulkanTextureBase × VkImageLayout)) :
    RHICreateTransition G GfxQueueIndex ComputeQueueIndex NewSemaphore ERHIPipeline.Graphics
        ERHIPipeline.AsyncCompute [] =
      some (⟨ERHIPipeline.Graphics, ERHIPipeline.AsyncCompute, 0, 0, ⟨0, 0⟩, [], [], [],
        some NewSemaphore⟩, false) ∧
    RHICreateTransition G GfxQueueIndex ComputeQueueIndex NewSemaphore ERHIPipeline.Graphics
        ERHIPipeline.AsyncCompute
        [⟨none, AccessBefore, AccessAfter, kAllSubresources, kAllSubresources,
          kAllSubresources⟩] =
      some (⟨ERHIPipeline.Graphics, ERHIPipeline.AsyncCompute, 0, 0, ⟨0, 0⟩, [], [], [],
        some NewSemaphore⟩, false) ∧
    RHIBeginTransitions P DO_GUARD_SLOW
        ⟨LayoutManager, ⟨some CmdBuffer, Submitted⟩, bIsRealAsyncComputeContext, Calls⟩
        [⟨ERHIPipeline.Graphics, ERHIPipeline.AsyncCompute, 0, 0, ⟨0, 0⟩, [], [], [],
          some NewSemaphore⟩] =
      some (⟨LayoutManager, ⟨some CmdBuffer, Submitted⟩, bIsRealAsyncComputeContext, Calls⟩,
        false) ∧
    RHIEndTransitions OnLayoutTransition P DO_GUARD_SLOW
        ⟨LayoutManager, ⟨some CmdBuffer, Submitted⟩, bIsRealAsyncComputeContext, Calls⟩
        [⟨ERHIPipeline.Graphics, ERHIPipeline.AsyncCompute, 0, 0, ⟨0, 0⟩, [], [], [],
          some NewSemaphore⟩] =
      some (⟨LayoutManager,
        ⟨some ⟨[], [(VK_PIPELINE_STAGE_TOP_OF_PIPE_BIT, NewSemaphore)]⟩,
          Submitted ++ [(CmdBuffer, [])]⟩, bIsRealAsyncComputeContext, Calls⟩, false) := by
  refine ⟨?_, ?_, ?_, ?_⟩
  · simp [RHICreateTransition, ProcessInfos, ProcessAllPending, InitialData, NewPipelineBarrier]
  · simp [RHICreateTransition, ProcessInfos, ProcessInfo, ProcessAllPending, InitialData,
      NewPipelineBarrier]
  · simp [RHIBeginTransitions, RHIBeginTransitions.TransitionLoop,
      RHIBeginTransitions.TransitionBody]
  · simp [RHIEndTransitions, RHIEndTransitions.WaitLoop_semaphore _ _ NewSemaphore CmdBuffer,
      RHIEndTransitions.TransitionLoop, RHIEndTransitions.TransitionBody]

/-! ## The release phase leaves the tracked layouts alone -/

namespace FVulkanLayoutManager

open VkImageLayout

/-- The only change `GetOrAddFullLayout(Surface, VK_IMAGE_LAYOUT_UNDEFINED)` makes to the
registry: an image without table may get a fresh table, uniform at UNDEFINED. -/
theorem GetOrAddFullLayout_extends (M : FVulkanLayoutManager) (Surface : FVulkanSurface)
    (Key : Nat) :
    (M.GetOrAddFullLayout Surface VK_IMAGE_LAYOUT_UNDEFINED).1.Find Key = M.Find Key ∨
      (M.Find Key = none ∧ ∃ NumMips NumLayers,
        (M.GetOrAddFullLayout Surface VK_IMAGE_LAYOUT_UNDEFINED).1.Find Key =
          some (FVulkanImageLayout.New VK_IMAGE_LAYOUT_UNDEFINED NumMips NumLayers)) := by
  by_cases hk : Key = Surface.Image
  · subst hk
    cases h : M.Find Surface.Image with
    | some t =>
      left
      unfold GetOrAddFullLayout
      rw [h]
      exact h
    | none =>
      right
      refine ⟨rfl, Surface.NumMips, Surface.NumArrayLevels, ?_⟩
      rw [GetOrAddFullLayout_Find]
      unfold GetOrAddFullLayout
      rw [h]
  · left
    exact GetOrAddFullLayout_Find_other M Surface _ Key hk

end FVulkanLayoutManager

namespace RHIBeginTransitions

open VkImageLayout

theorem ImageBarrierBody_LayoutManager (P : FVulkanPlatformDefines) (DO_GUARD_SLOW : Bool)
    (ImageBarrier : VkImageMemoryBarrier) (Texture : FVulkanTextureBase) (s s1 : FImageLoop)
    (h : ImageBarrierBody P DO_GUARD_SLOW ImageBarrier Texture s = some s1) :
    s1.LayoutManager =
      (s.LayoutManager.GetOrAddFullLayout Texture.Surface VK_IMAGE_LAYOUT_UNDEFINED).1 := by
  unfold ImageBarrierBody at h
  by_cases h1 : Texture.Surface.Image = VK_NULL_HANDLE
  · rw [if_pos h1] at h; cases h
  · rw [if_neg h1] at h
    by_cases h2 : ImageBarrier.newLayout = VK_IMAGE_LAYOUT_UNDEFINED
    · rw [if_pos h2] at h; cases h
    · rw [if_neg h2] at h
      simp only [Option.map_eq_some'] at h
      obtain ⟨S, _, rfl⟩ := h
      rfl

/-- The registry after the image loop of the release phase: every image keeps the table it
had, and an image without table has none or a fresh one, uniform at UNDEFINED. -/
theorem ImageBarrierLoop_LayoutManager (P : FVulkanPlatformDefines) (DO_GUARD_SLOW : Bool) :
    ∀ (L : List (VkImageMemoryBarrier × FVulkanTextureBase)) (s s1 : FImageLoop),
      ImageBarrierLoop P DO_GUARD_SLOW L s = some s1 → ∀ Key,
      s1.LayoutManager.Find Key = s.LayoutManager.Find Key ∨
        (s.LayoutManager.Find Key = none ∧ ∃ NumMips NumLayers,
          s1.LayoutManager.Find Key =
            some (FVulkanImageLayout.New VK_IMAGE_LAYOUT_UNDEFINED NumMips NumLayers)) := by
  intro L
  induction L with
  | nil =>
    intro s s1 h Key
    simp only [ImageBarrierLoop, Option.some.injEq] at h
    rw [← h]
    exact Or.inl rfl
  | cons e Rest ih =>
    intro s s1 h Key
    obtain ⟨IB, T⟩ := e
    simp only [ImageBarrierLoop] at h
    cases hb : ImageBarrierBody P DO_GUARD_SLOW IB T s with
    | none => rw [hb] at h; cases h
    | some s2 =>
      rw [hb] at h
      have h2 := ImageBarrierBody_LayoutManager P DO_GUARD_SLOW IB T s s2 hb
      have hE := FVulkanLayoutManager.GetOrAddFullLayout_extends s.LayoutManager T.Surface Key
      rw [← h2] at hE
      rcases ih s2 s1 h Key with k | ⟨k, a, b, k1⟩
      · rcases hE with e1 | ⟨e1, a, b, e2⟩
        · exact Or.inl (k.trans e1)
        · exact Or.inr ⟨e1, a, b, k.trans e2⟩
      · rcases hE with e1 | ⟨e1, _, _, e2⟩
        · exact Or.inr ⟨e1 ▸ k, a, b, k1⟩
        · rw [e2] at k; cases k

theorem TransitionBody_LayoutManager (P : FVulkanPlatformDefines) (DO_GUARD_SLOW : Bool)
    (Data : FVulkanPipelineBarrier) (s s1 : FState)
    (h : TransitionBody P DO_GUARD_SLOW Data s = some s1) :
    s1.Context.OnLayoutTransitionCalls = s.Context.OnLayoutTransitionCalls ∧ ∀ Key,
      s1.Context.LayoutManager.Find Key = s.Context.LayoutManager.Find Key ∨
        (s.Context.LayoutManager.Find Key = none ∧ ∃ NumMips NumLayers,
          s1.Context.LayoutManager.Find Key =
            some (FVulkanImageLayout.New VK_IMAGE_LAYOUT_UNDEFINED NumMips NumLayers)) := by
  unfold TransitionBody at h
  by_cases hp : Data.SrcPipelines = Data.DstPipelines
  · rw [if_pos hp] at h
    cases h
    exact ⟨rfl, fun _ => Or.inl rfl⟩
  · rw [if_neg hp] at h
    by_cases hz : Data.SrcStageMask = 0 ∨ Data.DstStageMask = 0
    · rw [if_pos hz] at h
      by_cases hn : Data.ImageBarriers.length = 0 ∧ Data.BufferBarriers.length = 0
      · rw [if_pos hn] at h
        cases h
        exact ⟨rfl, fun _ => Or.inl rfl⟩
      · rw [if_neg hn] at h; cases h
    · rw [if_neg hz] at h
      by_cases hg : DO_GUARD_SLOW = true ∧
          GuardSrcPipeline Data.SrcPipelines s.Context.bIsRealAsyncComputeContext = false
      · rw [if_pos hg] at h; cases h
      · rw [if_neg hg] at h
        by_cases hl : Data.ImageBarriers.length ≠ Data.Textures.length
        · rw [if_pos hl] at h; cases h
        · rw [if_neg hl] at h
          simp only [Option.bind_eq_some, Option.map_eq_some'] at h
          obtain ⟨r, hr, CBM, _, Sem, _, rfl⟩ := h
          exact ⟨rfl, ImageBarrierLoop_LayoutManager P DO_GUARD_SLOW _ _ r hr⟩

theorem TransitionLoop_LayoutManager (P : FVulkanPlatformDefines) (DO_GUARD_SLOW : Bool) :
    ∀ (Transitions : List FVulkanPipelineBarrier) (s s1 : FState),
      TransitionLoop P DO_GUARD_SLOW Transitions s = some s1 →
      s1.Context.OnLayoutTransitionCalls = s.Context.OnLayoutTransitionCalls ∧ ∀ Key,
        s1.Context.LayoutManager.Find Key = s.Context.LayoutManager.Find Key ∨
          (s.Context.LayoutManager.Find Key = none ∧ ∃ NumMips NumLayers,
            s1.Context.LayoutManager.Find Key =
              some (FVulkanImageLayout.New VK_IMAGE_LAYOUT_UNDEFINED NumMips NumLayers)) := by
  intro Transitions
  induction Transitions with
  | nil =>
    intro s s1 h
    simp only [TransitionLoop, Option.some.injEq] at h
    rw [← h]
    exact ⟨rfl, fun _ => Or.inl rfl⟩
  | cons Data Rest ih =>
    intro s s1 h
    simp only [TransitionLoop] at h
    cases hb : TransitionBody P DO_GUARD_SLOW Data s with
    | none => rw [hb] at h; cases h
    | some s2 =>
      rw [hb] at h
      obtain ⟨c1, hE⟩ := TransitionBody_LayoutManager P DO_GUARD_SLOW Data s s2 hb
      obtain ⟨c2, hI⟩ := ih s2 s1 h
      refine ⟨c2.trans c1, fun Key => ?_⟩
      rcases hI Key with k | ⟨k, a, b, k1⟩
      · rcases hE Key with e1 | ⟨e1, a, b, e2⟩
        · exact Or.inl (k.trans e1)
        · exact Or.inr ⟨e1, a, b, k.trans e2⟩
      · rcases hE Key with e1 | ⟨e1, _, _, e2⟩
        · exact Or.inr ⟨e1 ▸ k, a, b, k1⟩
        · rw [e2] at k; cases k

end RHIBeginTransitions

open RHIBeginTransitions VkImageLayout in
/-- C34: `RHIBeginTransitions` never changes tracked layouts. Whenever it returns on a batch of
transitions, every image that had a layout table has the same table afterwards, hence the same
layout for every subresource; an image that had none has none or a fresh table, uniform at
UNDEFINED; and no `OnLayoutTransition` is called. -/
theorem RHIBeginTransitions_keeps_tracked_layouts (P : FVulkanPlatformDefines)
    (DO_GUARD_SLOW : Bool) (Context Context1 : FVulkanCommandListContext)
    (Transitions : List FVulkanPipelineBarrier) (bEnsure : Bool)
    (h : RHIBeginTransitions P DO_GUARD_SLOW Context Transitions = some (Context1, bEnsure)) :
    (∀ Image t, Context.LayoutManager.Find Image = some t →
      Context1.LayoutManager.Find Image = some t ∧
      ∀ Layer Mip, (Context1.LayoutManager.Find Image).map
          (fun t1 => t1.GetSubresLayout Layer Mip) = some (t.GetSubresLayout Layer Mip)) ∧
    (∀ Image, Context.LayoutManager.Find Image = none →
      Context1.LayoutManager.Find Image = none ∨ ∃ NumMips NumLayers,
        Context1.LayoutManager.Find Image =
          some (FVulkanImageLayout.New VK_IMAGE_LAYOUT_UNDEFINED NumMips NumLayers)) ∧
    Context1.OnLayoutTransitionCalls = Context.OnLayoutTransitionCalls := by
  unfold RHIBeginTransitions at h
  simp only [Option.bind_eq_some] at h
  obtain ⟨s, hs, h⟩ := h
  obtain ⟨hC, hE⟩ := TransitionLoop_LayoutManager P DO_GUARD_SLOW Transitions _ s hs
  have hCtx : Context1.LayoutManager = s.Context.LayoutManager ∧
      Context1.OnLayoutTransitionCalls = s.Context.OnLayoutTransitionCalls := by
    by_cases hS : s.SignalSemaphores.length > 0
    · rw [if_pos hS] at h
      simp only [Option.map_eq_some', Prod.mk.injEq] at h
      obtain ⟨CBM, _, rfl, _⟩ := h
      exact ⟨rfl, rfl⟩
    · rw [if_neg hS] at h
      simp only [Option.some.injEq, Prod.mk.injEq] at h
      rw [← h.1]
      exact ⟨rfl, rfl⟩
  rw [hCtx.1, hCtx.2]
  refine ⟨fun Image t hF => ?_, fun Image hF => ?_, hC⟩
  · have hK : s.Context.LayoutManager.Find Image = some t := by
      rcases hE Image with k | ⟨k, _⟩
      · exact k.trans hF
      · rw [hF] at k; cases k
    exact ⟨hK, fun Layer Mip => by rw [hK]; rfl⟩
  · rcases hE Image with k | ⟨_, a, b, k⟩
    · exact Or.inl (k.trans hF)
    · exact Or.inr ⟨a, b, k⟩

open VkImageLayout in
theorem RHIBeginTransitions_keeps_tracked_layouts_witness :
    RHIBeginTransitions ⟨true, true⟩ true
        ⟨⟨[(7, ⟨1, 1, VK_IMAGE_LAYOUT_COLOR_ATTACHMENT_OPTIMAL, []⟩)]⟩, ⟨some ⟨[], []⟩, []⟩,
          false, []⟩
        [⟨ERHIPipeline.Graphics, ERHIPipeline.AsyncCompute, 65784, 2048, ⟨0, 0⟩,
          [⟨98304, 0, VK_IMAGE_LAYOUT_UNDEFINED, VK_IMAGE_LAYOUT_SHADER_READ_ONLY_OPTIMAL, 0, 1, 0,
            ⟨1, 0, 4294967295, 0, 4294967295⟩⟩],
          [⟨⟨7, 1, false, 1, 1, false⟩⟩], [⟨96, 96, 0, 1, 5, 0, 18446744073709551615⟩],
          some 99⟩] =
      some (⟨⟨[(7, ⟨1, 1, VK_IMAGE_LAYOUT_COLOR_ATTACHMENT_OPTIMAL, []⟩)]⟩,
        ⟨some ⟨[], []⟩,
          [(⟨[⟨66808, 2048, [], [⟨96, 0, 0, 1, 5, 0, 18446744073709551615⟩],
            [⟨256, 0, VK_IMAGE_LAYOUT_COLOR_ATTACHMENT_OPTIMAL,
              VK_IMAGE_LAYOUT_SHADER_READ_ONLY_OPTIMAL, 0, 1, 7,
              ⟨1, 0, 4294967295, 0, 4294967295⟩⟩]⟩], []⟩, [99])]⟩, false, []⟩, false) ∧
    (FVulkanLayoutManager.Find ⟨[(7, ⟨1, 1, VK_IMAGE_LAYOUT_COLOR_ATTACHMENT_OPTIMAL, []⟩)]⟩ 7 =
        some ⟨1, 1, VK_IMAGE_LAYOUT_COLOR_ATTACHMENT_OPTIMAL, []⟩ →
      FVulkanLayoutManager.Find ⟨[(7, ⟨1, 1, VK_IMAGE_LAYOUT_COLOR_ATTACHMENT_OPTIMAL, []⟩)]⟩ 7 =
        some ⟨1, 1, VK_IMAGE_LAYOUT_COLOR_ATTACHMENT_OPTIMAL, []⟩ ∧
      ∀ Layer Mip,
        (FVulkanLayoutManager.Find
            ⟨[(7, ⟨1, 1, VK_IMAGE_LAYOUT_COLOR_ATTACHMENT_OPTIMAL, []⟩)]⟩ 7).map
          (fun t1 => t1.GetSubresLayout Layer Mip) =
        some (FVulkanImageLayout.GetSubresLayout
          ⟨1, 1, VK_IMAGE_LAYOUT_COLOR_ATTACHMENT_OPTIMAL, []⟩ Layer Mip)) :=
  ⟨by decide,
    (RHIBeginTransitions_keeps_tracked_layouts ⟨true, true⟩ true
      ⟨⟨[(7, ⟨1, 1, VK_IMAGE_LAYOUT_COLOR_ATTACHMENT_OPTIMAL, []⟩)]⟩, ⟨some ⟨[], []⟩, []⟩,
        false, []⟩
      ⟨⟨[(7, ⟨1, 1, VK_IMAGE_LAYOUT_COLOR_ATTACHMENT_OPTIMAL, []⟩)]⟩,
        ⟨some ⟨[], []⟩,
          [(⟨[⟨66808, 2048, [], [⟨96, 0, 0, 1, 5, 0, 18446744073709551615⟩],
            [⟨256, 0, VK_IMAGE_LAYOUT_COLOR_ATTACHMENT_OPTIMAL,
              VK_IMAGE_LAYOUT_SHADER_READ_ONLY_OPTIMAL, 0, 1, 7,
              ⟨1, 0, 4294967295, 0, 4294967295⟩⟩]⟩], []⟩, [99])]⟩, false, []⟩
      [⟨ERHIPipeline.Graphics, ERHIPipeline.AsyncCompute, 65784, 2048, ⟨0, 0⟩,
        [⟨98304, 0, VK_IMAGE_LAYOUT_UNDEFINED, VK_IMAGE_LAYOUT_SHADER_READ_ONLY_OPTIMAL, 0, 1, 0,
          ⟨1, 0, 4294967295, 0, 4294967295⟩⟩],
        [⟨⟨7, 1, false, 1, 1, false⟩⟩], [⟨96, 96, 0, 1, 5, 0, 18446744073709551615⟩],
        some 99⟩]
      false (by decide)).1 7 ⟨1, 1, VK_IMAGE_LAYOUT_COLOR_ATTACHMENT_OPTIMAL, []⟩⟩

/-! ## The acquire phase skips CPU-readback textures -/

theorem AdjustDepthStencilLayout_image (Barrier : VkImageMemoryBarrier) (FullAspectMask : Nat) :
    (AdjustDepthStencilLayout Barrier FullAspectMask).1.image = Barrier.image := by
  rw [AdjustDepthStencilLayout_fields]

namespace AddSubresourceTransitions

theorem NewBarrier_image (P : FVulkanPlatformDefines) (TemplateBarrier : VkImageMemoryBarrier)
    (ImageHandle : Nat) (DstLayout : VkImageLayout) (LayerIdx MipIdx : Nat)
    (SrcLayout : VkImageLayout) (s s1 : FLocals) (Image : Nat)
    (h : NewBarrier P TemplateBarrier ImageHandle DstLayout LayerIdx MipIdx SrcLayout s = some s1)
    (hI : ImageHandle ≠ Image) (hi : ∀ b ∈ s.Barriers, b.image ≠ Image) :
    ∀ b ∈ s1.Barriers, b.image ≠ Image := by
  unfold NewBarrier at h
  by_cases hEq : SrcLayout = DstLayout
  · rw [if_pos hEq] at h
    cases h
    exact hi
  · rw [if_neg hEq] at h
    simp only [Option.bind_eq_some, Option.map_eq_some'] at h
    obtain ⟨Stage, _, Access, _, rfl⟩ := h
    intro b hb
    rcases List.mem_append.mp hb with hb | hb
    · exact hi b hb
    · rw [List.mem_singleton.mp hb]
      exact hI

theorem MipBody_image (P : FVulkanPlatformDefines) (TemplateBarrier : VkImageMemoryBarrier)
    (ImageHandle : Nat) (CurrentLayout : FVulkanImageLayout) (DstLayout : VkImageLayout)
    (LayerIdx MipIdx : Nat) (s s1 : FLocals) (Image : Nat)
    (h : MipBody P TemplateBarrier ImageHandle CurrentLayout DstLayout LayerIdx MipIdx s = some s1)
    (hI : ImageHandle ≠ Image) (hi : ∀ b ∈ s.Barriers, b.image ≠ Image) :
    ∀ b ∈ s1.Barriers, b.image ≠ Image := by
  unfold MipBody at h
  simp only [Option.bind_eq_some] at h
  obtain ⟨SrcLayout, _, h⟩ := h
  cases hp : s.PrevMipBarrier with
  | none =>
    rw [hp] at h
    exact NewBarrier_image P TemplateBarrier ImageHandle DstLayout LayerIdx MipIdx SrcLayout s s1
      Image h hI hi
  | some Index =>
    rw [hp] at h
    simp only [Option.bind_eq_some, TArrayGet] at h
    obtain ⟨Prev, hPrev, h⟩ := h
    by_cases hEq : Prev.oldLayout = SrcLayout
    · rw [if_pos hEq] at h
      cases h
      intro b hb
      rcases List.mem_or_eq_of_mem_set hb with hb | rfl
      · exact hi b hb
      · exact hi Prev (List.getElem?_mem hPrev)
    · rw [if_neg hEq] at h
      exact NewBarrier_image P TemplateBarrier ImageHandle DstLayout LayerIdx MipIdx SrcLayout s
        s1 Image h hI hi

end AddSubresourceTransitions

open AddSubresourceTransitions in
/-- The fan-out appends barriers on its image handle only. -/
theorem AddSubresourceTransitions_image (P : FVulkanPlatformDefines)
    (Barriers : List VkImageMemoryBarrier) (SrcStageMask : Nat)
    (TemplateBarrier : VkImageMemoryBarrier) (ImageHandle : Nat)
    (CurrentLayout : FVulkanImageLayout) (DstLayout : VkImageLayout)
    (r : List VkImageMemoryBarrier × Nat × FVulkanImageLayout) (Image : Nat)
    (h : AddSubresourceTransitions P Barriers SrcStageMask TemplateBarrier ImageHandle
      CurrentLayout DstLayout = some r)
    (hI : ImageHandle ≠ Image) (hi : ∀ b ∈ Barriers, b.image ≠ Image) :
    ∀ b ∈ r.1, b.image ≠ Image := by
  unfold AddSubresourceTransitions at h
  simp only [Option.bind_eq_some, Option.map_eq_some'] at h
  obtain ⟨r1, hloop, t1, _, rfl⟩ := h
  refine forLoop_preserves _ (fun s : List VkImageMemoryBarrier × Nat =>
    ∀ b ∈ s.1, b.image ≠ Image) ?_ _ _ _ r1 hloop hi
  intro LayerIdx s s1 hb hs
  unfold LayerBody at hb
  simp only [Option.map_eq_some'] at hb
  obtain ⟨m, hm, rfl⟩ := hb
  exact forLoop_preserves _ (fun s : FLocals => ∀ b ∈ s.Barriers, b.image ≠ Image)
    (fun i s2 s3 h23 h2 => MipBody_image P TemplateBarrier ImageHandle CurrentLayout DstLayout
      LayerIdx i s2 s3 Image h23 hI h2) _ _ _ m hm hs

namespace RHIEndTransitions

open VkImageLayout

/-- The iteration of the image loop on a CPU-readback texture is the `continue` of line 1149:
the variables of the loop are left as they are. -/
theorem ImageBarrierBody_readback {OnLayoutTransition : FVulkanTextureBase → VkImageLayout → Nat}
    (P : FVulkanPlatformDefines) (DO_GUARD_SLOW : Bool)
    (Data : FVulkanPipelineBarrier) (ImageBarrier : VkImageMemoryBarrier)
    (Texture : FVulkanTextureBase) (s : FImageLoop)
    (hR : Texture.Surface.bCPUReadback = true) :
    ImageBarrierBody OnLayoutTransition P DO_GUARD_SLOW Data ImageBarrier Texture s = some s := by
  unfold ImageBarrierBody
  rw [if_pos hR]

/-- The image loop runs as it does on the list without the pairs of CPU-readback textures. -/
theorem ImageBarrierLoop_filter_readback
    {OnLayoutTransition : FVulkanTextureBase → VkImageLayout → Nat}
    (P : FVulkanPlatformDefines) (DO_GUARD_SLOW : Bool)
    (Data : FVulkanPipelineBarrier) :
    ∀ (L : List (VkImageMemoryBarrier × FVulkanTextureBase)) (s : FImageLoop),
      ImageBarrierLoop OnLayoutTransition P DO_GUARD_SLOW Data L s =
        ImageBarrierLoop OnLayoutTransition P DO_GUARD_SLOW Data
          (L.filter (fun e => !e.2.Surface.bCPUReadback)) s := by
  intro L
  induction L with
  | nil => intro s; rfl
  | cons e Rest ih =>
    intro s
    obtain ⟨IB, T⟩ := e
    cases hR : T.Surface.bCPUReadback with
    | true =>
      rw [List.filter_cons_of_neg (by simp [hR])]
      simp only [ImageBarrierLoop, ImageBarrierBody_readback P DO_GUARD_SLOW Data IB T s hR]
      exact ih s
    | false =>
      rw [List.filter_cons_of_pos (by simp [hR])]
      simp only [ImageBarrierLoop]
      cases ImageBarrierBody OnLayoutTransition P DO_GUARD_SLOW Data IB T s with
      | none => rfl
      | some s2 => exact ih s2

/-- One iteration of the image loop on a texture that is CPU-readback or holds another image,
before and after `OnLayoutTransition`: it leaves the table of the image alone, appends no
barrier on the image and calls `OnLayoutTransition` only on a texture that is not
CPU-readback and does not hold the image. -/
theorem ImageBarrierBody_frame {OnLayoutTransition : FVulkanTextureBase → VkImageLayout → Nat}
    (P : FVulkanPlatformDefines) (DO_GUARD_SLOW : Bool)
    (Data : FVulkanPipelineBarrier) (ImageBarrier : VkImageMemoryBarrier)
    (Texture : FVulkanTextureBase) (s s1 : FImageLoop) (Image : Nat)
    (h : ImageBarrierBody OnLayoutTransition P DO_GUARD_SLOW Data ImageBarrier Texture s = some s1)
    (hT : Texture.Surface.Image = Image ∨
        OnLayoutTransition Texture ImageBarrier.newLayout = Image →
      Texture.Surface.bCPUReadback = true)
    (hi : ∀ b ∈ s.RealImageBarriers, b.image ≠ Image) :
    s1.LayoutManager.Find Image = s.LayoutManager.Find Image ∧
    (∀ b ∈ s1.RealImageBarriers, b.image ≠ Image) ∧
    ∃ NewCalls, s1.OnLayoutTransitionCalls = s.OnLayoutTransitionCalls ++ NewCalls ∧
      ∀ c ∈ NewCalls, c.1.Surface.bCPUReadback = false ∧ c.1.Surface.Image ≠ Image := by
  have hCommit : Texture.Surface.bCPUReadback = false →
      ∀ Texture1 : FVulkanTextureBase, Texture1.Surface.Image ≠ Image →
      ∀ Layout SrcLayout SrcAccessFlags Stage,
      CommitBarrier Data ImageBarrier Texture1
        (s.LayoutManager.GetOrAddFullLayout Texture1.Surface VK_IMAGE_LAYOUT_UNDEFINED).1
        Layout SrcLayout SrcAccessFlags Stage
        (s.OnLayoutTransitionCalls ++ [(Texture, ImageBarrier.newLayout)]) s = some s1 →
      s1.LayoutManager.Find Image = s.LayoutManager.Find Image ∧
      (∀ b ∈ s1.RealImageBarriers, b.image ≠ Image) ∧
      ∃ NewCalls, s1.OnLayoutTransitionCalls = s.OnLayoutTransitionCalls ++ NewCalls ∧
        ∀ c ∈ NewCalls, c.1.Surface.bCPUReadback = false ∧ c.1.Surface.Image ≠ Image := by
    intro hR Texture1 hNe Layout SrcLayout SrcAccessFlags Stage hC
    have hCalls : ∀ c ∈ [(Texture, ImageBarrier.newLayout)],
        c.1.Surface.bCPUReadback = false ∧ c.1.Surface.Image ≠ Image := by
      intro c hc
      rw [List.mem_singleton.mp hc]
      refine ⟨hR, fun hc1 => ?_⟩
      rw [hT (Or.inl hc1)] at hR
      cases hR
    rcases CommitBarrier_cases Data ImageBarrier Texture1 _ Layout SrcLayout SrcAccessFlags Stage
      _ s s1 _ rfl hC with ⟨_, _, rfl⟩ | ⟨_, Layout1, _, rfl⟩
    · exact ⟨FVulkanLayoutManager.GetOrAddFullLayout_Find_other _ _ _ Image (Ne.symm hNe), hi,
        _, rfl, hCalls⟩
    · refine ⟨?_, ?_, _, rfl, hCalls⟩
      · show (FVulkanLayoutManager.Assign _ _ _).Find Image = _
        rw [FVulkanLayoutManager.Find_Assign_other _ _ _ _ (Ne.symm hNe)]
        exact FVulkanLayoutManager.GetOrAddFullLayout_Find_other _ _ _ Image (Ne.symm hNe)
      · intro b hb
        rcases List.mem_append.mp hb with hb | hb
        · exact hi b hb
        · rw [List.mem_singleton.mp hb]
          by_cases hp : Data.SrcPipelines = Data.DstPipelines
          · rw [if_pos hp, AdjustDepthStencilLayout_image]
            exact hNe
          · rw [if_neg hp]
            show (AdjustDepthStencilLayout _ _).1.image ≠ Image
            rw [AdjustDepthStencilLayout_image]
            exact hNe
  have hPost : Texture.Surface.bCPUReadback = false →
      (Texture.AfterLayoutTransition OnLayoutTransition ImageBarrier.newLayout).Surface.Image ≠
        Image := by
    intro hR hc
    rw [hT (Or.inr hc)] at hR
    cases hR
  rcases ImageBarrierBody_cases P DO_GUARD_SLOW Data ImageBarrier Texture s s1 h _ rfl with
    ⟨_, rfl⟩ | ⟨hR, _, _, _, ⟨_, _, _, _, _, _, hC⟩ | ⟨_, _, _, r, hr, rfl⟩ | ⟨_, _, hC⟩⟩
  · exact ⟨rfl, hi, [], by simp, by simp⟩
  · exact hCommit hR _ (hPost hR) _ _ _ _ hC
  · have hNe := hPost hR
    refine ⟨?_, AddSubresourceTransitions_image P _ _ _ _ _ _ r Image hr hNe hi, _, rfl, ?_⟩
    · show (FVulkanLayoutManager.Assign _ _ _).Find Image = _
      rw [FVulkanLayoutManager.Find_Assign_other _ _ _ _ (Ne.symm hNe)]
      exact FVulkanLayoutManager.GetOrAddFullLayout_Find_other _ _ _ Image (Ne.symm hNe)
    · intro c hc
      rw [List.mem_singleton.mp hc]
      refine ⟨hR, fun hc1 => ?_⟩
      rw [hT (Or.inl hc1)] at hR
      cases hR
  · exact hCommit hR _ (hPost hR) _ _ _ _ hC

theorem ImageBarrierLoop_frame {OnLayoutTransition : FVulkanTextureBase → VkImageLayout → Nat}
    (P : FVulkanPlatformDefines) (DO_GUARD_SLOW : Bool)
    (Data : FVulkanPipelineBarrier) (Image : Nat) :
    ∀ (L : List (VkImageMemoryBarrier × FVulkanTextureBase)) (s s1 : FImageLoop),
      ImageBarrierLoop OnLayoutTransition P DO_GUARD_SLOW Data L s = some s1 →
      (∀ e ∈ L, e.2.Surface.Image = Image ∨ OnLayoutTransition e.2 e.1.newLayout = Image →
        e.2.Surface.bCPUReadback = true) →
      (∀ b ∈ s.RealImageBarriers, b.image ≠ Image) →
      s1.LayoutManager.Find Image = s.LayoutManager.Find Image ∧
      (∀ b ∈ s1.RealImageBarriers, b.image ≠ Image) ∧
      ∃ NewCalls, s1.OnLayoutTransitionCalls = s.OnLayoutTransitionCalls ++ NewCalls ∧
        ∀ c ∈ NewCalls, c.1.Surface.bCPUReadback = false ∧ c.1.Surface.Image ≠ Image := by
  intro L
  induction L with
  | nil =>
    intro s s1 h _ hi
    simp only [ImageBarrierLoop, Option.some.injEq] at h
    rw [← h]
    exact ⟨rfl, hi, [], by simp, by simp⟩
  | cons e Rest ih =>
    intro s s1 h hL hi
    obtain ⟨IB, T⟩ := e
    simp only [ImageBarrierLoop] at h
    cases hb : ImageBarrierBody OnLayoutTransition P DO_GUARD_SLOW Data IB T s with
    | none => rw [hb] at h; cases h
    | some s2 =>
      rw [hb] at h
      obtain ⟨f1, b1, N1, c1, q1⟩ := ImageBarrierBody_frame P DO_GUARD_SLOW Data IB T s s2 Image hb
        (hL (IB, T) (List.mem_cons_self _ _)) hi
      obtain ⟨f2, b2, N2, c2, q2⟩ := ih s2 s1 h (fun e he => hL e (List.mem_cons_of_mem _ he)) b1
      refine ⟨f2.trans f1, b2, N1 ++ N2, by rw [c2, c1, List.append_assoc], ?_⟩
      intro c hc
      rcases List.mem_append.mp hc with hc | hc
      · exact q1 c hc
      · exact q2 c hc

theorem TransitionBody_frame {OnLayoutTransition : FVulkanTextureBase → VkImageLayout → Nat}
    (P : FVulkanPlatformDefines) (DO_GUARD_SLOW : Bool)
    (Data : FVulkanPipelineBarrier) (Image : Nat) (s s1 : FState)
    (h : TransitionBody OnLayoutTransition P DO_GUARD_SLOW Data s = some s1)
    (hL : ∀ e ∈ Data.ImageBarriers.zip Data.Textures,
      e.2.Surface.Image = Image ∨ OnLayoutTransition e.2 e.1.newLayout = Image →
        e.2.Surface.bCPUReadback = true) :
    s1.Context.LayoutManager.Find Image = s.Context.LayoutManager.Find Image ∧
    (∃ NewBarriers, s1.Context.CommandBufferManager.RecordedImageBarriers =
        s.Context.CommandBufferManager.RecordedImageBarriers ++ NewBarriers ∧
      ∀ b ∈ NewBarriers, b.image ≠ Image) ∧
    ∃ NewCalls, s1.Context.OnLayoutTransitionCalls =
        s.Context.OnLayoutTransitionCalls ++ NewCalls ∧
      ∀ c ∈ NewCalls, c.1.Surface.bCPUReadback = false ∧ c.1.Surface.Image ≠ Image := by
  rcases TransitionBody_cases P DO_GUARD_SLOW Data s s1 h with ⟨_, rfl⟩ |
    ⟨_, _, _, _, r, hr, ⟨_, _, _, hE, rfl⟩ | ⟨CBM, hCBM, rfl⟩⟩
  · exact ⟨rfl, ⟨[], by simp, by simp⟩, [], by simp, by simp⟩
  · obtain ⟨f, _, N, c, q⟩ := ImageBarrierLoop_frame P DO_GUARD_SLOW Data Image _ _ r hr hL
      (by intro b hb; cases hb)
    exact ⟨f, ⟨[], by simp, by simp⟩, N, c, q⟩
  · obtain ⟨f, b, N, c, q⟩ := ImageBarrierLoop_frame P DO_GUARD_SLOW Data Image _ _ r hr hL
      (by intro b hb; cases hb)
    exact ⟨f, ⟨r.RealImageBarriers,
      FVulkanCommandBufferManager.RecordedImageBarriers_CmdPipelineBarrier _ CBM _ hCBM, b⟩,
      N, c, q⟩

theorem TransitionLoop_frame {OnLayoutTransition : FVulkanTextureBase → VkImageLayout → Nat}
    (P : FVulkanPlatformDefines) (DO_GUARD_SLOW : Bool) (Image : Nat) :
    ∀ (Transitions : List FVulkanPipelineBarrier) (s s1 : FState),
      TransitionLoop OnLayoutTransition P DO_GUARD_SLOW Transitions s = some s1 →
      (∀ Data ∈ Transitions, ∀ e ∈ Data.ImageBarriers.zip Data.Textures,
        e.2.Surface.Image = Image ∨ OnLayoutTransition e.2 e.1.newLayout = Image →
          e.2.Surface.bCPUReadback = true) →
      s1.Context.LayoutManager.Find Image = s.Context.LayoutManager.Find Image ∧
      (∃ NewBarriers, s1.Context.CommandBufferManager.RecordedImageBarriers =
          s.Context.CommandBufferManager.RecordedImageBarriers ++ NewBarriers ∧
        ∀ b ∈ NewBarriers, b.image ≠ Image) ∧
      ∃ NewCalls, s1.Context.OnLayoutTransitionCalls =
          s.Context.OnLayoutTransitionCalls ++ NewCalls ∧
        ∀ c ∈ NewCalls, c.1.Surface.bCPUReadback = false ∧ c.1.Surface.Image ≠ Image := by
  intro Transitions
  induction Transitions with
  | nil =>
    intro s s1 h _
    simp only [TransitionLoop, Option.some.injEq] at h
    rw [← h]
    exact ⟨rfl, ⟨[], by simp, by simp⟩, [], by simp, by simp⟩
  | cons D Rest ih =>
    intro s s1 h hL
    simp only [TransitionLoop] at h
    cases hb : TransitionBody OnLayoutTransition P DO_GUARD_SLOW D s with
    | none => rw [hb] at h; cases h
    | some s2 =>
      rw [hb] at h
      obtain ⟨f1, ⟨B1, e1, p1⟩, N1, c1, q1⟩ := TransitionBody_frame P DO_GUARD_SLOW D Image s s2 hb
        (hL D (List.mem_cons_self _ _))
      obtain ⟨f2, ⟨B2, e2, p2⟩, N2, c2, q2⟩ := ih s2 s1 h
        (fun D1 h1 => hL D1 (List.mem_cons_of_mem _ h1))
      refine ⟨f2.trans f1, ⟨B1 ++ B2, by rw [e2, e1, List.append_assoc], ?_⟩,
        N1 ++ N2, by rw [c2, c1, List.append_assoc], ?_⟩
      · intro b hb
        rcases List.mem_append.mp hb with hb | hb
        · exact p1 b hb
        · exact p2 b hb
      · intro c hc
        rcases List.mem_append.mp hc with hc | hc
        · exact q1 c hc
        · exact q2 c hc

end RHIEndTransitions

open RHIEndTransitions in
/-- C40: CPU-readback textures are skipped by `RHIEndTransitions`. For every transition and
every image barrier whose texture has the CPU-readback flag, the iteration of the image loop
leaves every variable of the loop as it is: no image barrier is appended, no
`OnLayoutTransition` is called, the memory barrier and the source stage mask are unchanged
and so is the layout manager; the loop over the image barriers runs exactly as on the list
without the pairs of CPU-readback textures. Whenever the call returns on a batch in which
every image barrier on an image has a CPU-readback texture (every texture of the batch that
holds the image, before or after `OnLayoutTransition`, has the flag), the tracked table of the
image is the one before the call (none if it had none), no recorded image barrier names the
image and `OnLayoutTransition` is called only on textures that have not the flag and do not
hold the image. -/
theorem RHIEndTransitions_skips_cpu_readback
    (OnLayoutTransition : FVulkanTextureBase → VkImageLayout → Nat) (P : FVulkanPlatformDefines)
    (DO_GUARD_SLOW : Bool) (Context Context1 : FVulkanCommandListContext)
    (Transitions : List FVulkanPipelineBarrier) (bEnsure : Bool) (Image : Nat)
    (h : RHIEndTransitions OnLayoutTransition P DO_GUARD_SLOW Context Transitions =
      some (Context1, bEnsure))
    (hReadback : ∀ Data ∈ Transitions, ∀ e ∈ Data.ImageBarriers.zip Data.Textures,
      e.2.Surface.Image = Image ∨ OnLayoutTransition e.2 e.1.newLayout = Image →
        e.2.Surface.bCPUReadback = true) :
    (∀ (Data : FVulkanPipelineBarrier) (ImageBarrier : VkImageMemoryBarrier)
      (Texture : FVulkanTextureBase) (s : FImageLoop),
      Texture.Surface.bCPUReadback = true →
      ImageBarrierBody OnLayoutTransition P DO_GUARD_SLOW Data ImageBarrier Texture s = some s) ∧
    (∀ (Data : FVulkanPipelineBarrier) (L : List (VkImageMemoryBarrier × FVulkanTextureBase))
      (s : FImageLoop),
      ImageBarrierLoop OnLayoutTransition P DO_GUARD_SLOW Data L s =
        ImageBarrierLoop OnLayoutTransition P DO_GUARD_SLOW Data
          (L.filter (fun e => !e.2.Surface.bCPUReadback)) s) ∧
    Context1.LayoutManager.Find Image = Context.LayoutManager.Find Image ∧
    (∃ NewBarriers, Context1.CommandBufferManager.RecordedImageBarriers =
        Context.CommandBufferManager.RecordedImageBarriers ++ NewBarriers ∧
      ∀ b ∈ NewBarriers, b.image ≠ Image) ∧
    ∃ NewCalls, Context1.OnLayoutTransitionCalls = Context.OnLayoutTransitionCalls ++ NewCalls ∧
      ∀ c ∈ NewCalls, c.1.Surface.bCPUReadback = false ∧ c.1.Surface.Image ≠ Image := by
  refine ⟨fun Data IB T s hR => ImageBarrierBody_readback P DO_GUARD_SLOW Data IB T s hR,
    fun Data L s => ImageBarrierLoop_filter_readback P DO_GUARD_SLOW Data L s, ?_⟩
  simp only [RHIEndTransitions, Option.bind_eq_some, Option.map_eq_some', Prod.mk.injEq] at h
  obtain ⟨w, hw, s1, hs1, rfl, _⟩ := h
  obtain ⟨f, ⟨B, e, p⟩, N, c, q⟩ := TransitionLoop_frame P DO_GUARD_SLOW Image Transitions _ s1
    hs1 hReadback
  refine ⟨f, ⟨B, ?_, p⟩, N, c, q⟩
  rw [e]
  show w.CommandBufferManager.RecordedImageBarriers ++ B = _
  rw [WaitLoop_Recorded Transitions _ w hw]

open VkImageLayout in
theorem RHIEndTransitions_skips_cpu_readback_witness :
    RHIEndTransitions (fun Texture _ => Texture.Surface.Image) ⟨true, true⟩ true
        ⟨⟨[(7, ⟨1, 1, VK_IMAGE_LAYOUT_TRANSFER_DST_OPTIMAL, []⟩),
           (8, ⟨1, 1, VK_IMAGE_LAYOUT_COLOR_ATTACHMENT_OPTIMAL, []⟩)]⟩,
          ⟨some ⟨[], []⟩, []⟩, false, []⟩
        [⟨ERHIPipeline.Graphics, ERHIPipeline.Graphics, 1024, 128, ⟨0, 0⟩,
          [⟨256, 32, VK_IMAGE_LAYOUT_UNDEFINED, VK_IMAGE_LAYOUT_SHADER_READ_ONLY_OPTIMAL,
              4294967295, 4294967295, 0, ⟨1, 0, 4294967295, 0, 4294967295⟩⟩,
           ⟨256, 32, VK_IMAGE_LAYOUT_UNDEFINED, VK_IMAGE_LAYOUT_SHADER_READ_ONLY_OPTIMAL,
              4294967295, 4294967295, 0, ⟨1, 0, 4294967295, 0, 4294967295⟩⟩],
          [⟨⟨7, 1, false, 1, 1, true⟩⟩, ⟨⟨8, 1, false, 1, 1, false⟩⟩], [], none⟩] =
      some (⟨⟨[(7, ⟨1, 1, VK_IMAGE_LAYOUT_TRANSFER_DST_OPTIMAL, []⟩),
           (8, ⟨1, 1, VK_IMAGE_LAYOUT_SHADER_READ_ONLY_OPTIMAL, []⟩)]⟩,
        ⟨some ⟨[⟨1024, 128, [], [],
          [⟨256, 32, VK_IMAGE_LAYOUT_COLOR_ATTACHMENT_OPTIMAL,
            VK_IMAGE_LAYOUT_SHADER_READ_ONLY_OPTIMAL, 4294967295, 4294967295, 8,
            ⟨1, 0, 4294967295, 0, 4294967295⟩⟩]⟩], []⟩, []⟩, false,
        [(⟨⟨8, 1, false, 1, 1, false⟩⟩, VK_IMAGE_LAYOUT_SHADER_READ_ONLY_OPTIMAL)]⟩, false) ∧
    FVulkanLayoutManager.Find
        ⟨[(7, ⟨1, 1, VK_IMAGE_LAYOUT_TRANSFER_DST_OPTIMAL, []⟩),
          (8, ⟨1, 1, VK_IMAGE_LAYOUT_SHADER_READ_ONLY_OPTIMAL, []⟩)]⟩ 7 =
      FVulkanLayoutManager.Find
        ⟨[(7, ⟨1, 1, VK_IMAGE_LAYOUT_TRANSFER_DST_OPTIMAL, []⟩),
          (8, ⟨1, 1, VK_IMAGE_LAYOUT_COLOR_ATTACHMENT_OPTIMAL, []⟩)]⟩ 7 ∧
    ∃ NewCalls,
      [((⟨⟨8, 1, false, 1, 1, false⟩⟩ : FVulkanTextureBase),
          VK_IMAGE_LAYOUT_SHADER_READ_ONLY_OPTIMAL)] = [] ++ NewCalls ∧
      ∀ c ∈ NewCalls, c.1.Surface.bCPUReadback = false ∧ c.1.Surface.Image ≠ 7 :=
  have T := RHIEndTransitions_skips_cpu_readback (fun Texture _ => Texture.Surface.Image)
    ⟨true, true⟩ true
    ⟨⟨[(7, ⟨1, 1, VK_IMAGE_LAYOUT_TRANSFER_DST_OPTIMAL, []⟩),
       (8, ⟨1, 1, VK_IMAGE_LAYOUT_COLOR_ATTACHMENT_OPTIMAL, []⟩)]⟩,
      ⟨some ⟨[], []⟩, []⟩, false, []⟩
    ⟨⟨[(7, ⟨1, 1, VK_IMAGE_LAYOUT_TRANSFER_DST_OPTIMAL, []⟩),
       (8, ⟨1, 1, VK_IMAGE_LAYOUT_SHADER_READ_ONLY_OPTIMAL, []⟩)]⟩,
      ⟨some ⟨[⟨1024, 128, [], [],
        [⟨256, 32, VK_IMAGE_LAYOUT_COLOR_ATTACHMENT_OPTIMAL,
          VK_IMAGE_LAYOUT_SHADER_READ_ONLY_OPTIMAL, 4294967295, 4294967295, 8,
          ⟨1, 0, 4294967295, 0, 4294967295⟩⟩]⟩], []⟩, []⟩, false,
      [(⟨⟨8, 1, false, 1, 1, false⟩⟩, VK_IMAGE_LAYOUT_SHADER_READ_ONLY_OPTIMAL)]⟩
    [⟨ERHIPipeline.Graphics, ERHIPipeline.Graphics, 1024, 128, ⟨0, 0⟩,
      [⟨256, 32, VK_IMAGE_LAYOUT_UNDEFINED, VK_IMAGE_LAYOUT_SHADER_READ_ONLY_OPTIMAL,
          4294967295, 4294967295, 0, ⟨1, 0, 4294967295, 0, 4294967295⟩⟩,
       ⟨256, 32, VK_IMAGE_LAYOUT_UNDEFINED, VK_IMAGE_LAYOUT_SHADER_READ_ONLY_OPTIMAL,
          4294967295, 4294967295, 0, ⟨1, 0, 4294967295, 0, 4294967295⟩⟩],
      [⟨⟨7, 1, false, 1, 1, true⟩⟩, ⟨⟨8, 1, false, 1, 1, false⟩⟩], [], none⟩]
    false 7 (by decide) (by decide)
  ⟨by decide, T.2.2.1, T.2.2.2.2⟩

/-! ## Render-pass entry: the layout of a colour attachment -/

namespace FVulkanLayoutManager

open VkImageLayout

/-- The registry is left as it is by `GetOrAddFullLayout` unless the image has no table, and
then the table returned is uniform at the layout given. -/
theorem GetOrAddFullLayout_cases (M : FVulkanLayoutManager) (Surface : FVulkanSurface)
    (LayoutIfNotFound : VkImageLayout) :
    (M.Find Surface.Image = some (M.GetOrAddFullLayout Surface LayoutIfNotFound).2 ∧
      (M.GetOrAddFullLayout Surface LayoutIfNotFound).1 = M) ∨
    (M.Find Surface.Image = none ∧
      (M.GetOrAddFullLayout Surface LayoutIfNotFound).2 =
        FVulkanImageLayout.New LayoutIfNotFound Surface.NumMips Surface.NumArrayLevels) := by
  unfold GetOrAddFullLayout
  cases h : M.Find Surface.Image with
  | some t => exact Or.inl ⟨rfl, rfl⟩
  | none => exact Or.inr ⟨rfl, rfl⟩

end FVulkanLayoutManager

namespace FVulkanImageLayout

/-- Every subresource inside the extents of a well-formed table has a layout. -/
theorem GetSubresLayout_some (t : FVulkanImageLayout) (hWF : t.WellFormed) (l p : Nat)
    (hl : l < t.NumLayers) (hp : p < t.NumMips) : ∃ Layout, t.GetSubresLayout l p = some Layout := by
  by_cases h : t.SubresLayouts = []
  · exact ⟨_, GetSubresLayout_uniform t h l p⟩
  · rw [GetSubresLayout_dense t hWF h l p hl hp]
    have hidx := subres_index_lt hl hp
    obtain ⟨_, _, _, hlen⟩ := hWF
    have hlen0 : t.SubresLayouts.length ≠ 0 := fun h0 => h (List.length_eq_zero.mp h0)
    have hlt : l * t.NumMips + p < t.SubresLayouts.length := by omega
    exact ⟨_, List.getElem?_eq_getElem hlt⟩

end FVulkanImageLayout

open VkImageLayout FVulkanPipelineBarrier in
/-- C33: `ValidateRenderPassColorEntry` fixes the attachment layout. For a colour entry whose
texture has a non-null image, whose table (created uniform at UNDEFINED when the image has
none) is well formed and contains the (array slice, mip) of the entry, and whose current
layout the two mask functions handle, the call returns and the tracked layout of the (array
slice, mip) of the entry is COLOR_ATTACHMENT_OPTIMAL afterwards; the tables of other images
are left alone. If the layout already was COLOR_ATTACHMENT_OPTIMAL, the barrier set and the
registry are unchanged and the `ensure` holds. Otherwise the `ensure` is violated and exactly
one image barrier from the previous layout to COLOR_ATTACHMENT_OPTIMAL is appended, over the
whole image when the table was uniform and over that (slice, mip) alone when it was not; in
the first case every subresource of the table becomes COLOR_ATTACHMENT_OPTIMAL, in the second
the (slice, mip) does and every other subresource keeps its layout. -/
theorem ValidateRenderPassColorEntry_fixes_layout (P : FVulkanPlatformDefines)
    (M : FVulkanLayoutManager) (ColorEntry : FRHIRenderPassInfo.FColorEntry)
    (bResolveTarget : Bool) (Barrier : FVulkanPipelineBarrier) (Texture : FVulkanTextureBase)
    (t : FVulkanImageLayout)
    (hTex : (if bResolveTarget then ColorEntry.ResolveTarget else ColorEntry.RenderTarget) =
      some Texture)
    (hImg : Texture.Surface.Image ≠ VK_NULL_HANDLE)
    (ht : (M.GetOrAddFullLayout Texture.Surface VK_IMAGE_LAYOUT_UNDEFINED).2 = t)
    (hWF : t.WellFormed) (hSlice : ColorEntry.ArraySlice < t.NumLayers)
    (hMip : ColorEntry.MipIndex < t.NumMips)
    (hMask : ∀ Current, t.GetSubresLayout ColorEntry.ArraySlice ColorEntry.MipIndex =
        some Current → Current ≠ VK_IMAGE_LAYOUT_COLOR_ATTACHMENT_OPTIMAL →
      ∃ SrcStage SrcAccess, GetVkStageFlagsForLayout P Current = some SrcStage ∧
        GetVkAccessMaskForLayout P Current = some SrcAccess) :
    ∃ Current M1 Barrier1 t1,
      t.GetSubresLayout ColorEntry.ArraySlice ColorEntry.MipIndex = some Current ∧
      M.ValidateRenderPassColorEntry P ColorEntry bResolveTarget Barrier =
        some (M1, Barrier1, decide (Current ≠ VK_IMAGE_LAYOUT_COLOR_ATTACHMENT_OPTIMAL)) ∧
      M1.Find Texture.Surface.Image = some t1 ∧
      (∀ Key, Key ≠ Texture.Surface.Image → M1.Find Key = M.Find Key) ∧
      t1.GetSubresLayout ColorEntry.ArraySlice ColorEntry.MipIndex =
        some VK_IMAGE_LAYOUT_COLOR_ATTACHMENT_OPTIMAL ∧
      (Current = VK_IMAGE_LAYOUT_COLOR_ATTACHMENT_OPTIMAL →
        M1 = M ∧ t1 = t ∧ Barrier1 = Barrier) ∧
      (Current ≠ VK_IMAGE_LAYOUT_COLOR_ATTACHMENT_OPTIMAL →
        (∃ SrcStage SrcAccess, GetVkStageFlagsForLayout P Current = some SrcStage ∧
          GetVkAccessMaskForLayout P Current = some SrcAccess ∧
          Barrier1 = { Barrier with
            SrcStageMask := Barrier.SrcStageMask ||| SrcStage
            DstStageMask := Barrier.DstStageMask ||| VK_PIPELINE_STAGE_COLOR_ATTACHMENT_OUTPUT_BIT
            ImageBarriers := Barrier.ImageBarriers ++ [
              { srcAccessMask := SrcAccess
                dstAccessMask := VK_ACCESS_COLOR_ATTACHMENT_WRITE_BIT
                oldLayout := Current
                newLayout := VK_IMAGE_LAYOUT_COLOR_ATTACHMENT_OPTIMAL
                srcQueueFamilyIndex := VK_QUEUE_FAMILY_IGNORED
                dstQueueFamilyIndex := VK_QUEUE_FAMILY_IGNORED
                image := Texture.Surface.Image
                subresourceRange :=
                  if t.AreAllSubresourcesSameLayout then
                    { aspectMask := VK_IMAGE_ASPECT_COLOR_BIT
                      baseMipLevel := 0
                      levelCount := VK_REMAINING_MIP_LEVELS
                      baseArrayLayer := 0
                      layerCount := VK_REMAINING_ARRAY_LAYERS }
                  else
                    { aspectMask := VK_IMAGE_ASPECT_COLOR_BIT
                      baseMipLevel := ColorEntry.MipIndex
                      levelCount := 1
                      baseArrayLayer := ColorEntry.ArraySlice
                      layerCount := 1 } }] }) ∧
        (t.AreAllSubresourcesSameLayout = true →
          ∀ l p, t1.GetSubresLayout l p = some VK_IMAGE_LAYOUT_COLOR_ATTACHMENT_OPTIMAL) ∧
        (t.AreAllSubresourcesSameLayout = false →
          ∀ l p, l < t.NumLayers → p < t.NumMips →
            t1.GetSubresLayout l p =
              if l = ColorEntry.ArraySlice ∧ p = ColorEntry.MipIndex then
                some VK_IMAGE_LAYOUT_COLOR_ATTACHMENT_OPTIMAL
              else t.GetSubresLayout l p)) := by
  obtain ⟨Current, hCur⟩ := FVulkanImageLayout.GetSubresLayout_some t hWF _ _ hSlice hMip
  have hFind0 := FVulkanLayoutManager.GetOrAddFullLayout_Find M Texture.Surface
    VK_IMAGE_LAYOUT_UNDEFINED
  have hOther : ∀ Key, Key ≠ Texture.Surface.Image →
      (M.GetOrAddFullLayout Texture.Surface VK_IMAGE_LAYOUT_UNDEFINED).1.Find Key = M.Find Key :=
    fun Key hk => FVulkanLayoutManager.GetOrAddFullLayout_Find_other M Texture.Surface _ Key hk
  rw [ht] at hFind0
  have hVal : M.ValidateRenderPassColorEntry P ColorEntry bResolveTarget Barrier =
      (if Current = VK_IMAGE_LAYOUT_COLOR_ATTACHMENT_OPTIMAL then
        some ((M.GetOrAddFullLayout Texture.Surface VK_IMAGE_LAYOUT_UNDEFINED).1, Barrier, false)
      else if t.AreAllSubresourcesSameLayout then
        (Barrier.AddImageLayoutTransition P Texture.Surface.Image Current
            VK_IMAGE_LAYOUT_COLOR_ATTACHMENT_OPTIMAL
            (MakeSubresourceRangeEntireRes VK_IMAGE_ASPECT_COLOR_BIT)).map
          (fun Barrier1 =>
            ((M.GetOrAddFullLayout Texture.Surface VK_IMAGE_LAYOUT_UNDEFINED).1.Assign
                Texture.Surface.Image
              { t with MainLayout := VK_IMAGE_LAYOUT_COLOR_ATTACHMENT_OPTIMAL }, Barrier1, true))
      else
        (Barrier.AddImageLayoutTransition P Texture.Surface.Image Current
            VK_IMAGE_LAYOUT_COLOR_ATTACHMENT_OPTIMAL
            (MakeSubresourceRange VK_IMAGE_ASPECT_COLOR_BIT ColorEntry.MipIndex 1
              ColorEntry.ArraySlice 1)).bind (fun Barrier1 =>
          (t.Set VK_IMAGE_LAYOUT_COLOR_ATTACHMENT_OPTIMAL
              (MakeSubresourceRange VK_IMAGE_ASPECT_COLOR_BIT ColorEntry.MipIndex 1
                ColorEntry.ArraySlice 1)).map (fun LayoutInfo1 =>
            ((M.GetOrAddFullLayout Texture.Surface VK_IMAGE_LAYOUT_UNDEFINED).1.Assign
              Texture.Surface.Image LayoutInfo1, Barrier1, true)))) := by
    unfold FVulkanLayoutManager.ValidateRenderPassColorEntry
    rw [hTex]
    simp only [if_neg hImg, ht, hCur, Option.some_bind]
  by_cases hc : Current = VK_IMAGE_LAYOUT_COLOR_ATTACHMENT_OPTIMAL
  · rw [if_pos hc] at hVal
    have hM : (M.GetOrAddFullLayout Texture.Surface VK_IMAGE_LAYOUT_UNDEFINED).1 = M := by
      rcases FVulkanLayoutManager.GetOrAddFullLayout_cases M Texture.Surface
        VK_IMAGE_LAYOUT_UNDEFINED with ⟨_, h1⟩ | ⟨_, h2⟩
      · exact h1
      · rw [ht] at h2
        rw [h2, FVulkanImageLayout.GetSubresLayout_uniform _ rfl] at hCur
        rw [← Option.some.inj hCur] at hc
        cases hc
    rw [hM] at hVal hOther hFind0
    refine ⟨Current, M, Barrier, t, hCur, ?_, hFind0, hOther, hc ▸ hCur,
      fun _ => ⟨rfl, rfl, rfl⟩, fun hn => absurd hc hn⟩
    rw [hVal]
    simp [hc]
  · rw [if_neg hc] at hVal
    obtain ⟨SrcStage, SrcAccess, hStage, hAccess⟩ := hMask Current hCur hc
    obtain ⟨mk, hAdd, hmk⟩ : ∃ mk : VkImageSubresourceRange → FVulkanPipelineBarrier,
        (∀ R, Barrier.AddImageLayoutTransition P Texture.Surface.Image Current
          VK_IMAGE_LAYOUT_COLOR_ATTACHMENT_OPTIMAL R = some (mk R)) ∧
        ∀ R, mk R = { Barrier with
          SrcStageMask := Barrier.SrcStageMask ||| SrcStage
          DstStageMask := Barrier.DstStageMask ||| VK_PIPELINE_STAGE_COLOR_ATTACHMENT_OUTPUT_BIT
          ImageBarriers := Barrier.ImageBarriers ++ [
            { srcAccessMask := SrcAccess
              dstAccessMask := VK_ACCESS_COLOR_ATTACHMENT_WRITE_BIT
              oldLayout := Current
              newLayout := VK_IMAGE_LAYOUT_COLOR_ATTACHMENT_OPTIMAL
              srcQueueFamilyIndex := VK_QUEUE_FAMILY_IGNORED
              dstQueueFamilyIndex := VK_QUEUE_FAMILY_IGNORED
              image := Texture.Surface.Image
              subresourceRange := R }] } := by
      refine ⟨_, fun R => ?_, fun R => rfl⟩
      have hS2 : GetVkStageFlagsForLayout P VK_IMAGE_LAYOUT_COLOR_ATTACHMENT_OPTIMAL =
          some VK_PIPELINE_STAGE_COLOR_ATTACHMENT_OUTPUT_BIT := rfl
      have hA2 : GetVkAccessMaskForLayout P VK_IMAGE_LAYOUT_COLOR_ATTACHMENT_OPTIMAL =
          some VK_ACCESS_COLOR_ATTACHMENT_WRITE_BIT := rfl
      unfold AddImageLayoutTransition
      rw [hStage, hS2, hAccess, hA2]
      rfl
    cases hU : t.AreAllSubresourcesSameLayout with
    | true =>
      rw [hU, if_pos rfl, hAdd, Option.map_some'] at hVal
      have hE : t.SubresLayouts = [] := by
        unfold FVulkanImageLayout.AreAllSubresourcesSameLayout at hU
        exact List.length_eq_zero.mp (by simpa using hU)
      have hAll : ∀ l p, FVulkanImageLayout.GetSubresLayout
          { t with MainLayout := VK_IMAGE_LAYOUT_COLOR_ATTACHMENT_OPTIMAL } l p =
          some VK_IMAGE_LAYOUT_COLOR_ATTACHMENT_OPTIMAL :=
        fun l p => FVulkanImageLayout.GetSubresLayout_uniform
          { t with MainLayout := VK_IMAGE_LAYOUT_COLOR_ATTACHMENT_OPTIMAL } hE l p
      refine ⟨Current,
        (M.GetOrAddFullLayout Texture.Surface VK_IMAGE_LAYOUT_UNDEFINED).1.Assign
          Texture.Surface.Image { t with MainLayout := VK_IMAGE_LAYOUT_COLOR_ATTACHMENT_OPTIMAL },
        mk (MakeSubresourceRangeEntireRes VK_IMAGE_ASPECT_COLOR_BIT),
        { t with MainLayout := VK_IMAGE_LAYOUT_COLOR_ATTACHMENT_OPTIMAL }, hCur, ?_, FVulkanLayoutManager.Find_Assign_same _ _ t _ hFind0, ?_, hAll _ _,
        fun h => absurd h hc, fun _ => ⟨⟨SrcStage, SrcAccess, hStage, hAccess, ?_⟩,
          fun _ => hAll, fun h => absurd h.symm Bool.false_ne_true⟩⟩
      · rw [hVal]
        simp [hc]
      · intro Key hk
        rw [FVulkanLayoutManager.Find_Assign_other _ _ _ _ hk]
        exact hOther Key hk
      · rw [hmk]
        rfl
    | false =>
      rw [hU] at hVal
      simp only [Bool.false_eq_true, if_false, hAdd, Option.some_bind] at hVal
      have hIB : t.InBounds (MakeSubresourceRange VK_IMAGE_ASPECT_COLOR_BIT ColorEntry.MipIndex 1
          ColorEntry.ArraySlice 1) := by
        simp [FVulkanImageLayout.InBounds, FVulkanImageLayout.GetSubresRangeLayerCount,
          FVulkanImageLayout.GetSubresRangeMipCount, MakeSubresourceRange,
          VK_REMAINING_ARRAY_LAYERS, VK_REMAINING_MIP_LEVELS]
        omega
      obtain ⟨t1, hSet, _, _, _, hGet, _⟩ := FVulkanImageLayout.Set_spec t
        VK_IMAGE_LAYOUT_COLOR_ATTACHMENT_OPTIMAL _ hWF hIB
      rw [hSet, Option.map_some'] at hVal
      have hRange : ∀ l p, t.InRange (MakeSubresourceRange VK_IMAGE_ASPECT_COLOR_BIT
          ColorEntry.MipIndex 1 ColorEntry.ArraySlice 1) l p ↔
          (l = ColorEntry.ArraySlice ∧ p = ColorEntry.MipIndex) := by
        intro l p
        simp [FVulkanImageLayout.InRange, FVulkanImageLayout.GetSubresRangeLayerCount,
          FVulkanImageLayout.GetSubresRangeMipCount, MakeSubresourceRange,
          VK_REMAINING_ARRAY_LAYERS, VK_REMAINING_MIP_LEVELS]
        omega
      have hGet1 : ∀ l p, l < t.NumLayers → p < t.NumMips →
          t1.GetSubresLayout l p =
            if l = ColorEntry.ArraySlice ∧ p = ColorEntry.MipIndex then
              some VK_IMAGE_LAYOUT_COLOR_ATTACHMENT_OPTIMAL
            else t.GetSubresLayout l p := by
        intro l p hl hp
        rw [hGet l p hl hp]
        by_cases hr : l = ColorEntry.ArraySlice ∧ p = ColorEntry.MipIndex
        · rw [if_pos ((hRange l p).mpr hr), if_pos hr]
        · rw [if_neg (fun h => hr ((hRange l p).mp h)), if_neg hr]
      refine ⟨Current,
        (M.GetOrAddFullLayout Texture.Surface VK_IMAGE_LAYOUT_UNDEFINED).1.Assign
          Texture.Surface.Image t1,
        mk (MakeSubresourceRange VK_IMAGE_ASPECT_COLOR_BIT ColorEntry.MipIndex 1
          ColorEntry.ArraySlice 1),
        t1, hCur, ?_, FVulkanLayoutManager.Find_Assign_same _ _ t _ hFind0,
        ?_, ?_, fun h => absurd h hc, fun _ => ⟨⟨SrcStage, SrcAccess, hStage, hAccess, ?_⟩,
          fun h => absurd h Bool.false_ne_true, fun _ => hGet1⟩⟩
      · rw [hVal]
        simp [hc]
      · intro Key hk
        rw [FVulkanLayoutManager.Find_Assign_other _ _ _ _ hk]
        exact hOther Key hk
      · rw [hGet1 _ _ hSlice hMip, if_pos ⟨rfl, rfl⟩]
      · rw [hmk]
        rfl

open VkImageLayout in
theorem ValidateRenderPassColorEntry_fixes_layout_witness :
    ∃ M1 Barrier1 t1,
      FVulkanLayoutManager.ValidateRenderPassColorEntry ⟨true, true⟩
        ⟨[(7, ⟨2, 2, VK_IMAGE_LAYOUT_UNDEFINED,
          [VK_IMAGE_LAYOUT_SHADER_READ_ONLY_OPTIMAL, VK_IMAGE_LAYOUT_SHADER_READ_ONLY_OPTIMAL,
            VK_IMAGE_LAYOUT_COLOR_ATTACHMENT_OPTIMAL, VK_IMAGE_LAYOUT_SHADER_READ_ONLY_OPTIMAL]⟩)]⟩
        ⟨some ⟨⟨7, 1, false, 2, 2, false⟩⟩, none, 1, 1⟩ false
        ⟨ERHIPipeline.Graphics, ERHIPipeline.Graphics, 0, 0, ⟨0, 0⟩, [], [], [], none⟩ =
        some (M1, Barrier1, true) ∧
      M1.Find 7 = some t1 ∧
      t1.GetSubresLayout 1 1 = some VK_IMAGE_LAYOUT_COLOR_ATTACHMENT_OPTIMAL ∧
      t1.GetSubresLayout 0 1 = some VK_IMAGE_LAYOUT_SHADER_READ_ONLY_OPTIMAL ∧
      Barrier1.ImageBarriers =
        [⟨32, 256, VK_IMAGE_LAYOUT_SHADER_READ_ONLY_OPTIMAL,
          VK_IMAGE_LAYOUT_COLOR_ATTACHMENT_OPTIMAL, 4294967295, 4294967295, 7,
          ⟨1, 1, 1, 1, 1⟩⟩] := by
  obtain ⟨Current, M1, Barrier1, t1, hCur, hVal, hFind, _, hGet, _, hNe⟩ :=
    ValidateRenderPassColorEntry_fixes_layout ⟨true, true⟩
      ⟨[(7, ⟨2, 2, VK_IMAGE_LAYOUT_UNDEFINED,
        [VK_IMAGE_LAYOUT_SHADER_READ_ONLY_OPTIMAL, VK_IMAGE_LAYOUT_SHADER_READ_ONLY_OPTIMAL,
          VK_IMAGE_LAYOUT_COLOR_ATTACHMENT_OPTIMAL, VK_IMAGE_LAYOUT_SHADER_READ_ONLY_OPTIMAL]⟩)]⟩
      ⟨some ⟨⟨7, 1, false, 2, 2, false⟩⟩, none, 1, 1⟩ false
      ⟨ERHIPipeline.Graphics, ERHIPipeline.Graphics, 0, 0, ⟨0, 0⟩, [], [], [], none⟩
      ⟨⟨7, 1, false, 2, 2, false⟩⟩
      ⟨2, 2, VK_IMAGE_LAYOUT_UNDEFINED,
        [VK_IMAGE_LAYOUT_SHADER_READ_ONLY_OPTIMAL, VK_IMAGE_LAYOUT_SHADER_READ_ONLY_OPTIMAL,
          VK_IMAGE_LAYOUT_COLOR_ATTACHMENT_OPTIMAL, VK_IMAGE_LAYOUT_SHADER_READ_ONLY_OPTIMAL]⟩
      rfl (by decide) (by decide) (by decide) (by decide) (by decide)
      (by
        intro Current h _
        cases Current <;> first | exact ⟨_, _, rfl, rfl⟩ | exact absurd h (by decide))
  have hC : Current = VK_IMAGE_LAYOUT_SHADER_READ_ONLY_OPTIMAL :=
    Option.some.inj (hCur.symm.trans (by decide))
  subst hC
  obtain ⟨⟨SrcStage, SrcAccess, _, hAccess, hB⟩, _, hKeep⟩ := hNe (by decide)
  have hA : SrcAccess = 32 := Option.some.inj (hAccess.symm.trans (by decide))
  subst hA
  refine ⟨M1, Barrier1, t1, hVal, hFind, hGet, ?_, ?_⟩
  · exact hKeep (by decide) 0 1 (by decide) (by decide)
  · rw [hB]
    rfl

/-! ## Release and acquire barriers of a cross-queue transition: the access masks -/

namespace FVulkanLayoutManager

open VkImageLayout

theorem extends_trans (M0 M1 M2 : FVulkanLayoutManager)
    (h1 : ∀ Key, M1.Find Key = M0.Find Key ∨
      (M0.Find Key = none ∧ ∃ NumMips NumLayers, M1.Find Key =
        some (FVulkanImageLayout.New VK_IMAGE_LAYOUT_UNDEFINED NumMips NumLayers)))
    (h2 : ∀ Key, M2.Find Key = M1.Find Key ∨
      (M1.Find Key = none ∧ ∃ NumMips NumLayers, M2.Find Key =
        some (FVulkanImageLayout.New VK_IMAGE_LAYOUT_UNDEFINED NumMips NumLayers))) :
    ∀ Key, M2.Find Key = M0.Find Key ∨
      (M0.Find Key = none ∧ ∃ NumMips NumLayers, M2.Find Key =
        some (FVulkanImageLayout.New VK_IMAGE_LAYOUT_UNDEFINED NumMips NumLayers)) := by
  intro Key
  rcases h2 Key with k | ⟨k, a, b, k1⟩
  · rcases h1 Key with e1 | ⟨e1, a, b, e2⟩
    · exact Or.inl (k.trans e1)
    · exact Or.inr ⟨e1, a, b, k.trans e2⟩
  · rcases h1 Key with e1 | ⟨e1, _, _, e2⟩
    · exact Or.inr ⟨e1 ▸ k, a, b, k1⟩
    · rw [e2] at k; cases k

/-- The table that `GetOrAddFullLayout(Surface, VK_IMAGE_LAYOUT_UNDEFINED)` returns has the
same main layout, and is uniform or not alike, in a registry and in one that extends it by
fresh tables uniform at UNDEFINED. -/
theorem GetOrAddFullLayout_MainLayout_extends (M M1 : FVulkanLayoutManager)
    (hExt : ∀ Key, M1.Find Key = M.Find Key ∨
      (M.Find Key = none ∧ ∃ NumMips NumLayers, M1.Find Key =
        some (FVulkanImageLayout.New VK_IMAGE_LAYOUT_UNDEFINED NumMips NumLayers)))
    (Surface : FVulkanSurface) :
    (M1.GetOrAddFullLayout Surface VK_IMAGE_LAYOUT_UNDEFINED).2.MainLayout =
      (M.GetOrAddFullLayout Surface VK_IMAGE_LAYOUT_UNDEFINED).2.MainLayout ∧
    (M1.GetOrAddFullLayout Surface VK_IMAGE_LAYOUT_UNDEFINED).2.AreAllSubresourcesSameLayout =
      (M.GetOrAddFullLayout Surface VK_IMAGE_LAYOUT_UNDEFINED).2.AreAllSubresourcesSameLayout := by
  unfold GetOrAddFullLayout
  rcases hExt Surface.Image with h | ⟨h0, a, b, h1⟩
  · rw [h]
    cases M.Find Surface.Image <;> exact ⟨rfl, rfl⟩
  · rw [h0, h1]
    exact ⟨rfl, rfl⟩

end FVulkanLayoutManager

namespace RHIBeginTransitions

open VkImageLayout

/-- One iteration of the image loop of the release phase appends one barrier: its destination
access is 0, its queue family indices are the prepared ones, and its source access is the
prepared one unless the prepared old layout is UNDEFINED; then the table of the image is
uniform and the source access is the access mask of its layout. -/
theorem ImageBarrierBody_release (P : FVulkanPlatformDefines) (DO_GUARD_SLOW : Bool)
    (ImageBarrier : VkImageMemoryBarrier) (Texture : FVulkanTextureBase) (s s1 : FImageLoop)
    (h : ImageBarrierBody P DO_GUARD_SLOW ImageBarrier Texture s = some s1) :
    ∃ Real, s1.RealImageBarriers = s.RealImageBarriers ++ [Real] ∧
      Real.dstAccessMask = 0 ∧
      Real.srcQueueFamilyIndex = ImageBarrier.srcQueueFamilyIndex ∧
      Real.dstQueueFamilyIndex = ImageBarrier.dstQueueFamilyIndex ∧
      (ImageBarrier.oldLayout ≠ VK_IMAGE_LAYOUT_UNDEFINED →
        Real.srcAccessMask = ImageBarrier.srcAccessMask) ∧
      (ImageBarrier.oldLayout = VK_IMAGE_LAYOUT_UNDEFINED →
        (s.LayoutManager.GetOrAddFullLayout Texture.Surface
          VK_IMAGE_LAYOUT_UNDEFINED).2.AreAllSubresourcesSameLayout = true ∧
        GetVkAccessMaskForLayout P (s.LayoutManager.GetOrAddFullLayout Texture.Surface
          VK_IMAGE_LAYOUT_UNDEFINED).2.MainLayout = some Real.srcAccessMask) := by
  unfold ImageBarrierBody at h
  by_cases h1 : Texture.Surface.Image = VK_NULL_HANDLE
  · rw [if_pos h1] at h; cases h
  · rw [if_neg h1] at h
    by_cases h2 : ImageBarrier.newLayout = VK_IMAGE_LAYOUT_UNDEFINED
    · rw [if_pos h2] at h; cases h
    · rw [if_neg h2] at h
      simp only [Option.map_eq_some'] at h
      obtain ⟨S, hS, rfl⟩ := h
      obtain ⟨k1, k2, k3, k4⟩ := AdjustDepthStencilLayout_kept
        { ImageBarrier with
          image := Texture.Surface.Image
          srcAccessMask := S.2.1
          dstAccessMask := 0
          oldLayout := S.1
          newLayout := ImageBarrier.newLayout } Texture.Surface.FullAspectMask
      refine ⟨_, rfl, k2, k3, k4, ?_, ?_⟩
      · intro hO
        rw [k1]
        rw [if_neg hO] at hS
        split_ifs at hS
        cases hS
        rfl
      · intro hO
        rw [k1]
        rw [if_pos hO] at hS
        cases hU : (s.LayoutManager.GetOrAddFullLayout Texture.Surface
            VK_IMAGE_LAYOUT_UNDEFINED).2.AreAllSubresourcesSameLayout with
        | false =>
          rw [hU] at hS
          simp only [Bool.false_eq_true, if_false] at hS
          cases hS
        | true =>
          rw [hU] at hS
          simp only [if_true, Option.bind_eq_some, Option.map_eq_some'] at hS
          obtain ⟨a, ha, st, _, rfl⟩ := hS
          exact ⟨rfl, ha⟩

/-- The image loop of the release phase, started on a registry that extends `M0` by fresh
tables uniform at UNDEFINED: one barrier is appended per pair of the list, and a barrier
whose prepared old layout is UNDEFINED has the access mask of the layout tracked in `M0` as
its source access. -/
theorem ImageBarrierLoop_release (P : FVulkanPlatformDefines) (DO_GUARD_SLOW : Bool)
    (M0 : FVulkanLayoutManager) :
    ∀ (L : List (VkImageMemoryBarrier × FVulkanTextureBase)) (s s1 : FImageLoop),
      ImageBarrierLoop P DO_GUARD_SLOW L s = some s1 →
      (∀ Key, s.LayoutManager.Find Key = M0.Find Key ∨
        (M0.Find Key = none ∧ ∃ NumMips NumLayers, s.LayoutManager.Find Key =
          some (FVulkanImageLayout.New VK_IMAGE_LAYOUT_UNDEFINED NumMips NumLayers))) →
      ∃ New, s1.RealImageBarriers = s.RealImageBarriers ++ New ∧
        List.Forall₂ (fun Real e => Real.dstAccessMask = 0 ∧
            Real.srcQueueFamilyIndex = e.1.srcQueueFamilyIndex ∧
            Real.dstQueueFamilyIndex = e.1.dstQueueFamilyIndex ∧
            (e.1.oldLayout ≠ VK_IMAGE_LAYOUT_UNDEFINED →
              Real.srcAccessMask = e.1.srcAccessMask) ∧
            (e.1.oldLayout = VK_IMAGE_LAYOUT_UNDEFINED →
              GetVkAccessMaskForLayout P (M0.GetOrAddFullLayout e.2.Surface
                VK_IMAGE_LAYOUT_UNDEFINED).2.MainLayout = some Real.srcAccessMask))
          New L := by
  intro L
  induction L with
  | nil =>
    intro s s1 h _
    simp only [ImageBarrierLoop, Option.some.injEq] at h
    rw [← h]
    exact ⟨[], by simp, List.Forall₂.nil⟩
  | cons e Rest ih =>
    intro s s1 h hExt
    obtain ⟨IB, T⟩ := e
    simp only [ImageBarrierLoop] at h
    cases hb : ImageBarrierBody P DO_GUARD_SLOW IB T s with
    | none => rw [hb] at h; cases h
    | some s2 =>
      rw [hb] at h
      obtain ⟨Real, hR, k1, k2, k3, k4, k5⟩ :=
        ImageBarrierBody_release P DO_GUARD_SLOW IB T s s2 hb
      have hExt2 : ∀ Key, s2.LayoutManager.Find Key = M0.Find Key ∨
          (M0.Find Key = none ∧ ∃ NumMips NumLayers, s2.LayoutManager.Find Key =
            some (FVulkanImageLayout.New VK_IMAGE_LAYOUT_UNDEFINED NumMips NumLayers)) := by
        refine FVulkanLayoutManager.extends_trans M0 s.LayoutManager s2.LayoutManager hExt ?_
        rw [ImageBarrierBody_LayoutManager P DO_GUARD_SLOW IB T s s2 hb]
        exact fun Key => FVulkanLayoutManager.GetOrAddFullLayout_extends s.LayoutManager
          T.Surface Key
      obtain ⟨New, hN, hF⟩ := ih s2 s1 h hExt2
      refine ⟨Real :: New, ?_, List.Forall₂.cons ⟨k1, k2, k3, k4, ?_⟩ hF⟩
      · rw [hN, hR, List.append_assoc, List.singleton_append]
      · intro hO
        rw [← (FVulkanLayoutManager.GetOrAddFullLayout_MainLayout_extends M0 s.LayoutManager
          hExt T.Surface).1]
        exact (k5 hO).2

/-- One iteration of the loop over the transitions, on a cross-queue transition: either the
transition has no resource and nothing is recorded, or one pipeline barrier is recorded, with
the release barriers. -/
theorem TransitionBody_release (P : FVulkanPlatformDefines) (DO_GUARD_SLOW : Bool)
    (Data : FVulkanPipelineBarrier) (hCross : Data.SrcPipelines ≠ Data.DstPipelines)
    (s s1 : FState) (h : TransitionBody P DO_GUARD_SLOW Data s = some s1) :
    ∃ Calls, s1.Context.CommandBufferManager.RecordedPipelineBarriers =
        s.Context.CommandBufferManager.RecordedPipelineBarriers ++ Calls ∧
      (Data.ImageBarriers ≠ [] ∨ Data.BufferBarriers ≠ [] → Calls.length = 1) ∧
      ∀ Call ∈ Calls,
        Call.BufferBarriers = Data.BufferBarriers.map (fun BufferBarrier =>
          { BufferBarrier with dstAccessMask := 0 }) ∧
        Data.ImageBarriers.length = Data.Textures.length ∧
        List.Forall₂ (fun Real e => Real.dstAccessMask = 0 ∧
            Real.srcQueueFamilyIndex = e.1.srcQueueFamilyIndex ∧
            Real.dstQueueFamilyIndex = e.1.dstQueueFamilyIndex ∧
            (e.1.oldLayout ≠ VK_IMAGE_LAYOUT_UNDEFINED →
              Real.srcAccessMask = e.1.srcAccessMask) ∧
            (e.1.oldLayout = VK_IMAGE_LAYOUT_UNDEFINED →
              GetVkAccessMaskForLayout P (s.Context.LayoutManager.GetOrAddFullLayout e.2.Surface
                VK_IMAGE_LAYOUT_UNDEFINED).2.MainLayout = some Real.srcAccessMask))
          Call.ImageBarriers (Data.ImageBarriers.zip Data.Textures) := by
  unfold TransitionBody at h
  rw [if_neg hCross] at h
  by_cases hz : Data.SrcStageMask = 0 ∨ Data.DstStageMask = 0
  · rw [if_pos hz] at h
    by_cases hn : Data.ImageBarriers.length = 0 ∧ Data.BufferBarriers.length = 0
    · rw [if_pos hn] at h
      cases h
      refine ⟨[], by simp, ?_, by simp⟩
      intro hr
      rcases hr with hr | hr
      · exact absurd (List.length_eq_zero.mp hn.1) hr
      · exact absurd (List.length_eq_zero.mp hn.2) hr
    · rw [if_neg hn] at h; cases h
  · rw [if_neg hz] at h
    by_cases hg : DO_GUARD_SLOW = true ∧
        GuardSrcPipeline Data.SrcPipelines s.Context.bIsRealAsyncComputeContext = false
    · rw [if_pos hg] at h; cases h
    · rw [if_neg hg] at h
      by_cases hl : Data.ImageBarriers.length ≠ Data.Textures.length
      · rw [if_pos hl] at h; cases h
      · rw [if_neg hl] at h
        simp only [Option.bind_eq_some, Option.map_eq_some'] at h
        obtain ⟨r, hr, CBM, hCBM, Sem, _, rfl⟩ := h
        refine ⟨[_], FVulkanCommandBufferManager.RecordedPipelineBarriers_CmdPipelineBarrier _ CBM
          _ hCBM, fun _ => rfl, ?_⟩
        intro Call hCall
        rw [List.mem_singleton.mp hCall]
        refine ⟨rfl, not_not.mp hl, ?_⟩
        obtain ⟨New, hN, hF⟩ := ImageBarrierLoop_release P DO_GUARD_SLOW s.Context.LayoutManager
          _ _ r hr (fun _ => Or.inl rfl)
        rw [List.nil_append] at hN
        show List.Forall₂ _ r.RealImageBarriers _
        rw [hN]
        exact hF

/-- The release phase on a single cross-queue transition. -/
theorem single_release (P : FVulkanPlatformDefines) (DO_GUARD_SLOW : Bool)
    (Data : FVulkanPipelineBarrier) (hCross : Data.SrcPipelines ≠ Data.DstPipelines)
    (Context Context1 : FVulkanCommandListContext) (bEnsure : Bool)
    (h : RHIBeginTransitions P DO_GUARD_SLOW Context [Data] = some (Context1, bEnsure)) :
    ∃ Calls, Context1.CommandBufferManager.RecordedPipelineBarriers =
        Context.CommandBufferManager.RecordedPipelineBarriers ++ Calls ∧
      (Data.ImageBarriers ≠ [] ∨ Data.BufferBarriers ≠ [] → Calls.length = 1) ∧
      ∀ Call ∈ Calls,
        Call.BufferBarriers = Data.BufferBarriers.map (fun BufferBarrier =>
          { BufferBarrier with dstAccessMask := 0 }) ∧
        Data.ImageBarriers.length = Data.Textures.length ∧
        List.Forall₂ (fun Real e => Real.dstAccessMask = 0 ∧
            Real.srcQueueFamilyIndex = e.1.srcQueueFamilyIndex ∧
            Real.dstQueueFamilyIndex = e.1.dstQueueFamilyIndex ∧
            (e.1.oldLayout ≠ VK_IMAGE_LAYOUT_UNDEFINED →
              Real.srcAccessMask = e.1.srcAccessMask) ∧
            (e.1.oldLayout = VK_IMAGE_LAYOUT_UNDEFINED →
              GetVkAccessMaskForLayout P (Context.LayoutManager.GetOrAddFullLayout e.2.Surface
                VK_IMAGE_LAYOUT_UNDEFINED).2.MainLayout = some Real.srcAccessMask))
          Call.ImageBarriers (Data.ImageBarriers.zip Data.Textures) := by
  unfold RHIBeginTransitions at h
  simp only [Option.bind_eq_some] at h
  obtain ⟨s, hs, h⟩ := h
  have hBody : TransitionBody P DO_GUARD_SLOW Data
      { Context := Context, SignalSemaphores := [], bEnsureFailed := false } = some s := by
    simp only [TransitionLoop] at hs
    cases hb : TransitionBody P DO_GUARD_SLOW Data
      { Context := Context, SignalSemaphores := [], bEnsureFailed := false } with
    | none => rw [hb] at hs; cases hs
    | some s2 => rw [hb] at hs; exact hs
  obtain ⟨Calls, hRec, hLen, hCalls⟩ := TransitionBody_release P DO_GUARD_SLOW Data hCross _ s hBody
  refine ⟨Calls, ?_, hLen, hCalls⟩
  rw [← hRec]
  by_cases hS : s.SignalSemaphores.length > 0
  · rw [if_pos hS] at h
    simp only [Option.map_eq_some', Prod.mk.injEq] at h
    obtain ⟨CBM, hSub, rfl, _⟩ := h
    show CBM.PrepareForNewActiveCommandBuffer.RecordedPipelineBarriers = _
    rw [FVulkanCommandBufferManager.RecordedPipelineBarriers_Prepare CBM
        (FVulkanCommandBufferManager.Submit_ActiveCmdBuffer _ CBM _ hSub),
      FVulkanCommandBufferManager.RecordedPipelineBarriers_Submit _ CBM _ hSub]
  · rw [if_neg hS] at h
    simp only [Option.some.injEq, Prod.mk.injEq] at h
    rw [← h.1]

end RHIBeginTransitions

namespace RHIEndTransitions

open VkImageLayout

/-- One iteration of the image loop of the acquire phase of a cross-queue transition: a
CPU-readback texture is skipped; otherwise one barrier is appended, with source access 0 and
the destination access and queue family indices of the prepared barrier. -/
theorem ImageBarrierBody_acquire {OnLayoutTransition : FVulkanTextureBase → VkImageLayout → Nat}
    (P : FVulkanPlatformDefines) (DO_GUARD_SLOW : Bool)
    (Data : FVulkanPipelineBarrier) (hCross : Data.SrcPipelines ≠ Data.DstPipelines)
    (ImageBarrier : VkImageMemoryBarrier) (Texture : FVulkanTextureBase) (s s1 : FImageLoop)
    (h : ImageBarrierBody OnLayoutTransition P DO_GUARD_SLOW Data ImageBarrier Texture s = some s1) :
    (Texture.Surface.bCPUReadback = true ∧ s1.RealImageBarriers = s.RealImageBarriers) ∨
    (Texture.Surface.bCPUReadback = false ∧
      ∃ Real, s1.RealImageBarriers = s.RealImageBarriers ++ [Real] ∧
        Real.srcAccessMask = 0 ∧ Real.dstAccessMask = ImageBarrier.dstAccessMask ∧
        Real.srcQueueFamilyIndex = ImageBarrier.srcQueueFamilyIndex ∧
        Real.dstQueueFamilyIndex = ImageBarrier.dstQueueFamilyIndex) := by
  have hCommit : ∀ Texture1 M Layout SrcLayout SrcAccessFlags Stage Calls,
      CommitBarrier Data ImageBarrier Texture1 M Layout SrcLayout SrcAccessFlags Stage Calls s =
        some s1 →
      ∃ Real, s1.RealImageBarriers = s.RealImageBarriers ++ [Real] ∧
        Real.srcAccessMask = 0 ∧ Real.dstAccessMask = ImageBarrier.dstAccessMask ∧
        Real.srcQueueFamilyIndex = ImageBarrier.srcQueueFamilyIndex ∧
        Real.dstQueueFamilyIndex = ImageBarrier.dstQueueFamilyIndex := by
    intro Texture1 M Layout SrcLayout SrcAccessFlags Stage Calls hC
    obtain ⟨_, k2, k3, k4⟩ := AdjustDepthStencilLayout_kept
      { ImageBarrier with
        image := Texture1.Surface.Image
        srcAccessMask := SrcAccessFlags
        oldLayout := SrcLayout
        newLayout := ImageBarrier.newLayout } Texture1.Surface.FullAspectMask
    rcases CommitBarrier_cases Data ImageBarrier Texture1 M Layout SrcLayout SrcAccessFlags Stage
      Calls s s1 _ rfl hC with ⟨hSame, _, _⟩ | ⟨_, Layout1, _, rfl⟩
    · exact absurd hSame hCross
    · refine ⟨_, rfl, ?_⟩
      rw [if_neg hCross]
      exact ⟨rfl, k2, k3, k4⟩
  rcases ImageBarrierBody_cases P DO_GUARD_SLOW Data ImageBarrier Texture s s1 h _ rfl with
    ⟨hR, rfl⟩ | ⟨hR, _, _, _, ⟨_, _, _, _, _, _, hC⟩ | ⟨_, _, hSame, _⟩ | ⟨_, _, hC⟩⟩
  · exact Or.inl ⟨hR, rfl⟩
  · exact Or.inr ⟨hR, hCommit _ _ _ _ _ _ _ hC⟩
  · exact absurd hSame hCross
  · exact Or.inr ⟨hR, hCommit _ _ _ _ _ _ _ hC⟩

theorem ImageBarrierLoop_acquire {OnLayoutTransition : FVulkanTextureBase → VkImageLayout → Nat}
    (P : FVulkanPlatformDefines) (DO_GUARD_SLOW : Bool)
    (Data : FVulkanPipelineBarrier) (hCross : Data.SrcPipelines ≠ Data.DstPipelines) :
    ∀ (L : List (VkImageMemoryBarrier × FVulkanTextureBase)) (s s1 : FImageLoop),
      ImageBarrierLoop OnLayoutTransition P DO_GUARD_SLOW Data L s = some s1 →
      ∃ New, s1.RealImageBarriers = s.RealImageBarriers ++ New ∧
        List.Forall₂ (fun Real b => Real.srcAccessMask = 0 ∧
            Real.dstAccessMask = b.dstAccessMask ∧
            Real.srcQueueFamilyIndex = b.srcQueueFamilyIndex ∧
            Real.dstQueueFamilyIndex = b.dstQueueFamilyIndex)
          New ((L.filter (fun e => !e.2.Surface.bCPUReadback)).map Prod.fst) := by
  intro L
  induction L with
  | nil =>
    intro s s1 h
    simp only [ImageBarrierLoop, Option.some.injEq] at h
    rw [← h]
    exact ⟨[], by simp, List.Forall₂.nil⟩
  | cons e Rest ih =>
    intro s s1 h
    obtain ⟨IB, T⟩ := e
    simp only [ImageBarrierLoop] at h
    cases hb : ImageBarrierBody OnLayoutTransition P DO_GUARD_SLOW Data IB T s with
    | none => rw [hb] at h; cases h
    | some s2 =>
      rw [hb] at h
      obtain ⟨New, hN, hF⟩ := ih s2 s1 h
      rcases ImageBarrierBody_acquire P DO_GUARD_SLOW Data hCross IB T s s2 hb with
        ⟨hR, hE⟩ | ⟨hR, Real, hE, k⟩
      · refine ⟨New, by rw [hN, hE], ?_⟩
        simpa [List.filter_cons, hR] using hF
      · refine ⟨Real :: New, by rw [hN, hE, List.append_assoc, List.singleton_append], ?_⟩
        simp only [List.filter_cons, hR, Bool.not_false, if_true, List.map_cons]
        exact List.Forall₂.cons k hF

/-- One iteration of the second loop on a cross-queue transition: at most one pipeline
barrier is recorded, with the acquire barriers. -/
theorem TransitionBody_acquire {OnLayoutTransition : FVulkanTextureBase → VkImageLayout → Nat}
    (P : FVulkanPlatformDefines) (DO_GUARD_SLOW : Bool)
    (Data : FVulkanPipelineBarrier) (hCross : Data.SrcPipelines ≠ Data.DstPipelines)
    (s s1 : FState) (h : TransitionBody OnLayoutTransition P DO_GUARD_SLOW Data s = some s1) :
    ∃ Calls, s1.Context.CommandBufferManager.RecordedPipelineBarriers =
        s.Context.CommandBufferManager.RecordedPipelineBarriers ++ Calls ∧
      (Data.BufferBarriers ≠ [] → Calls.length = 1) ∧
      ∀ Call ∈ Calls,
        Call.BufferBarriers = Data.BufferBarriers.map (fun BufferBarrier =>
          { BufferBarrier with srcAccessMask := 0 }) ∧
        List.Forall₂ (fun Real b => Real.srcAccessMask = 0 ∧
            Real.dstAccessMask = b.dstAccessMask ∧
            Real.srcQueueFamilyIndex = b.srcQueueFamilyIndex ∧
            Real.dstQueueFamilyIndex = b.dstQueueFamilyIndex)
          Call.ImageBarriers
          (((Data.ImageBarriers.zip Data.Textures).filter
            (fun e => !e.2.Surface.bCPUReadback)).map Prod.fst) := by
  have hnz : Data.BufferBarriers ≠ [] → ¬(Data.SrcStageMask = 0 ∨ Data.DstStageMask = 0) :=
    fun hne => (TransitionBody_run P DO_GUARD_SLOW Data s s1 h (Or.inr hne)).1
  rcases TransitionBody_cases P DO_GUARD_SLOW Data s s1 h with ⟨hz, rfl⟩ |
    ⟨_, _, _, _, r, hr, ⟨_, _, hB, _, rfl⟩ | ⟨CBM, hCBM, rfl⟩⟩
  · exact ⟨[], by simp, fun hne => absurd hz (hnz hne), by simp⟩
  · exact ⟨[], by simp, fun hne => absurd hB hne, by simp⟩
  · refine ⟨[_], FVulkanCommandBufferManager.RecordedPipelineBarriers_CmdPipelineBarrier _ CBM
      _ hCBM, fun _ => rfl, ?_⟩
    intro Call hCall
    rw [List.mem_singleton.mp hCall]
    refine ⟨rfl, ?_⟩
    obtain ⟨New, hN, hF⟩ := ImageBarrierLoop_acquire P DO_GUARD_SLOW Data hCross _ _ r hr
    rw [List.nil_append] at hN
    show List.Forall₂ _ r.RealImageBarriers _
    rw [hN]
    exact hF

/-- The acquire phase on a single cross-queue transition. -/
theorem single_acquire {OnLayoutTransition : FVulkanTextureBase → VkImageLayout → Nat}
    (P : FVulkanPlatformDefines) (DO_GUARD_SLOW : Bool)
    (Data : FVulkanPipelineBarrier) (hCross : Data.SrcPipelines ≠ Data.DstPipelines)
    (Context Context1 : FVulkanCommandListContext) (bEnsure : Bool)
    (h : RHIEndTransitions OnLayoutTransition P DO_GUARD_SLOW Context [Data] =
      some (Context1, bEnsure)) :
    ∃ Calls, Context1.CommandBufferManager.RecordedPipelineBarriers =
        Context.CommandBufferManager.RecordedPipelineBarriers ++ Calls ∧
      (Data.BufferBarriers ≠ [] → Calls.length = 1) ∧
      ∀ Call ∈ Calls,
        Call.BufferBarriers = Data.BufferBarriers.map (fun BufferBarrier =>
          { BufferBarrier with srcAccessMask := 0 }) ∧
        List.Forall₂ (fun Real b => Real.srcAccessMask = 0 ∧
            Real.dstAccessMask = b.dstAccessMask ∧
            Real.srcQueueFamilyIndex = b.srcQueueFamilyIndex ∧
            Real.dstQueueFamilyIndex = b.dstQueueFamilyIndex)
          Call.ImageBarriers
          (((Data.ImageBarriers.zip Data.Textures).filter
            (fun e => !e.2.Surface.bCPUReadback)).map Prod.fst) := by
  simp only [RHIEndTransitions, Option.bind_eq_some, Option.map_eq_some', Prod.mk.injEq] at h
  obtain ⟨w, hw, s1, hs1, rfl, _⟩ := h
  have hBody : TransitionBody OnLayoutTransition P DO_GUARD_SLOW Data
      { Context := { Context with CommandBufferManager := w.CommandBufferManager }
        bEnsureFailed := false } = some s1 := by
    simp only [TransitionLoop] at hs1
    cases hb : TransitionBody OnLayoutTransition P DO_GUARD_SLOW Data
      { Context := { Context with CommandBufferManager := w.CommandBufferManager }
        bEnsureFailed := false } with
    | none => rw [hb] at hs1; cases hs1
    | some s2 => rw [hb] at hs1; exact hs1
  obtain ⟨Calls, hRec, hLen, hCalls⟩ := TransitionBody_acquire P DO_GUARD_SLOW Data hCross _ s1
    hBody
  refine ⟨Calls, ?_, hLen, hCalls⟩
  rw [hRec]
  show w.CommandBufferManager.RecordedPipelineBarriers ++ _ = _
  rw [WaitLoop_RecordedPipelineBarriers [Data] _ w hw]

end RHIEndTransitions

open VkImageLayout in
/-- C25 (counterexample): a cross-queue transition with a texture entry whose access-before
is unknown: the image barrier that `RHIBeginTransitions` records has the access mask of the
tracked layout as its source access, not the prepared source access. -/
theorem RHIBeginTransitions_release_resolves_source_access :
    ∃ (Data : FVulkanPipelineBarrier) (Context1 : FVulkanCommandListContext)
      (Call : FVulkanCmdPipelineBarrier) (Real b : VkImageMemoryBarrier),
      RHICreateTransition ERHIAccess.Generic.FromComments 0 1 99 ERHIPipeline.Graphics
        ERHIPipeline.AsyncCompute
        [⟨some (FRHITransitionInfo.FResource.StructuredBuffer ⟨5⟩), ERHIAccess.UAVGraphics,
          ERHIAccess.UAVCompute, FRHISubresourceRange.kAllSubresources,
          FRHISubresourceRange.kAllSubresources, FRHISubresourceRange.kAllSubresources⟩,
         ⟨some (FRHITransitionInfo.FResource.Texture ⟨⟨7, 1, false, 1, 1, false⟩⟩),
          ERHIAccess.Unknown, ERHIAccess.SRVCompute, FRHISubresourceRange.kAllSubresources,
          FRHISubresourceRange.kAllSubresources, FRHISubresourceRange.kAllSubresources⟩] =
        some (Data, false) ∧
      RHIBeginTransitions ⟨true, true⟩ true
        ⟨⟨[(7, ⟨1, 1, VK_IMAGE_LAYOUT_COLOR_ATTACHMENT_OPTIMAL, []⟩)]⟩, ⟨some ⟨[], []⟩, []⟩,
          false, []⟩ [Data] = some (Context1, false) ∧
      Context1.CommandBufferManager.RecordedPipelineBarriers = [Call] ∧
      Call.ImageBarriers = [Real] ∧ Data.ImageBarriers = [b] ∧
      b.srcAccessMask = VK_ACCESS_MEMORY_READ_BIT ||| VK_ACCESS_MEMORY_WRITE_BIT ∧
      Real.srcAccessMask = VK_ACCESS_COLOR_ATTACHMENT_WRITE_BIT ∧
      Real.srcAccessMask ≠ b.srcAccessMask :=
  ⟨⟨ERHIPipeline.Graphics, ERHIPipeline.AsyncCompute, 65784, 2048, ⟨0, 0⟩,
      [⟨98304, 0, VK_IMAGE_LAYOUT_UNDEFINED, VK_IMAGE_LAYOUT_SHADER_READ_ONLY_OPTIMAL, 0, 1, 0,
        ⟨1, 0, 4294967295, 0, 4294967295⟩⟩],
      [⟨⟨7, 1, false, 1, 1, false⟩⟩], [⟨96, 96, 0, 1, 5, 0, 18446744073709551615⟩], some 99⟩,
    ⟨⟨[(7, ⟨1, 1, VK_IMAGE_LAYOUT_COLOR_ATTACHMENT_OPTIMAL, []⟩)]⟩,
      ⟨some ⟨[], []⟩,
        [(⟨[⟨66808, 2048, [], [⟨96, 0, 0, 1, 5, 0, 18446744073709551615⟩],
          [⟨256, 0, VK_IMAGE_LAYOUT_COLOR_ATTACHMENT_OPTIMAL,
            VK_IMAGE_LAYOUT_SHADER_READ_ONLY_OPTIMAL, 0, 1, 7,
            ⟨1, 0, 4294967295, 0, 4294967295⟩⟩]⟩], []⟩, [99])]⟩, false, []⟩,
    ⟨66808, 2048, [], [⟨96, 0, 0, 1, 5, 0, 18446744073709551615⟩],
      [⟨256, 0, VK_IMAGE_LAYOUT_COLOR_ATTACHMENT_OPTIMAL, VK_IMAGE_LAYOUT_SHADER_READ_ONLY_OPTIMAL,
        0, 1, 7, ⟨1, 0, 4294967295, 0, 4294967295⟩⟩]⟩,
    ⟨256, 0, VK_IMAGE_LAYOUT_COLOR_ATTACHMENT_OPTIMAL, VK_IMAGE_LAYOUT_SHADER_READ_ONLY_OPTIMAL,
      0, 1, 7, ⟨1, 0, 4294967295, 0, 4294967295⟩⟩,
    ⟨98304, 0, VK_IMAGE_LAYOUT_UNDEFINED, VK_IMAGE_LAYOUT_SHADER_READ_ONLY_OPTIMAL, 0, 1, 0,
      ⟨1, 0, 4294967295, 0, 4294967295⟩⟩,
    by decide, by decide, by decide, by decide, by decide, by decide, by decide, by decide⟩

open RHICreateTransition VkImageLayout in
/-- C25 (amended): release and acquire access masks of a cross-queue transition. For every
cross-queue transition that is built, each entry that resolves to a buffer yields exactly one
buffer barrier, and every prepared buffer and image barrier carries the queue family indices
of the source and destination queues. The pipeline barrier that `RHIBeginTransitions` records
for the transition (exactly one when the transition has a resource) holds the prepared buffer
barriers with destination access 0, source access and queue family indices kept, and one
image barrier per prepared image barrier, with destination access 0, the prepared queue
family indices and, when the prepared old layout is not UNDEFINED, the prepared source
access; when it is UNDEFINED the source access is the access mask for the tracked layout of
the image of its texture (the main layout of the table that `GetOrAddFullLayout` gives for
the surface in the layout manager of the context). The pipeline barrier that
`RHIEndTransitions` records for it holds the prepared buffer barriers with source access 0,
destination access and queue family indices kept, and one image barrier per prepared image
barrier of a texture that is not a CPU-readback texture, with source access 0 and the
prepared destination access and queue family indices. -/
theorem RHICreateTransition_cross_queue_access_masks (G : ERHIAccess.Generic)
    (OnLayoutTransition : FVulkanTextureBase → VkImageLayout → Nat)
    (P : FVulkanPlatformDefines) (DO_GUARD_SLOW : Bool)
    (GfxQueueIndex ComputeQueueIndex NewSemaphore : Nat) (SrcPipelines DstPipelines : ERHIPipeline)
    (Infos : List FRHITransitionInfo) (Data : FVulkanPipelineBarrier) (bEnsure : Bool)
    (hCross : SrcPipelines ≠ DstPipelines)
    (hCreate : RHICreateTransition G GfxQueueIndex ComputeQueueIndex NewSemaphore SrcPipelines
      DstPipelines Infos = some (Data, bEnsure)) :
    Data.BufferBarriers.map (fun b => b.buffer) = Infos.filterMap BufferOfInfo ∧
    (∀ b ∈ Data.BufferBarriers,
      b.srcQueueFamilyIndex =
        SrcQueueFamilyIndex GfxQueueIndex ComputeQueueIndex SrcPipelines DstPipelines ∧
      b.dstQueueFamilyIndex =
        DstQueueFamilyIndex GfxQueueIndex ComputeQueueIndex SrcPipelines DstPipelines) ∧
    (∀ b ∈ Data.ImageBarriers,
      b.srcQueueFamilyIndex =
        SrcQueueFamilyIndex GfxQueueIndex ComputeQueueIndex SrcPipelines DstPipelines ∧
      b.dstQueueFamilyIndex =
        DstQueueFamilyIndex GfxQueueIndex ComputeQueueIndex SrcPipelines DstPipelines) ∧
    (∀ (Context Context1 : FVulkanCommandListContext) (bEnsure1 : Bool),
      RHIBeginTransitions P DO_GUARD_SLOW Context [Data] = some (Context1, bEnsure1) →
      ∃ Calls, Context1.CommandBufferManager.RecordedPipelineBarriers =
          Context.CommandBufferManager.RecordedPipelineBarriers ++ Calls ∧
        (Data.ImageBarriers ≠ [] ∨ Data.BufferBarriers ≠ [] → Calls.length = 1) ∧
        ∀ Call ∈ Calls,
          Call.BufferBarriers = Data.BufferBarriers.map (fun BufferBarrier =>
            { BufferBarrier with dstAccessMask := 0 }) ∧
          Call.ImageBarriers.length = Data.ImageBarriers.length ∧
          List.Forall₂ (fun Real e => Real.dstAccessMask = 0 ∧
              Real.srcQueueFamilyIndex = e.1.srcQueueFamilyIndex ∧
              Real.dstQueueFamilyIndex = e.1.dstQueueFamilyIndex ∧
              (e.1.oldLayout ≠ VK_IMAGE_LAYOUT_UNDEFINED →
                Real.srcAccessMask = e.1.srcAccessMask) ∧
              (e.1.oldLayout = VK_IMAGE_LAYOUT_UNDEFINED →
                GetVkAccessMaskForLayout P (Context.LayoutManager.GetOrAddFullLayout e.2.Surface
                  VK_IMAGE_LAYOUT_UNDEFINED).2.MainLayout = some Real.srcAccessMask))
            Call.ImageBarriers (Data.ImageBarriers.zip Data.Textures)) ∧
    ∀ (Context Context1 : FVulkanCommandListContext) (bEnsure1 : Bool),
      RHIEndTransitions OnLayoutTransition P DO_GUARD_SLOW Context [Data] =
        some (Context1, bEnsure1) →
      ∃ Calls, Context1.CommandBufferManager.RecordedPipelineBarriers =
          Context.CommandBufferManager.RecordedPipelineBarriers ++ Calls ∧
        (Data.BufferBarriers ≠ [] → Calls.length = 1) ∧
        ∀ Call ∈ Calls,
          Call.BufferBarriers = Data.BufferBarriers.map (fun BufferBarrier =>
            { BufferBarrier with srcAccessMask := 0 }) ∧
          List.Forall₂ (fun Real b => Real.srcAccessMask = 0 ∧
              Real.dstAccessMask = b.dstAccessMask ∧
              Real.srcQueueFamilyIndex = b.srcQueueFamilyIndex ∧
              Real.dstQueueFamilyIndex = b.dstQueueFamilyIndex)
            Call.ImageBarriers
            (((Data.ImageBarriers.zip Data.Textures).filter
              (fun e => !e.2.Surface.bCPUReadback)).map Prod.fst) := by
  obtain ⟨hS, hD, hB, hQB, hQI⟩ := cross_queue_data G GfxQueueIndex ComputeQueueIndex NewSemaphore
    SrcPipelines DstPipelines hCross Infos Data bEnsure hCreate
  have hCrossD : Data.SrcPipelines ≠ Data.DstPipelines := by rw [hS, hD]; exact hCross
  refine ⟨hB, hQB, hQI, ?_,
    fun Context Context1 bEnsure1 h =>
      RHIEndTransitions.single_acquire P DO_GUARD_SLOW Data hCrossD Context Context1 bEnsure1 h⟩
  intro Context Context1 bEnsure1 h
  obtain ⟨Calls, hRec, hLen, hCalls⟩ := RHIBeginTransitions.single_release P DO_GUARD_SLOW Data
    hCrossD Context Context1 bEnsure1 h
  refine ⟨Calls, hRec, hLen, fun Call hCall => ?_⟩
  obtain ⟨c1, c2, c3⟩ := hCalls Call hCall
  refine ⟨c1, ?_, c3⟩
  rw [List.Forall₂.length_eq c3, List.length_zip, ← c2, Nat.min_self]

open RHICreateTransition VkImageLayout in
theorem RHICreateTransition_cross_queue_access_masks_witness :
    (⟨ERHIPipeline.Graphics, ERHIPipeline.AsyncCompute, 65784, 2048, ⟨0, 0⟩,
        [⟨98304, 0, VK_IMAGE_LAYOUT_UNDEFINED, VK_IMAGE_LAYOUT_SHADER_READ_ONLY_OPTIMAL, 0, 1, 0,
          ⟨1, 0, 4294967295, 0, 4294967295⟩⟩],
        [⟨⟨7, 1, false, 1, 1, false⟩⟩], [⟨96, 96, 0, 1, 5, 0, 18446744073709551615⟩],
        some 99⟩ : FVulkanPipelineBarrier).BufferBarriers.map (fun b => b.buffer) =
      List.filterMap BufferOfInfo
        [⟨some (FRHITransitionInfo.FResource.StructuredBuffer ⟨5⟩), ERHIAccess.UAVGraphics,
          ERHIAccess.UAVCompute, FRHISubresourceRange.kAllSubresources,
          FRHISubresourceRange.kAllSubresources, FRHISubresourceRange.kAllSubresources⟩,
         ⟨some (FRHITransitionInfo.FResource.Texture ⟨⟨7, 1, false, 1, 1, false⟩⟩),
          ERHIAccess.Unknown, ERHIAccess.SRVCompute, FRHISubresourceRange.kAllSubresources,
          FRHISubresourceRange.kAllSubresources, FRHISubresourceRange.kAllSubresources⟩] ∧
    (∃ Calls,
      (⟨⟨[(7, ⟨1, 1, VK_IMAGE_LAYOUT_COLOR_ATTACHMENT_OPTIMAL, []⟩)]⟩,
        ⟨some ⟨[], []⟩,
          [(⟨[⟨66808, 2048, [], [⟨96, 0, 0, 1, 5, 0, 18446744073709551615⟩],
            [⟨256, 0, VK_IMAGE_LAYOUT_COLOR_ATTACHMENT_OPTIMAL,
              VK_IMAGE_LAYOUT_SHADER_READ_ONLY_OPTIMAL, 0, 1, 7,
              ⟨1, 0, 4294967295, 0, 4294967295⟩⟩]⟩], []⟩, [99])]⟩, false, []⟩ :
          FVulkanCommandListContext).CommandBufferManager.RecordedPipelineBarriers =
        (⟨⟨[(7, ⟨1, 1, VK_IMAGE_LAYOUT_COLOR_ATTACHMENT_OPTIMAL, []⟩)]⟩, ⟨some ⟨[], []⟩, []⟩,
          false, []⟩ :
          FVulkanCommandListContext).CommandBufferManager.RecordedPipelineBarriers ++ Calls ∧
      Calls.length = 1 ∧
      ∀ Call ∈ Calls, ∀ Real ∈ Call.ImageBarriers,
        GetVkAccessMaskForLayout ⟨true, true⟩ VK_IMAGE_LAYOUT_COLOR_ATTACHMENT_OPTIMAL =
          some Real.srcAccessMask) ∧
    ∃ Calls,
      (⟨⟨[(7, ⟨1, 1, VK_IMAGE_LAYOUT_SHADER_READ_ONLY_OPTIMAL, []⟩)]⟩,
        ⟨some ⟨[⟨66808, 2048, [], [⟨0, 96, 0, 1, 5, 0, 18446744073709551615⟩],
          [⟨0, 0, VK_IMAGE_LAYOUT_COLOR_ATTACHMENT_OPTIMAL,
            VK_IMAGE_LAYOUT_SHADER_READ_ONLY_OPTIMAL, 0, 1, 7,
            ⟨1, 0, 4294967295, 0, 4294967295⟩⟩]⟩], [(1, 99)]⟩, [(⟨[], []⟩, [])]⟩, true,
        [(⟨⟨7, 1, false, 1, 1, false⟩⟩, VK_IMAGE_LAYOUT_SHADER_READ_ONLY_OPTIMAL)]⟩ :
          FVulkanCommandListContext).CommandBufferManager.RecordedPipelineBarriers =
        (⟨⟨[(7, ⟨1, 1, VK_IMAGE_LAYOUT_COLOR_ATTACHMENT_OPTIMAL, []⟩)]⟩, ⟨some ⟨[], []⟩, []⟩,
          true, []⟩ :
          FVulkanCommandListContext).CommandBufferManager.RecordedPipelineBarriers ++ Calls ∧
      Calls.length = 1 := by
  have T := RHICreateTransition_cross_queue_access_masks ERHIAccess.Generic.FromComments
    (fun Texture _ => Texture.Surface.Image)
    ⟨true, true⟩ true 0 1 99 ERHIPipeline.Graphics ERHIPipeline.AsyncCompute
    [⟨some (FRHITransitionInfo.FResource.StructuredBuffer ⟨5⟩), ERHIAccess.UAVGraphics,
      ERHIAccess.UAVCompute, FRHISubresourceRange.kAllSubresources,
      FRHISubresourceRange.kAllSubresources, FRHISubresourceRange.kAllSubresources⟩,
     ⟨some (FRHITransitionInfo.FResource.Texture ⟨⟨7, 1, false, 1, 1, false⟩⟩),
      ERHIAccess.Unknown, ERHIAccess.SRVCompute, FRHISubresourceRange.kAllSubresources,
      FRHISubresourceRange.kAllSubresources, FRHISubresourceRange.kAllSubresources⟩]
    ⟨ERHIPipeline.Graphics, ERHIPipeline.AsyncCompute, 65784, 2048, ⟨0, 0⟩,
      [⟨98304, 0, VK_IMAGE_LAYOUT_UNDEFINED, VK_IMAGE_LAYOUT_SHADER_READ_ONLY_OPTIMAL, 0, 1, 0,
        ⟨1, 0, 4294967295, 0, 4294967295⟩⟩],
      [⟨⟨7, 1, false, 1, 1, false⟩⟩], [⟨96, 96, 0, 1, 5, 0, 18446744073709551615⟩], some 99⟩
    false (by decide) (by decide)
  obtain ⟨C1, h1, h2, h3⟩ := T.2.2.2.1
    ⟨⟨[(7, ⟨1, 1, VK_IMAGE_LAYOUT_COLOR_ATTACHMENT_OPTIMAL, []⟩)]⟩, ⟨some ⟨[], []⟩, []⟩,
      false, []⟩
    ⟨⟨[(7, ⟨1, 1, VK_IMAGE_LAYOUT_COLOR_ATTACHMENT_OPTIMAL, []⟩)]⟩,
      ⟨some ⟨[], []⟩,
        [(⟨[⟨66808, 2048, [], [⟨96, 0, 0, 1, 5, 0, 18446744073709551615⟩],
          [⟨256, 0, VK_IMAGE_LAYOUT_COLOR_ATTACHMENT_OPTIMAL,
            VK_IMAGE_LAYOUT_SHADER_READ_ONLY_OPTIMAL, 0, 1, 7,
            ⟨1, 0, 4294967295, 0, 4294967295⟩⟩]⟩], []⟩, [99])]⟩, false, []⟩
    false (by decide)
  obtain ⟨C2, g1, g2, _⟩ := T.2.2.2.2
    ⟨⟨[(7, ⟨1, 1, VK_IMAGE_LAYOUT_COLOR_ATTACHMENT_OPTIMAL, []⟩)]⟩, ⟨some ⟨[], []⟩, []⟩,
      true, []⟩
    ⟨⟨[(7, ⟨1, 1, VK_IMAGE_LAYOUT_SHADER_READ_ONLY_OPTIMAL, []⟩)]⟩,
      ⟨some ⟨[⟨66808, 2048, [], [⟨0, 96, 0, 1, 5, 0, 18446744073709551615⟩],
        [⟨0, 0, VK_IMAGE_LAYOUT_COLOR_ATTACHMENT_OPTIMAL,
          VK_IMAGE_LAYOUT_SHADER_READ_ONLY_OPTIMAL, 0, 1, 7,
          ⟨1, 0, 4294967295, 0, 4294967295⟩⟩]⟩], [(1, 99)]⟩, [(⟨[], []⟩, [])]⟩, true,
      [(⟨⟨7, 1, false, 1, 1, false⟩⟩, VK_IMAGE_LAYOUT_SHADER_READ_ONLY_OPTIMAL)]⟩
    false (by decide)
  refine ⟨T.1, ⟨C1, h1, h2 (Or.inl (by decide)), ?_⟩, ⟨C2, g1, g2 (by decide)⟩⟩
  intro Call hCall Real hReal
  obtain ⟨_, _, hF⟩ := h3 Call hCall
  simp only [List.zip_cons_cons, List.zip_nil_right, List.forall₂_cons_right_iff,
    List.forall₂_nil_right_iff] at hF
  obtain ⟨Real1, rest, ⟨_, _, _, _, hU⟩, hrest, hEq⟩ := hF
  rw [hEq, hrest, List.mem_singleton] at hReal
  rw [hReal]
  exact hU trivial
